import Mathlib

/-! Touchpad frame pipeline and gesture state machine.

A shallow embedding of the multi-touch touchpad dispatcher
(`src/src/evdev-mt-touchpad.c`) and of its gesture state machine
(`src/src/evdev-mt-touchpad-gestures.c`).

Conventions of the embedding:

* `int` values (coordinates, pressure, event values) are `Int`; the integer
  arithmetic of `tp_hysteresis` and `tp_estimate_delta` is 32-bit and wraps
  (`c_int_wrap`); timestamps (`uint64_t`) are `Nat`; `unsigned int` counters
  that are incremented or decremented (`nfingers_down`) wrap modulo `2^32`.
* `double` values are exact rationals (`ℚ`); the C library functions that
  leave the rationals (`hypot`, `atan2`) are fields of `tp_peers`. The pinch
  scale, a quotient whose divisor can be zero, is a `c_double` with the
  infinities and NaN.
* Pointers to touches are indices into `tp_dispatch.touches`.
* Calls into the event sink, the timers and the peer subsystems are recorded,
  in order, in `tp_dispatch.sink`.
* The peer subsystems (buttons, tap, edge scroll, motion filter) are not part
  of the embedded sources; their answers are the fields of `tp_peers`.
-/

namespace Libinput

/-! ## Data model -/

/-- Modelled from the spec: `enum touch_state` of the touchpad header, which is
not among the sources: NONE / HOVERING / BEGIN / UPDATE / END. -/
inductive touch_state where
  | TOUCH_NONE
  | TOUCH_HOVERING
  | TOUCH_BEGIN
  | TOUCH_UPDATE
  | TOUCH_END
  deriving DecidableEq, Repr

/-- Modelled from the spec: `enum touch_palm_state` of the touchpad header:
NONE / EDGE / TYPING / TRACKPOINT. -/
inductive touch_palm_state where
  | PALM_NONE
  | PALM_EDGE
  | PALM_TYPING
  | PALM_TRACKPOINT
  deriving DecidableEq, Repr

/-- Modelled from the spec: `enum tp_thumb_state` of the touchpad header:
NO / YES / MAYBE (`thumb_state_to_str` lists the three values). -/
inductive tp_thumb_state where
  | THUMB_STATE_NO
  | THUMB_STATE_YES
  | THUMB_STATE_MAYBE
  deriving DecidableEq, Repr

/-- Modelled from the spec: `enum tp_gesture_state` of the touchpad header
(`gesture_state_to_str` lists the five values). -/
inductive tp_gesture_state where
  | GESTURE_STATE_NONE
  | GESTURE_STATE_UNKNOWN
  | GESTURE_STATE_SCROLL
  | GESTURE_STATE_PINCH
  | GESTURE_STATE_SWIPE
  deriving DecidableEq, Repr

/-- Scroll methods of the configuration surface (`scroll.method`). -/
inductive scroll_method where
  | LIBINPUT_CONFIG_SCROLL_NO_SCROLL
  | LIBINPUT_CONFIG_SCROLL_2FG
  | LIBINPUT_CONFIG_SCROLL_EDGE
  | LIBINPUT_CONFIG_SCROLL_ON_BUTTON_DOWN
  deriving DecidableEq, Repr

/-- Source: `struct device_coords` (libinput-private.h): device coordinates. -/
structure device_coords where
  x : Int
  y : Int
  deriving DecidableEq, Repr

/-- Source: `struct device_float_coords` (libinput-private.h), doubles as rationals. -/
structure device_float_coords where
  x : ℚ
  y : ℚ
  deriving DecidableEq, Repr

/-- Source: `struct normalized_coords` (libinput-private.h), doubles as rationals. -/
structure normalized_coords where
  x : ℚ
  y : ℚ
  deriving DecidableEq, Repr

/-- Modelled from the spec: `TOUCHPAD_HISTORY_LENGTH` of the touchpad header
("4-deep ring per slot"). -/
def TOUCHPAD_HISTORY_LENGTH : Nat := 4

/-- Modelled from the spec: `TOUCHPAD_MIN_SAMPLES` of the touchpad header ("a
touch does not report delta until at least 4 samples are present"). -/
def TOUCHPAD_MIN_SAMPLES : Nat := 4

/-- The array `history.samples[TOUCHPAD_HISTORY_LENGTH]`. -/
structure tp_samples where
  s0 : device_coords
  s1 : device_coords
  s2 : device_coords
  s3 : device_coords
  deriving DecidableEq, Repr

/-- Array read `samples[i]`, for `i < TOUCHPAD_HISTORY_LENGTH`. -/
def tp_samples.get (s : tp_samples) (i : Nat) : device_coords :=
  match i with
  | 0 => s.s0
  | 1 => s.s1
  | 2 => s.s2
  | _ => s.s3

/-- Array write `samples[i] = p`, for `i < TOUCHPAD_HISTORY_LENGTH`. -/
def tp_samples.set (s : tp_samples) (i : Nat) (p : device_coords) : tp_samples :=
  match i with
  | 0 => { s with s0 := p }
  | 1 => { s with s1 := p }
  | 2 => { s with s2 := p }
  | _ => { s with s3 := p }

/-- The member `history` of `struct tp_touch`. -/
structure tp_history where
  samples : tp_samples
  index : Nat
  count : Nat
  deriving DecidableEq, Repr

/-- The member `palm` of `struct tp_touch`. -/
structure tp_touch_palm where
  state : touch_palm_state
  first : device_coords
  time : Nat
  deriving DecidableEq, Repr

/-- The member `thumb` of `struct tp_touch`. -/
structure tp_touch_thumb where
  state : tp_thumb_state
  initial : device_coords
  first_touch_time : Nat
  deriving DecidableEq, Repr

/-- The member `pinned` of `struct tp_touch`. -/
structure tp_touch_pinned where
  is_pinned : Bool
  center : device_coords
  deriving DecidableEq, Repr

/-- Modelled from the spec: `struct tp_touch` of the touchpad header, with the
fields the embedded sources read or write (`quirks.reset_motion_history`,
`tap.is_thumb` and `gesture.initial` are flattened). -/
structure tp_touch where
  state : touch_state
  has_ended : Bool
  dirty : Bool
  point : device_coords
  millis : Nat
  distance : Int
  pressure : Int
  quirks_reset_motion_history : Bool
  history : tp_history
  hysteresis_center : device_coords
  pinned : tp_touch_pinned
  palm : tp_touch_palm
  thumb : tp_touch_thumb
  tap_is_thumb : Bool
  gesture_initial : device_coords
  deriving DecidableEq, Repr

/-- A zeroed touch after `tp_init_touch`: `calloc` then `has_ended = true`. The
zero values of the enums are the first ones of the header
(`TOUCH_NONE`, `PALM_NONE`, `THUMB_STATE_NO`). -/
def tp_init_touch : tp_touch :=
  { state := .TOUCH_NONE, has_ended := true, dirty := false,
    point := ⟨0, 0⟩, millis := 0, distance := 0, pressure := 0,
    quirks_reset_motion_history := false,
    history := ⟨⟨⟨0, 0⟩, ⟨0, 0⟩, ⟨0, 0⟩, ⟨0, 0⟩⟩, 0, 0⟩,
    hysteresis_center := ⟨0, 0⟩,
    pinned := ⟨false, ⟨0, 0⟩⟩,
    palm := ⟨.PALM_NONE, ⟨0, 0⟩, 0⟩,
    thumb := ⟨.THUMB_STATE_NO, ⟨0, 0⟩, 0⟩,
    tap_is_thumb := false,
    gesture_initial := ⟨0, 0⟩ }

instance : Inhabited tp_touch := ⟨tp_init_touch⟩

/-- A C `double` that is the result of a division: a finite value (an exact
rational), an infinity or NaN. Used for the pinch scale, the one double of the
embedded sources that is the quotient of two values read from the device. -/
inductive c_double where
  | fin (q : ℚ)
  | pos_inf
  | neg_inf
  | nan
  deriving DecidableEq, Repr

/-- The division `a / b` of two finite doubles as IEEE 754 defines it: `0 / 0`
is NaN, a non-zero `a` over zero is the infinity with the sign of `a` (the
divisor of the embedded sources is a distance, so its zero is `+0`). -/
def c_double_div (a b : ℚ) : c_double :=
  if b = 0 then
    if a = 0 then .nan else if 0 < a then .pos_inf else .neg_inf
  else .fin (a / b)

/-- The comparison `a == b` of two doubles: NaN compares unequal to every
value, itself included. -/
def c_double_eq (a b : c_double) : Bool :=
  decide (a ≠ .nan ∧ a = b)

/-- Kinds of gesture notifications. -/
inductive gesture_event_type where
  | BEGIN
  | UPDATE
  | END
  deriving DecidableEq, Repr

/-- The timers armed by the embedded sources. -/
inductive tp_timer where
  | finger_count_switch_timer
  | trackpoint_timer
  | keyboard_timer
  deriving DecidableEq, Repr

/-- One call into the event sink, a timer or a peer, as made by the embedded
sources. The constructors are named after the callee; for
`gesture_notify_swipe` and `gesture_notify_pinch` the event type is the
argument `LIBINPUT_EVENT_GESTURE_*_BEGIN` / `_UPDATE`, and the `_end` calls
post the `_END` event. -/
inductive tp_call where
  | pointer_notify_motion (time : Nat) (delta : normalized_coords) (raw : device_float_coords)
  | gesture_notify_swipe (time : Nat) (type : gesture_event_type) (finger_count : Nat)
      (delta unaccel : normalized_coords)
  | gesture_notify_swipe_end (time : Nat) (finger_count : Nat) (cancelled : Bool)
  | gesture_notify_pinch (time : Nat) (type : gesture_event_type) (finger_count : Nat)
      (delta unaccel : normalized_coords) (scale : c_double) (angle : ℚ)
  | gesture_notify_pinch_end (time : Nat) (finger_count : Nat) (scale : c_double)
      (cancelled : Bool)
  | evdev_post_scroll (time : Nat) (delta : normalized_coords)
  | evdev_stop_scroll (time : Nat)
  | tp_edge_scroll_stop_events (time : Nat)
  | tp_edge_scroll_post_events (time : Nat)
  | tp_button_handle_state (time : Nat)
  | tp_edge_scroll_handle_state (time : Nat)
  | tp_post_button_events (time : Nat)
  | tp_tap_handle_state (time : Nat)
  | tp_tap_suspend (time : Nat)
  | tp_tap_resume (time : Nat)
  | tp_release_all_buttons (time : Nat)
  | tp_release_all_taps (time : Nat)
  | filter_restart (time : Nat)
  | trackpoint_process (code : Nat) (value : Int) (time : Nat)
  | libinput_timer_set (timer : tp_timer) (expire : Nat)
  | log_bug_libinput
  deriving DecidableEq, Repr

/-- The member `gesture` of `struct tp_dispatch`; `touches0` and `touches1`
are the indices of the touches that `gesture.touches[0]` and
`gesture.touches[1]` point to. -/
structure tp_gesture where
  enabled : Bool
  started : Bool
  finger_count : Nat
  finger_count_pending : Nat
  state : tp_gesture_state
  touches0 : Nat
  touches1 : Nat
  initial_time : Nat
  initial_distance : ℚ
  prev_scale : c_double
  angle : ℚ
  center : device_float_coords
  deriving DecidableEq, Repr

/-- The member `buttons` of `struct tp_dispatch` (the fields the embedded
sources read); `has_trackpoint` is `buttons.trackpoint != NULL`. -/
structure tp_buttons where
  is_clickpad : Bool
  state : Nat
  old_state : Nat
  has_trackpoint : Bool
  motion_dist_x_scale_coeff : ℚ
  motion_dist_y_scale_coeff : ℚ
  deriving DecidableEq, Repr

/-- The member `palm` of `struct tp_dispatch`. -/
structure tp_palm where
  left_edge : Int
  right_edge : Int
  vert_center : Int
  monitor_trackpoint : Bool
  trackpoint_active : Bool
  trackpoint_last_event_time : Nat
  deriving DecidableEq, Repr

/-- The member `dwt` of `struct tp_dispatch`. -/
structure tp_dwt where
  dwt_enabled : Bool
  keyboard_active : Bool
  keyboard_last_press_time : Nat
  deriving DecidableEq, Repr

/-- The member `thumb` of `struct tp_dispatch`. -/
structure tp_thumb where
  detect_thumbs : Bool
  threshold : Int
  upper_thumb_line : Int
  lower_thumb_line : Int
  deriving DecidableEq, Repr

/-- The member `accel` of `struct tp_dispatch`. -/
structure tp_accel where
  x_scale_coeff : ℚ
  y_scale_coeff : ℚ
  deriving DecidableEq, Repr

/-- The fields of `struct evdev_device` (evdev.h) that the embedded sources
read or write: `model_flags`, `suspended`, the resolution of the y axis
(`abs.absinfo_y->resolution`) and `scroll.buildup`. -/
structure evdev_device where
  model_flags : Nat
  suspended : Bool
  absinfo_y_resolution : Int
  scroll_buildup : normalized_coords
  deriving DecidableEq, Repr

/-- Modelled from the spec: `struct tp_dispatch` of the touchpad header, with
the fields the embedded sources read or write, and the record `sink` of the
calls made so far (newest last). -/
structure tp_dispatch where
  device : evdev_device
  nfingers_down : Nat
  old_nfingers_down : Nat
  slot : Nat
  has_mt : Bool
  semi_mt : Bool
  reports_distance : Bool
  num_slots : Nat
  ntouches : Nat
  touches : List tp_touch
  fake_touches : Nat
  hysteresis_margin : device_coords
  accel : tp_accel
  gesture : tp_gesture
  buttons : tp_buttons
  scroll_method : scroll_method
  queued : Nat
  palm : tp_palm
  dwt : tp_dwt
  thumb : tp_thumb
  sink : List tp_call
  deriving DecidableEq, Repr

/-- Answers of the collaborators that are not part of the embedded sources,
as seen during one entry into the dispatcher: the peer subsystems (buttons,
tap, edge scroll), the motion filter, and the C math library. The per-touch
predicates take the index of the touch and its current point. -/
structure tp_peers where
  /-- Result of `tp_button_touch_active(tp, t)`, for the touch at the index. -/
  tp_button_touch_active : Nat → Bool
  /-- Result of `tp_edge_scroll_touch_active(tp, t)`, for the touch at the index. -/
  tp_edge_scroll_touch_active : Nat → Bool
  /-- Result of `tp_button_is_inside_softbutton_area(tp, t)`, from the point of the touch. -/
  tp_button_is_inside_softbutton_area : device_coords → Bool
  /-- Result of `tp_touch_get_edge(tp, t) & EDGE_RIGHT`, from the point of the touch. -/
  tp_touch_get_edge_right : device_coords → Bool
  /-- The new `buttons.state` and `queued` after `tp_process_button`, from the
  old ones and the code and value of the event. -/
  tp_process_button : Nat → Nat → Nat → Int → Nat × Nat
  /-- The new `buttons.state` and `queued` after `tp_release_all_buttons`. -/
  tp_release_all_buttons : Nat → Nat → Nat × Nat
  /-- Return value of `tp_tap_handle_state`, non-zero as `true`. -/
  tp_tap_handle_state : Bool
  /-- Return value of `tp_post_button_events`, non-zero as `true`. -/
  tp_post_button_events : Bool
  /-- Return value of `tp_edge_scroll_post_events`, non-zero as `true`. -/
  tp_edge_scroll_post_events : Bool
  /-- Return value of `tp_tap_dragging`. -/
  tp_tap_dragging : Bool
  /-- Result of `filter_dispatch` on a delta at a time. -/
  filter_dispatch : normalized_coords → Nat → normalized_coords
  /-- Result of `filter_dispatch_constant` on a delta at a time. -/
  filter_dispatch_constant : normalized_coords → Nat → normalized_coords
  /-- Result of `tp_unnormalize_for_xaxis`. -/
  tp_unnormalize_for_xaxis : normalized_coords → device_float_coords
  /-- Value of `hypot(x, y)`. -/
  hypot : ℚ → ℚ → ℚ
  /-- Value of `atan2(y, x) * 180.0 / M_PI`, from `y` and `x`. -/
  atan2_deg : ℚ → ℚ → ℚ
  /-- Value of `fmod(atan2(y, x) + 2.5*M_PI, 2*M_PI) * 4*M_1_PI`, from `y` and
  `x`: the octant coordinate in [0, 8) of `normalized_get_direction`. -/
  atan2_octant : ℚ → ℚ → ℚ

/-! ## Constants -/

/-- Event types of linux/input.h. -/
def EV_SYN : Nat := 0x00
/-- Event types of linux/input.h. -/
def EV_KEY : Nat := 0x01
/-- Event types of linux/input.h. -/
def EV_ABS : Nat := 0x03

/-- Absolute axes of linux/input.h. -/
def ABS_X : Nat := 0x00
/-- Absolute axes of linux/input.h. -/
def ABS_Y : Nat := 0x01
/-- Absolute axes of linux/input.h. -/
def ABS_MT_SLOT : Nat := 0x2f
/-- Absolute axes of linux/input.h. -/
def ABS_MT_POSITION_X : Nat := 0x35
/-- Absolute axes of linux/input.h. -/
def ABS_MT_POSITION_Y : Nat := 0x36
/-- Absolute axes of linux/input.h. -/
def ABS_MT_TRACKING_ID : Nat := 0x39
/-- Absolute axes of linux/input.h. -/
def ABS_MT_PRESSURE : Nat := 0x3a
/-- Absolute axes of linux/input.h. -/
def ABS_MT_DISTANCE : Nat := 0x3b

/-- Key codes of linux/input.h. -/
def BTN_0 : Nat := 0x100
/-- Key codes of linux/input.h. -/
def BTN_1 : Nat := 0x101
/-- Key codes of linux/input.h. -/
def BTN_2 : Nat := 0x102
/-- Key codes of linux/input.h. -/
def BTN_LEFT : Nat := 0x110
/-- Key codes of linux/input.h. -/
def BTN_RIGHT : Nat := 0x111
/-- Key codes of linux/input.h. -/
def BTN_MIDDLE : Nat := 0x112
/-- Key codes of linux/input.h. -/
def BTN_TOOL_FINGER : Nat := 0x145
/-- Key codes of linux/input.h. -/
def BTN_TOOL_QUINTTAP : Nat := 0x148
/-- Key codes of linux/input.h. -/
def BTN_TOUCH : Nat := 0x14a
/-- Key codes of linux/input.h. -/
def BTN_TOOL_DOUBLETAP : Nat := 0x14d
/-- Key codes of linux/input.h. -/
def BTN_TOOL_TRIPLETAP : Nat := 0x14e
/-- Key codes of linux/input.h. -/
def BTN_TOOL_QUADTAP : Nat := 0x14f

/-- Source: `FAKE_FINGER_OVERFLOW (1 << 7)` -/
def FAKE_FINGER_OVERFLOW : Nat := 1 <<< 7

/-- Modelled from the spec: `ms2us` of the utility header (timeouts are
"monotonic-clock deadlines, in microseconds"). -/
def ms2us (ms : Nat) : Nat := ms * 1000

/-- Source: `DEFAULT_TRACKPOINT_ACTIVITY_TIMEOUT ms2us(300)` -/
def DEFAULT_TRACKPOINT_ACTIVITY_TIMEOUT : Nat := ms2us 300
/-- Source: `DEFAULT_KEYBOARD_ACTIVITY_TIMEOUT_1 ms2us(200)` -/
def DEFAULT_KEYBOARD_ACTIVITY_TIMEOUT_1 : Nat := ms2us 200
/-- Source: `DEFAULT_KEYBOARD_ACTIVITY_TIMEOUT_2 ms2us(500)` -/
def DEFAULT_KEYBOARD_ACTIVITY_TIMEOUT_2 : Nat := ms2us 500
/-- Source: `THUMB_MOVE_TIMEOUT ms2us(300)` -/
def THUMB_MOVE_TIMEOUT : Nat := ms2us 300
/-- Source: `DEFAULT_GESTURE_SWITCH_TIMEOUT ms2us(100)` -/
def DEFAULT_GESTURE_SWITCH_TIMEOUT : Nat := ms2us 100
/-- Source: `DEFAULT_GESTURE_2FG_SCROLL_TIMEOUT ms2us(500)` -/
def DEFAULT_GESTURE_2FG_SCROLL_TIMEOUT : Nat := ms2us 500

/-- Modelled from the spec: `enum touchpad_event` of the touchpad header, the
"event-kind bitmask accumulated during the frame". -/
def TOUCHPAD_EVENT_NONE : Nat := 0
/-- Modelled from the spec: the motion bit of `enum touchpad_event`. -/
def TOUCHPAD_EVENT_MOTION : Nat := 1 <<< 0
/-- Modelled from the spec: the button-press bit of `enum touchpad_event`. -/
def TOUCHPAD_EVENT_BUTTON_PRESS : Nat := 1 <<< 1
/-- Modelled from the spec: the button-release bit of `enum touchpad_event`. -/
def TOUCHPAD_EVENT_BUTTON_RELEASE : Nat := 1 <<< 2

/-- Source: `EVDEV_MODEL_SYNAPTICS_SERIAL_TOUCHPAD = (1 << 9)` (evdev.h) -/
def EVDEV_MODEL_SYNAPTICS_SERIAL_TOUCHPAD : Nat := 1 <<< 9
/-- Source: `EVDEV_MODEL_JUMPING_SEMI_MT = (1 << 10)` (evdev.h) -/
def EVDEV_MODEL_JUMPING_SEMI_MT : Nat := 1 <<< 10
/-- Source: `EVDEV_MODEL_ELANTECH_TOUCHPAD = (1 << 11)` (evdev.h) -/
def EVDEV_MODEL_ELANTECH_TOUCHPAD : Nat := 1 <<< 11

/-- Source: `enum directions` (libinput-private.h) -/
def N : Nat := 1 <<< 0
/-- Source: `enum directions` (libinput-private.h) -/
def NE : Nat := 1 <<< 1
/-- Source: `enum directions` (libinput-private.h) -/
def E : Nat := 1 <<< 2
/-- Source: `enum directions` (libinput-private.h) -/
def SE : Nat := 1 <<< 3
/-- Source: `enum directions` (libinput-private.h) -/
def S : Nat := 1 <<< 4
/-- Source: `enum directions` (libinput-private.h) -/
def SW : Nat := 1 <<< 5
/-- Source: `enum directions` (libinput-private.h) -/
def W : Nat := 1 <<< 6
/-- Source: `enum directions` (libinput-private.h) -/
def NW : Nat := 1 <<< 7
/-- Source: `enum directions` (libinput-private.h) -/
def UNDEFINED_DIRECTION : Nat := 0xff

/-- Modelled from the spec: `TP_MM_TO_DPI_NORMALIZED(mm)` of the touchpad
header; normalized deltas are "in units of 1/1000-inch", so a millimetre is
`1000 / 25.4` units. -/
def TP_MM_TO_DPI_NORMALIZED (mm : ℚ) : ℚ := 1000 / (254 / 10) * mm

/-! ## C helpers -/

/-- Bitwise complement `~m` of a 32-bit `unsigned int`. -/
def c_not32 (m : Nat) : Nat := 0xFFFFFFFF ^^^ m

/-- The libc function `ffs`: one plus the index of the least significant set
bit of a 32-bit value, 0 when no bit is set. -/
def ffs (n : Nat) : Nat :=
  match (List.range 32).find? (fun i => n.testBit i) with
  | some i => i + 1
  | none => 0

/-- The value that a 32-bit `int` holds when the exact result of a signed
operation is `v`: `v` itself when it fits, else `v` wrapped into the
two's-complement range `-2^31 .. 2^31 - 1`, as the compiled arithmetic does. -/
def c_int_wrap (v : Int) : Int := (v + 2 ^ 31) % 2 ^ 32 - 2 ^ 31

/-- The value `v` fits in a 32-bit `int`. -/
def c_int_range (v : Int) : Prop := -2 ^ 31 ≤ v ∧ v < 2 ^ 31

instance (v : Int) : Decidable (c_int_range v) := by
  unfold c_int_range; infer_instance

/-- Conversion `(int)q` of a double: truncation towards zero. -/
def c_int_cast (q : ℚ) : Int := if 0 ≤ q then ⌊q⌋ else ⌈q⌉

/-- A `for` loop over the index list `l` whose body may `break`: the body
returns the new state and whether it left the loop. -/
def tp_loop_list (body : Nat → tp_dispatch → tp_dispatch × Bool) :
    List Nat → tp_dispatch → tp_dispatch
  | [], tp => tp
  | i :: rest, tp =>
    if (body i tp).2 then (body i tp).1 else tp_loop_list body rest (body i tp).1

/-- The loop `for (i = lo; i < hi; i++) body`, without `break`. -/
def tp_loop (lo hi : Nat) (body : Nat → tp_dispatch → tp_dispatch) (tp : tp_dispatch) :
    tp_dispatch :=
  tp_loop_list (fun i s => (body i s, false)) (List.range' lo (hi - lo)) tp

/-- Modelled from the spec: the macro `tp_for_each_touch` of the touchpad header,
a loop over the `ntouches` touches of the device in index order. -/
def tp_for_each_touch (tp : tp_dispatch) (body : Nat → tp_dispatch → tp_dispatch) :
    tp_dispatch :=
  tp_loop 0 tp.ntouches body tp

/-- Write through a touch pointer: apply `f` to the touch at index `i`. -/
def tp_modify_touch (f : tp_touch → tp_touch) : Nat → List tp_touch → List tp_touch
  | _, [] => []
  | 0, t :: ts => f t :: ts
  | i + 1, t :: ts => t :: tp_modify_touch f i ts

/-- Write through a touch pointer, on the dispatch. -/
def tp_dispatch.modify (tp : tp_dispatch) (i : Nat) (f : tp_touch → tp_touch) : tp_dispatch :=
  { tp with touches := tp_modify_touch f i tp.touches }

/-- Record a call in the sink. -/
def tp_dispatch.call (tp : tp_dispatch) (c : tp_call) : tp_dispatch :=
  { tp with sink := tp.sink ++ [c] }

/-! ## libinput-private.h -/

/-- Source: `device_delta` -/
def device_delta (a b : device_coords) : device_float_coords :=
  { x := ((a.x - b.x : Int) : ℚ), y := ((a.y - b.y : Int) : ℚ) }

/-- Source: `device_average` -/
def device_average (a b : device_coords) : device_float_coords :=
  { x := ((a.x + b.x : Int) : ℚ) / 2, y := ((a.y + b.y : Int) : ℚ) / 2 }

/-- Source: `device_float_delta` -/
def device_float_delta (a b : device_float_coords) : device_float_coords :=
  { x := a.x - b.x, y := a.y - b.y }

/-- Source: `device_float_average` -/
def device_float_average (a b : device_float_coords) : device_float_coords :=
  { x := (a.x + b.x) / 2, y := (a.y + b.y) / 2 }

/-- Source: `normalized_length` -/
def normalized_length (p : tp_peers) (norm : normalized_coords) : ℚ :=
  p.hypot norm.x norm.y

/-- Source: `normalized_is_zero` -/
def normalized_is_zero (norm : normalized_coords) : Bool :=
  norm.x == 0 && norm.y == 0

/-- Source: `normalized_get_direction` -/
def normalized_get_direction (p : tp_peers) (norm : normalized_coords) : Nat :=
  if |norm.x| < 2 ∧ |norm.y| < 2 then
    if norm.x > 0 ∧ norm.y > 0 then S ||| SE ||| E
    else if norm.x > 0 ∧ norm.y < 0 then N ||| NE ||| E
    else if norm.x < 0 ∧ norm.y > 0 then S ||| SW ||| W
    else if norm.x < 0 ∧ norm.y < 0 then N ||| NW ||| W
    else if norm.x > 0 then NE ||| E ||| SE
    else if norm.x < 0 then NW ||| W ||| SW
    else if norm.y > 0 then SE ||| S ||| SW
    else if norm.y < 0 then NE ||| N ||| NW
    else UNDEFINED_DIRECTION
  else
    let r := p.atan2_octant norm.y norm.x
    let d1 := Int.tmod (c_int_cast (r + 9 / 10)) 8
    let d2 := Int.tmod (c_int_cast (r + 1 / 10)) 8
    (1 <<< d1.toNat) ||| (1 <<< d2.toNat)

/-! ## evdev-mt-touchpad.c: touches -/

/-- Modelled from the spec: `tp_normalize_delta` of the touchpad header, the
per-axis scaling by the "derived normalization factors (`x_scale_coeff`,
`y_scale_coeff`)". -/
def tp_normalize_delta (tp : tp_dispatch) (delta : device_float_coords) : normalized_coords :=
  { x := delta.x * tp.accel.x_scale_coeff, y := delta.y * tp.accel.y_scale_coeff }

/-- Source: `tp_hysteresis`. The arithmetic is that of 32-bit `int`: `in - center`
and the sums wrap, and `abs` of the least `int` is the least `int`. -/
def tp_hysteresis (in_ center margin : Int) : Int :=
  let diff := c_int_wrap (in_ - center)
  if c_int_wrap |diff| ≤ margin then center
  else if diff > margin then c_int_wrap (c_int_wrap (center + diff) - margin)
  else c_int_wrap (c_int_wrap (center + diff) + margin)

/-- Source: `tp_motion_history_offset` -/
def tp_motion_history_offset (t : tp_touch) (offset : Nat) : device_coords :=
  let offset_index : Int :=
    ((t.history.index : Int) - (offset : Int) + (TOUCHPAD_HISTORY_LENGTH : Int)) %
      (TOUCHPAD_HISTORY_LENGTH : Int)
  t.history.samples.get offset_index.toNat

/-- Source: `tp_filter_motion` -/
def tp_filter_motion (p : tp_peers) (unaccelerated : normalized_coords) (time : Nat) :
    normalized_coords :=
  if normalized_is_zero unaccelerated then unaccelerated
  else p.filter_dispatch unaccelerated time

/-- Source: `tp_filter_motion_unaccelerated` -/
def tp_filter_motion_unaccelerated (p : tp_peers) (unaccelerated : normalized_coords)
    (time : Nat) : normalized_coords :=
  if normalized_is_zero unaccelerated then unaccelerated
  else p.filter_dispatch_constant unaccelerated time

/-- Source: `tp_motion_history_push` -/
def tp_motion_history_push (t : tp_touch) : tp_touch :=
  let motion_index := (t.history.index + 1) % TOUCHPAD_HISTORY_LENGTH
  let count := if t.history.count < TOUCHPAD_HISTORY_LENGTH then t.history.count + 1
    else t.history.count
  { t with history :=
      { samples := t.history.samples.set motion_index t.point,
        index := motion_index, count := count } }

/-- Source: `tp_motion_hysteresis` -/
def tp_motion_hysteresis (tp : tp_dispatch) (t : tp_touch) : tp_touch :=
  if t.history.count = 0 then
    { t with hysteresis_center := t.point }
  else
    let x := tp_hysteresis t.point.x t.hysteresis_center.x tp.hysteresis_margin.x
    let y := tp_hysteresis t.point.y t.hysteresis_center.y tp.hysteresis_margin.y
    { t with hysteresis_center := ⟨x, y⟩, point := ⟨x, y⟩ }

/-- Source: `tp_motion_history_reset` -/
def tp_motion_history_reset (t : tp_touch) : tp_touch :=
  { t with history := { t.history with count := 0 } }

/-- Source: `tp_current_touch`: the index `min(tp->slot, tp->ntouches - 1)`. -/
def tp_current_touch (tp : tp_dispatch) : Nat :=
  min tp.slot (tp.ntouches - 1)

/-- Source: `tp_get_touch`: the touch `tp->touches[slot]`. -/
def tp_get_touch (tp : tp_dispatch) (slot : Nat) : tp_touch :=
  tp.touches.getD slot default

/-- Source: `tp_fake_finger_count` -/
def tp_fake_finger_count (tp : tp_dispatch) : Nat :=
  if tp.fake_touches &&& FAKE_FINGER_OVERFLOW ≠ 0 then FAKE_FINGER_OVERFLOW
  else ffs (tp.fake_touches >>> 1)

/-- Source: `tp_fake_finger_is_touching` -/
def tp_fake_finger_is_touching (tp : tp_dispatch) : Bool :=
  tp.fake_touches &&& 0x1 ≠ 0

/-- Source: `tp_fake_finger_set` -/
def tp_fake_finger_set (tp : tp_dispatch) (code : Nat) (is_press : Bool) : tp_dispatch :=
  let press_or_release (tp : tp_dispatch) (shift : Nat) : tp_dispatch :=
    if is_press then
      { tp with fake_touches :=
          (tp.fake_touches &&& c_not32 FAKE_FINGER_OVERFLOW) ||| (1 <<< shift) }
    else
      { tp with fake_touches := tp.fake_touches &&& c_not32 (0x1 <<< shift) }
  if code = BTN_TOUCH then
    let tp := if !is_press then
        { tp with fake_touches := tp.fake_touches &&& c_not32 FAKE_FINGER_OVERFLOW }
      else tp
    press_or_release tp 0
  else if code = BTN_TOOL_FINGER then
    press_or_release tp 1
  else if code = BTN_TOOL_DOUBLETAP ∨ code = BTN_TOOL_TRIPLETAP ∨ code = BTN_TOOL_QUADTAP then
    press_or_release tp (code - BTN_TOOL_DOUBLETAP + 2)
  else if code = BTN_TOOL_QUINTTAP then
    if is_press then { tp with fake_touches := tp.fake_touches ||| FAKE_FINGER_OVERFLOW }
    else tp
  else tp

/-- Source: `tp_new_touch` -/
def tp_new_touch (tp : tp_dispatch) (i : Nat) (time : Nat) : tp_dispatch :=
  let t := tp_get_touch tp i
  if t.state = .TOUCH_BEGIN ∨ t.state = .TOUCH_UPDATE ∨ t.state = .TOUCH_HOVERING then tp
  else
    { tp.modify i (fun t =>
        { tp_motion_history_reset t with
          dirty := true, has_ended := false, state := .TOUCH_HOVERING,
          pinned.is_pinned := false, millis := time }) with
      queued := tp.queued ||| TOUCHPAD_EVENT_MOTION }

/-- Source: `tp_begin_touch` -/
def tp_begin_touch (tp : tp_dispatch) (i : Nat) (time : Nat) : tp_dispatch :=
  { tp.modify i (fun t =>
      { t with
        dirty := true, state := .TOUCH_BEGIN, millis := time,
        palm.time := time, thumb.state := .THUMB_STATE_MAYBE,
        thumb.first_touch_time := time, tap_is_thumb := false }) with
    nfingers_down := (tp.nfingers_down + 1) % 2 ^ 32 }

/-- Source: `tp_end_touch` -/
def tp_end_touch (tp : tp_dispatch) (i : Nat) (time : Nat) : tp_dispatch :=
  match (tp_get_touch tp i).state with
  | .TOUCH_HOVERING => tp.modify i (fun t => { t with state := .TOUCH_NONE })
  | .TOUCH_NONE => tp
  | .TOUCH_END => tp
  | _ =>
    { tp.modify i (fun t =>
        { t with
          dirty := true, palm.state := .PALM_NONE, state := .TOUCH_END,
          pinned.is_pinned := false, millis := time, palm.time := 0 }) with
      nfingers_down := (tp.nfingers_down + 2 ^ 32 - 1) % 2 ^ 32
      queued := tp.queued ||| TOUCHPAD_EVENT_MOTION }

/-- Source: `tp_end_sequence` -/
def tp_end_sequence (tp : tp_dispatch) (i : Nat) (time : Nat) : tp_dispatch :=
  tp_end_touch (tp.modify i (fun t => { t with has_ended := true })) i time

/-- Source: `tp_estimate_delta`. The sum `x0 + x1 - x2 - x3` is taken in 32-bit
`int`, left to right, before the division by `4.0`. -/
def tp_estimate_delta (x0 x1 x2 x3 : Int) : ℚ :=
  ((c_int_wrap (c_int_wrap (c_int_wrap (x0 + x1) - x2) - x3) : Int) : ℚ) / 4

/-- The sum `x0 + x1 - x2 - x3` of `tp_estimate_delta` is taken without
overflow: each of its partial sums fits in a 32-bit `int`. -/
def tp_estimate_delta_fits (x0 x1 x2 x3 : Int) : Prop :=
  c_int_range (x0 + x1) ∧ c_int_range (x0 + x1 - x2) ∧ c_int_range (x0 + x1 - x2 - x3)

instance (x0 x1 x2 x3 : Int) : Decidable (tp_estimate_delta_fits x0 x1 x2 x3) := by
  unfold tp_estimate_delta_fits; infer_instance

/-- Source: `tp_get_delta` -/
def tp_get_delta (tp : tp_dispatch) (t : tp_touch) : normalized_coords :=
  if t.history.count < TOUCHPAD_MIN_SAMPLES then ⟨0, 0⟩
  else
    let delta : device_float_coords :=
      { x := tp_estimate_delta (tp_motion_history_offset t 0).x
               (tp_motion_history_offset t 1).x
               (tp_motion_history_offset t 2).x
               (tp_motion_history_offset t 3).x,
        y := tp_estimate_delta (tp_motion_history_offset t 0).y
               (tp_motion_history_offset t 1).y
               (tp_motion_history_offset t 2).y
               (tp_motion_history_offset t 3).y }
    tp_normalize_delta tp delta

/-! ## evdev-mt-touchpad.c: event processing -/

/-- Conversion of an `int` event value to `unsigned int`. -/
def c_uint_of_int (v : Int) : Nat := (v % 2 ^ 32).toNat

/-- Source: `tp_process_absolute` -/
def tp_process_absolute (tp : tp_dispatch) (code : Nat) (value : Int) (time : Nat) :
    tp_dispatch :=
  let i := tp_current_touch tp
  if code = ABS_MT_POSITION_X then
    { tp.modify i (fun t => { t with point.x := value, millis := time, dirty := true }) with
      queued := tp.queued ||| TOUCHPAD_EVENT_MOTION }
  else if code = ABS_MT_POSITION_Y then
    { tp.modify i (fun t => { t with point.y := value, millis := time, dirty := true }) with
      queued := tp.queued ||| TOUCHPAD_EVENT_MOTION }
  else if code = ABS_MT_SLOT then
    { tp with slot := c_uint_of_int value }
  else if code = ABS_MT_DISTANCE then
    tp.modify i (fun t => { t with distance := value })
  else if code = ABS_MT_TRACKING_ID then
    if value ≠ -1 then tp_new_touch tp i time
    else tp_end_sequence tp i time
  else if code = ABS_MT_PRESSURE then
    { tp.modify i (fun t => { t with pressure := value, dirty := true }) with
      queued := tp.queued ||| TOUCHPAD_EVENT_MOTION }
  else tp

/-- Source: `tp_process_absolute_st` -/
def tp_process_absolute_st (tp : tp_dispatch) (code : Nat) (value : Int) (time : Nat) :
    tp_dispatch :=
  let i := tp_current_touch tp
  if code = ABS_X then
    { tp.modify i (fun t => { t with point.x := value, millis := time, dirty := true }) with
      queued := tp.queued ||| TOUCHPAD_EVENT_MOTION }
  else if code = ABS_Y then
    { tp.modify i (fun t => { t with point.y := value, millis := time, dirty := true }) with
      queued := tp.queued ||| TOUCHPAD_EVENT_MOTION }
  else tp

/-- Source: `tp_restore_synaptics_touches` -/
def tp_restore_synaptics_touches (tp : tp_dispatch) (time : Nat) : tp_dispatch :=
  let nfake_touches := tp_fake_finger_count tp
  if nfake_touches < 3 then tp
  else if tp.nfingers_down ≥ nfake_touches ∨ tp.nfingers_down = tp.num_slots then tp
  else
    tp_loop 0 tp.num_slots (fun i tp =>
      if (tp_get_touch tp i).state ≠ .TOUCH_END then tp
      else
        let tp := tp_new_touch tp i time
        let tp := tp_begin_touch tp i time
        tp.modify i (fun t => { t with state := .TOUCH_UPDATE })) tp

/-- Source: `tp_process_fake_touches` -/
def tp_process_fake_touches (tp : tp_dispatch) (time : Nat) : tp_dispatch :=
  let nfake_touches := tp_fake_finger_count tp
  if nfake_touches = FAKE_FINGER_OVERFLOW then tp
  else
    let tp := if tp.device.model_flags &&& EVDEV_MODEL_SYNAPTICS_SERIAL_TOUCHPAD ≠ 0 then
        tp_restore_synaptics_touches tp time
      else tp
    let start := if tp.has_mt then tp.num_slots else 0
    tp_loop start tp.ntouches (fun i tp =>
      if i < nfake_touches then tp_new_touch tp i time
      else tp_end_sequence tp i time) tp

/-- Source: `tp_process_trackpoint_button`: the event is handed to the dispatch
of the paired trackpoint with the code mapped to LEFT / RIGHT / MIDDLE. -/
def tp_process_trackpoint_button (tp : tp_dispatch) (code : Nat) (value : Int) (time : Nat) :
    tp_dispatch :=
  if !tp.buttons.has_trackpoint then tp
  else if code = BTN_0 then tp.call (.trackpoint_process BTN_LEFT value time)
  else if code = BTN_1 then tp.call (.trackpoint_process BTN_RIGHT value time)
  else if code = BTN_2 then tp.call (.trackpoint_process BTN_MIDDLE value time)
  else tp

/-- Source: `tp_process_key` -/
def tp_process_key (p : tp_peers) (tp : tp_dispatch) (code : Nat) (value : Int) (time : Nat) :
    tp_dispatch :=
  if code = BTN_LEFT ∨ code = BTN_MIDDLE ∨ code = BTN_RIGHT then
    let r := p.tp_process_button tp.buttons.state tp.queued code value
    { tp with buttons.state := r.1, queued := r.2 }
  else if code = BTN_TOUCH ∨ code = BTN_TOOL_FINGER ∨ code = BTN_TOOL_DOUBLETAP ∨
      code = BTN_TOOL_TRIPLETAP ∨ code = BTN_TOOL_QUADTAP ∨ code = BTN_TOOL_QUINTTAP then
    tp_fake_finger_set tp code (value ≠ 0)
  else if code = BTN_0 ∨ code = BTN_1 ∨ code = BTN_2 then
    tp_process_trackpoint_button tp code value time
  else tp

/-- Source: `tp_unpin_finger` -/
def tp_unpin_finger (p : tp_peers) (tp : tp_dispatch) (t : tp_touch) : tp_touch :=
  if !t.pinned.is_pinned then t
  else
    let xdist : ℚ := ((|t.point.x - t.pinned.center.x| : Int) : ℚ) *
      tp.buttons.motion_dist_x_scale_coeff
    let ydist : ℚ := ((|t.point.y - t.pinned.center.y| : Int) : ℚ) *
      tp.buttons.motion_dist_y_scale_coeff
    if p.hypot xdist ydist ≥ 3 / 2 then { t with pinned.is_pinned := false }
    else t

/-- Source: `tp_pin_fingers` -/
def tp_pin_fingers (tp : tp_dispatch) : tp_dispatch :=
  tp_for_each_touch tp (fun i tp =>
    tp.modify i (fun t => { t with pinned.is_pinned := true, pinned.center := t.point }))

/-- Source: `tp_touch_active`, for the touch at index `i`. -/
def tp_touch_active (p : tp_peers) (tp : tp_dispatch) (i : Nat) : Bool :=
  let t := tp_get_touch tp i
  (t.state = .TOUCH_BEGIN ∨ t.state = .TOUCH_UPDATE) &&
    t.palm.state = .PALM_NONE &&
    !t.pinned.is_pinned &&
    t.thumb.state ≠ .THUMB_STATE_YES &&
    p.tp_button_touch_active i &&
    p.tp_edge_scroll_touch_active i

/-- Source: `tp_palm_tap_is_palm` -/
def tp_palm_tap_is_palm (tp : tp_dispatch) (t : tp_touch) : Bool :=
  if t.state ≠ .TOUCH_BEGIN then false
  else if t.point.x > tp.palm.left_edge ∧ t.point.x < tp.palm.right_edge then false
  else if t.point.y < tp.palm.vert_center then true
  else false

/-- Source: `tp_palm_detect_dwt`: the touch after the call and the return value. -/
def tp_palm_detect_dwt (tp : tp_dispatch) (t : tp_touch) (_time : Nat) : tp_touch × Bool :=
  if tp.dwt.dwt_enabled ∧ tp.dwt.keyboard_active ∧ t.state = .TOUCH_BEGIN then
    ({ t with palm.state := .PALM_TYPING, palm.first := t.point }, true)
  else if !tp.dwt.keyboard_active ∧ t.state = .TOUCH_UPDATE ∧
      t.palm.state = .PALM_TYPING then
    if t.palm.time = 0 ∨ t.palm.time > tp.dwt.keyboard_last_press_time then
      ({ t with palm.state := .PALM_NONE }, false)
    else (t, false)
  else (t, false)

/-- Source: `tp_palm_detect_trackpoint`: the touch after the call and the return
value. -/
def tp_palm_detect_trackpoint (tp : tp_dispatch) (t : tp_touch) (_time : Nat) :
    tp_touch × Bool :=
  if !tp.palm.monitor_trackpoint then (t, false)
  else if t.palm.state = .PALM_NONE ∧ t.state = .TOUCH_BEGIN ∧ tp.palm.trackpoint_active then
    ({ t with palm.state := .PALM_TRACKPOINT }, true)
  else if t.palm.state = .PALM_TRACKPOINT ∧ t.state = .TOUCH_UPDATE ∧
      !tp.palm.trackpoint_active then
    if t.palm.time = 0 ∨ t.palm.time > tp.palm.trackpoint_last_event_time then
      ({ t with palm.state := .PALM_NONE }, false)
    else (t, false)
  else (t, false)

/-- Source: `tp_palm_detect` -/
def tp_palm_detect (p : tp_peers) (tp : tp_dispatch) (t : tp_touch) (time : Nat) : tp_touch :=
  let PALM_TIMEOUT := ms2us 200
  let DIRECTIONS := NE ||| E ||| SE ||| SW ||| W ||| NW
  if (tp_palm_detect_dwt tp t time).2 then (tp_palm_detect_dwt tp t time).1
  else
    let t := (tp_palm_detect_dwt tp t time).1
    if (tp_palm_detect_trackpoint tp t time).2 then (tp_palm_detect_trackpoint tp t time).1
    else
      let t := (tp_palm_detect_trackpoint tp t time).1
      if t.palm.state = .PALM_EDGE then
        if time < t.palm.time + PALM_TIMEOUT ∧
            (t.point.x > tp.palm.left_edge ∧ t.point.x < tp.palm.right_edge) then
          let delta := device_delta t.point t.palm.first
          let dirs := normalized_get_direction p (tp_normalize_delta tp delta)
          if dirs &&& DIRECTIONS ≠ 0 ∧ ¬ (dirs &&& c_not32 DIRECTIONS ≠ 0) then
            { t with palm.state := .PALM_NONE }
          else t
        else t
      else if t.state ≠ .TOUCH_BEGIN ∨
          (t.point.x > tp.palm.left_edge ∧ t.point.x < tp.palm.right_edge) then t
      else if tp.buttons.is_clickpad ∧ p.tp_button_is_inside_softbutton_area t.point then t
      else if p.tp_touch_get_edge_right t.point then t
      else { t with palm.state := .PALM_EDGE, palm.time := time, palm.first := t.point }

/-- Source: `tp_thumb_detect` -/
def tp_thumb_detect (p : tp_peers) (tp : tp_dispatch) (t : tp_touch) (time : Nat) : tp_touch :=
  if !tp.thumb.detect_thumbs ∨ t.thumb.state ≠ .THUMB_STATE_MAYBE then t
  else if t.point.y < tp.thumb.upper_thumb_line then
    { t with thumb.state := .THUMB_STATE_NO }
  else
    let t := if t.state = .TOUCH_BEGIN then { t with thumb.initial := t.point } else t
    let moved : Bool :=
      if t.state = .TOUCH_BEGIN then false
      else if t.state = .TOUCH_UPDATE then
        let delta := device_delta t.point t.thumb.initial
        let normalized := tp_normalize_delta tp delta
        normalized_length p normalized > TP_MM_TO_DPI_NORMALIZED 7
      else false
    if moved then { t with thumb.state := .THUMB_STATE_NO }
    else if t.pressure > tp.thumb.threshold then
      { t with thumb.state := .THUMB_STATE_YES }
    else if t.point.y > tp.thumb.lower_thumb_line ∧
        tp.scroll_method ≠ .LIBINPUT_CONFIG_SCROLL_EDGE ∧
        t.thumb.first_touch_time + THUMB_MOVE_TIMEOUT < time then
      { t with thumb.state := .THUMB_STATE_YES }
    else t

/-! ## evdev-mt-touchpad-gestures.c -/

/-- Source: `tp_get_touches_delta` -/
def tp_get_touches_delta (p : tp_peers) (tp : tp_dispatch) (average : Bool) :
    normalized_coords :=
  let acc := (List.range tp.num_slots).foldl
    (fun (acc : Nat × normalized_coords) i =>
      if tp_touch_active p tp i && (tp_get_touch tp i).dirty then
        let normalized := tp_get_delta tp (tp_get_touch tp i)
        (acc.1 + 1, ⟨acc.2.x + normalized.x, acc.2.y + normalized.y⟩)
      else acc)
    (0, ⟨0, 0⟩)
  if !average ∨ acc.1 = 0 then acc.2
  else ⟨acc.2.x / (acc.1 : ℚ), acc.2.y / (acc.1 : ℚ)⟩

/-- Source: `tp_get_combined_touches_delta` -/
def tp_get_combined_touches_delta (p : tp_peers) (tp : tp_dispatch) : normalized_coords :=
  tp_get_touches_delta p tp false

/-- Source: `tp_get_average_touches_delta` -/
def tp_get_average_touches_delta (p : tp_peers) (tp : tp_dispatch) : normalized_coords :=
  tp_get_touches_delta p tp true

/-- Source: `tp_gesture_start` -/
def tp_gesture_start (tp : tp_dispatch) (time : Nat) : tp_dispatch :=
  if tp.gesture.started then tp
  else
    let tp := match tp.gesture.state with
      | .GESTURE_STATE_NONE => tp.call .log_bug_libinput
      | .GESTURE_STATE_UNKNOWN => tp.call .log_bug_libinput
      | .GESTURE_STATE_SCROLL => tp
      | .GESTURE_STATE_PINCH =>
        tp.call (.gesture_notify_pinch time .BEGIN tp.gesture.finger_count ⟨0, 0⟩ ⟨0, 0⟩
          (.fin 1) 0)
      | .GESTURE_STATE_SWIPE =>
        tp.call (.gesture_notify_swipe time .BEGIN tp.gesture.finger_count ⟨0, 0⟩ ⟨0, 0⟩)
    { tp with gesture.started := true }

/-- Source: `tp_gesture_post_pointer_motion` -/
def tp_gesture_post_pointer_motion (p : tp_peers) (tp : tp_dispatch) (time : Nat) :
    tp_dispatch :=
  let unaccel := if tp.buttons.is_clickpad ∧ tp.buttons.state ≠ 0 then
      tp_get_combined_touches_delta p tp
    else tp_get_average_touches_delta p tp
  let delta := tp_filter_motion p unaccel time
  if !normalized_is_zero delta ∨ !normalized_is_zero unaccel then
    let raw := p.tp_unnormalize_for_xaxis unaccel
    tp.call (.pointer_notify_motion time delta raw)
  else tp

/-- The loop of `tp_gesture_get_active_touches`: `acc` holds the indices stored
in `touches[0 .. n)` so far. -/
def tp_gesture_get_active_touches_loop (p : tp_peers) (tp : tp_dispatch) (count : Nat) :
    List Nat → List Nat → List Nat
  | [], acc => acc
  | i :: rest, acc =>
    if tp_touch_active p tp i then
      if (acc ++ [i]).length = count then acc ++ [i]
      else tp_gesture_get_active_touches_loop p tp count rest (acc ++ [i])
    else tp_gesture_get_active_touches_loop p tp count rest acc

/-- Source: `tp_gesture_get_active_touches`: the indices written to `touches`;
the return value is the length of the list. -/
def tp_gesture_get_active_touches (p : tp_peers) (tp : tp_dispatch) (count : Nat) : List Nat :=
  tp_gesture_get_active_touches_loop p tp count (List.range tp.ntouches) []

/-- Source: `tp_gesture_get_direction`, for the touch at index `touch`. -/
def tp_gesture_get_direction (p : tp_peers) (tp : tp_dispatch) (touch : Nat) : Nat :=
  let move_threshold : ℚ :=
    if tp.semi_mt ∧ tp.device.model_flags &&& EVDEV_MODEL_ELANTECH_TOUCHPAD = 0 then
      TP_MM_TO_DPI_NORMALIZED 4
    else TP_MM_TO_DPI_NORMALIZED 1
  let t := tp_get_touch tp touch
  let delta := device_delta t.point t.gesture_initial
  let normalized := tp_normalize_delta tp delta
  if normalized_length p normalized < move_threshold then UNDEFINED_DIRECTION
  else normalized_get_direction p normalized

/-- Source: `tp_gesture_get_pinch_info`: distance, angle and center. -/
def tp_gesture_get_pinch_info (p : tp_peers) (tp : tp_dispatch) :
    ℚ × ℚ × device_float_coords :=
  let first := tp_get_touch tp tp.gesture.touches0
  let second := tp_get_touch tp tp.gesture.touches1
  let delta := device_delta first.point second.point
  let normalized := tp_normalize_delta tp delta
  let distance := normalized_length p normalized
  let angle := if !tp.semi_mt then p.atan2_deg normalized.y normalized.x else 0
  (distance, angle, device_average first.point second.point)

/-- Source: `tp_gesture_set_scroll_buildup` -/
def tp_gesture_set_scroll_buildup (tp : tp_dispatch) : tp_dispatch :=
  let first := tp_get_touch tp tp.gesture.touches0
  let second := tp_get_touch tp tp.gesture.touches1
  let d0 := device_delta first.point first.gesture_initial
  let d1 := device_delta second.point second.gesture_initial
  let average := device_float_average d0 d1
  { tp with device.scroll_buildup := tp_normalize_delta tp average }

/-- The choice of the two representative touches in
`tp_gesture_handle_state_none`, from the indices `touches` of the active
touches: the first two for two touches; for more, the loop that starts from
`touches[0]` for both and moves `first` to a touch further left and `second`
to a touch further right. -/
def tp_gesture_pick_touches (tp : tp_dispatch) (touches : List Nat) : Nat × Nat :=
  if touches.length > 2 then
    (List.range' 1 (min touches.length tp.num_slots - 1)).foldl
      (fun (fs : Nat × Nat) i =>
        let ti := touches.getD i 0
        if (tp_get_touch tp ti).point.x < (tp_get_touch tp fs.1).point.x then (ti, fs.2)
        else if (tp_get_touch tp ti).point.x > (tp_get_touch tp fs.2).point.x then
          (fs.1, ti)
        else fs)
      (touches.getD 0 0, touches.getD 0 0)
  else (touches.getD 0 0, touches.getD 1 0)

/-- Source: `tp_gesture_handle_state_none`: the dispatch after the call and the
returned state. -/
def tp_gesture_handle_state_none (p : tp_peers) (tp : tp_dispatch) (time : Nat) :
    tp_dispatch × tp_gesture_state :=
  let touches := tp_gesture_get_active_touches p tp 4
  let ntouches := touches.length
  if ntouches < 2 then (tp, .GESTURE_STATE_NONE)
  else
    let fs := tp_gesture_pick_touches tp touches
    if ntouches > 2 ∧ fs.1 = fs.2 then (tp, .GESTURE_STATE_NONE)
    else
      let tp := { tp with gesture.initial_time := time }
      let tp := tp.modify fs.1 (fun t => { t with gesture_initial := t.point })
      let tp := tp.modify fs.2 (fun t => { t with gesture_initial := t.point })
      ({ tp with gesture.touches0 := fs.1, gesture.touches1 := fs.2 },
        .GESTURE_STATE_UNKNOWN)

/-- Source: `tp_gesture_same_directions` -/
def tp_gesture_same_directions (dir1 dir2 : Nat) : Bool :=
  ((dir1 ||| (dir1 >>> 1)) &&& dir2 ≠ 0) ||
    ((dir2 ||| (dir2 >>> 1)) &&& dir1 ≠ 0) ||
    ((dir1 &&& 0x80 ≠ 0) && (dir2 &&& 0x01 ≠ 0)) ||
    ((dir2 &&& 0x80 ≠ 0) && (dir1 &&& 0x01 ≠ 0))

/-- Source: `tp_gesture_init_pinch` -/
def tp_gesture_init_pinch (p : tp_peers) (tp : tp_dispatch) : tp_dispatch :=
  let info := tp_gesture_get_pinch_info p tp
  { tp with
    gesture.initial_distance := info.1, gesture.angle := info.2.1,
    gesture.center := info.2.2, gesture.prev_scale := .fin 1 }

/-- Source: `tp_gesture_handle_state_unknown`: the dispatch after the call and
the returned state. -/
def tp_gesture_handle_state_unknown (p : tp_peers) (tp : tp_dispatch) (time : Nat) :
    tp_dispatch × tp_gesture_state :=
  let first := tp_get_touch tp tp.gesture.touches0
  let second := tp_get_touch tp tp.gesture.touches1
  let yres := tp.device.absinfo_y_resolution
  if tp.gesture.finger_count = 2 ∧
      time > tp.gesture.initial_time + DEFAULT_GESTURE_2FG_SCROLL_TIMEOUT then
    (tp_gesture_set_scroll_buildup tp, .GESTURE_STATE_SCROLL)
  else
    let vert_distance : Int := |first.point.y - second.point.y|
    if vert_distance > 20 * yres ∧ tp.gesture.enabled then
      (tp_gesture_init_pinch p tp, .GESTURE_STATE_PINCH)
    else
      let dir1 := tp_gesture_get_direction p tp tp.gesture.touches0
      let dir2 := tp_gesture_get_direction p tp tp.gesture.touches1
      if dir1 = UNDEFINED_DIRECTION ∨ dir2 = UNDEFINED_DIRECTION then
        (tp, .GESTURE_STATE_UNKNOWN)
      else if tp_gesture_same_directions dir1 dir2 then
        if tp.gesture.finger_count = 2 then
          (tp_gesture_set_scroll_buildup tp, .GESTURE_STATE_SCROLL)
        else if tp.gesture.enabled then (tp, .GESTURE_STATE_SWIPE)
        else (tp, .GESTURE_STATE_UNKNOWN)
      else if tp.gesture.enabled then
        (tp_gesture_init_pinch p tp, .GESTURE_STATE_PINCH)
      else (tp, .GESTURE_STATE_UNKNOWN)

/-- Source: `tp_gesture_handle_state_scroll`: the dispatch after the call and
the returned state. -/
def tp_gesture_handle_state_scroll (p : tp_peers) (tp : tp_dispatch) (time : Nat) :
    tp_dispatch × tp_gesture_state :=
  if tp.scroll_method ≠ .LIBINPUT_CONFIG_SCROLL_2FG then (tp, .GESTURE_STATE_SCROLL)
  else if tp.semi_mt ∧ !(tp_get_touch tp 0).dirty then (tp, .GESTURE_STATE_SCROLL)
  else
    let delta := if tp.semi_mt then tp_get_delta tp (tp_get_touch tp 0)
      else tp_get_average_touches_delta p tp
    let delta := tp_filter_motion_unaccelerated p delta time
    if normalized_is_zero delta then (tp, .GESTURE_STATE_SCROLL)
    else
      let tp := tp_gesture_start tp time
      (tp.call (.evdev_post_scroll time delta), .GESTURE_STATE_SCROLL)

/-- Source: `tp_gesture_handle_state_swipe`: the dispatch after the call and the
returned state. -/
def tp_gesture_handle_state_swipe (p : tp_peers) (tp : tp_dispatch) (time : Nat) :
    tp_dispatch × tp_gesture_state :=
  let unaccel := tp_get_average_touches_delta p tp
  let delta := tp_filter_motion p unaccel time
  if !normalized_is_zero delta ∨ !normalized_is_zero unaccel then
    let tp := tp_gesture_start tp time
    (tp.call (.gesture_notify_swipe time .UPDATE tp.gesture.finger_count delta unaccel),
      .GESTURE_STATE_SWIPE)
  else (tp, .GESTURE_STATE_SWIPE)

/-- The wrap of the angle delta in `tp_gesture_handle_state_pinch`: minus 360
above 180 degrees, plus 360 below -180 degrees. -/
def tp_gesture_wrap_angle (angle_delta : ℚ) : ℚ :=
  if angle_delta > 180 then angle_delta - 360
  else if angle_delta < -180 then angle_delta + 360
  else angle_delta

/-- Source: `tp_gesture_handle_state_pinch`: the dispatch after the call and the
returned state. The scale is the double division `distance / initial_distance`,
which is NaN or an infinity when `initial_distance` is zero, and the test
`scale == tp->gesture.prev_scale` is the comparison of doubles. -/
def tp_gesture_handle_state_pinch (p : tp_peers) (tp : tp_dispatch) (time : Nat) :
    tp_dispatch × tp_gesture_state :=
  let info := tp_gesture_get_pinch_info p tp
  let distance := info.1
  let angle := info.2.1
  let center := info.2.2
  let scale := c_double_div distance tp.gesture.initial_distance
  let angle_delta := tp_gesture_wrap_angle (angle - tp.gesture.angle)
  let fdelta := device_float_delta center tp.gesture.center
  let tp := { tp with gesture.angle := angle, gesture.center := center }
  let unaccel := tp_normalize_delta tp fdelta
  let delta := tp_filter_motion p unaccel time
  if normalized_is_zero delta ∧ normalized_is_zero unaccel ∧
      c_double_eq scale tp.gesture.prev_scale = true ∧ angle_delta = 0 then
    (tp, .GESTURE_STATE_PINCH)
  else
    let tp := tp_gesture_start tp time
    let tp := tp.call
      (.gesture_notify_pinch time .UPDATE tp.gesture.finger_count delta unaccel scale
        angle_delta)
    ({ tp with gesture.prev_scale := scale }, .GESTURE_STATE_PINCH)

/-- One line of `tp_gesture_post_gesture`: when the gesture is in state `cond`,
run the handler of that state and store the state it returns. -/
def tp_gesture_post_gesture_step (p : tp_peers) (time : Nat) (cond : tp_gesture_state)
    (handler : tp_peers → tp_dispatch → Nat → tp_dispatch × tp_gesture_state)
    (tp : tp_dispatch) : tp_dispatch :=
  if tp.gesture.state = cond then
    { (handler p tp time).1 with gesture.state := (handler p tp time).2 }
  else tp

/-- Source: `tp_gesture_post_gesture` -/
def tp_gesture_post_gesture (p : tp_peers) (tp : tp_dispatch) (time : Nat) : tp_dispatch :=
  let tp := tp_gesture_post_gesture_step p time .GESTURE_STATE_NONE
    tp_gesture_handle_state_none tp
  let tp := tp_gesture_post_gesture_step p time .GESTURE_STATE_UNKNOWN
    tp_gesture_handle_state_unknown tp
  let tp := tp_gesture_post_gesture_step p time .GESTURE_STATE_SCROLL
    tp_gesture_handle_state_scroll tp
  let tp := tp_gesture_post_gesture_step p time .GESTURE_STATE_SWIPE
    tp_gesture_handle_state_swipe tp
  tp_gesture_post_gesture_step p time .GESTURE_STATE_PINCH tp_gesture_handle_state_pinch tp

/-- Source: `tp_gesture_stop_twofinger_scroll` -/
def tp_gesture_stop_twofinger_scroll (tp : tp_dispatch) (time : Nat) : tp_dispatch :=
  if tp.scroll_method ≠ .LIBINPUT_CONFIG_SCROLL_2FG then tp
  else tp.call (.evdev_stop_scroll time)

/-- Source: `tp_gesture_end` -/
def tp_gesture_end (tp : tp_dispatch) (time : Nat) (cancelled : Bool) : tp_dispatch :=
  let state := tp.gesture.state
  let tp := { tp with gesture.state := .GESTURE_STATE_NONE }
  if !tp.gesture.started then tp
  else
    let tp := match state with
      | .GESTURE_STATE_NONE => tp.call .log_bug_libinput
      | .GESTURE_STATE_UNKNOWN => tp.call .log_bug_libinput
      | .GESTURE_STATE_SCROLL => tp_gesture_stop_twofinger_scroll tp time
      | .GESTURE_STATE_PINCH =>
        tp.call (.gesture_notify_pinch_end time tp.gesture.finger_count
          tp.gesture.prev_scale cancelled)
      | .GESTURE_STATE_SWIPE =>
        tp.call (.gesture_notify_swipe_end time tp.gesture.finger_count cancelled)
    { tp with gesture.started := false }

/-- Source: `tp_gesture_cancel` -/
def tp_gesture_cancel (tp : tp_dispatch) (time : Nat) : tp_dispatch :=
  tp_gesture_end tp time true

/-- Source: `tp_gesture_stop` -/
def tp_gesture_stop (tp : tp_dispatch) (time : Nat) : tp_dispatch :=
  tp_gesture_end tp time false

/-- Source: `tp_gesture_post_events` -/
def tp_gesture_post_events (p : tp_peers) (tp : tp_dispatch) (time : Nat) : tp_dispatch :=
  if tp.gesture.finger_count = 0 then tp
  else
    let tp := if p.tp_tap_dragging ∨ (tp.buttons.is_clickpad ∧ tp.buttons.state ≠ 0) then
        { tp_gesture_cancel tp time with
          gesture.finger_count := 1, gesture.finger_count_pending := 0 }
      else tp
    if tp.gesture.finger_count_pending ≠ 0 then tp
    else if tp.gesture.finger_count = 1 then tp_gesture_post_pointer_motion p tp time
    else if tp.gesture.finger_count = 2 ∨ tp.gesture.finger_count = 3 ∨
        tp.gesture.finger_count = 4 then
      tp_gesture_post_gesture p tp time
    else tp

/-- Source: `tp_gesture_finger_count_switch_timeout` -/
def tp_gesture_finger_count_switch_timeout (tp : tp_dispatch) (now : Nat) : tp_dispatch :=
  if tp.gesture.finger_count_pending = 0 then tp
  else
    let tp := tp_gesture_cancel tp now
    { tp with
      gesture.finger_count := tp.gesture.finger_count_pending,
      gesture.finger_count_pending := 0 }

/-- The counting loop of `tp_gesture_handle_state`: the number of touches of the
device for which `tp_touch_active` holds. -/
def tp_count_active_touches (p : tp_peers) (tp : tp_dispatch) : Nat :=
  (List.range tp.ntouches).countP (fun i => tp_touch_active p tp i)

/-- Source: `tp_gesture_handle_state` -/
def tp_gesture_handle_state (p : tp_peers) (tp : tp_dispatch) (time : Nat) : tp_dispatch :=
  let active_touches := tp_count_active_touches p tp
  if active_touches ≠ tp.gesture.finger_count then
    if active_touches = 0 then
      { tp_gesture_stop tp time with
        gesture.finger_count := 0, gesture.finger_count_pending := 0 }
    else if !tp.gesture.started then
      { tp with gesture.finger_count := active_touches, gesture.finger_count_pending := 0 }
    else if active_touches ≠ tp.gesture.finger_count_pending then
      { tp with gesture.finger_count_pending := active_touches }.call
        (.libinput_timer_set .finger_count_switch_timer
          (time + DEFAULT_GESTURE_SWITCH_TIMEOUT))
    else tp
  else { tp with gesture.finger_count_pending := 0 }

/-! ## evdev-mt-touchpad.c: the frame -/

/-- Source: `tp_unhover_abs_distance` -/
def tp_unhover_abs_distance (tp : tp_dispatch) (time : Nat) : tp_dispatch :=
  tp_loop 0 tp.ntouches (fun i tp =>
    let t := tp_get_touch tp i
    if t.state = .TOUCH_HOVERING then
      if t.distance = 0 then
        tp_begin_touch (tp.modify i tp_motion_history_reset) i time
      else tp
    else
      if t.distance > 0 then tp_end_touch tp i time
      else tp) tp

/-- Source: `tp_unhover_fake_touches` -/
def tp_unhover_fake_touches (tp : tp_dispatch) (time : Nat) : tp_dispatch :=
  if tp.fake_touches = 0 ∧ tp.nfingers_down = 0 then tp
  else
    let nfake_touches := tp_fake_finger_count tp
    if nfake_touches = FAKE_FINGER_OVERFLOW then tp
    else if tp.nfingers_down = nfake_touches ∧
        ((tp.nfingers_down = 0 ∧ !tp_fake_finger_is_touching tp) ∨
         (tp.nfingers_down > 0 ∧ tp_fake_finger_is_touching tp)) then tp
    else
      let tp :=
        if tp_fake_finger_is_touching tp ∧ tp.nfingers_down < nfake_touches then
          tp_loop_list (fun i tp =>
            if (tp_get_touch tp i).state = .TOUCH_HOVERING then
              let tp := tp_begin_touch tp i time
              (tp, decide (tp.nfingers_down ≥ nfake_touches))
            else (tp, false)) (List.range tp.ntouches) tp
        else tp
      if tp.nfingers_down > nfake_touches ∨ !tp_fake_finger_is_touching tp then
        tp_loop_list (fun i tp =>
          let t := tp_get_touch tp i
          if t.state = .TOUCH_HOVERING ∨ t.state = .TOUCH_NONE then (tp, false)
          else
            let tp := tp_end_touch tp i time
            (tp, tp_fake_finger_is_touching tp && decide (tp.nfingers_down = nfake_touches)))
          (List.range tp.ntouches).reverse tp
      else tp

/-- Source: `tp_unhover_touches` -/
def tp_unhover_touches (tp : tp_dispatch) (time : Nat) : tp_dispatch :=
  if tp.reports_distance then tp_unhover_abs_distance tp time
  else tp_unhover_fake_touches tp time

/-- The search loop of `tp_position_fake_touches`: the index of the top-most
real touch, `none` for `NULL`. -/
def tp_find_topmost (tp : tp_dispatch) : Option Nat :=
  (List.range tp.num_slots).foldl
    (fun (topmost : Option Nat) i =>
      let t := tp_get_touch tp i
      if t.state = .TOUCH_END ∨ t.state = .TOUCH_NONE then topmost
      else
        match topmost with
        | none => some i
        | some j => if t.point.y < (tp_get_touch tp j).point.y then some i else some j)
    none

/-- Source: `tp_position_fake_touches` -/
def tp_position_fake_touches (tp : tp_dispatch) : tp_dispatch :=
  if tp_fake_finger_count tp ≤ tp.num_slots ∨ tp.nfingers_down = 0 then tp
  else
    match tp_find_topmost tp with
    | none => tp.call .log_bug_libinput
    | some topmost =>
      let start := if tp.has_mt then tp.num_slots else 1
      tp_loop start tp.ntouches (fun i tp =>
        if (tp_get_touch tp i).state = .TOUCH_NONE then tp
        else
          tp.modify i (fun t =>
            { t with
              point := (tp_get_touch tp topmost).point,
              dirty := if !t.dirty then (tp_get_touch tp topmost).dirty else t.dirty })) tp

/-- Source: `tp_need_motion_history_reset` -/
def tp_need_motion_history_reset (tp : tp_dispatch) : Bool :=
  if tp.semi_mt ∧ tp.nfingers_down ≠ tp.old_nfingers_down then true
  else if tp.nfingers_down ≠ tp.old_nfingers_down ∧
      (tp.nfingers_down > tp.num_slots ∨ tp.old_nfingers_down > tp.num_slots) then true
  else false

/-- The body of the per-touch loop of `tp_process_state`, on one touch: the
touch after the iteration and whether the filter is to be restarted. -/
def tp_process_touch (p : tp_peers) (tp : tp_dispatch) (want_motion_reset : Bool)
    (t : tp_touch) (time : Nat) : tp_touch × Bool :=
  let t :=
    if want_motion_reset then
      { tp_motion_history_reset t with quirks_reset_motion_history := true }
    else if t.quirks_reset_motion_history then
      { tp_motion_history_reset t with quirks_reset_motion_history := false }
    else t
  if !t.dirty then (t, false)
  else
    let t := tp_thumb_detect p tp t time
    let t := tp_palm_detect p tp t time
    let t := tp_motion_hysteresis tp t
    let t := tp_motion_history_push t
    let t := tp_unpin_finger p tp t
    (t, decide (t.state = .TOUCH_BEGIN))

/-- The per-touch loop of `tp_process_state` and the restart of the filter that
follows it. The flag `restart_filter` is set by an iteration on a dirty touch
in BEGIN; an iteration reads and writes its own touch only. -/
def tp_process_touches (p : tp_peers) (tp : tp_dispatch) (time : Nat) : tp_dispatch :=
  let want_motion_reset := tp_need_motion_history_reset tp
  let restart_filter : Bool := (List.range tp.ntouches).any (fun i =>
    (tp_process_touch p tp want_motion_reset (tp_get_touch tp i) time).2)
  let tp := tp_loop 0 tp.ntouches (fun i tp =>
    tp.modify i (fun t => (tp_process_touch p tp want_motion_reset t time).1)) tp
  if restart_filter then tp.call (.filter_restart time) else tp

/-- The part of `tp_process_state` before the call of `tp_gesture_handle_state`. -/
def tp_process_state_pre (p : tp_peers) (tp : tp_dispatch) (time : Nat) : tp_dispatch :=
  let tp := tp_process_fake_touches tp time
  let tp := tp_unhover_touches tp time
  let tp := tp_position_fake_touches tp
  let tp := tp_process_touches p tp time
  let tp := tp.call (.tp_button_handle_state time)
  let tp := tp.call (.tp_edge_scroll_handle_state time)
  if tp.queued &&& TOUCHPAD_EVENT_BUTTON_PRESS ≠ 0 ∧ tp.buttons.is_clickpad then
    tp_pin_fingers tp
  else tp

/-- Source: `tp_process_state` -/
def tp_process_state (p : tp_peers) (tp : tp_dispatch) (time : Nat) : tp_dispatch :=
  tp_gesture_handle_state p (tp_process_state_pre p tp time) time

/-- Source: `tp_post_process_state` -/
def tp_post_process_state (tp : tp_dispatch) (_time : Nat) : tp_dispatch :=
  let tp := tp_for_each_touch tp (fun i tp =>
    tp.modify i (fun t =>
      if !t.dirty then t
      else
        let t :=
          if t.state = .TOUCH_END then
            if t.has_ended then { t with state := .TOUCH_NONE }
            else { t with state := .TOUCH_HOVERING }
          else if t.state = .TOUCH_BEGIN then { t with state := .TOUCH_UPDATE }
          else t
        { t with dirty := false }))
  { tp with
    old_nfingers_down := tp.nfingers_down,
    buttons.old_state := tp.buttons.state,
    queued := TOUCHPAD_EVENT_NONE }

/-- Source: `tp_post_events` -/
def tp_post_events (p : tp_peers) (tp : tp_dispatch) (time : Nat) : tp_dispatch :=
  if tp.device.suspended then tp.call (.tp_post_button_events time)
  else
    let tp := tp.call (.tp_tap_handle_state time)
    let tp := tp.call (.tp_post_button_events time)
    let filter_motion := p.tp_tap_handle_state || p.tp_post_button_events
    if filter_motion ∨ tp.palm.trackpoint_active ∨ tp.dwt.keyboard_active then
      let tp := tp.call (.tp_edge_scroll_stop_events time)
      tp_gesture_cancel tp time
    else
      let tp := tp.call (.tp_edge_scroll_post_events time)
      if p.tp_edge_scroll_post_events then tp
      else tp_gesture_post_events p tp time

/-- Source: `tp_handle_state` -/
def tp_handle_state (p : tp_peers) (tp : tp_dispatch) (time : Nat) : tp_dispatch :=
  let tp := tp_process_state p tp time
  let tp := tp_post_events p tp time
  tp_post_process_state tp time

/-- Source: `tp_interface_process`, for the event `(type, code, value)` at `time`. -/
def tp_interface_process (p : tp_peers) (tp : tp_dispatch) (type code : Nat) (value : Int)
    (time : Nat) : tp_dispatch :=
  if type = EV_ABS then
    if tp.has_mt then tp_process_absolute tp code value time
    else tp_process_absolute_st tp code value time
  else if type = EV_KEY then tp_process_key p tp code value time
  else if type = EV_SYN then tp_handle_state p tp time
  else tp

/-- Source: `tp_release_fake_touches` -/
def tp_release_fake_touches (tp : tp_dispatch) : tp_dispatch :=
  { tp with fake_touches := 0 }

/-- Source: `tp_clear_state`, with `now` the value of `libinput_now`. -/
def tp_clear_state (p : tp_peers) (tp : tp_dispatch) (now : Nat) : tp_dispatch :=
  let r := p.tp_release_all_buttons tp.buttons.state tp.queued
  let tp := { tp with buttons.state := r.1, queued := r.2 }.call (.tp_release_all_buttons now)
  let tp := tp.call (.tp_release_all_taps now)
  let tp := tp_for_each_touch tp (fun i tp => tp_end_sequence tp i now)
  let tp := tp_release_fake_touches tp
  tp_handle_state p tp now

/-- Source: `tp_trackpoint_timeout` -/
def tp_trackpoint_timeout (tp : tp_dispatch) (now : Nat) : tp_dispatch :=
  let tp := tp.call (.tp_tap_resume now)
  { tp with palm.trackpoint_active := false }

/-- Source: `tp_trackpoint_event`; `is_button` is
`event->type == LIBINPUT_EVENT_POINTER_BUTTON`. -/
def tp_trackpoint_event (tp : tp_dispatch) (time : Nat) (is_button : Bool) : tp_dispatch :=
  if is_button then tp
  else
    let tp :=
      if !tp.palm.trackpoint_active then
        let tp := tp.call (.tp_edge_scroll_stop_events time)
        let tp := tp_gesture_cancel tp time
        let tp := tp.call (.tp_tap_suspend time)
        { tp with palm.trackpoint_active := true }
      else tp
    { tp with palm.trackpoint_last_event_time := time }.call
      (.libinput_timer_set .trackpoint_timer (time + DEFAULT_TRACKPOINT_ACTIVITY_TIMEOUT))

/-- Source: `tp_keyboard_timeout` -/
def tp_keyboard_timeout (tp : tp_dispatch) (now : Nat) : tp_dispatch :=
  let tp := tp.call (.tp_tap_resume now)
  { tp with dwt.keyboard_active := false }

/-- Key codes of linux/input.h. -/
def KEY_TAB : Nat := 15
/-- Key codes of linux/input.h. -/
def KEY_LEFTCTRL : Nat := 29
/-- Key codes of linux/input.h. -/
def KEY_LEFTSHIFT : Nat := 42
/-- Key codes of linux/input.h. -/
def KEY_RIGHTSHIFT : Nat := 54
/-- Key codes of linux/input.h. -/
def KEY_LEFTALT : Nat := 56
/-- Key codes of linux/input.h. -/
def KEY_CAPSLOCK : Nat := 58
/-- Key codes of linux/input.h. -/
def KEY_F1 : Nat := 59
/-- Key codes of linux/input.h. -/
def KEY_RIGHTCTRL : Nat := 97
/-- Key codes of linux/input.h. -/
def KEY_RIGHTALT : Nat := 100
/-- Key codes of linux/input.h. -/
def KEY_LEFTMETA : Nat := 125
/-- Key codes of linux/input.h. -/
def KEY_RIGHTMETA : Nat := 126
/-- Key codes of linux/input.h. -/
def KEY_COMPOSE : Nat := 127
/-- Key codes of linux/input.h. -/
def KEY_FN : Nat := 0x1d0

/-- Source: `tp_key_ignore_for_dwt` -/
def tp_key_ignore_for_dwt (keycode : Nat) : Bool :=
  if keycode = KEY_LEFTCTRL ∨ keycode = KEY_RIGHTCTRL ∨ keycode = KEY_LEFTALT ∨
      keycode = KEY_RIGHTALT ∨ keycode = KEY_LEFTSHIFT ∨ keycode = KEY_RIGHTSHIFT ∨
      keycode = KEY_FN ∨ keycode = KEY_CAPSLOCK ∨ keycode = KEY_TAB ∨
      keycode = KEY_COMPOSE ∨ keycode = KEY_RIGHTMETA ∨ keycode = KEY_LEFTMETA then true
  else if keycode ≥ KEY_F1 then true
  else false

/-- Source: `tp_keyboard_event`; `is_key` is
`event->type == LIBINPUT_EVENT_KEYBOARD_KEY`, `pressed` is whether the key
state is `LIBINPUT_KEY_STATE_PRESSED` and `keycode` the key of the event. -/
def tp_keyboard_event (tp : tp_dispatch) (time : Nat) (is_key pressed : Bool)
    (keycode : Nat) : tp_dispatch :=
  if !tp.dwt.dwt_enabled then tp
  else if !is_key then tp
  else if !pressed then tp
  else if tp_key_ignore_for_dwt keycode then tp
  else
    let r : tp_dispatch × Nat :=
      if !tp.dwt.keyboard_active then
        let tp := tp.call (.tp_edge_scroll_stop_events time)
        let tp := tp_gesture_cancel tp time
        let tp := tp.call (.tp_tap_suspend time)
        ({ tp with dwt.keyboard_active := true }, DEFAULT_KEYBOARD_ACTIVITY_TIMEOUT_1)
      else (tp, DEFAULT_KEYBOARD_ACTIVITY_TIMEOUT_2)
    { r.1 with dwt.keyboard_last_press_time := time }.call
      (.libinput_timer_set .keyboard_timer (time + r.2))

/-- Source: `tp_scroll_config_scroll_method_set_method`, with `time` the value of
`libinput_now`. -/
def tp_scroll_config_scroll_method_set_method (tp : tp_dispatch) (method : scroll_method)
    (time : Nat) : tp_dispatch :=
  if method = tp.scroll_method then tp
  else
    let tp := tp.call (.tp_edge_scroll_stop_events time)
    let tp := tp_gesture_stop_twofinger_scroll tp time
    { tp with scroll_method := method }

/-- Source: `tp_dwt_config_set`, for the two valid values of `enable`. -/
def tp_dwt_config_set (tp : tp_dispatch) (enable : Bool) : tp_dispatch :=
  { tp with dwt.dwt_enabled := enable }

/-! ## Runs of the dispatcher -/

/-- The entries into the dispatcher: kernel events, events of the paired
keyboard and trackpoint, timer expiries, suspension and configuration. -/
inductive tp_input where
  /-- An evdev event `(type, code, value)` at `time`: `tp_interface_process`. -/
  | process (type code : Nat) (value : Int) (time : Nat)
  /-- An event of the paired keyboard: `tp_keyboard_event`. -/
  | keyboard_event (time : Nat) (is_key pressed : Bool) (keycode : Nat)
  /-- An event of the paired trackpoint: `tp_trackpoint_event`. -/
  | trackpoint_event (time : Nat) (is_button : Bool)
  /-- Expiry of the finger-count switch timer. -/
  | finger_count_switch_timeout (now : Nat)
  /-- Expiry of the trackpoint timer. -/
  | trackpoint_timeout (now : Nat)
  /-- Expiry of the keyboard timer. -/
  | keyboard_timeout (now : Nat)
  /-- The force-clear `tp_clear_state` (`tp_interface_suspend`, `tp_suspend`,
  `tp_resume`). -/
  | clear_state (now : Nat)
  /-- The flag `device->suspended` as set by `evdev_device_suspend`,
  `evdev_notify_suspended_device` and their resume counterparts. -/
  | set_suspended (suspended : Bool)
  /-- Addition or removal of the paired trackpoint (`tp_interface_device_added`,
  `tp_interface_device_removed`). -/
  | set_trackpoint (present : Bool)
  /-- Addition of the paired keyboard (`tp_interface_device_added`), which
  clears `dwt.keyboard_active`. -/
  | keyboard_added
  /-- A change of the scroll method. -/
  | set_scroll_method (method : scroll_method) (time : Nat)
  /-- A change of the disable-while-typing option. -/
  | dwt_config_set (enable : Bool)

/-- One entry into the dispatcher. -/
def tp_step (p : tp_peers) (tp : tp_dispatch) : tp_input → tp_dispatch
  | .process type code value time => tp_interface_process p tp type code value time
  | .keyboard_event time is_key pressed keycode =>
    tp_keyboard_event tp time is_key pressed keycode
  | .trackpoint_event time is_button => tp_trackpoint_event tp time is_button
  | .finger_count_switch_timeout now => tp_gesture_finger_count_switch_timeout tp now
  | .trackpoint_timeout now => tp_trackpoint_timeout tp now
  | .keyboard_timeout now => tp_keyboard_timeout tp now
  | .clear_state now => tp_clear_state p tp now
  | .set_suspended b => { tp with device.suspended := b }
  | .set_trackpoint b => { tp with buttons.has_trackpoint := b }
  | .keyboard_added => { tp with dwt.keyboard_active := false }
  | .set_scroll_method method time => tp_scroll_config_scroll_method_set_method tp method time
  | .dwt_config_set enable => tp_dwt_config_set tp enable

/-- The state of a touchpad after `tp_init`: `ntouches` zeroed touches with
`has_ended` set (`tp_init_slots`; the points and distances are synced from the
device), no finger down, no fake touch, nothing queued, the gesture machine at
rest (`tp_init_gesture`), nothing posted; `num_slots >= 1` and
`ntouches = max(num_slots, n_btn_tool_touches)` is an `unsigned int`. -/
def tp_initial (tp : tp_dispatch) : Prop :=
  tp.touches.length = tp.ntouches ∧ 1 ≤ tp.num_slots ∧ tp.num_slots ≤ tp.ntouches ∧
  tp.ntouches < 2 ^ 32 ∧
  (∀ t ∈ tp.touches,
    t = { tp_init_touch with point := t.point, distance := t.distance }) ∧
  tp.nfingers_down = 0 ∧ tp.old_nfingers_down = 0 ∧ tp.fake_touches = 0 ∧
  tp.queued = TOUCHPAD_EVENT_NONE ∧
  tp.gesture.state = .GESTURE_STATE_NONE ∧ tp.gesture.started = false ∧
  tp.gesture.finger_count = 0 ∧ tp.gesture.finger_count_pending = 0 ∧
  tp.buttons.state = 0 ∧ tp.dwt.keyboard_active = false ∧
  tp.palm.trackpoint_active = false ∧ tp.sink = []

instance (tp : tp_dispatch) : Decidable (tp_initial tp) := by
  unfold tp_initial; infer_instance

/-- The states reachable from an initial state by entries into the dispatcher,
with any answers of the peers. -/
inductive Reachable : tp_dispatch → Prop where
  | init (tp : tp_dispatch) : tp_initial tp → Reachable tp
  | step (p : tp_peers) (tp : tp_dispatch) (input : tp_input) :
      Reachable tp → Reachable (tp_step p tp input)

/-- A small clickpad with two slots and three touches, as after `tp_init`. -/
def tp_example : tp_dispatch :=
  { device := { model_flags := 0, suspended := false, absinfo_y_resolution := 40,
                scroll_buildup := ⟨0, 0⟩ },
    nfingers_down := 0, old_nfingers_down := 0, slot := 0,
    has_mt := true, semi_mt := false, reports_distance := false,
    num_slots := 2, ntouches := 3,
    touches := [tp_init_touch, tp_init_touch, tp_init_touch],
    fake_touches := 0,
    hysteresis_margin := ⟨2, 2⟩,
    accel := ⟨1, 1⟩,
    gesture := { enabled := true, started := false, finger_count := 0,
                 finger_count_pending := 0, state := .GESTURE_STATE_NONE,
                 touches0 := 0, touches1 := 0, initial_time := 0, initial_distance := 0,
                 prev_scale := .fin 0, angle := 0, center := ⟨0, 0⟩ },
    buttons := { is_clickpad := true, state := 0, old_state := 0, has_trackpoint := false,
                 motion_dist_x_scale_coeff := 1, motion_dist_y_scale_coeff := 1 },
    scroll_method := .LIBINPUT_CONFIG_SCROLL_2FG,
    queued := 0,
    palm := { left_edge := 100, right_edge := 1900, vert_center := 500,
              monitor_trackpoint := true, trackpoint_active := false,
              trackpoint_last_event_time := 0 },
    dwt := { dwt_enabled := true, keyboard_active := false, keyboard_last_press_time := 0 },
    thumb := { detect_thumbs := true, threshold := 100, upper_thumb_line := 900,
               lower_thumb_line := 950 },
    sink := [] }

/-- Peers that leave every touch active, filter nothing and report no button:
`tp_process_button` sets bit 0 of the button state and queues a press or a
release; the motion filter is the identity; `hypot` is the taxicab length. -/
def tp_example_peers : tp_peers :=
  { tp_button_touch_active := fun _ => true,
    tp_edge_scroll_touch_active := fun _ => true,
    tp_button_is_inside_softbutton_area := fun _ => false,
    tp_touch_get_edge_right := fun _ => false,
    tp_process_button := fun state queued _ value =>
      if value ≠ 0 then (state ||| 1, queued ||| TOUCHPAD_EVENT_BUTTON_PRESS)
      else (state &&& c_not32 1, queued ||| TOUCHPAD_EVENT_BUTTON_RELEASE),
    tp_release_all_buttons := fun _ queued => (0, queued),
    tp_tap_handle_state := false,
    tp_post_button_events := false,
    tp_edge_scroll_post_events := false,
    tp_tap_dragging := false,
    filter_dispatch := fun d _ => d,
    filter_dispatch_constant := fun d _ => d,
    tp_unnormalize_for_xaxis := fun d => ⟨d.x, d.y⟩,
    hypot := fun x y => |x| + |y|,
    atan2_deg := fun _ _ => 0,
    atan2_octant := fun _ _ => 0 }

/-- Run a list of inputs through the dispatcher. -/
def tp_run (p : tp_peers) (tp : tp_dispatch) (inputs : List tp_input) : tp_dispatch :=
  inputs.foldl (tp_step p) tp

/-! ## Invariants -/

/-- A touch is down when its state is BEGIN or UPDATE. -/
def tp_touch_down (t : tp_touch) : Bool :=
  decide (t.state = .TOUCH_BEGIN ∨ t.state = .TOUCH_UPDATE)

/-- A touch in BEGIN or END has been updated in the current frame. -/
def tp_touch_dirty_ok (t : tp_touch) : Prop :=
  (t.state = .TOUCH_BEGIN ∨ t.state = .TOUCH_END) → t.dirty = true

/-- Invariant of the touch table: it holds `ntouches` touches, `nfingers_down`
counts the touches that are down, and BEGIN and END only occur on dirty
touches. -/
def tp_touches_inv (touches : List tp_touch) (nfingers_down ntouches : Nat) : Prop :=
  touches.length = ntouches ∧ ntouches < 2 ^ 32 ∧
  nfingers_down = touches.countP tp_touch_down ∧
  ∀ t ∈ touches, tp_touch_dirty_ok t

/-- The invariant of the touch table, on a dispatch. -/
def tp_inv (tp : tp_dispatch) : Prop :=
  tp_touches_inv tp.touches tp.nfingers_down tp.ntouches

/-- The two gesture types that are posted as sessions. -/
inductive gesture_kind where
  | swipe
  | pinch
  deriving DecidableEq, Repr

/-- One step of the session protocol BEGIN, UPDATE*, END over the posted calls:
from the session that is open (its type and finger count, `none` when no
session is open) to the session open after the call; the result is `none`
when the call breaks the protocol. A BEGIN needs no open session; an UPDATE or
END needs an open session of the same type and finger count. -/
def gesture_session_step (s : Option (gesture_kind × Nat)) :
    tp_call → Option (Option (gesture_kind × Nat))
  | .gesture_notify_swipe _ .BEGIN n _ _ => if s = none then some (some (.swipe, n)) else none
  | .gesture_notify_swipe _ .UPDATE n _ _ => if s = some (.swipe, n) then some s else none
  | .gesture_notify_swipe _ .END n _ _ => if s = some (.swipe, n) then some none else none
  | .gesture_notify_swipe_end _ n _ => if s = some (.swipe, n) then some none else none
  | .gesture_notify_pinch _ .BEGIN n _ _ _ _ =>
    if s = none then some (some (.pinch, n)) else none
  | .gesture_notify_pinch _ .UPDATE n _ _ _ _ => if s = some (.pinch, n) then some s else none
  | .gesture_notify_pinch _ .END n _ _ _ _ => if s = some (.pinch, n) then some none else none
  | .gesture_notify_pinch_end _ n _ _ => if s = some (.pinch, n) then some none else none
  | _ => some s

/-- The session protocol over a sequence of calls, from the open session `s`. -/
def gesture_sessions_from (s : Option (gesture_kind × Nat)) :
    List tp_call → Option (Option (gesture_kind × Nat))
  | [] => some s
  | c :: cs =>
    match gesture_session_step s c with
    | none => none
    | some s' => gesture_sessions_from s' cs

/-- The session protocol over all calls posted so far: `some s` when the swipe
and pinch events form sessions BEGIN, UPDATE*, END with one finger count per
session, `s` being the session left open; `none` otherwise. -/
def gesture_sessions (calls : List tp_call) : Option (Option (gesture_kind × Nat)) :=
  gesture_sessions_from none calls

/-- The session that the gesture state says is open. -/
def tp_open_session (g : tp_gesture) : Option (gesture_kind × Nat) :=
  if g.started then
    match g.state with
    | .GESTURE_STATE_SWIPE => some (.swipe, g.finger_count)
    | .GESTURE_STATE_PINCH => some (.pinch, g.finger_count)
    | _ => none
  else none

/-- Invariant of the gesture machine: with no finger counted the machine is at
rest; a started gesture is a scroll, swipe or pinch; the posted calls follow
the session protocol and leave open the session of the started gesture. -/
def tp_gesture_inv (g : tp_gesture) (sink : List tp_call) : Prop :=
  (g.finger_count = 0 → g.state = .GESTURE_STATE_NONE) ∧
  (g.started = true → g.state = .GESTURE_STATE_SCROLL ∨ g.state = .GESTURE_STATE_PINCH ∨
    g.state = .GESTURE_STATE_SWIPE) ∧
  gesture_sessions sink = some (tp_open_session g)

/-- The invariant of the gesture machine, on a dispatch. -/
def tp_ginv (tp : tp_dispatch) : Prop :=
  tp_gesture_inv tp.gesture tp.sink

/-- A touch without the gesture snapshot `gesture.initial`, the only field of
a touch that the gesture machine writes. -/
def tp_touch_core (t : tp_touch) : tp_touch :=
  { t with gesture_initial := ⟨0, 0⟩ }

/-- The part of the dispatch that the invariants of the touch table read and
that the gesture machine does not write: the touches without their gesture
snapshots, `nfingers_down`, `ntouches` and `fake_touches`. -/
def tp_core (tp : tp_dispatch) : List tp_touch × Nat × Nat × Nat :=
  (tp.touches.map tp_touch_core, tp.nfingers_down, tp.ntouches, tp.fake_touches)

/-- The part of the dispatch that the gesture invariant reads: the gesture
record and the session protocol over the posted calls. -/
def tp_gview (tp : tp_dispatch) : tp_gesture × Option (Option (gesture_kind × Nat)) :=
  (tp.gesture, gesture_sessions tp.sink)

/-- Two touches agree on the fields that the classifiers and the gesture
machine never write: `state`, `dirty` and `has_ended`. -/
def tp_touch_skel_eq (t' t : tp_touch) : Prop :=
  t'.state = t.state ∧ t'.dirty = t.dirty ∧ t'.has_ended = t.has_ended

/-- Two dispatches with the same touch table and finger count. -/
def tp_table_eq (tp' tp : tp_dispatch) : Prop :=
  tp'.touches = tp.touches ∧ tp'.nfingers_down = tp.nfingers_down ∧
  tp'.ntouches = tp.ntouches

/-- The part of the dispatch that decides the pinning of a frame: the queued
button press and the buttons. -/
def tp_bview (tp : tp_dispatch) : Nat × tp_buttons :=
  (tp.queued &&& TOUCHPAD_EVENT_BUTTON_PRESS, tp.buttons)

/-- A touch that begins exactly on the left palm edge of `tp_example`. -/
def tp_touch_at_left_edge : tp_touch :=
  { tp_init_touch with state := .TOUCH_BEGIN, dirty := true, point := ⟨100, 600⟩ }

/-- A palm-tagged touch in slot 0 next to a moving finger in slot 1. -/
def tp_example_palm : tp_dispatch :=
  { tp_example with
    nfingers_down := 2,
    touches :=
      [ { tp_init_touch with
          state := .TOUCH_UPDATE, dirty := true, palm.state := .PALM_EDGE,
          history := ⟨⟨⟨0, 0⟩, ⟨10, 0⟩, ⟨20, 0⟩, ⟨30, 0⟩⟩, 3, 4⟩ },
        { tp_init_touch with
          state := .TOUCH_UPDATE, dirty := true,
          history := ⟨⟨⟨500, 500⟩, ⟨504, 500⟩, ⟨508, 500⟩, ⟨512, 500⟩⟩, 3, 4⟩ },
        tp_init_touch ] }

/-- The state `tp_example_palm` with another history for the palm touch. -/
def tp_example_palm' : tp_dispatch :=
  { tp_example_palm with
    touches :=
      [ { tp_init_touch with
          state := .TOUCH_UPDATE, dirty := true, palm.state := .PALM_EDGE,
          history := ⟨⟨⟨0, 0⟩, ⟨100, 0⟩, ⟨200, 0⟩, ⟨300, 0⟩⟩, 3, 4⟩ },
        { tp_init_touch with
          state := .TOUCH_UPDATE, dirty := true,
          history := ⟨⟨⟨500, 500⟩, ⟨504, 500⟩, ⟨508, 500⟩, ⟨512, 500⟩⟩, 3, 4⟩ },
        tp_init_touch ] }

/-- One finger put down in slot 0 of `tp_example`: tracking id, position,
BTN_TOUCH and BTN_TOOL_FINGER, then the sync. -/
def tp_example_touch_down : List tp_input :=
  [ .process EV_ABS ABS_MT_SLOT 0 10, .process EV_ABS ABS_MT_TRACKING_ID 1 10,
    .process EV_ABS ABS_MT_POSITION_X 500 10, .process EV_ABS ABS_MT_POSITION_Y 500 10,
    .process EV_KEY BTN_TOUCH 1 10, .process EV_KEY BTN_TOOL_FINGER 1 10,
    .process EV_SYN 0 0 10 ]

/-- One sync of a touch at position `pos`: the position becomes the point of
the touch and `tp_motion_history_push` stores it in the ring. -/
def tp_push_sample (t : tp_touch) (pos : device_coords) : tp_touch :=
  tp_motion_history_push { t with point := pos }

/-- The positions `ps` pushed in order, oldest first. -/
def tp_push_samples (t : tp_touch) (ps : List device_coords) : tp_touch :=
  ps.foldl tp_push_sample t

/-- A touch that is excluded from pointer motion: palm-tagged, marked thumb
YES, pinned, or not in BEGIN / UPDATE. -/
def tp_touch_excluded (t : tp_touch) : Prop :=
  t.palm.state ≠ .PALM_NONE ∨ t.thumb.state = .THUMB_STATE_YES ∨ t.pinned.is_pinned = true ∨
    ¬ (t.state = .TOUCH_BEGIN ∨ t.state = .TOUCH_UPDATE)

/-- Two touch tables that differ only in the position history of excluded
touches. -/
def tp_touches_differ_in_excluded_history (l l' : List tp_touch) : Prop :=
  List.Forall₂ (fun t t' => t' = t ∨ (tp_touch_excluded t ∧ t' = { t with history := t'.history }))
    l l'

/-- The press of the physical button of `tp_example`, before the sync of its
frame. -/
def tp_example_click : List tp_input :=
  [ .process EV_KEY BTN_LEFT 1 20 ]

/-- A touch whose sequence has ended and that is not on the surface: it is in
NONE or still in END, with `has_ended` set. -/
def tp_touch_ended (t : tp_touch) : Prop :=
  (t.state = .TOUCH_NONE ∨ t.state = .TOUCH_END) ∧ t.has_ended = true

/-- A dispatch in which every touch has been ended and no fake touch is left,
as `tp_clear_state` leaves it before its final frame. -/
def tp_cleared (tp : tp_dispatch) : Prop :=
  tp_inv tp ∧ tp.fake_touches = 0 ∧ ∀ t ∈ tp.touches, tp_touch_ended t

/-- The effect of `tp_end_sequence` on the touch it is called for: `has_ended`
is set; a hovering touch goes to NONE, a touch in NONE or END keeps its state,
and a touch in BEGIN or UPDATE is ended as by `tp_end_touch`. -/
def tp_end_sequence_touch (time : Nat) (t : tp_touch) : tp_touch :=
  match t.state with
  | .TOUCH_HOVERING => { t with has_ended := true, state := .TOUCH_NONE }
  | .TOUCH_NONE => { t with has_ended := true }
  | .TOUCH_END => { t with has_ended := true }
  | _ =>
    { t with
      has_ended := true, dirty := true, palm.state := .PALM_NONE, state := .TOUCH_END,
      pinned.is_pinned := false, millis := time, palm.time := 0 }

/-- A touchpad like `tp_example` whose keyboard was last pressed at 5000 and has
timed out since. -/
def tp_example_typed : tp_dispatch :=
  { tp_example with dwt.keyboard_last_press_time := 5000 }

/-- A touch in UPDATE that was tagged PALM_TYPING and whose palm-mark time is
the time of the last key press of `tp_example_typed`. -/
def tp_touch_typing : tp_touch :=
  { tp_init_touch with
    state := .TOUCH_UPDATE, dirty := true, point := ⟨600, 600⟩,
    palm := ⟨.PALM_TYPING, ⟨600, 600⟩, 5000⟩ }

/-- A touch that begins above the upper thumb line of `tp_example` with a
pressure above the thumb threshold. -/
def tp_touch_heavy_above_line : tp_touch :=
  { tp_init_touch with
    state := .TOUCH_BEGIN, dirty := true, point := ⟨600, 100⟩, pressure := 200,
    thumb := ⟨.THUMB_STATE_MAYBE, ⟨0, 0⟩, 1000⟩ }

/-- A light touch resting below the lower thumb line of `tp_example` since
time 1000, at the point where it began. -/
def tp_touch_lingering : tp_touch :=
  { tp_init_touch with
    state := .TOUCH_UPDATE, dirty := true, point := ⟨600, 960⟩, pressure := 10,
    thumb := ⟨.THUMB_STATE_MAYBE, ⟨600, 960⟩, 1000⟩ }

/-- Calls that post pointer motion, scroll motion or a gesture begin or
update: `pointer_notify_motion`, `gesture_notify_swipe`,
`gesture_notify_pinch`, `evdev_post_scroll` and `tp_edge_scroll_post_events`. -/
def tp_call_is_motion : tp_call → Bool
  | .pointer_notify_motion _ _ _ => true
  | .gesture_notify_swipe _ _ _ _ _ => true
  | .gesture_notify_pinch _ _ _ _ _ _ _ => true
  | .evdev_post_scroll _ _ => true
  | .tp_edge_scroll_post_events _ => true
  | _ => false

/-- Two resting fingers 200 units apart on `tp_example`, with the gesture
machine in UNKNOWN for two fingers since time 1000. -/
def tp_example_two_fingers : tp_dispatch :=
  { tp_example with
    nfingers_down := 2,
    touches :=
      [ { tp_init_touch with
          state := .TOUCH_UPDATE, dirty := true, has_ended := false,
          point := ⟨500, 500⟩, gesture_initial := ⟨500, 500⟩ },
        { tp_init_touch with
          state := .TOUCH_UPDATE, dirty := true, has_ended := false,
          point := ⟨700, 500⟩, gesture_initial := ⟨700, 500⟩ },
        tp_init_touch ],
    gesture := { tp_example.gesture with
      state := .GESTURE_STATE_UNKNOWN, finger_count := 2, touches0 := 0, touches1 := 1,
      initial_time := 1000 } }

/-- A touchpad like `tp_example` while the keyboard is active. -/
def tp_example_keyboard_active : tp_dispatch :=
  { tp_example with dwt.keyboard_active := true, dwt.keyboard_last_press_time := 5000 }

/-- A touch in UPDATE that was tagged PALM_EDGE at time 1000 on the left edge
of `tp_example` and has moved to the right since. -/
def tp_touch_edge_palm : tp_touch :=
  { tp_init_touch with
    state := .TOUCH_UPDATE, dirty := true, has_ended := false, point := ⟨300, 600⟩,
    palm := ⟨.PALM_EDGE, ⟨50, 600⟩, 1000⟩ }

/-- The active touches that `tp_gesture_handle_state_none` looks at, in the
words of its contract: the first four active touches in slot order. -/
def tp_gesture_active4 (p : tp_peers) (tp : tp_dispatch) : List Nat :=
  ((List.range tp.ntouches).filter (fun i => tp_touch_active p tp i)).take 4

/-- The touches considered for the left-most and right-most touch: the first
`min(n, num_slots)` of the `n` touches of `tp_gesture_active4`. -/
def tp_gesture_considered (p : tp_peers) (tp : tp_dispatch) : List Nat :=
  (tp_gesture_active4 p tp).take (min (tp_gesture_active4 p tp).length tp.num_slots)

/-- Three fingers down on a three-slot touchpad like `tp_example`, the middle
slot holding the left-most finger and the last slot the right-most one. -/
def tp_example_three_fingers : tp_dispatch :=
  { tp_example with
    nfingers_down := 3, num_slots := 3,
    touches :=
      [ { tp_init_touch with
          state := .TOUCH_UPDATE, dirty := true, has_ended := false, point := ⟨500, 500⟩ },
        { tp_init_touch with
          state := .TOUCH_UPDATE, dirty := true, has_ended := false, point := ⟨300, 500⟩ },
        { tp_init_touch with
          state := .TOUCH_UPDATE, dirty := true, has_ended := false, point := ⟨700, 500⟩ } ] }

/-- Between frames a palm-tagged touch is in UPDATE. -/
def tp_touch_palm_ok (t : tp_touch) : Prop :=
  t.palm.state ≠ .PALM_NONE → t.state = .TOUCH_UPDATE

instance (t : tp_touch) : Decidable (tp_touch_palm_ok t) := by
  unfold tp_touch_palm_ok; infer_instance

/-- The invariant of the palm tags between frames, and within a frame until
the touches are classified. -/
def tp_pinv (tp : tp_dispatch) : Prop :=
  ∀ t ∈ tp.touches, tp_touch_palm_ok t

/-- Within a frame, once the touches are classified, a palm-tagged touch is in
BEGIN or UPDATE. -/
def tp_touch_palm_down (t : tp_touch) : Prop :=
  t.palm.state ≠ .PALM_NONE → (t.state = .TOUCH_BEGIN ∨ t.state = .TOUCH_UPDATE)

/-- The invariant of the palm tags within a frame. -/
def tp_pinv_frame (tp : tp_dispatch) : Prop :=
  ∀ t ∈ tp.touches, tp_touch_palm_down t

/-- The dispatch on which the per-touch loop of `tp_process_state` runs: after
`tp_process_fake_touches`, `tp_unhover_touches` and
`tp_position_fake_touches`. -/
def tp_process_state_unhovered (tp : tp_dispatch) (time : Nat) : tp_dispatch :=
  tp_position_fake_touches (tp_unhover_touches (tp_process_fake_touches tp time) time)

/-- A finger put down at x = 50, left of the left palm edge of `tp_example`,
and its first frame. -/
def tp_example_edge_touch_down : List tp_input :=
  [ .process EV_ABS ABS_MT_SLOT 0 10, .process EV_ABS ABS_MT_TRACKING_ID 1 10,
    .process EV_ABS ABS_MT_POSITION_X 50 10, .process EV_ABS ABS_MT_POSITION_Y 600 10,
    .process EV_KEY BTN_TOUCH 1 10, .process EV_KEY BTN_TOOL_FINGER 1 10,
    .process EV_SYN 0 0 10 ]

/-- A touchpad like `tp_example` with the tool bits of BTN_TOOL_FINGER and
BTN_TOOL_DOUBLETAP both set, as between the two key events of a switch from
one to two fingers. -/
def tp_example_two_tool_bits : tp_dispatch :=
  { tp_example with fake_touches := 6 }

/-- A touchpad like `tp_example` with BTN_TOUCH down, after a press of
BTN_TOOL_QUINTTAP. -/
def tp_example_overflow : tp_dispatch :=
  tp_fake_finger_set { tp_example with fake_touches := 1 } BTN_TOOL_QUINTTAP true
/-- The bit of `fake_touches` that stands for a tool key: 0 for BTN_TOUCH and
1, 2, 3, 4 for BTN_TOOL_FINGER, DOUBLETAP, TRIPLETAP, QUADTAP. -/
def tp_fake_finger_bit (code : Nat) : Option Nat :=
  if code = BTN_TOUCH then some 0
  else if code = BTN_TOOL_FINGER then some 1
  else if code = BTN_TOOL_DOUBLETAP then some 2
  else if code = BTN_TOOL_TRIPLETAP then some 3
  else if code = BTN_TOOL_QUADTAP then some 4
  else none

/-- A started three-finger swipe on `tp_example` while a change to two fingers
is already pending, with two active touches in the table. -/
def tp_example_pending_switch : tp_dispatch :=
  { tp_example with
    nfingers_down := 2,
    touches :=
      [ { tp_init_touch with
          state := .TOUCH_UPDATE, dirty := true, has_ended := false, point := ⟨500, 500⟩ },
        { tp_init_touch with
          state := .TOUCH_UPDATE, dirty := true, has_ended := false, point := ⟨700, 500⟩ },
        tp_init_touch ],
    gesture := { tp_example.gesture with
      state := .GESTURE_STATE_SWIPE, started := true, finger_count := 3,
      finger_count_pending := 2 },
    sink := [.gesture_notify_swipe 100 .BEGIN 3 ⟨0, 0⟩ ⟨0, 0⟩] }

/-! ## filter.c: the pointer acceleration filter -/

/-- Source: `v_us2ms`: units/us to units/ms. -/
def v_us2ms (units_per_us : ℚ) : ℚ := units_per_us * 1000

/-- Source: `v_ms2us`: units/ms to units/us. -/
def v_ms2us (units_per_ms : ℚ) : ℚ := units_per_ms / 1000

/-- Source: `DEFAULT_THRESHOLD v_ms2us(0.4)` -/
def DEFAULT_THRESHOLD : ℚ := v_ms2us (4 / 10)
/-- Source: `MINIMUM_THRESHOLD v_ms2us(0.2)` -/
def MINIMUM_THRESHOLD : ℚ := v_ms2us (2 / 10)
/-- Source: `DEFAULT_ACCELERATION 2.0` -/
def DEFAULT_ACCELERATION : ℚ := 2
/-- Source: `DEFAULT_INCLINE 1.1` -/
def DEFAULT_INCLINE : ℚ := 11 / 10
/-- Source: `MAX_VELOCITY_DIFF v_ms2us(1)` -/
def MAX_VELOCITY_DIFF : ℚ := v_ms2us 1
/-- Source: `MOTION_TIMEOUT ms2us(1000)` -/
def MOTION_TIMEOUT : Nat := ms2us 1000
/-- Source: `NUM_POINTER_TRACKERS 16` -/
def NUM_POINTER_TRACKERS : Nat := 16
/-- Modelled from the spec: `DEFAULT_MOUSE_DPI` of the utility header, which is
not among the sources; deltas are "1000dpi normalized". -/
def DEFAULT_MOUSE_DPI : Nat := 1000

/-- Source: `struct pointer_tracker` -/
structure pointer_tracker where
  delta : normalized_coords
  time : Nat
  dir : Nat
  deriving DecidableEq, Repr

instance : Inhabited pointer_tracker := ⟨⟨⟨0, 0⟩, 0, 0⟩⟩

/-- The acceleration profiles that `create_pointer_accelerator_filter_linear`,
`create_pointer_accelerator_filter_touchpad` and
`create_pointer_accelerator_filter_linear_low_dpi` install in `profile`. -/
inductive accel_profile where
  | linear
  | touchpad
  | linear_low_dpi
  deriving DecidableEq, Repr

/-- Source: `struct pointer_accelerator`; `speed_adjustment` is the field of
the embedded `struct motion_filter base` that `filter_get_speed` reads
(modelled from the spec: the filter header is not among the sources). -/
structure pointer_accelerator where
  speed_adjustment : ℚ
  profile : accel_profile
  velocity : ℚ
  last_velocity : ℚ
  trackers : List pointer_tracker
  cur_tracker : Nat
  threshold : ℚ
  accel : ℚ
  incline : ℚ
  dpi_factor : ℚ
  deriving DecidableEq, Repr

/-- Source: `filter_get_speed` -/
def filter_get_speed (filter : pointer_accelerator) : ℚ :=
  filter.speed_adjustment

/-- Source: `feed_trackers` -/
def feed_trackers (p : tp_peers) (accel : pointer_accelerator) (delta : normalized_coords)
    (time : Nat) : pointer_accelerator :=
  let trackers := accel.trackers.map (fun t =>
    { t with delta := ⟨t.delta.x + delta.x, t.delta.y + delta.y⟩ })
  let current := (accel.cur_tracker + 1) % NUM_POINTER_TRACKERS
  { accel with
    cur_tracker := current,
    trackers := trackers.set current
      { delta := ⟨0, 0⟩, time := time, dir := normalized_get_direction p delta } }

/-- Source: `tracker_by_offset`: the index of the tracker. -/
def tracker_index_by_offset (accel : pointer_accelerator) (offset : Nat) : Nat :=
  ((accel.cur_tracker + NUM_POINTER_TRACKERS + 2 ^ 32 - offset % 2 ^ 32) % 2 ^ 32) %
    NUM_POINTER_TRACKERS

/-- Source: `tracker_by_offset` -/
def tracker_by_offset (accel : pointer_accelerator) (offset : Nat) : pointer_tracker :=
  accel.trackers.getD (tracker_index_by_offset accel offset) default

/-- Source: `calculate_tracker_velocity`; `time - tracker->time + 1` is computed
on `uint64_t` and converted to `double`. -/
def calculate_tracker_velocity (p : tp_peers) (tracker : pointer_tracker) (time : Nat) : ℚ :=
  let tdelta : ℚ := (((time + 2 ^ 64 - tracker.time % 2 ^ 64) % 2 ^ 64 + 1) % 2 ^ 64 : Nat)
  normalized_length p tracker.delta / tdelta

/-- Source: `calculate_velocity_after_timeout` -/
def calculate_velocity_after_timeout (p : tp_peers) (tracker : pointer_tracker) : ℚ :=
  calculate_tracker_velocity p tracker ((tracker.time + MOTION_TIMEOUT) % 2 ^ 64)

/-- The loop of `calculate_velocity` over the offsets still to visit, with the
current values of `result`, `initial_velocity` and `dir`; a `break` returns
`result`. -/
def calculate_velocity_loop (p : tp_peers) (accel : pointer_accelerator) (time : Nat) :
    List Nat → ℚ → ℚ → Nat → ℚ
  | [], result, _, _ => result
  | offset :: rest, result, initial_velocity, dir =>
    let tracker := tracker_by_offset accel offset
    if (time + 2 ^ 64 - tracker.time % 2 ^ 64) % 2 ^ 64 > MOTION_TIMEOUT ∨
        tracker.time > time then
      if offset = 1 then calculate_velocity_after_timeout p tracker else result
    else
      let velocity := calculate_tracker_velocity p tracker time
      let dir := dir &&& tracker.dir
      if dir = 0 then
        if offset = 1 then velocity else result
      else if initial_velocity = 0 then
        calculate_velocity_loop p accel time rest velocity velocity dir
      else
        let velocity_diff := |initial_velocity - velocity|
        if velocity_diff > MAX_VELOCITY_DIFF then result
        else calculate_velocity_loop p accel time rest velocity initial_velocity dir

/-- Source: `calculate_velocity` -/
def calculate_velocity (p : tp_peers) (accel : pointer_accelerator) (time : Nat) : ℚ :=
  calculate_velocity_loop p accel time (List.range' 1 (NUM_POINTER_TRACKERS - 1)) 0 0
    (tracker_by_offset accel 0).dir

/-- Source: `pointer_accel_profile_linear`; `speed_in` is in units/us. -/
def pointer_accel_profile_linear (accel_filter : pointer_accelerator) (speed_in : ℚ)
    (_time : Nat) : ℚ :=
  let max_accel := accel_filter.accel
  let threshold := accel_filter.threshold
  let incline := accel_filter.incline
  let factor : ℚ :=
    if v_us2ms speed_in < 7 / 100 then 10 * v_us2ms speed_in + 3 / 10
    else if speed_in < threshold then 1
    else incline * v_us2ms (speed_in - threshold) + 1
  min max_accel factor

/-- Source: `pointer_accel_profile_linear_low_dpi`; `speed_in` is in device
units per us. -/
def pointer_accel_profile_linear_low_dpi (accel_filter : pointer_accelerator) (speed_in : ℚ)
    (_time : Nat) : ℚ :=
  let dpi_factor := accel_filter.dpi_factor
  let max_accel := accel_filter.accel / dpi_factor
  let threshold := accel_filter.threshold * dpi_factor
  let incline := accel_filter.incline
  let factor : ℚ :=
    if v_us2ms speed_in < 7 / 100 then 10 * v_us2ms speed_in + 3 / 10
    else if speed_in < threshold then 1
    else incline * v_us2ms (speed_in - threshold) + 1
  min max_accel factor

/-- Source: `touchpad_accel_profile_linear` -/
def touchpad_accel_profile_linear (accel_filter : pointer_accelerator) (speed_in : ℚ)
    (time : Nat) : ℚ :=
  let TP_MAGIC_SLOWDOWN : ℚ := 4 / 10
  let speed_in := speed_in * TP_MAGIC_SLOWDOWN
  let factor := pointer_accel_profile_linear accel_filter speed_in time
  factor * TP_MAGIC_SLOWDOWN

/-- Source: `acceleration_profile`: the call through `accel->profile`. -/
def acceleration_profile (accel : pointer_accelerator) (velocity : ℚ) (time : Nat) : ℚ :=
  match accel.profile with
  | .linear => pointer_accel_profile_linear accel velocity time
  | .touchpad => touchpad_accel_profile_linear accel velocity time
  | .linear_low_dpi => pointer_accel_profile_linear_low_dpi accel velocity time

/-- Source: `calculate_acceleration` -/
def calculate_acceleration (accel : pointer_accelerator) (velocity last_velocity : ℚ)
    (time : Nat) : ℚ :=
  let factor := acceleration_profile accel velocity time
  let factor := factor + acceleration_profile accel last_velocity time
  let factor := factor + 4 * acceleration_profile accel ((last_velocity + velocity) / 2) time
  factor / 6

/-- Source: `calculate_acceleration_factor`: the factor and the filter after the
call. -/
def calculate_acceleration_factor (p : tp_peers) (accel : pointer_accelerator)
    (unaccelerated : normalized_coords) (time : Nat) : ℚ × pointer_accelerator :=
  let accel := feed_trackers p accel unaccelerated time
  let velocity := calculate_velocity p accel time
  let accel_factor := calculate_acceleration accel velocity accel.last_velocity time
  (accel_factor, { accel with last_velocity := velocity })

/-- Source: `accelerator_filter`: the accelerated delta and the filter after the
call. -/
def accelerator_filter (p : tp_peers) (filter : pointer_accelerator)
    (unaccelerated : normalized_coords) (time : Nat) :
    normalized_coords × pointer_accelerator :=
  let r := calculate_acceleration_factor p filter unaccelerated time
  (⟨r.1 * unaccelerated.x, r.1 * unaccelerated.y⟩, r.2)

/-- Source: `accelerator_filter_low_dpi`: the accelerated delta and the filter
after the call. -/
def accelerator_filter_low_dpi (p : tp_peers) (filter : pointer_accelerator)
    (unaccelerated : normalized_coords) (time : Nat) :
    normalized_coords × pointer_accelerator :=
  let dpi_factor := min 1 filter.dpi_factor
  let unnormalized : normalized_coords :=
    ⟨unaccelerated.x * dpi_factor, unaccelerated.y * dpi_factor⟩
  let r := calculate_acceleration_factor p filter unnormalized time
  (⟨r.1 * unnormalized.x, r.1 * unnormalized.y⟩, r.2)

/-- Source: `accelerator_restart` -/
def accelerator_restart (filter : pointer_accelerator) (time : Nat) : pointer_accelerator :=
  let trackers := (List.range' 1 (NUM_POINTER_TRACKERS - 1)).foldl
    (fun (trackers : List pointer_tracker) offset =>
      trackers.set (tracker_index_by_offset filter offset)
        { delta := ⟨0, 0⟩, time := 0, dir := 0 })
    filter.trackers
  let i0 := tracker_index_by_offset filter 0
  { filter with
    trackers := trackers.set i0
      { trackers.getD i0 default with time := time, dir := UNDEFINED_DIRECTION } }

/-- Source: `accelerator_set_speed`: `none` when the `assert` on the range of
`speed_adjustment` fails, otherwise the return value and the filter. -/
def accelerator_set_speed (filter : pointer_accelerator) (speed_adjustment : ℚ) :
    Option (Bool × pointer_accelerator) :=
  if ¬ (speed_adjustment ≥ -1 ∧ speed_adjustment ≤ 1) then none
  else
    let threshold := DEFAULT_THRESHOLD - v_ms2us (25 / 100) * speed_adjustment
    let threshold := if threshold < MINIMUM_THRESHOLD then MINIMUM_THRESHOLD else threshold
    some (true,
      { filter with
        threshold := threshold,
        accel := DEFAULT_ACCELERATION + speed_adjustment * (15 / 10),
        incline := DEFAULT_INCLINE + speed_adjustment * (75 / 100),
        speed_adjustment := speed_adjustment })

/-- Source: `create_default_filter`, for a successful allocation. -/
def create_default_filter (dpi : Int) (profile : accel_profile) : pointer_accelerator :=
  { speed_adjustment := 0,
    profile := profile,
    velocity := 0,
    last_velocity := 0,
    trackers := List.replicate NUM_POINTER_TRACKERS { delta := ⟨0, 0⟩, time := 0, dir := 0 },
    cur_tracker := 0,
    threshold := DEFAULT_THRESHOLD,
    accel := DEFAULT_ACCELERATION,
    incline := DEFAULT_INCLINE,
    dpi_factor := (dpi : ℚ) / (DEFAULT_MOUSE_DPI : ℚ) }

/-- Source: `create_pointer_accelerator_filter_linear` -/
def create_pointer_accelerator_filter_linear (dpi : Int) : pointer_accelerator :=
  create_default_filter dpi .linear

/-- Source: `create_pointer_accelerator_filter_linear_low_dpi` -/
def create_pointer_accelerator_filter_linear_low_dpi (dpi : Int) : pointer_accelerator :=
  create_default_filter dpi .linear_low_dpi

/-- Source: `create_pointer_accelerator_filter_touchpad` -/
def create_pointer_accelerator_filter_touchpad (dpi : Int) : pointer_accelerator :=
  create_default_filter dpi .touchpad

/-- Source: `tp_filter_motion`, with the motion filter of the device as explicit
state and `filter_dispatch` resolved to `accelerator_filter`: the returned
delta and the filter after the call. -/
def tp_filter_motion_accelerator (p : tp_peers) (filter : pointer_accelerator)
    (unaccelerated : normalized_coords) (time : Nat) :
    normalized_coords × pointer_accelerator :=
  if normalized_is_zero unaccelerated then (unaccelerated, filter)
  else accelerator_filter p filter unaccelerated time

/-- One call into the acceleration filter. -/
inductive filter_input where
  /-- A call of `accelerator_set_speed` with `speed_adjustment` in [-1, 1]. -/
  | set_speed (speed_adjustment : ℚ)
  /-- A call of `accelerator_filter`. -/
  | filter (unaccelerated : normalized_coords) (time : Nat)
  /-- A call of `accelerator_restart`. -/
  | restart (time : Nat)

/-- One call into the acceleration filter; a `set_speed` outside [-1, 1]
trips the `assert` and is not a step. -/
def filter_step (p : tp_peers) (filter : pointer_accelerator) :
    filter_input → Option pointer_accelerator
  | .set_speed s => (accelerator_set_speed filter s).map Prod.snd
  | .filter unaccelerated time => some (accelerator_filter p filter unaccelerated time).2
  | .restart time => some (accelerator_restart filter time)

/-- The filters reachable from `create_pointer_accelerator_filter_linear` or
`create_pointer_accelerator_filter_touchpad` by calls of
`accelerator_set_speed`, `accelerator_filter` and `accelerator_restart`, with
the C library of `p`. -/
inductive filter_reachable (p : tp_peers) : pointer_accelerator → Prop where
  | linear (dpi : Int) : filter_reachable p (create_pointer_accelerator_filter_linear dpi)
  | touchpad (dpi : Int) : filter_reachable p (create_pointer_accelerator_filter_touchpad dpi)
  | step (filter filter' : pointer_accelerator) (input : filter_input) :
      filter_reachable p filter → filter_step p filter input = some filter' →
      filter_reachable p filter'
/-- The invariant of the acceleration filter that the sign of the factor rests
on: the last velocity is not negative, the cap is at least 0.5, the incline
is not negative, and the profile is the linear or the touchpad one. -/
def filter_inv (filter : pointer_accelerator) : Prop :=
  0 ≤ filter.last_velocity ∧ 1 / 2 ≤ filter.accel ∧ 0 ≤ filter.incline ∧
  filter.profile ≠ .linear_low_dpi

/-- A distance-reporting device with a touch hovering at distance 0, a touch in
UPDATE that has risen to distance 3, and an unused touch. -/
def tp_example_hovering : tp_dispatch :=
  { tp_example with
    reports_distance := true, nfingers_down := 1,
    touches := [{ tp_init_touch with state := .TOUCH_HOVERING, has_ended := false },
      { tp_init_touch with state := .TOUCH_UPDATE, has_ended := false, distance := 3 },
      tp_init_touch] }

/-- The payload that a BEGIN event must carry: a pinch BEGIN has zero delta,
zero unaccelerated delta, scale 1 and angle 0; a swipe BEGIN has zero delta and
zero unaccelerated delta. Every other call passes. -/
def tp_call_begin_ok : tp_call → Bool
  | .gesture_notify_pinch _ .BEGIN _ delta unaccel scale angle =>
    decide (delta = ⟨0, 0⟩ ∧ unaccel = ⟨0, 0⟩ ∧ scale = .fin 1 ∧ angle = 0)
  | .gesture_notify_swipe _ .BEGIN _ delta unaccel =>
    decide (delta = ⟨0, 0⟩ ∧ unaccel = ⟨0, 0⟩)
  | _ => true

/-- Every BEGIN event posted so far carries the payload of `tp_call_begin_ok`. -/
def tp_begins_ok (tp : tp_dispatch) : Bool :=
  tp.sink.all tp_call_begin_ok

/-- Two touches 850 units apart vertically on `tp_example` (20 mm are 800
units), both active, with the gesture machine in UNKNOWN for two fingers since
time 0 and nothing posted. -/
def tp_example_pinch_commit : tp_dispatch :=
  { tp_example with
    nfingers_down := 2,
    touches := [
      { tp_init_touch with
        state := .TOUCH_UPDATE, has_ended := false, dirty := true, point := ⟨500, 100⟩,
        gesture_initial := ⟨500, 100⟩ },
      { tp_init_touch with
        state := .TOUCH_UPDATE, has_ended := false, dirty := true, point := ⟨500, 950⟩,
        gesture_initial := ⟨500, 950⟩ },
      tp_init_touch],
    gesture := { tp_example.gesture with
      state := .GESTURE_STATE_UNKNOWN, finger_count := 2, touches0 := 0, touches1 := 1,
      initial_time := 0 } }

/-- The shape of the tracker ring: `NUM_POINTER_TRACKERS` trackers, `cur_tracker`
an index into them, and a zero delta in the current tracker. -/
def filter_ring_inv (filter : pointer_accelerator) : Prop :=
  filter.trackers.length = NUM_POINTER_TRACKERS ∧
  filter.cur_tracker < NUM_POINTER_TRACKERS ∧
  (tracker_by_offset filter 0).delta = ⟨0, 0⟩

/-- Consecutive calls of `feed_trackers`, one per pair of a delta and its time,
in the order of the list. -/
def feed_trackers_list (p : tp_peers) (accel : pointer_accelerator)
    (feeds : List (normalized_coords × Nat)) : pointer_accelerator :=
  feeds.foldl (fun a d => feed_trackers p a d.1 d.2) accel

/-- The sum of a list of deltas, accumulated from zero in the order of the
list, as the `+=` of `feed_trackers` does. -/
def normalized_sum (l : List normalized_coords) : normalized_coords :=
  l.foldl (fun a d => ⟨a.x + d.x, a.y + d.y⟩) ⟨0, 0⟩

/-- A started two-finger scroll on `tp_example` during which a third finger
was put down: the two real touches are moving, the switch to three fingers is
pending, and one scroll event has been posted. -/
def tp_example_scroll_pending : tp_dispatch :=
  { tp_example with
    nfingers_down := 3, old_nfingers_down := 3, fake_touches := 0x9,
    touches := [{ tp_init_touch with state := .TOUCH_UPDATE, has_ended := false,
                                     point := ⟨500, 500⟩ },
                { tp_init_touch with state := .TOUCH_UPDATE, has_ended := false,
                                     point := ⟨700, 500⟩ },
                { tp_init_touch with state := .TOUCH_UPDATE, has_ended := false,
                                     point := ⟨500, 500⟩ }],
    gesture := { tp_example.gesture with
                 started := true, finger_count := 2, finger_count_pending := 3,
                 state := .GESTURE_STATE_SCROLL, touches1 := 1 },
    sink := [.evdev_post_scroll 100 ⟨0, 5⟩] }

/-- A non-semi-mt touchpad with 2 slots and 5 touches on which a fourth
finger has just been reported (BTN_TOOL_QUADTAP) after three were down: both
finger counts lie above `num_slots`. -/
def tp_example_four_fingers : tp_dispatch :=
  { tp_example with
    ntouches := 5, nfingers_down := 4, old_nfingers_down := 3, fake_touches := 0x11,
    touches := [{ tp_init_touch with state := .TOUCH_UPDATE, has_ended := false,
                                     point := ⟨500, 500⟩ },
                { tp_init_touch with state := .TOUCH_UPDATE, has_ended := false,
                                     point := ⟨700, 500⟩ },
                { tp_init_touch with state := .TOUCH_UPDATE, has_ended := false,
                                     point := ⟨500, 500⟩ },
                { tp_init_touch with state := .TOUCH_BEGIN, dirty := true, has_ended := false,
                                     point := ⟨500, 500⟩ },
                tp_init_touch] }

/-- The state `tp_example` while the trackpoint is active. -/
def tp_example_trackpoint_active : tp_dispatch :=
  { tp_example with palm := { tp_example.palm with trackpoint_active := true } }

/-- Three fingers on `tp_example`, which has 2 slots: the two real touches at
(500, 600) and (700, 400), and one synthetic touch reported through
BTN_TOOL_TRIPLETAP. -/
def tp_example_fake_third_finger : tp_dispatch :=
  { tp_example with
    nfingers_down := 3, old_nfingers_down := 3, fake_touches := 0x9,
    touches := [{ tp_init_touch with state := .TOUCH_UPDATE, has_ended := false, point := ⟨500, 600⟩ },
                { tp_init_touch with state := .TOUCH_UPDATE, has_ended := false, point := ⟨700, 400⟩ },
                { tp_init_touch with state := .TOUCH_UPDATE, has_ended := false, point := ⟨0, 0⟩ }] }

/-- The motion histories that the code can produce, with the points pushed
since the last `tp_motion_history_reset`, newest first: the history of a fresh
touch holds none, `tp_motion_history_push` adds the point of the touch, and
`tp_motion_history_reset` forgets them all. -/
inductive tp_history_trace : tp_history → List device_coords → Prop where
  | init : tp_history_trace tp_init_touch.history []
  | push (t : tp_touch) (l : List device_coords) :
      tp_history_trace t.history l →
      tp_history_trace (tp_motion_history_push t).history (t.point :: l)
  | reset (t : tp_touch) (l : List device_coords) :
      tp_history_trace t.history l →
      tp_history_trace (tp_motion_history_reset t).history []

/-- The history of a touch is one the code can produce. -/
def tp_touch_history_ok (t : tp_touch) : Prop :=
  ∃ l, tp_history_trace t.history l

/-- Every touch of the dispatch has a history the code can produce. -/
def tp_hinv (tp : tp_dispatch) : Prop :=
  ∀ t ∈ tp.touches, tp_touch_history_ok t

/-- Two fingers put down on `tp_example` and held still for more than the
two-finger scroll timeout (a pressure change is the only event of the second
frame), then the tool bits of a third finger. -/
def tp_example_rest_then_third_finger : List tp_input :=
  [ .process EV_ABS ABS_MT_SLOT 0 10, .process EV_ABS ABS_MT_TRACKING_ID 1 10,
    .process EV_ABS ABS_MT_POSITION_X 500 10, .process EV_ABS ABS_MT_POSITION_Y 500 10,
    .process EV_ABS ABS_MT_SLOT 1 10, .process EV_ABS ABS_MT_TRACKING_ID 2 10,
    .process EV_ABS ABS_MT_POSITION_X 700 10, .process EV_ABS ABS_MT_POSITION_Y 500 10,
    .process EV_KEY BTN_TOUCH 1 10, .process EV_KEY BTN_TOOL_DOUBLETAP 1 10,
    .process EV_SYN 0 0 10,
    .process EV_ABS ABS_MT_PRESSURE 30 600000,
    .process EV_SYN 0 0 600000,
    .process EV_KEY BTN_TOOL_DOUBLETAP 0 700000,
    .process EV_KEY BTN_TOOL_TRIPLETAP 1 700000 ]

/-- One frame in which the touches of slots 0 and 1 both move to the height
`y` at time `t`. -/
def tp_example_move_two (y : Int) (t : Nat) : List tp_input :=
  [ .process EV_ABS ABS_MT_SLOT 0 t, .process EV_ABS ABS_MT_POSITION_Y y t,
    .process EV_ABS ABS_MT_SLOT 1 t, .process EV_ABS ABS_MT_POSITION_Y y t,
    .process EV_SYN 0 0 t ]

/-- The run `tp_example_rest_then_third_finger`, the frame of the third
finger, and four frames in which the two real touches move down. -/
def tp_example_three_finger_scroll : List tp_input :=
  tp_example_rest_then_third_finger ++ [.process EV_SYN 0 0 700000] ++
    tp_example_move_two 520 710000 ++ tp_example_move_two 540 720000 ++
    tp_example_move_two 560 730000 ++ tp_example_move_two 580 740000

/-- Two fingers put down on `tp_example` that move down at once, which starts
a two-finger scroll, and then the frame of a third finger. -/
def tp_example_scroll_then_third_finger : List tp_input :=
  tp_example_rest_then_third_finger.take 11 ++
    tp_example_move_two 520 20000 ++ tp_example_move_two 540 30000 ++
    tp_example_move_two 560 40000 ++ tp_example_move_two 580 50000 ++
    [ .process EV_KEY BTN_TOOL_DOUBLETAP 0 60000,
      .process EV_KEY BTN_TOOL_TRIPLETAP 1 60000,
      .process EV_SYN 0 0 60000 ]

/-- Peers like `tp_example_peers` whose `atan2_octant` gives the values of
libm for the two vertical directions: 0 for a delta that points north (x = 0,
y < 0) and 4 for one that points south (x = 0, y > 0). The other directions do
not occur in the runs that use these peers. -/
def tp_example_peers_vertical : tp_peers :=
  { tp_example_peers with
    atan2_octant := fun y x => if x = 0 ∧ y < 0 then 0 else if x = 0 ∧ y > 0 then 4 else 2 }

/-- Two fingers put down on `tp_example` at (500, 500) and (500, 300) that
move towards each other; after the hysteresis both touches are at
(500, 400). -/
def tp_example_fingers_meet : List tp_input :=
  [ .process EV_ABS ABS_MT_SLOT 0 10, .process EV_ABS ABS_MT_TRACKING_ID 1 10,
    .process EV_ABS ABS_MT_POSITION_X 500 10, .process EV_ABS ABS_MT_POSITION_Y 500 10,
    .process EV_ABS ABS_MT_SLOT 1 10, .process EV_ABS ABS_MT_TRACKING_ID 2 10,
    .process EV_ABS ABS_MT_POSITION_X 500 10, .process EV_ABS ABS_MT_POSITION_Y 300 10,
    .process EV_KEY BTN_TOUCH 1 10, .process EV_KEY BTN_TOOL_DOUBLETAP 1 10,
    .process EV_SYN 0 0 10,
    .process EV_ABS ABS_MT_SLOT 0 20000, .process EV_ABS ABS_MT_POSITION_Y 398 20000,
    .process EV_ABS ABS_MT_SLOT 1 20000, .process EV_ABS ABS_MT_POSITION_Y 402 20000,
    .process EV_SYN 0 0 20000 ]

/-- The events of `tp_example_touch_down` before the sync of their frame: the
touch of slot 0 has been put down at (500, 500) and its frame is pending. -/
def tp_example_touch_down_pending : List tp_input :=
  [ .process EV_ABS ABS_MT_SLOT 0 10, .process EV_ABS ABS_MT_TRACKING_ID 1 10,
    .process EV_ABS ABS_MT_POSITION_X 500 10, .process EV_ABS ABS_MT_POSITION_Y 500 10,
    .process EV_KEY BTN_TOUCH 1 10, .process EV_KEY BTN_TOOL_FINGER 1 10 ]

/-- The touch of `tp_example_touch_down` lifted again at time 20000, before the
sync of the frame of the lift. -/
def tp_example_touch_up_pending : List tp_input :=
  tp_example_touch_down ++
    [ .process EV_ABS ABS_MT_SLOT 0 20000, .process EV_ABS ABS_MT_TRACKING_ID (-1) 20000,
      .process EV_KEY BTN_TOUCH 0 20000, .process EV_KEY BTN_TOOL_FINGER 0 20000 ]

/-- Two fingers put down on `tp_example` at (500, 100) and (500, 950), more
than 20 mm apart vertically, which commits the gesture to PINCH; the lower
finger then moves up in two frames, which starts the pinch and posts its
BEGIN and two UPDATEs; then both fingers are lifted at time 40000, before the
sync of the frame of the lift. -/
def tp_example_pinch_then_lift_pending : List tp_input :=
  [ .process EV_ABS ABS_MT_SLOT 0 10, .process EV_ABS ABS_MT_TRACKING_ID 1 10,
    .process EV_ABS ABS_MT_POSITION_X 500 10, .process EV_ABS ABS_MT_POSITION_Y 100 10,
    .process EV_ABS ABS_MT_SLOT 1 10, .process EV_ABS ABS_MT_TRACKING_ID 2 10,
    .process EV_ABS ABS_MT_POSITION_X 500 10, .process EV_ABS ABS_MT_POSITION_Y 950 10,
    .process EV_KEY BTN_TOUCH 1 10, .process EV_KEY BTN_TOOL_DOUBLETAP 1 10,
    .process EV_SYN 0 0 10,
    .process EV_ABS ABS_MT_SLOT 1 20000, .process EV_ABS ABS_MT_POSITION_Y 900 20000,
    .process EV_SYN 0 0 20000,
    .process EV_ABS ABS_MT_SLOT 1 30000, .process EV_ABS ABS_MT_POSITION_Y 850 30000,
    .process EV_SYN 0 0 30000,
    .process EV_ABS ABS_MT_SLOT 0 40000, .process EV_ABS ABS_MT_TRACKING_ID (-1) 40000,
    .process EV_ABS ABS_MT_SLOT 1 40000, .process EV_ABS ABS_MT_TRACKING_ID (-1) 40000,
    .process EV_KEY BTN_TOUCH 0 40000, .process EV_KEY BTN_TOOL_DOUBLETAP 0 40000 ]

/-- Peers like `tp_example_peers` whose `atan2_octant` gives the values of
libm for the four directions along the axes: 0 for a delta that points north
(x = 0, y < 0), 2 for east (y = 0, x > 0), 4 for south (x = 0, y > 0) and 6 for
west (y = 0, x < 0). The other directions do not occur in the runs that use
these peers. -/
def tp_example_peers_axes : tp_peers :=
  { tp_example_peers with
    atan2_octant := fun y x =>
      if x = 0 ∧ y < 0 then 0 else if y = 0 ∧ x > 0 then 2
      else if x = 0 ∧ y > 0 then 4 else if y = 0 ∧ x < 0 then 6 else 0 }

/-- One frame in which the touch of slot 0 moves to the column `x` at time
`t`. -/
def tp_example_move_x (x : Int) (t : Nat) : List tp_input :=
  [ .process EV_ABS ABS_MT_SLOT 0 t, .process EV_ABS ABS_MT_POSITION_X x t,
    .process EV_SYN 0 0 t ]

/-- A finger put down on `tp_example` at (50, 600), left of the palm edge at
100, that moves right along the row 600 to the columns 60, 70 and 80, all
inside the edge zone, in three frames within 30 ms. -/
def tp_example_palm_in_edge_zone : List tp_input :=
  tp_example_edge_touch_down ++ tp_example_move_x 60 10000 ++ tp_example_move_x 70 20000 ++
    tp_example_move_x 80 30000

/-- The run `tp_example_palm_in_edge_zone` followed by a frame at 40 ms in
which the finger, still down, has moved on to the column 120, outside the edge
zone. -/
def tp_example_palm_becomes_pointer : List tp_input :=
  tp_example_palm_in_edge_zone ++ tp_example_move_x 120 40000

/-- The run `tp_example_fingers_meet` followed by a frame at time 30000 in
which no touch moves: only a pressure of slot 1 is reported. -/
def tp_example_fingers_meet_then_rest : List tp_input :=
  tp_example_fingers_meet ++
    [ .process EV_ABS ABS_MT_PRESSURE 30 30000, .process EV_SYN 0 0 30000 ]

/-- The calls that post a pointer-motion or a gesture event:
`pointer_notify_motion`, `gesture_notify_swipe`, `gesture_notify_pinch` and
the two `_end` calls. -/
def tp_call_is_pointer_or_gesture : tp_call → Bool
  | .pointer_notify_motion _ _ _ => true
  | .gesture_notify_swipe _ _ _ _ _ => true
  | .gesture_notify_swipe_end _ _ _ => true
  | .gesture_notify_pinch _ _ _ _ _ _ _ => true
  | .gesture_notify_pinch_end _ _ _ _ => true
  | _ => false

/-! ## Lemmas on the helpers -/

theorem tp_modify_touch_length (f : tp_touch → tp_touch) :
    ∀ (i : Nat) (l : List tp_touch), (tp_modify_touch f i l).length = l.length
  | i, [] => by cases i <;> rfl
  | 0, _ :: _ => rfl
  | i + 1, _ :: ts => by simp [tp_modify_touch, tp_modify_touch_length f i ts]

theorem tp_modify_touch_get (f : tp_touch → tp_touch) :
    ∀ (i j : Nat) (l : List tp_touch),
      (tp_modify_touch f i l)[j]? = if j = i then (l[j]?).map f else l[j]?
  | _, _, [] => by simp [tp_modify_touch]
  | 0, 0, _ :: _ => by simp [tp_modify_touch]
  | 0, j + 1, _ :: _ => by simp [tp_modify_touch]
  | i + 1, 0, _ :: _ => by simp [tp_modify_touch]
  | i + 1, j + 1, _ :: ts => by simp [tp_modify_touch, tp_modify_touch_get f i j ts]

theorem tp_modify_touch_of_none (f : tp_touch → tp_touch) :
    ∀ (i : Nat) (l : List tp_touch), l[i]? = none → tp_modify_touch f i l = l
  | i, [], _ => by cases i <;> rfl
  | 0, _ :: _, h => by simp at h
  | i + 1, t :: ts, h => by
    simp at h
    simp [tp_modify_touch, tp_modify_touch_of_none f i ts (by simpa using h)]

theorem tp_modify_touch_countP (q : tp_touch → Bool) (f : tp_touch → tp_touch) :
    ∀ (i : Nat) (l : List tp_touch) (t : tp_touch), l[i]? = some t →
      (tp_modify_touch f i l).countP q + (if q t then 1 else 0) =
        l.countP q + (if q (f t) then 1 else 0)
  | _, [], _, h => by simp at h
  | 0, a :: ts, t, h => by
    simp at h
    subst h
    simp only [tp_modify_touch, List.countP_cons]
    omega
  | i + 1, a :: ts, t, h => by
    simp at h
    have ih := tp_modify_touch_countP q f i ts t h
    simp only [tp_modify_touch, List.countP_cons]
    omega

theorem tp_modify_touch_mem (f : tp_touch → tp_touch) :
    ∀ (i : Nat) (l : List tp_touch) (t' : tp_touch), t' ∈ tp_modify_touch f i l →
      t' ∈ l ∨ ∃ t, l[i]? = some t ∧ t' = f t
  | _, [], _, h => by simp [tp_modify_touch] at h
  | 0, a :: ts, t', h => by
    simp [tp_modify_touch] at h
    rcases h with h | h
    · right; exact ⟨a, by simp, h⟩
    · left; simp [h]
  | i + 1, a :: ts, t', h => by
    simp [tp_modify_touch] at h
    rcases h with h | h
    · left; simp [h]
    · rcases tp_modify_touch_mem f i ts t' h with h | ⟨t, h1, h2⟩
      · left; simp [h]
      · right; exact ⟨t, by simpa using h1, h2⟩

theorem tp_loop_list_inv (P : tp_dispatch → Prop)
    (body : Nat → tp_dispatch → tp_dispatch × Bool)
    (h : ∀ i s, P s → P (body i s).1) :
    ∀ (l : List Nat) (tp : tp_dispatch), P tp → P (tp_loop_list body l tp)
  | [], _, hp => hp
  | i :: rest, tp, hp => by
    unfold tp_loop_list
    split
    · exact h i tp hp
    · exact tp_loop_list_inv P body h rest _ (h i tp hp)

theorem tp_loop_inv (P : tp_dispatch → Prop) (body : Nat → tp_dispatch → tp_dispatch)
    (h : ∀ i s, P s → P (body i s)) (lo hi : Nat) (tp : tp_dispatch) (hp : P tp) :
    P (tp_loop lo hi body tp) :=
  tp_loop_list_inv P _ (fun i s hs => h i s hs) _ tp hp

theorem tp_for_each_touch_inv (P : tp_dispatch → Prop)
    (body : Nat → tp_dispatch → tp_dispatch)
    (h : ∀ i s, P s → P (body i s)) (tp : tp_dispatch) (hp : P tp) :
    P (tp_for_each_touch tp body) :=
  tp_loop_inv P body h 0 tp.ntouches tp hp

theorem tp_get_touch_eq (tp : tp_dispatch) (i : Nat) :
    tp_get_touch tp i = (tp.touches[i]?).getD default := by
  simp [tp_get_touch, List.getD_eq_getElem?_getD]

theorem tp_get_touch_some (tp : tp_dispatch) (i : Nat)
    (h : (tp_get_touch tp i).state ≠ .TOUCH_NONE) :
    tp.touches[i]? = some (tp_get_touch tp i) := by
  rw [tp_get_touch_eq] at h ⊢
  cases hi : tp.touches[i]? with
  | none => rw [hi] at h; exact absurd rfl h
  | some t => rfl

theorem tp_get_touch_of_some (tp : tp_dispatch) (i : Nat) (t : tp_touch)
    (h : tp.touches[i]? = some t) : tp_get_touch tp i = t := by
  rw [tp_get_touch_eq, h]; rfl

theorem tp_get_touch_of_none (tp : tp_dispatch) (i : Nat)
    (h : tp.touches[i]? = none) : tp_get_touch tp i = default := by
  rw [tp_get_touch_eq, h]; rfl

/-! ## The invariant of the touch table -/

theorem tp_touches_inv_modify_same (l : List tp_touch) (n m i : Nat) (f : tp_touch → tp_touch)
    (h : tp_touches_inv l n m)
    (hf : ∀ t, l[i]? = some t →
      tp_touch_down (f t) = tp_touch_down t ∧ (tp_touch_dirty_ok t → tp_touch_dirty_ok (f t))) :
    tp_touches_inv (tp_modify_touch f i l) n m := by
  obtain ⟨h1, h2, h3, h4⟩ := h
  refine ⟨by rw [tp_modify_touch_length]; exact h1, h2, ?_, ?_⟩
  · cases hi : l[i]? with
    | none => rw [tp_modify_touch_of_none f i l hi]; exact h3
    | some t =>
      have hc := tp_modify_touch_countP tp_touch_down f i l t hi
      rw [(hf t hi).1] at hc
      omega
  · intro t' ht'
    rcases tp_modify_touch_mem f i l t' ht' with hm | ⟨t, ht, rfl⟩
    · exact h4 t' hm
    · exact (hf t ht).2 (h4 t (List.getElem?_mem ht))

theorem tp_touches_inv_modify_up (l : List tp_touch) (n m i : Nat) (f : tp_touch → tp_touch)
    (t : tp_touch) (h : tp_touches_inv l n m) (ht : l[i]? = some t)
    (hnd : tp_touch_down t = false) (hd : tp_touch_down (f t) = true)
    (hok : tp_touch_dirty_ok (f t)) :
    tp_touches_inv (tp_modify_touch f i l) ((n + 1) % 2 ^ 32) m := by
  obtain ⟨h1, h2, h3, h4⟩ := h
  have hlen : (tp_modify_touch f i l).length = m := by rw [tp_modify_touch_length]; exact h1
  have hc := tp_modify_touch_countP tp_touch_down f i l t ht
  rw [hnd, hd] at hc
  have hle : (tp_modify_touch f i l).countP tp_touch_down ≤ m := by
    rw [← hlen]; exact List.countP_le_length _
  refine ⟨hlen, h2, ?_, ?_⟩
  · simp at hc
    rw [Nat.mod_eq_of_lt (by omega)]
    omega
  · intro t' ht'
    rcases tp_modify_touch_mem f i l t' ht' with hm | ⟨t2, ht2, rfl⟩
    · exact h4 t' hm
    · rw [ht] at ht2; cases ht2; exact hok

theorem tp_touches_inv_modify_down (l : List tp_touch) (n m i : Nat) (f : tp_touch → tp_touch)
    (t : tp_touch) (h : tp_touches_inv l n m) (ht : l[i]? = some t)
    (hnd : tp_touch_down t = true) (hd : tp_touch_down (f t) = false)
    (hok : tp_touch_dirty_ok (f t)) :
    tp_touches_inv (tp_modify_touch f i l) ((n + 2 ^ 32 - 1) % 2 ^ 32) m := by
  obtain ⟨h1, h2, h3, h4⟩ := h
  have hlen : (tp_modify_touch f i l).length = m := by rw [tp_modify_touch_length]; exact h1
  have hc := tp_modify_touch_countP tp_touch_down f i l t ht
  rw [hnd, hd] at hc
  have hle : l.countP tp_touch_down ≤ m := by
    rw [← h1]; exact List.countP_le_length _
  refine ⟨hlen, h2, ?_, ?_⟩
  · simp at hc
    have : n + 2 ^ 32 - 1 = (n - 1) + 2 ^ 32 := by omega
    rw [this, Nat.add_mod_right, Nat.mod_eq_of_lt (by omega)]
    omega
  · intro t' ht'
    rcases tp_modify_touch_mem f i l t' ht' with hm | ⟨t2, ht2, rfl⟩
    · exact h4 t' hm
    · rw [ht] at ht2; cases ht2; exact hok

theorem tp_inv_modify_same (tp : tp_dispatch) (i : Nat) (f : tp_touch → tp_touch)
    (h : tp_inv tp)
    (hf : ∀ t, tp_touch_down (f t) = tp_touch_down t ∧
      (tp_touch_dirty_ok t → tp_touch_dirty_ok (f t))) :
    tp_inv (tp.modify i f) :=
  tp_touches_inv_modify_same _ _ _ _ _ h (fun t _ => hf t)

theorem tp_new_touch_inv (tp : tp_dispatch) (i time : Nat) (h : tp_inv tp) :
    tp_inv (tp_new_touch tp i time) := by
  unfold tp_new_touch
  by_cases hs : (tp_get_touch tp i).state = .TOUCH_BEGIN ∨
      (tp_get_touch tp i).state = .TOUCH_UPDATE ∨ (tp_get_touch tp i).state = .TOUCH_HOVERING
  · simp only [hs, if_true]; exact h
  · simp only [hs, if_false]
    apply tp_touches_inv_modify_same _ _ _ _ _ h
    intro t ht
    rw [tp_get_touch_of_some tp i t ht] at hs
    simp only [not_or] at hs
    simp [tp_touch_down, tp_touch_dirty_ok, hs, tp_motion_history_reset]

theorem tp_begin_touch_inv (tp : tp_dispatch) (i time : Nat) (h : tp_inv tp)
    (hs : (tp_get_touch tp i).state = .TOUCH_HOVERING) :
    tp_inv (tp_begin_touch tp i time) := by
  have ht := tp_get_touch_some tp i (by rw [hs]; decide)
  unfold tp_begin_touch
  exact tp_touches_inv_modify_up _ _ _ _ _ _ h ht (by simp [tp_touch_down, hs])
    (by simp [tp_touch_down]) (by simp [tp_touch_dirty_ok])

theorem tp_end_touch_inv (tp : tp_dispatch) (i time : Nat) (h : tp_inv tp) :
    tp_inv (tp_end_touch tp i time) := by
  unfold tp_end_touch
  split
  · rename_i hs
    have ht := tp_get_touch_some tp i (by rw [hs]; decide)
    apply tp_touches_inv_modify_same _ _ _ _ _ h
    intro t ht2
    rw [ht] at ht2; cases ht2
    simp [tp_touch_down, tp_touch_dirty_ok, hs]
  · exact h
  · exact h
  · rename_i h1 h2 h3
    have hne : (tp_get_touch tp i).state ≠ .TOUCH_NONE := h2
    have ht := tp_get_touch_some tp i hne
    refine tp_touches_inv_modify_down _ _ _ _ _ _ h ht ?_ (by simp [tp_touch_down])
      (by simp [tp_touch_dirty_ok])
    cases hst : (tp_get_touch tp i).state <;> simp_all [tp_touch_down]

theorem tp_end_sequence_inv (tp : tp_dispatch) (i time : Nat) (h : tp_inv tp) :
    tp_inv (tp_end_sequence tp i time) := by
  unfold tp_end_sequence
  apply tp_end_touch_inv
  apply tp_inv_modify_same _ _ _ h
  intro t
  simp [tp_touch_down, tp_touch_dirty_ok]

theorem tp_modify_touch_map_core (f : tp_touch → tp_touch)
    (hf : ∀ t, tp_touch_core (f t) = tp_touch_core t) :
    ∀ (i : Nat) (l : List tp_touch),
      (tp_modify_touch f i l).map tp_touch_core = l.map tp_touch_core
  | i, [] => by cases i <;> rfl
  | 0, t :: ts => by simp [tp_modify_touch, hf]
  | i + 1, t :: ts => by simp [tp_modify_touch, tp_modify_touch_map_core f hf i ts]

theorem tp_touches_inv_of_core (l l' : List tp_touch) (n m : Nat)
    (hl : l'.map tp_touch_core = l.map tp_touch_core) (h : tp_touches_inv l n m) :
    tp_touches_inv l' n m := by
  obtain ⟨h1, h2, h3, h4⟩ := h
  have hd : tp_touch_down ∘ tp_touch_core = tp_touch_down := by
    funext t; rfl
  refine ⟨?_, h2, ?_, ?_⟩
  · have := congrArg List.length hl
    simpa [h1] using this
  · have e1 : (l'.map tp_touch_core).countP tp_touch_down = l'.countP tp_touch_down := by
      rw [List.countP_map, hd]
    have e2 : (l.map tp_touch_core).countP tp_touch_down = l.countP tp_touch_down := by
      rw [List.countP_map, hd]
    rw [h3, ← e1, ← e2, hl]
  · intro t ht
    have hm : tp_touch_core t ∈ l.map tp_touch_core := by
      rw [← hl]; exact List.mem_map_of_mem _ ht
    obtain ⟨t0, ht0, he⟩ := List.mem_map.1 hm
    have hs : t0.state = t.state := by
      have := congrArg tp_touch.state he; exact this
    have hdirty : t0.dirty = t.dirty := by
      have := congrArg tp_touch.dirty he; exact this
    have := h4 t0 ht0
    unfold tp_touch_dirty_ok at this ⊢
    rw [hs, hdirty] at this
    exact this

theorem tp_inv_of_core (tp tp' : tp_dispatch) (hc : tp_core tp' = tp_core tp)
    (h : tp_inv tp) : tp_inv tp' := by
  have h1 : tp'.touches.map tp_touch_core = tp.touches.map tp_touch_core :=
    congrArg Prod.fst hc
  have h2 : tp'.nfingers_down = tp.nfingers_down := congrArg (fun x => x.2.1) hc
  have h3 : tp'.ntouches = tp.ntouches := congrArg (fun x => x.2.2.1) hc
  unfold tp_inv
  rw [h2, h3]
  exact tp_touches_inv_of_core _ _ _ _ h1 h

theorem tp_process_absolute_inv (tp : tp_dispatch) (code : Nat) (value : Int) (time : Nat)
    (h : tp_inv tp) : tp_inv (tp_process_absolute tp code value time) := by
  unfold tp_process_absolute
  simp only []
  split_ifs
  · exact tp_inv_modify_same _ _ _ h (fun t => by simp [tp_touch_down, tp_touch_dirty_ok])
  · exact tp_inv_modify_same _ _ _ h (fun t => by simp [tp_touch_down, tp_touch_dirty_ok])
  · exact h
  · exact tp_inv_modify_same _ _ _ h (fun t => by simp [tp_touch_down, tp_touch_dirty_ok])
  · exact tp_new_touch_inv _ _ _ h
  · exact tp_end_sequence_inv _ _ _ h
  · exact tp_inv_modify_same _ _ _ h (fun t => by simp [tp_touch_down, tp_touch_dirty_ok])
  · exact h

theorem tp_process_absolute_st_inv (tp : tp_dispatch) (code : Nat) (value : Int) (time : Nat)
    (h : tp_inv tp) : tp_inv (tp_process_absolute_st tp code value time) := by
  unfold tp_process_absolute_st
  simp only []
  split_ifs
  · exact tp_inv_modify_same _ _ _ h (fun t => by simp [tp_touch_down, tp_touch_dirty_ok])
  · exact tp_inv_modify_same _ _ _ h (fun t => by simp [tp_touch_down, tp_touch_dirty_ok])
  · exact h

theorem tp_fake_finger_set_touches (tp : tp_dispatch) (code : Nat) (is_press : Bool) :
    (tp_fake_finger_set tp code is_press).touches = tp.touches ∧
    (tp_fake_finger_set tp code is_press).nfingers_down = tp.nfingers_down ∧
    (tp_fake_finger_set tp code is_press).ntouches = tp.ntouches := by
  unfold tp_fake_finger_set
  simp only []
  split_ifs <;> exact ⟨rfl, rfl, rfl⟩

theorem tp_process_key_touches (p : tp_peers) (tp : tp_dispatch) (code : Nat) (value : Int)
    (time : Nat) :
    (tp_process_key p tp code value time).touches = tp.touches ∧
    (tp_process_key p tp code value time).nfingers_down = tp.nfingers_down ∧
    (tp_process_key p tp code value time).ntouches = tp.ntouches := by
  unfold tp_process_key
  split_ifs
  · exact ⟨rfl, rfl, rfl⟩
  · exact tp_fake_finger_set_touches _ _ _
  · unfold tp_process_trackpoint_button
    split_ifs <;> exact ⟨rfl, rfl, rfl⟩
  · exact ⟨rfl, rfl, rfl⟩

theorem tp_process_key_inv (p : tp_peers) (tp : tp_dispatch) (code : Nat) (value : Int)
    (time : Nat) (h : tp_inv tp) : tp_inv (tp_process_key p tp code value time) := by
  obtain ⟨h1, h2, h3⟩ := tp_process_key_touches p tp code value time
  unfold tp_inv
  rw [h1, h2, h3]
  exact h

theorem tp_restore_synaptics_touches_inv (tp : tp_dispatch) (time : Nat) (h : tp_inv tp) :
    tp_inv (tp_restore_synaptics_touches tp time) := by
  unfold tp_restore_synaptics_touches
  simp only []
  split_ifs
  · exact h
  · exact h
  · apply tp_loop_inv tp_inv _ _ _ _ _ h
    intro i s hs
    by_cases he : (tp_get_touch s i).state = .TOUCH_END
    · simp only [he, ne_eq, not_true_eq_false, if_false]
      have h1 := tp_new_touch_inv s i time hs
      have hst : (tp_get_touch (tp_new_touch s i time) i).state = .TOUCH_HOVERING := by
        have hsome := tp_get_touch_some s i (by rw [he]; decide)
        unfold tp_new_touch
        simp only [he, false_or, if_false, reduceCtorEq]
        rw [tp_get_touch_eq]
        simp [tp_dispatch.modify, tp_modify_touch_get, hsome]
      have h2 := tp_begin_touch_inv _ i time h1 hst
      apply tp_touches_inv_modify_same _ _ _ _ _ h2
      intro t ht
      have hb : t.state = .TOUCH_BEGIN := by
        simp only [tp_begin_touch, tp_dispatch.modify, tp_modify_touch_get, if_true] at ht
        cases hq : (tp_new_touch s i time).touches[i]? with
        | none => rw [hq] at ht; simp at ht
        | some t0 => rw [hq] at ht; simp at ht; rw [← ht]
      simp [tp_touch_down, tp_touch_dirty_ok, hb]
    · simp only [ne_eq, he, not_false_eq_true, if_true]
      exact hs

theorem tp_inv_of_table_eq (tp tp' : tp_dispatch) (he : tp_table_eq tp' tp) (h : tp_inv tp) :
    tp_inv tp' := by
  obtain ⟨h1, h2, h3⟩ := he
  unfold tp_inv
  rw [h1, h2, h3]
  exact h

theorem tp_process_fake_touches_inv (tp : tp_dispatch) (time : Nat) (h : tp_inv tp) :
    tp_inv (tp_process_fake_touches tp time) := by
  have hbody : ∀ (nf i : Nat) (s : tp_dispatch), tp_inv s →
      tp_inv (if i < nf then tp_new_touch s i time else tp_end_sequence s i time) := by
    intro nf i s hs
    split_ifs
    · exact tp_new_touch_inv _ _ _ hs
    · exact tp_end_sequence_inv _ _ _ hs
  unfold tp_process_fake_touches
  simp only []
  split_ifs <;> first
    | exact h
    | exact tp_loop_inv tp_inv _ (hbody _) _ _ _ h
    | exact tp_loop_inv tp_inv _ (hbody _) _ _ _ (tp_restore_synaptics_touches_inv tp time h)

theorem tp_get_touch_modify_self (tp : tp_dispatch) (i : Nat) (f : tp_touch → tp_touch)
    (t : tp_touch) (h : tp.touches[i]? = some t) :
    tp_get_touch (tp.modify i f) i = f t := by
  rw [tp_get_touch_eq]
  simp [tp_dispatch.modify, tp_modify_touch_get, h]

theorem tp_unhover_abs_distance_inv (tp : tp_dispatch) (time : Nat) (h : tp_inv tp) :
    tp_inv (tp_unhover_abs_distance tp time) := by
  unfold tp_unhover_abs_distance
  apply tp_loop_inv tp_inv _ _ _ _ _ h
  intro i s hs
  simp only []
  split_ifs with h1 h2 h3
  · apply tp_begin_touch_inv
    · exact tp_inv_modify_same _ _ _ hs (fun t => by
        simp [tp_touch_down, tp_touch_dirty_ok, tp_motion_history_reset])
    · have hsome := tp_get_touch_some s i (by rw [h1]; decide)
      rw [tp_get_touch_modify_self s i _ _ hsome]
      simpa [tp_motion_history_reset] using h1
  · exact hs
  · exact tp_end_touch_inv _ _ _ hs
  · exact hs

theorem tp_unhover_fake_touches_inv (tp : tp_dispatch) (time : Nat) (h : tp_inv tp) :
    tp_inv (tp_unhover_fake_touches tp time) := by
  unfold tp_unhover_fake_touches
  simp only []
  have hloop1 : ∀ (nf : Nat) (l : List Nat) (s : tp_dispatch), tp_inv s →
      tp_inv (tp_loop_list (fun i tp =>
            if (tp_get_touch tp i).state = .TOUCH_HOVERING then
              (tp_begin_touch tp i time,
                decide ((tp_begin_touch tp i time).nfingers_down ≥ nf))
            else (tp, false)) l s) := by
    intro nf l s hs
    apply tp_loop_list_inv tp_inv _ _ _ _ hs
    intro i s hs
    split_ifs with h1
    · exact tp_begin_touch_inv _ _ _ hs h1
    · exact hs
  have hloop2 : ∀ (nf : Nat) (l : List Nat) (s : tp_dispatch), tp_inv s →
      tp_inv (tp_loop_list (fun i tp =>
          if (tp_get_touch tp i).state = .TOUCH_HOVERING ∨
              (tp_get_touch tp i).state = .TOUCH_NONE then (tp, false)
          else
            (tp_end_touch tp i time,
              tp_fake_finger_is_touching (tp_end_touch tp i time) &&
                decide ((tp_end_touch tp i time).nfingers_down = nf))) l s) := by
    intro nf l s hs
    apply tp_loop_list_inv tp_inv _ _ _ _ hs
    intro i s hs
    split_ifs with h1
    · exact hs
    · exact tp_end_touch_inv _ _ _ hs
  split_ifs
  · exact h
  · exact h
  · exact h
  · exact hloop2 _ _ _ (hloop1 _ _ _ h)
  · exact hloop1 _ _ _ h
  · exact hloop2 _ _ _ h
  · exact h

theorem tp_unhover_touches_inv (tp : tp_dispatch) (time : Nat) (h : tp_inv tp) :
    tp_inv (tp_unhover_touches tp time) := by
  unfold tp_unhover_touches
  split_ifs
  · exact tp_unhover_abs_distance_inv _ _ h
  · exact tp_unhover_fake_touches_inv _ _ h

theorem tp_position_fake_touches_inv (tp : tp_dispatch) (h : tp_inv tp) :
    tp_inv (tp_position_fake_touches tp) := by
  have hbody : ∀ (top i : Nat) (s : tp_dispatch), tp_inv s →
      tp_inv (if (tp_get_touch s i).state = .TOUCH_NONE then s
        else s.modify i (fun t =>
          { t with
            point := (tp_get_touch s top).point,
            dirty := if !t.dirty then (tp_get_touch s top).dirty else t.dirty })) := by
    intro top i s hs
    split_ifs
    · exact hs
    · apply tp_inv_modify_same _ _ _ hs
      intro t
      refine ⟨rfl, ?_⟩
      unfold tp_touch_dirty_ok
      intro hd hst
      have := hd hst
      simp [this]
  unfold tp_position_fake_touches
  split_ifs <;> first
    | exact h
    | (split
       · exact h
       · exact tp_loop_inv tp_inv _ (hbody _) _ _ _ h)

/-! ## The classifiers leave `state`, `dirty` and `has_ended` alone -/

theorem tp_touch_skel_eq_refl (t : tp_touch) : tp_touch_skel_eq t t := ⟨rfl, rfl, rfl⟩

theorem tp_touch_skel_eq_trans {a b c : tp_touch} (h1 : tp_touch_skel_eq a b)
    (h2 : tp_touch_skel_eq b c) : tp_touch_skel_eq a c :=
  ⟨h1.1.trans h2.1, h1.2.1.trans h2.2.1, h1.2.2.trans h2.2.2⟩

theorem tp_thumb_detect_skel (p : tp_peers) (tp : tp_dispatch) (t : tp_touch) (time : Nat) :
    tp_touch_skel_eq (tp_thumb_detect p tp t time) t := by
  unfold tp_thumb_detect
  simp only []
  split_ifs <;> exact ⟨rfl, rfl, rfl⟩

theorem tp_palm_detect_dwt_skel (tp : tp_dispatch) (t : tp_touch) (time : Nat) :
    tp_touch_skel_eq (tp_palm_detect_dwt tp t time).1 t := by
  unfold tp_palm_detect_dwt
  split_ifs <;> exact ⟨rfl, rfl, rfl⟩

theorem tp_palm_detect_trackpoint_skel (tp : tp_dispatch) (t : tp_touch) (time : Nat) :
    tp_touch_skel_eq (tp_palm_detect_trackpoint tp t time).1 t := by
  unfold tp_palm_detect_trackpoint
  split_ifs <;> exact ⟨rfl, rfl, rfl⟩

theorem tp_palm_detect_skel (p : tp_peers) (tp : tp_dispatch) (t : tp_touch) (time : Nat) :
    tp_touch_skel_eq (tp_palm_detect p tp t time) t := by
  have h1 := tp_palm_detect_dwt_skel tp t time
  have h2 := tp_palm_detect_trackpoint_skel tp (tp_palm_detect_dwt tp t time).1 time
  have h3 := tp_touch_skel_eq_trans h2 h1
  unfold tp_palm_detect
  simp only []
  split_ifs <;> first
    | exact h1
    | exact h3

theorem tp_motion_hysteresis_skel (tp : tp_dispatch) (t : tp_touch) :
    tp_touch_skel_eq (tp_motion_hysteresis tp t) t := by
  unfold tp_motion_hysteresis
  split_ifs <;> exact ⟨rfl, rfl, rfl⟩

theorem tp_unpin_finger_skel (p : tp_peers) (tp : tp_dispatch) (t : tp_touch) :
    tp_touch_skel_eq (tp_unpin_finger p tp t) t := by
  unfold tp_unpin_finger
  simp only []
  split_ifs <;> exact ⟨rfl, rfl, rfl⟩

theorem tp_process_touch_skel (p : tp_peers) (tp : tp_dispatch) (w : Bool) (t : tp_touch)
    (time : Nat) : tp_touch_skel_eq (tp_process_touch p tp w t time).1 t := by
  have key : ∀ t0 : tp_touch, tp_touch_skel_eq t0 t →
      tp_touch_skel_eq
        (if !t0.dirty then (t0, false)
          else
            (tp_unpin_finger p tp (tp_motion_history_push (tp_motion_hysteresis tp
                (tp_palm_detect p tp (tp_thumb_detect p tp t0 time) time))),
              decide ((tp_unpin_finger p tp (tp_motion_history_push (tp_motion_hysteresis tp
                (tp_palm_detect p tp (tp_thumb_detect p tp t0 time) time)))).state =
                  .TOUCH_BEGIN))).1 t := by
    intro t0 h0
    split_ifs
    · exact h0
    · refine tp_touch_skel_eq_trans (tp_unpin_finger_skel _ _ _) ?_
      refine tp_touch_skel_eq_trans (b := tp_motion_hysteresis tp
        (tp_palm_detect p tp (tp_thumb_detect p tp t0 time) time)) ⟨rfl, rfl, rfl⟩ ?_
      refine tp_touch_skel_eq_trans (tp_motion_hysteresis_skel _ _) ?_
      refine tp_touch_skel_eq_trans (tp_palm_detect_skel _ _ _ _) ?_
      exact tp_touch_skel_eq_trans (tp_thumb_detect_skel _ _ _ _) h0
  unfold tp_process_touch
  exact key _ (by split_ifs <;> exact ⟨rfl, rfl, rfl⟩)

theorem tp_inv_modify_skel (tp : tp_dispatch) (i : Nat) (f : tp_touch → tp_touch)
    (h : tp_inv tp) (hf : ∀ t, tp_touch_skel_eq (f t) t) : tp_inv (tp.modify i f) := by
  apply tp_inv_modify_same _ _ _ h
  intro t
  obtain ⟨h1, h2, _⟩ := hf t
  simp [tp_touch_down, tp_touch_dirty_ok, h1, h2]

theorem tp_pin_fingers_inv (tp : tp_dispatch) (h : tp_inv tp) : tp_inv (tp_pin_fingers tp) := by
  unfold tp_pin_fingers
  apply tp_for_each_touch_inv tp_inv _ _ _ h
  intro i s hs
  exact tp_inv_modify_skel _ _ _ hs (fun t => ⟨rfl, rfl, rfl⟩)

theorem tp_inv_call (tp : tp_dispatch) (c : tp_call) (h : tp_inv tp) : tp_inv (tp.call c) := h

theorem tp_process_touches_inv (p : tp_peers) (tp : tp_dispatch) (time : Nat)
    (h : tp_inv tp) : tp_inv (tp_process_touches p tp time) := by
  have hloop : ∀ (w : Bool) (n : Nat) (s : tp_dispatch), tp_inv s →
      tp_inv (tp_loop 0 n (fun i tp =>
        tp.modify i (fun t => (tp_process_touch p tp w t time).1)) s) := by
    intro w n s hs
    apply tp_loop_inv tp_inv _ _ _ _ _ hs
    intro i s hs
    exact tp_inv_modify_skel _ _ _ hs (fun t => tp_process_touch_skel _ _ _ _ _)
  unfold tp_process_touches
  simp only []
  split_ifs
  · exact tp_inv_call _ _ (hloop _ _ _ h)
  · exact hloop _ _ _ h

theorem tp_process_state_pre_inv (p : tp_peers) (tp : tp_dispatch) (time : Nat)
    (h : tp_inv tp) : tp_inv (tp_process_state_pre p tp time) := by
  have h1 := tp_inv_call _ (.tp_edge_scroll_handle_state time)
    (tp_inv_call _ (.tp_button_handle_state time)
      (tp_process_touches_inv p _ time (tp_position_fake_touches_inv _
        (tp_unhover_touches_inv _ time (tp_process_fake_touches_inv tp time h)))))
  unfold tp_process_state_pre
  simp only []
  split_ifs
  · exact tp_pin_fingers_inv _ h1
  · exact h1

theorem tp_post_process_state_inv (tp : tp_dispatch) (time : Nat) (h : tp_inv tp) :
    tp_inv (tp_post_process_state tp time) := by
  unfold tp_post_process_state
  simp only []
  show tp_inv (tp_for_each_touch tp _)
  apply tp_for_each_touch_inv tp_inv _ _ _ h
  intro i s hs
  apply tp_inv_modify_same _ _ _ hs
  intro t
  cases hst : t.state <;> cases hd : t.dirty <;> cases he : t.has_ended <;>
    simp [tp_touch_down, tp_touch_dirty_ok, hst, hd, he]


/-! ## The gesture machine writes `gesture`, the sink and the gesture snapshots only -/

theorem tp_core_call (tp : tp_dispatch) (c : tp_call) : tp_core (tp.call c) = tp_core tp := rfl

theorem tp_core_modify (tp : tp_dispatch) (i : Nat) (f : tp_touch → tp_touch)
    (hf : ∀ t, tp_touch_core (f t) = tp_touch_core t) :
    tp_core (tp.modify i f) = tp_core tp := by
  unfold tp_core tp_dispatch.modify
  simp only [tp_modify_touch_map_core f hf]

theorem tp_core_modify_gesture_initial (tp : tp_dispatch) (i : Nat)
    (g : tp_touch → device_coords) :
    tp_core (tp.modify i (fun t => { t with gesture_initial := g t })) = tp_core tp :=
  tp_core_modify tp i _ (fun _ => rfl)

theorem tp_core_set_gesture (tp : tp_dispatch) (g : tp_gesture) :
    tp_core { tp with gesture := g } = tp_core tp := rfl

theorem tp_gesture_start_core (tp : tp_dispatch) (time : Nat) :
    tp_core (tp_gesture_start tp time) = tp_core tp := by
  unfold tp_gesture_start
  split_ifs
  · rfl
  · cases tp.gesture.state <;> rfl

theorem tp_gesture_stop_twofinger_scroll_core (tp : tp_dispatch) (time : Nat) :
    tp_core (tp_gesture_stop_twofinger_scroll tp time) = tp_core tp := by
  unfold tp_gesture_stop_twofinger_scroll
  split_ifs <;> rfl

theorem tp_gesture_end_core (tp : tp_dispatch) (time : Nat) (cancelled : Bool) :
    tp_core (tp_gesture_end tp time cancelled) = tp_core tp := by
  unfold tp_gesture_end
  simp only []
  split_ifs
  · rfl
  · cases tp.gesture.state
    all_goals first
      | rfl
      | (show tp_core (tp_gesture_stop_twofinger_scroll _ time) = _
         rw [tp_gesture_stop_twofinger_scroll_core]; rfl)

theorem tp_gesture_post_pointer_motion_core (p : tp_peers) (tp : tp_dispatch) (time : Nat) :
    tp_core (tp_gesture_post_pointer_motion p tp time) = tp_core tp := by
  unfold tp_gesture_post_pointer_motion
  simp only []
  split_ifs <;> rfl

theorem tp_gesture_handle_state_none_core (p : tp_peers) (tp : tp_dispatch) (time : Nat) :
    tp_core (tp_gesture_handle_state_none p tp time).1 = tp_core tp := by
  unfold tp_gesture_handle_state_none
  simp only []
  split_ifs <;> first
    | rfl
    | (show tp_core ((({ tp with gesture.initial_time := time } : tp_dispatch).modify _ _).modify
          _ _) = tp_core tp
       rw [tp_core_modify_gesture_initial, tp_core_modify_gesture_initial]
       rfl)

theorem tp_gesture_handle_state_unknown_core (p : tp_peers) (tp : tp_dispatch) (time : Nat) :
    tp_core (tp_gesture_handle_state_unknown p tp time).1 = tp_core tp := by
  unfold tp_gesture_handle_state_unknown
  simp only []
  split_ifs <;> rfl

theorem tp_gesture_handle_state_scroll_core (p : tp_peers) (tp : tp_dispatch) (time : Nat) :
    tp_core (tp_gesture_handle_state_scroll p tp time).1 = tp_core tp := by
  unfold tp_gesture_handle_state_scroll
  simp only []
  split_ifs <;> first
    | rfl
    | (show tp_core ((tp_gesture_start tp time).call _) = _
       rw [tp_core_call, tp_gesture_start_core])

theorem tp_gesture_handle_state_swipe_core (p : tp_peers) (tp : tp_dispatch) (time : Nat) :
    tp_core (tp_gesture_handle_state_swipe p tp time).1 = tp_core tp := by
  unfold tp_gesture_handle_state_swipe
  simp only []
  split_ifs <;> first
    | rfl
    | (show tp_core ((tp_gesture_start tp time).call _) = _
       rw [tp_core_call, tp_gesture_start_core])

theorem tp_gesture_handle_state_pinch_core (p : tp_peers) (tp : tp_dispatch) (time : Nat) :
    tp_core (tp_gesture_handle_state_pinch p tp time).1 = tp_core tp := by
  unfold tp_gesture_handle_state_pinch
  simp only []
  split_ifs
  · rfl
  · refine (tp_core_set_gesture _ _).trans ?_
    rw [tp_core_call, tp_gesture_start_core]
    rfl

theorem tp_gesture_post_gesture_step_core (p : tp_peers) (time : Nat) (c : tp_gesture_state)
    (handler : tp_peers → tp_dispatch → Nat → tp_dispatch × tp_gesture_state)
    (hh : ∀ s, tp_core (handler p s time).1 = tp_core s) (tp : tp_dispatch) :
    tp_core (tp_gesture_post_gesture_step p time c handler tp) = tp_core tp := by
  unfold tp_gesture_post_gesture_step
  split_ifs
  · exact hh tp
  · rfl

theorem tp_gesture_post_gesture_core (p : tp_peers) (tp : tp_dispatch) (time : Nat) :
    tp_core (tp_gesture_post_gesture p tp time) = tp_core tp := by
  unfold tp_gesture_post_gesture
  simp only []
  rw [tp_gesture_post_gesture_step_core _ _ _ _ (tp_gesture_handle_state_pinch_core p · time),
    tp_gesture_post_gesture_step_core _ _ _ _ (tp_gesture_handle_state_swipe_core p · time),
    tp_gesture_post_gesture_step_core _ _ _ _ (tp_gesture_handle_state_scroll_core p · time),
    tp_gesture_post_gesture_step_core _ _ _ _ (tp_gesture_handle_state_unknown_core p · time),
    tp_gesture_post_gesture_step_core _ _ _ _ (tp_gesture_handle_state_none_core p · time)]


theorem tp_gesture_post_events_core (p : tp_peers) (tp : tp_dispatch) (time : Nat) :
    tp_core (tp_gesture_post_events p tp time) = tp_core tp := by
  unfold tp_gesture_post_events
  simp only []
  split_ifs <;>
    simp only [tp_gesture_post_pointer_motion_core, tp_gesture_post_gesture_core,
      tp_core_set_gesture, tp_gesture_cancel, tp_gesture_end_core]

theorem tp_core_set_device (tp : tp_dispatch) (d : evdev_device) :
    tp_core { tp with device := d } = tp_core tp := rfl

theorem tp_core_set_dwt (tp : tp_dispatch) (d : tp_dwt) :
    tp_core { tp with dwt := d } = tp_core tp := rfl

theorem tp_core_set_palm (tp : tp_dispatch) (d : tp_palm) :
    tp_core { tp with palm := d } = tp_core tp := rfl

theorem tp_core_set_scroll_method (tp : tp_dispatch) (d : scroll_method) :
    tp_core { tp with scroll_method := d } = tp_core tp := rfl

theorem tp_gesture_finger_count_switch_timeout_core (tp : tp_dispatch) (now : Nat) :
    tp_core (tp_gesture_finger_count_switch_timeout tp now) = tp_core tp := by
  unfold tp_gesture_finger_count_switch_timeout
  simp only []
  split_ifs <;> simp only [tp_core_set_gesture, tp_gesture_cancel, tp_gesture_end_core]

theorem tp_gesture_handle_state_core (p : tp_peers) (tp : tp_dispatch) (time : Nat) :
    tp_core (tp_gesture_handle_state p tp time) = tp_core tp := by
  unfold tp_gesture_handle_state
  simp only []
  split_ifs <;>
    simp only [tp_core_set_gesture, tp_gesture_stop, tp_gesture_end_core, tp_core_call]

theorem tp_post_events_core (p : tp_peers) (tp : tp_dispatch) (time : Nat) :
    tp_core (tp_post_events p tp time) = tp_core tp := by
  unfold tp_post_events
  simp only []
  split_ifs <;>
    simp only [tp_core_set_gesture, tp_gesture_cancel, tp_gesture_end_core, tp_core_call,
      tp_gesture_post_events_core]

theorem tp_keyboard_event_core (tp : tp_dispatch) (time : Nat) (is_key pressed : Bool)
    (keycode : Nat) :
    tp_core (tp_keyboard_event tp time is_key pressed keycode) = tp_core tp := by
  unfold tp_keyboard_event
  simp only []
  split_ifs <;>
    simp only [tp_core_set_gesture, tp_gesture_cancel, tp_gesture_end_core, tp_core_call,
      tp_core_set_dwt]

theorem tp_trackpoint_event_core (tp : tp_dispatch) (time : Nat) (is_button : Bool) :
    tp_core (tp_trackpoint_event tp time is_button) = tp_core tp := by
  unfold tp_trackpoint_event
  simp only []
  split_ifs <;>
    simp only [tp_core_set_gesture, tp_gesture_cancel, tp_gesture_end_core, tp_core_call,
      tp_core_set_palm]

theorem tp_scroll_config_scroll_method_set_method_core (tp : tp_dispatch)
    (method : scroll_method) (time : Nat) :
    tp_core (tp_scroll_config_scroll_method_set_method tp method time) = tp_core tp := by
  unfold tp_scroll_config_scroll_method_set_method
  simp only []
  split_ifs <;>
    simp only [tp_core_set_scroll_method, tp_gesture_stop_twofinger_scroll_core, tp_core_call]

theorem tp_handle_state_inv (p : tp_peers) (tp : tp_dispatch) (time : Nat) (h : tp_inv tp) :
    tp_inv (tp_handle_state p tp time) := by
  unfold tp_handle_state tp_process_state
  apply tp_post_process_state_inv
  apply tp_inv_of_core _ _ (tp_post_events_core _ _ _)
  apply tp_inv_of_core _ _ (tp_gesture_handle_state_core _ _ _)
  exact tp_process_state_pre_inv _ _ _ h

theorem tp_clear_state_inv (p : tp_peers) (tp : tp_dispatch) (now : Nat) (h : tp_inv tp) :
    tp_inv (tp_clear_state p tp now) := by
  unfold tp_clear_state
  apply tp_handle_state_inv
  exact tp_for_each_touch_inv tp_inv _ (fun i s hs => tp_end_sequence_inv _ _ _ hs)
    ((({ tp with
          buttons.state := (p.tp_release_all_buttons tp.buttons.state tp.queued).1,
          queued := (p.tp_release_all_buttons tp.buttons.state tp.queued).2 } :
          tp_dispatch).call (.tp_release_all_buttons now)).call (.tp_release_all_taps now)) h

theorem tp_step_inv (p : tp_peers) (tp : tp_dispatch) (input : tp_input) (h : tp_inv tp) :
    tp_inv (tp_step p tp input) := by
  cases input with
  | process type code value time =>
    show tp_inv (tp_interface_process p tp type code value time)
    unfold tp_interface_process
    split_ifs
    · exact tp_process_absolute_inv _ _ _ _ h
    · exact tp_process_absolute_st_inv _ _ _ _ h
    · exact tp_process_key_inv _ _ _ _ _ h
    · exact tp_handle_state_inv _ _ _ h
    · exact h
  | keyboard_event time is_key pressed keycode =>
    exact tp_inv_of_core _ _ (tp_keyboard_event_core _ _ _ _ _) h
  | trackpoint_event time is_button =>
    exact tp_inv_of_core _ _ (tp_trackpoint_event_core _ _ _) h
  | finger_count_switch_timeout now =>
    exact tp_inv_of_core _ _ (tp_gesture_finger_count_switch_timeout_core _ _) h
  | trackpoint_timeout now => exact h
  | keyboard_timeout now => exact h
  | clear_state now => exact tp_clear_state_inv _ _ _ h
  | set_suspended b => exact h
  | set_trackpoint b => exact h
  | keyboard_added => exact h
  | set_scroll_method method time =>
    exact tp_inv_of_core _ _ (tp_scroll_config_scroll_method_set_method_core _ _ _) h
  | dwt_config_set enable => exact h

theorem tp_initial_inv (tp : tp_dispatch) (h : tp_initial tp) : tp_inv tp := by
  obtain ⟨h1, _, _, h4, h5, h6, _⟩ := h
  refine ⟨h1, h4, ?_, ?_⟩
  · rw [h6]
    symm
    rw [List.countP_eq_zero]
    intro t ht
    rw [h5 t ht]
    simp [tp_touch_down, tp_init_touch]
  · intro t ht
    rw [h5 t ht]
    intro hs
    simp [tp_init_touch] at hs

theorem reachable_inv (tp : tp_dispatch) (h : Reachable tp) : tp_inv tp := by
  induction h with
  | init tp h0 => exact tp_initial_inv tp h0
  | step p tp input _ ih => exact tp_step_inv p tp input ih

/-! ## The session protocol over the sink -/

theorem gesture_sessions_from_append (c : tp_call) :
    ∀ (l : List tp_call) (s : Option (gesture_kind × Nat)),
      gesture_sessions_from s (l ++ [c]) =
        (gesture_sessions_from s l).bind (fun s' => gesture_session_step s' c)
  | [], s => by
    simp only [List.nil_append, gesture_sessions_from, Option.some_bind]
    cases gesture_session_step s c <;> rfl
  | a :: l, s => by
    simp only [List.cons_append, gesture_sessions_from]
    cases gesture_session_step s a with
    | none => rfl
    | some s' => exact gesture_sessions_from_append c l s'

theorem gesture_sessions_call (tp : tp_dispatch) (c : tp_call) :
    gesture_sessions (tp.call c).sink =
      (gesture_sessions tp.sink).bind (fun s' => gesture_session_step s' c) :=
  gesture_sessions_from_append c tp.sink none

theorem tp_gview_call_neutral (tp : tp_dispatch) (c : tp_call)
    (hc : ∀ s, gesture_session_step s c = some s) : tp_gview (tp.call c) = tp_gview tp := by
  unfold tp_gview
  rw [gesture_sessions_call]
  have : (tp.call c).gesture = tp.gesture := rfl
  rw [this]
  cases gesture_sessions tp.sink with
  | none => rfl
  | some s => simp [hc]

theorem tp_gview_of_eq (tp' tp : tp_dispatch) (h1 : tp'.gesture = tp.gesture)
    (h2 : tp'.sink = tp.sink) : tp_gview tp' = tp_gview tp := by
  unfold tp_gview
  rw [h1, h2]

theorem tp_gview_modify (tp : tp_dispatch) (i : Nat) (f : tp_touch → tp_touch) :
    tp_gview (tp.modify i f) = tp_gview tp := rfl

theorem tp_ginv_of_gview (tp tp' : tp_dispatch) (hv : tp_gview tp' = tp_gview tp)
    (h : tp_ginv tp) : tp_ginv tp' := by
  have h1 : tp'.gesture = tp.gesture := congrArg Prod.fst hv
  have h2 : gesture_sessions tp'.sink = gesture_sessions tp.sink := congrArg Prod.snd hv
  unfold tp_ginv tp_gesture_inv at *
  rw [h1, h2]
  exact h

theorem tp_new_touch_gview (tp : tp_dispatch) (i time : Nat) :
    tp_gview (tp_new_touch tp i time) = tp_gview tp := by
  unfold tp_new_touch
  simp only []
  split_ifs <;> exact tp_gview_of_eq _ _ rfl rfl

theorem tp_begin_touch_gview (tp : tp_dispatch) (i time : Nat) :
    tp_gview (tp_begin_touch tp i time) = tp_gview tp := by
  exact tp_gview_of_eq _ _ rfl rfl

theorem tp_end_touch_gview (tp : tp_dispatch) (i time : Nat) :
    tp_gview (tp_end_touch tp i time) = tp_gview tp := by
  unfold tp_end_touch
  split <;> exact tp_gview_of_eq _ _ rfl rfl

theorem tp_end_sequence_gview (tp : tp_dispatch) (i time : Nat) :
    tp_gview (tp_end_sequence tp i time) = tp_gview tp := by
  unfold tp_end_sequence
  exact (tp_end_touch_gview _ _ _).trans rfl

theorem tp_process_absolute_gview (tp : tp_dispatch) (code : Nat) (value : Int) (time : Nat) :
    tp_gview (tp_process_absolute tp code value time) = tp_gview tp := by
  unfold tp_process_absolute
  simp only []
  split_ifs <;> first
    | exact tp_new_touch_gview _ _ _
    | exact tp_end_sequence_gview _ _ _
    | exact tp_gview_of_eq _ _ rfl rfl

theorem tp_process_absolute_st_gview (tp : tp_dispatch) (code : Nat) (value : Int)
    (time : Nat) : tp_gview (tp_process_absolute_st tp code value time) = tp_gview tp := by
  unfold tp_process_absolute_st
  simp only []
  split_ifs <;> exact tp_gview_of_eq _ _ rfl rfl

theorem tp_fake_finger_set_gview (tp : tp_dispatch) (code : Nat) (is_press : Bool) :
    tp_gview (tp_fake_finger_set tp code is_press) = tp_gview tp := by
  unfold tp_fake_finger_set
  simp only []
  split_ifs <;> exact tp_gview_of_eq _ _ rfl rfl

theorem tp_process_key_gview (p : tp_peers) (tp : tp_dispatch) (code : Nat) (value : Int)
    (time : Nat) : tp_gview (tp_process_key p tp code value time) = tp_gview tp := by
  unfold tp_process_key tp_process_trackpoint_button
  simp only []
  split_ifs <;> first
    | exact tp_fake_finger_set_gview _ _ _
    | exact tp_gview_call_neutral _ _ (by intro _; rfl)
    | exact tp_gview_of_eq _ _ rfl rfl

theorem tp_loop_gview (body : Nat → tp_dispatch → tp_dispatch)
    (hb : ∀ i s, tp_gview (body i s) = tp_gview s) (lo hi : Nat) (tp : tp_dispatch) :
    tp_gview (tp_loop lo hi body tp) = tp_gview tp :=
  tp_loop_inv (fun s => tp_gview s = tp_gview tp) body (fun i s hs => (hb i s).trans hs)
    lo hi tp rfl

theorem tp_loop_list_gview (body : Nat → tp_dispatch → tp_dispatch × Bool)
    (hb : ∀ i s, tp_gview (body i s).1 = tp_gview s) (l : List Nat) (tp : tp_dispatch) :
    tp_gview (tp_loop_list body l tp) = tp_gview tp :=
  tp_loop_list_inv (fun s => tp_gview s = tp_gview tp) body (fun i s hs => (hb i s).trans hs)
    l tp rfl

theorem tp_restore_synaptics_touches_gview (tp : tp_dispatch) (time : Nat) :
    tp_gview (tp_restore_synaptics_touches tp time) = tp_gview tp := by
  unfold tp_restore_synaptics_touches
  simp only []
  split_ifs <;> first
    | exact tp_gview_of_eq _ _ rfl rfl
    | (apply tp_loop_gview
       intro i s
       split_ifs
       · exact tp_gview_of_eq _ _ rfl rfl
       · exact (tp_gview_modify _ _ _).trans
           ((tp_begin_touch_gview _ _ _).trans (tp_new_touch_gview _ _ _)))

theorem tp_process_fake_touches_gview (tp : tp_dispatch) (time : Nat) :
    tp_gview (tp_process_fake_touches tp time) = tp_gview tp := by
  have hbody : ∀ (nf i : Nat) (s : tp_dispatch),
      tp_gview (if i < nf then tp_new_touch s i time else tp_end_sequence s i time) =
        tp_gview s := by
    intro nf i s
    split_ifs
    · exact tp_new_touch_gview _ _ _
    · exact tp_end_sequence_gview _ _ _
  unfold tp_process_fake_touches
  simp only []
  split_ifs <;> first
    | exact tp_gview_of_eq _ _ rfl rfl
    | exact (tp_loop_gview _ (hbody _) _ _ _).trans (tp_restore_synaptics_touches_gview _ _)
    | exact tp_loop_gview _ (hbody _) _ _ _

theorem tp_unhover_abs_distance_gview (tp : tp_dispatch) (time : Nat) :
    tp_gview (tp_unhover_abs_distance tp time) = tp_gview tp := by
  unfold tp_unhover_abs_distance
  apply tp_loop_gview
  intro i s
  simp only []
  split_ifs
  · exact (tp_begin_touch_gview _ _ _).trans (tp_gview_modify _ _ _)
  · exact tp_gview_of_eq _ _ rfl rfl
  · exact tp_end_touch_gview _ _ _
  · exact tp_gview_of_eq _ _ rfl rfl

theorem tp_unhover_fake_touches_gview (tp : tp_dispatch) (time : Nat) :
    tp_gview (tp_unhover_fake_touches tp time) = tp_gview tp := by
  have hloop1 : ∀ (nf : Nat) (l : List Nat) (s : tp_dispatch),
      tp_gview (tp_loop_list (fun i tp =>
            if (tp_get_touch tp i).state = .TOUCH_HOVERING then
              (tp_begin_touch tp i time,
                decide ((tp_begin_touch tp i time).nfingers_down ≥ nf))
            else (tp, false)) l s) = tp_gview s := by
    intro nf l s
    apply tp_loop_list_gview
    intro i s
    split_ifs
    · exact tp_begin_touch_gview _ _ _
    · exact tp_gview_of_eq _ _ rfl rfl
  have hloop2 : ∀ (nf : Nat) (l : List Nat) (s : tp_dispatch),
      tp_gview (tp_loop_list (fun i tp =>
          if (tp_get_touch tp i).state = .TOUCH_HOVERING ∨
              (tp_get_touch tp i).state = .TOUCH_NONE then (tp, false)
          else
            (tp_end_touch tp i time,
              tp_fake_finger_is_touching (tp_end_touch tp i time) &&
                decide ((tp_end_touch tp i time).nfingers_down = nf))) l s) = tp_gview s := by
    intro nf l s
    apply tp_loop_list_gview
    intro i s
    split_ifs
    · exact tp_gview_of_eq _ _ rfl rfl
    · exact tp_end_touch_gview _ _ _
  unfold tp_unhover_fake_touches
  simp only []
  split_ifs <;> first
    | exact tp_gview_of_eq _ _ rfl rfl
    | exact (hloop2 _ _ _).trans (hloop1 _ _ _)
    | exact hloop1 _ _ _
    | exact hloop2 _ _ _

theorem tp_unhover_touches_gview (tp : tp_dispatch) (time : Nat) :
    tp_gview (tp_unhover_touches tp time) = tp_gview tp := by
  unfold tp_unhover_touches
  split_ifs
  · exact tp_unhover_abs_distance_gview _ _
  · exact tp_unhover_fake_touches_gview _ _

theorem tp_position_fake_touches_gview (tp : tp_dispatch) :
    tp_gview (tp_position_fake_touches tp) = tp_gview tp := by
  unfold tp_position_fake_touches
  split_ifs <;> first
    | exact tp_gview_of_eq _ _ rfl rfl
    | (split
       · exact tp_gview_call_neutral _ _ (by intro _; rfl)
       · apply tp_loop_gview
         intro i s
         split_ifs <;> exact tp_gview_of_eq _ _ rfl rfl)

theorem tp_process_touches_gview (p : tp_peers) (tp : tp_dispatch) (time : Nat) :
    tp_gview (tp_process_touches p tp time) = tp_gview tp := by
  have hloop : ∀ (w : Bool) (n : Nat) (s : tp_dispatch),
      tp_gview (tp_loop 0 n (fun i tp =>
        tp.modify i (fun t => (tp_process_touch p tp w t time).1)) s) = tp_gview s := by
    intro w n s
    apply tp_loop_gview
    intro i s
    exact tp_gview_of_eq _ _ rfl rfl
  unfold tp_process_touches
  simp only []
  split_ifs
  · exact (tp_gview_call_neutral _ _ (by intro _; rfl)).trans (hloop _ _ _)
  · exact hloop _ _ _

theorem tp_pin_fingers_gview (tp : tp_dispatch) : tp_gview (tp_pin_fingers tp) = tp_gview tp := by
  unfold tp_pin_fingers tp_for_each_touch
  apply tp_loop_gview
  intro i s
  exact tp_gview_of_eq _ _ rfl rfl

theorem tp_process_state_pre_gview (p : tp_peers) (tp : tp_dispatch) (time : Nat) :
    tp_gview (tp_process_state_pre p tp time) = tp_gview tp := by
  have h1 : tp_gview (((tp_process_touches p (tp_position_fake_touches
      (tp_unhover_touches (tp_process_fake_touches tp time) time)) time).call
        (.tp_button_handle_state time)).call (.tp_edge_scroll_handle_state time)) =
      tp_gview tp := by
    rw [tp_gview_call_neutral _ _ (by intro _; rfl), tp_gview_call_neutral _ _ (by intro _; rfl),
      tp_process_touches_gview, tp_position_fake_touches_gview, tp_unhover_touches_gview,
      tp_process_fake_touches_gview]
  unfold tp_process_state_pre
  simp only []
  split_ifs
  · exact (tp_pin_fingers_gview _).trans h1
  · exact h1

theorem tp_post_process_state_gview (tp : tp_dispatch) (time : Nat) :
    tp_gview (tp_post_process_state tp time) = tp_gview tp := by
  unfold tp_post_process_state
  simp only []
  show tp_gview (tp_for_each_touch tp _) = _
  unfold tp_for_each_touch
  apply tp_loop_gview
  intro i s
  exact tp_gview_of_eq _ _ rfl rfl

/-! ## The invariant of the gesture machine -/

theorem gesture_sessions_append (l : List tp_call) (c : tp_call) :
    gesture_sessions (l ++ [c]) =
      (gesture_sessions l).bind (fun s' => gesture_session_step s' c) :=
  gesture_sessions_from_append c l none

theorem tp_gesture_inv_not_started (g : tp_gesture) (sink : List tp_call)
    (h1 : g.finger_count = 0 → g.state = .GESTURE_STATE_NONE) (h2 : g.started = false)
    (h3 : gesture_sessions sink = some none) : tp_gesture_inv g sink := by
  refine ⟨h1, ?_, ?_⟩
  · intro hs; rw [h2] at hs; cases hs
  · rw [h3]; simp [tp_open_session, h2]

theorem tp_ginv_not_started (tp : tp_dispatch) (h : tp_ginv tp)
    (hs : tp.gesture.started = false) : gesture_sessions tp.sink = some none := by
  have := h.2.2
  rw [this]; simp [tp_open_session, hs]

theorem tp_gesture_stop_twofinger_scroll_gview (tp : tp_dispatch) (time : Nat) :
    tp_gview (tp_gesture_stop_twofinger_scroll tp time) = tp_gview tp := by
  unfold tp_gesture_stop_twofinger_scroll
  split_ifs
  · rfl
  · exact tp_gview_call_neutral _ _ (by intro _; rfl)

theorem tp_gesture_stop_twofinger_scroll_sessions (tp : tp_dispatch) (time : Nat) :
    gesture_sessions (tp_gesture_stop_twofinger_scroll tp time).sink =
      gesture_sessions tp.sink :=
  congrArg Prod.snd (tp_gesture_stop_twofinger_scroll_gview tp time)

theorem tp_gesture_stop_twofinger_scroll_gesture (tp : tp_dispatch) (time : Nat) :
    (tp_gesture_stop_twofinger_scroll tp time).gesture = tp.gesture :=
  congrArg Prod.fst (tp_gesture_stop_twofinger_scroll_gview tp time)

theorem tp_gesture_end_spec (tp : tp_dispatch) (time : Nat) (cancelled : Bool)
    (h : tp_ginv tp) :
    (tp_gesture_end tp time cancelled).gesture.state = .GESTURE_STATE_NONE ∧
    (tp_gesture_end tp time cancelled).gesture.started = false ∧
    gesture_sessions (tp_gesture_end tp time cancelled).sink = some none ∧
    (tp_gesture_end tp time cancelled).gesture.finger_count = tp.gesture.finger_count ∧
    (tp_gesture_end tp time cancelled).gesture.finger_count_pending =
      tp.gesture.finger_count_pending := by
  obtain ⟨h1, h2, h3⟩ := h
  unfold tp_gesture_end
  cases hst : tp.gesture.started with
  | false =>
    refine ⟨?_, ?_, ?_, ?_, ?_⟩ <;>
      simp [hst, h3, tp_open_session]
  | true =>
    rcases h2 hst with hs | hs | hs <;>
    refine ⟨?_, ?_, ?_, ?_, ?_⟩ <;>
      simp [hst, hs, h3, tp_open_session, tp_dispatch.call, gesture_sessions_append,
        gesture_session_step, tp_gesture_stop_twofinger_scroll_sessions,
        tp_gesture_stop_twofinger_scroll_gesture]

theorem tp_gesture_start_spec (tp : tp_dispatch) (time : Nat) (h : tp_ginv tp)
    (hs : tp.gesture.state = .GESTURE_STATE_SCROLL ∨ tp.gesture.state = .GESTURE_STATE_PINCH ∨
      tp.gesture.state = .GESTURE_STATE_SWIPE) :
    (tp_gesture_start tp time).gesture.state = tp.gesture.state ∧
    (tp_gesture_start tp time).gesture.started = true ∧
    (tp_gesture_start tp time).gesture.finger_count = tp.gesture.finger_count ∧
    (tp_gesture_start tp time).gesture.finger_count_pending =
      tp.gesture.finger_count_pending ∧
    gesture_sessions (tp_gesture_start tp time).sink =
      some (tp_open_session { tp.gesture with started := true }) := by
  obtain ⟨h1, h2, h3⟩ := h
  unfold tp_gesture_start
  cases hst : tp.gesture.started with
  | true =>
    refine ⟨?_, ?_, ?_, ?_, ?_⟩ <;> simp [hst, h3, tp_open_session]
  | false =>
    rcases hs with hs | hs | hs <;>
    refine ⟨?_, ?_, ?_, ?_, ?_⟩ <;>
      simp [hst, hs, h3, tp_open_session, tp_dispatch.call, gesture_sessions_append,
        gesture_session_step]

theorem tp_ginv_intro (tp : tp_dispatch)
    (h1 : tp.gesture.finger_count = 0 → tp.gesture.state = .GESTURE_STATE_NONE)
    (h2 : tp.gesture.started = true → tp.gesture.state = .GESTURE_STATE_SCROLL ∨
      tp.gesture.state = .GESTURE_STATE_PINCH ∨ tp.gesture.state = .GESTURE_STATE_SWIPE)
    (h3 : gesture_sessions tp.sink = some (tp_open_session tp.gesture)) : tp_ginv tp :=
  ⟨h1, h2, h3⟩

theorem tp_ginv_started_false_of_state (tp : tp_dispatch) (h : tp_ginv tp)
    (hs : tp.gesture.state = .GESTURE_STATE_NONE ∨ tp.gesture.state = .GESTURE_STATE_UNKNOWN) :
    tp.gesture.started = false := by
  cases hst : tp.gesture.started with
  | false => rfl
  | true =>
    rcases h.2.1 hst with h' | h' | h' <;> rcases hs with hs | hs <;> rw [hs] at h' <;> cases h'

theorem tp_gesture_handle_state_none_ginv (p : tp_peers) (tp : tp_dispatch) (time : Nat)
    (h : tp_ginv tp) (hfc : tp.gesture.finger_count ≠ 0)
    (hs : tp.gesture.state = .GESTURE_STATE_NONE) :
    tp_ginv { (tp_gesture_handle_state_none p tp time).1 with
      gesture.state := (tp_gesture_handle_state_none p tp time).2 } ∧
    ({ (tp_gesture_handle_state_none p tp time).1 with
      gesture.state := (tp_gesture_handle_state_none p tp time).2 } :
        tp_dispatch).gesture.finger_count = tp.gesture.finger_count := by
  have hst := tp_ginv_started_false_of_state tp h (Or.inl hs)
  have hss := tp_ginv_not_started tp h hst
  unfold tp_gesture_handle_state_none
  simp only []
  split_ifs <;> refine ⟨tp_ginv_intro _ ?_ ?_ ?_, ?_⟩ <;>
    simp [hst, hs, hss, hfc, tp_open_session, tp_dispatch.modify]

theorem tp_gesture_handle_state_unknown_ginv (p : tp_peers) (tp : tp_dispatch) (time : Nat)
    (h : tp_ginv tp) (hfc : tp.gesture.finger_count ≠ 0)
    (hs : tp.gesture.state = .GESTURE_STATE_UNKNOWN) :
    tp_ginv { (tp_gesture_handle_state_unknown p tp time).1 with
      gesture.state := (tp_gesture_handle_state_unknown p tp time).2 } ∧
    ({ (tp_gesture_handle_state_unknown p tp time).1 with
      gesture.state := (tp_gesture_handle_state_unknown p tp time).2 } :
        tp_dispatch).gesture.finger_count = tp.gesture.finger_count := by
  have hst := tp_ginv_started_false_of_state tp h (Or.inr hs)
  have hss := tp_ginv_not_started tp h hst
  unfold tp_gesture_handle_state_unknown
  simp only []
  split_ifs <;> refine ⟨tp_ginv_intro _ ?_ ?_ ?_, ?_⟩ <;>
    simp [hst, hs, hss, hfc, tp_open_session, tp_gesture_set_scroll_buildup,
      tp_gesture_init_pinch]

theorem tp_gesture_handle_state_scroll_ginv (p : tp_peers) (tp : tp_dispatch) (time : Nat)
    (h : tp_ginv tp) (hfc : tp.gesture.finger_count ≠ 0)
    (hs : tp.gesture.state = .GESTURE_STATE_SCROLL) :
    tp_ginv { (tp_gesture_handle_state_scroll p tp time).1 with
      gesture.state := (tp_gesture_handle_state_scroll p tp time).2 } ∧
    ({ (tp_gesture_handle_state_scroll p tp time).1 with
      gesture.state := (tp_gesture_handle_state_scroll p tp time).2 } :
        tp_dispatch).gesture.finger_count = tp.gesture.finger_count := by
  obtain ⟨g1, g2, g3, g4, g5⟩ := tp_gesture_start_spec tp time h (Or.inl hs)
  obtain ⟨h1, h2, h3⟩ := h
  unfold tp_gesture_handle_state_scroll
  simp only []
  split_ifs <;> refine ⟨tp_ginv_intro _ ?_ ?_ ?_, ?_⟩ <;>
    simp [hs, hfc, h3, g1, g2, g3, g4, g5, tp_open_session, tp_dispatch.call,
      gesture_sessions_append, gesture_session_step]

theorem tp_gesture_handle_state_swipe_ginv (p : tp_peers) (tp : tp_dispatch) (time : Nat)
    (h : tp_ginv tp) (hfc : tp.gesture.finger_count ≠ 0)
    (hs : tp.gesture.state = .GESTURE_STATE_SWIPE) :
    tp_ginv { (tp_gesture_handle_state_swipe p tp time).1 with
      gesture.state := (tp_gesture_handle_state_swipe p tp time).2 } ∧
    ({ (tp_gesture_handle_state_swipe p tp time).1 with
      gesture.state := (tp_gesture_handle_state_swipe p tp time).2 } :
        tp_dispatch).gesture.finger_count = tp.gesture.finger_count := by
  obtain ⟨g1, g2, g3, g4, g5⟩ := tp_gesture_start_spec tp time h (Or.inr (Or.inr hs))
  obtain ⟨h1, h2, h3⟩ := h
  unfold tp_gesture_handle_state_swipe
  simp only []
  split_ifs <;> refine ⟨tp_ginv_intro _ ?_ ?_ ?_, ?_⟩ <;>
    simp [hs, hfc, h3, g1, g2, g3, g4, g5, tp_open_session, tp_dispatch.call,
      gesture_sessions_append, gesture_session_step]

theorem tp_ginv_set_angle_center (tp : tp_dispatch) (a : ℚ) (c : device_float_coords)
    (h : tp_ginv tp) : tp_ginv { tp with gesture.angle := a, gesture.center := c } := by
  obtain ⟨h1, h2, h3⟩ := h
  exact ⟨h1, h2, h3⟩

theorem tp_gesture_pinch_update_ginv (tp : tp_dispatch) (time : Nat)
    (delta unaccel : normalized_coords) (scale : c_double) (angle_delta : ℚ)
    (h : tp_ginv tp) (hfc : tp.gesture.finger_count ≠ 0)
    (hs : tp.gesture.state = .GESTURE_STATE_PINCH) :
    tp_ginv { ({ (tp_gesture_start tp time).call
        (.gesture_notify_pinch time .UPDATE (tp_gesture_start tp time).gesture.finger_count
          delta unaccel scale angle_delta) with gesture.prev_scale := scale } : tp_dispatch) with
      gesture.state := .GESTURE_STATE_PINCH } ∧
    ({ ({ (tp_gesture_start tp time).call
        (.gesture_notify_pinch time .UPDATE (tp_gesture_start tp time).gesture.finger_count
          delta unaccel scale angle_delta) with gesture.prev_scale := scale } : tp_dispatch) with
      gesture.state := .GESTURE_STATE_PINCH } : tp_dispatch).gesture.finger_count =
        tp.gesture.finger_count := by
  obtain ⟨g1, g2, g3, g4, g5⟩ := tp_gesture_start_spec tp time h (Or.inr (Or.inl hs))
  obtain ⟨h1, h2, h3⟩ := h
  refine ⟨tp_ginv_intro _ ?_ ?_ ?_, ?_⟩ <;>
    simp [hs, hfc, h3, g1, g2, g3, g4, g5, tp_open_session, tp_dispatch.call,
      gesture_sessions_append, gesture_session_step]

theorem tp_gesture_handle_state_pinch_ginv (p : tp_peers) (tp : tp_dispatch) (time : Nat)
    (h : tp_ginv tp) (hfc : tp.gesture.finger_count ≠ 0)
    (hs : tp.gesture.state = .GESTURE_STATE_PINCH) :
    tp_ginv { (tp_gesture_handle_state_pinch p tp time).1 with
      gesture.state := (tp_gesture_handle_state_pinch p tp time).2 } ∧
    ({ (tp_gesture_handle_state_pinch p tp time).1 with
      gesture.state := (tp_gesture_handle_state_pinch p tp time).2 } :
        tp_dispatch).gesture.finger_count = tp.gesture.finger_count := by
  have h' := tp_ginv_set_angle_center tp (tp_gesture_get_pinch_info p tp).2.1
    (tp_gesture_get_pinch_info p tp).2.2 h
  unfold tp_gesture_handle_state_pinch
  simp only []
  split_ifs
  · obtain ⟨h1, h2, h3⟩ := h
    refine ⟨tp_ginv_intro _ ?_ ?_ ?_, ?_⟩ <;> simp [hs, hfc, h3, tp_open_session]
  · exact tp_gesture_pinch_update_ginv _ time _ _ _ _ h' hfc hs

theorem tp_gesture_post_gesture_step_ginv (p : tp_peers) (time : Nat) (c : tp_gesture_state)
    (handler : tp_peers → tp_dispatch → Nat → tp_dispatch × tp_gesture_state)
    (hh : ∀ s, tp_ginv s → s.gesture.finger_count ≠ 0 → s.gesture.state = c →
      tp_ginv { (handler p s time).1 with gesture.state := (handler p s time).2 } ∧
      ({ (handler p s time).1 with gesture.state := (handler p s time).2 } :
        tp_dispatch).gesture.finger_count = s.gesture.finger_count)
    (tp : tp_dispatch) (h : tp_ginv tp) (hfc : tp.gesture.finger_count ≠ 0) :
    tp_ginv (tp_gesture_post_gesture_step p time c handler tp) ∧
    (tp_gesture_post_gesture_step p time c handler tp).gesture.finger_count =
      tp.gesture.finger_count := by
  unfold tp_gesture_post_gesture_step
  split_ifs with hc
  · exact hh tp h hfc hc
  · exact ⟨h, rfl⟩

theorem tp_gesture_post_gesture_ginv (p : tp_peers) (tp : tp_dispatch) (time : Nat)
    (h : tp_ginv tp) (hfc : tp.gesture.finger_count ≠ 0) :
    tp_ginv (tp_gesture_post_gesture p tp time) := by
  unfold tp_gesture_post_gesture
  simp only []
  have s1 := tp_gesture_post_gesture_step_ginv p time _ _
    (tp_gesture_handle_state_none_ginv p · time) tp h hfc
  have s2 := tp_gesture_post_gesture_step_ginv p time _ _
    (tp_gesture_handle_state_unknown_ginv p · time) _ s1.1 (by rw [s1.2]; exact hfc)
  have s3 := tp_gesture_post_gesture_step_ginv p time _ _
    (tp_gesture_handle_state_scroll_ginv p · time) _ s2.1 (by rw [s2.2, s1.2]; exact hfc)
  have s4 := tp_gesture_post_gesture_step_ginv p time _ _
    (tp_gesture_handle_state_swipe_ginv p · time) _ s3.1
    (by rw [s3.2, s2.2, s1.2]; exact hfc)
  have s5 := tp_gesture_post_gesture_step_ginv p time _ _
    (tp_gesture_handle_state_pinch_ginv p · time) _ s4.1
    (by rw [s4.2, s3.2, s2.2, s1.2]; exact hfc)
  exact s5.1

theorem tp_gesture_post_pointer_motion_gview (p : tp_peers) (tp : tp_dispatch) (time : Nat) :
    tp_gview (tp_gesture_post_pointer_motion p tp time) = tp_gview tp := by
  unfold tp_gesture_post_pointer_motion
  simp only []
  split_ifs <;> first
    | exact tp_gview_call_neutral _ _ (by intro _; rfl)
    | rfl

theorem tp_ginv_after_end (tp : tp_dispatch) (time : Nat) (cancelled : Bool) (n m : Nat)
    (h : tp_ginv tp) :
    tp_ginv { tp_gesture_end tp time cancelled with
      gesture.finger_count := n, gesture.finger_count_pending := m } := by
  obtain ⟨e1, e2, e3, _, _⟩ := tp_gesture_end_spec tp time cancelled h
  exact tp_gesture_inv_not_started _ _ (fun _ => e1) e2 e3

theorem tp_gesture_post_events_ginv (p : tp_peers) (tp : tp_dispatch) (time : Nat)
    (h : tp_ginv tp) : tp_ginv (tp_gesture_post_events p tp time) := by
  have key : ∀ s : tp_dispatch, tp_ginv s → s.gesture.finger_count ≠ 0 →
      tp_ginv (if s.gesture.finger_count_pending ≠ 0 then s
        else if s.gesture.finger_count = 1 then tp_gesture_post_pointer_motion p s time
        else if s.gesture.finger_count = 2 ∨ s.gesture.finger_count = 3 ∨
            s.gesture.finger_count = 4 then
          tp_gesture_post_gesture p s time
        else s) := by
    intro s hs hfc
    split_ifs
    · exact hs
    · exact tp_ginv_of_gview _ _ (tp_gesture_post_pointer_motion_gview _ _ _) hs
    · exact tp_gesture_post_gesture_ginv _ _ _ hs hfc
    · exact hs
  unfold tp_gesture_post_events
  by_cases h0 : tp.gesture.finger_count = 0
  · simp only [h0, if_true]; exact h
  · simp only [h0, if_false]
    by_cases hd : p.tp_tap_dragging = true ∨
        (tp.buttons.is_clickpad = true ∧ tp.buttons.state ≠ 0)
    · simp only [hd, if_true]
      exact key _ (tp_ginv_after_end tp time true 1 0 h) (by simp)
    · simp only [hd, if_false]
      exact key _ h h0

theorem tp_gesture_finger_count_switch_timeout_ginv (tp : tp_dispatch) (now : Nat)
    (h : tp_ginv tp) : tp_ginv (tp_gesture_finger_count_switch_timeout tp now) := by
  unfold tp_gesture_finger_count_switch_timeout
  simp only []
  split_ifs
  · exact h
  · obtain ⟨e1, e2, e3, _, _⟩ := tp_gesture_end_spec tp now true h
    exact tp_gesture_inv_not_started _ _ (fun _ => e1) e2 e3

theorem tp_gesture_handle_state_ginv (p : tp_peers) (tp : tp_dispatch) (time : Nat)
    (h : tp_ginv tp) : tp_ginv (tp_gesture_handle_state p tp time) := by
  obtain ⟨e1, e2, e3, _, _⟩ := tp_gesture_end_spec tp time false h
  obtain ⟨h1, h2, h3⟩ := h
  unfold tp_gesture_handle_state
  simp only []
  split_ifs with c1 c2 c3 c4
  · exact tp_gesture_inv_not_started _ _ (fun _ => e1) e2 e3
  · refine tp_ginv_intro _ ?_ ?_ ?_
    · intro hz; exact absurd hz c2
    · intro hs; simp at c3; rw [c3] at hs; cases hs
    · simp at c3; simp [h3, tp_open_session, c3]
  · refine tp_ginv_intro _ h1 h2 ?_
    simp [tp_dispatch.call, gesture_sessions_append, h3, gesture_session_step]
    rfl
  · exact ⟨h1, h2, h3⟩
  · exact ⟨h1, h2, h3⟩

theorem tp_post_events_ginv (p : tp_peers) (tp : tp_dispatch) (time : Nat)
    (h : tp_ginv tp) : tp_ginv (tp_post_events p tp time) := by
  have c1 : ∀ (s : tp_dispatch) (c : tp_call), (∀ x, gesture_session_step x c = some x) →
      tp_ginv s → tp_ginv (s.call c) :=
    fun s c hc hs => tp_ginv_of_gview _ _ (tp_gview_call_neutral _ _ hc) hs
  unfold tp_post_events
  simp only []
  split_ifs
  · exact c1 _ _ (by intro _; rfl) h
  · obtain ⟨e1, e2, e3, _, _⟩ := tp_gesture_end_spec _ time true
      (c1 _ (.tp_edge_scroll_stop_events time) (by intro _; rfl)
        (c1 _ (.tp_post_button_events time) (by intro _; rfl)
          (c1 _ (.tp_tap_handle_state time) (by intro _; rfl) h)))
    exact tp_gesture_inv_not_started _ _ (fun _ => e1) e2 e3
  · exact c1 _ (.tp_edge_scroll_post_events time) (by intro _; rfl)
        (c1 _ (.tp_post_button_events time) (by intro _; rfl)
          (c1 _ (.tp_tap_handle_state time) (by intro _; rfl) h))
  · exact tp_gesture_post_events_ginv _ _ _
      (c1 _ (.tp_edge_scroll_post_events time) (by intro _; rfl)
        (c1 _ (.tp_post_button_events time) (by intro _; rfl)
          (c1 _ (.tp_tap_handle_state time) (by intro _; rfl) h)))

theorem tp_handle_state_ginv (p : tp_peers) (tp : tp_dispatch) (time : Nat)
    (h : tp_ginv tp) : tp_ginv (tp_handle_state p tp time) := by
  unfold tp_handle_state tp_process_state
  apply tp_ginv_of_gview _ _ (tp_post_process_state_gview _ _)
  apply tp_post_events_ginv
  apply tp_gesture_handle_state_ginv
  exact tp_ginv_of_gview _ _ (tp_process_state_pre_gview _ _ _) h

theorem tp_clear_state_ginv (p : tp_peers) (tp : tp_dispatch) (now : Nat)
    (h : tp_ginv tp) : tp_ginv (tp_clear_state p tp now) := by
  unfold tp_clear_state
  apply tp_handle_state_ginv
  have h0 : tp_ginv ((({ tp with
          buttons.state := (p.tp_release_all_buttons tp.buttons.state tp.queued).1,
          queued := (p.tp_release_all_buttons tp.buttons.state tp.queued).2 } :
          tp_dispatch).call (.tp_release_all_buttons now)).call (.tp_release_all_taps now)) :=
    tp_ginv_of_gview _ _ (tp_gview_call_neutral _ _ (by intro _; rfl))
      (tp_ginv_of_gview _ _ (tp_gview_call_neutral _ _ (by intro _; rfl))
        (tp_ginv_of_gview _ tp (tp_gview_of_eq _ _ rfl rfl) h))
  have h1 := tp_for_each_touch_inv tp_ginv (fun i tp => tp_end_sequence tp i now)
    (fun i s hs => tp_ginv_of_gview _ _ (tp_end_sequence_gview _ _ _) hs) _ h0
  exact tp_ginv_of_gview _ _ (tp_gview_of_eq _ _ rfl rfl) h1

theorem tp_keyboard_event_ginv (tp : tp_dispatch) (time : Nat) (is_key pressed : Bool)
    (keycode : Nat) (h : tp_ginv tp) :
    tp_ginv (tp_keyboard_event tp time is_key pressed keycode) := by
  have c1 : ∀ (s : tp_dispatch) (c : tp_call), (∀ x, gesture_session_step x c = some x) →
      tp_ginv s → tp_ginv (s.call c) :=
    fun s c hc hs => tp_ginv_of_gview _ _ (tp_gview_call_neutral _ _ hc) hs
  unfold tp_keyboard_event
  simp only []
  split_ifs
  · exact h
  · exact h
  · exact h
  · exact h
  · obtain ⟨e1, e2, e3, _, _⟩ := tp_gesture_end_spec _ time true
      (c1 _ (.tp_edge_scroll_stop_events time) (by intro _; rfl) h)
    apply c1 _ _ (by intro _; rfl)
    refine tp_gesture_inv_not_started _ _ (fun _ => e1) e2 ?_
    show gesture_sessions ((tp_gesture_cancel _ time).sink ++ [_]) = _
    rw [gesture_sessions_append]
    unfold tp_gesture_cancel
    rw [e3]
    rfl
  · exact c1 _ _ (by intro _; rfl)
      (tp_ginv_of_gview _ tp (tp_gview_of_eq _ _ rfl rfl) h)

theorem tp_trackpoint_event_ginv (tp : tp_dispatch) (time : Nat) (is_button : Bool)
    (h : tp_ginv tp) : tp_ginv (tp_trackpoint_event tp time is_button) := by
  have c1 : ∀ (s : tp_dispatch) (c : tp_call), (∀ x, gesture_session_step x c = some x) →
      tp_ginv s → tp_ginv (s.call c) :=
    fun s c hc hs => tp_ginv_of_gview _ _ (tp_gview_call_neutral _ _ hc) hs
  unfold tp_trackpoint_event
  simp only []
  split_ifs
  · exact h
  · obtain ⟨e1, e2, e3, _, _⟩ := tp_gesture_end_spec _ time true
      (c1 _ (.tp_edge_scroll_stop_events time) (by intro _; rfl) h)
    apply c1 _ _ (by intro _; rfl)
    refine tp_gesture_inv_not_started _ _ (fun _ => e1) e2 ?_
    show gesture_sessions ((tp_gesture_cancel _ time).sink ++ [_]) = _
    rw [gesture_sessions_append]
    unfold tp_gesture_cancel
    rw [e3]
    rfl
  · exact c1 _ _ (by intro _; rfl)
      (tp_ginv_of_gview _ tp (tp_gview_of_eq _ _ rfl rfl) h)

theorem tp_scroll_config_scroll_method_set_method_ginv (tp : tp_dispatch)
    (method : scroll_method) (time : Nat) (h : tp_ginv tp) :
    tp_ginv (tp_scroll_config_scroll_method_set_method tp method time) := by
  unfold tp_scroll_config_scroll_method_set_method
  simp only []
  split_ifs
  · exact h
  · have h1 := tp_ginv_of_gview _ _ (tp_gesture_stop_twofinger_scroll_gview
      (tp.call (.tp_edge_scroll_stop_events time)) time)
      (tp_ginv_of_gview _ _ (tp_gview_call_neutral tp (.tp_edge_scroll_stop_events time)
        (by intro _; rfl)) h)
    exact tp_ginv_of_gview _ _ (tp_gview_of_eq _ _ rfl rfl) h1

theorem tp_step_ginv (p : tp_peers) (tp : tp_dispatch) (input : tp_input) (h : tp_ginv tp) :
    tp_ginv (tp_step p tp input) := by
  cases input with
  | process type code value time =>
    show tp_ginv (tp_interface_process p tp type code value time)
    unfold tp_interface_process
    split_ifs
    · exact tp_ginv_of_gview _ _ (tp_process_absolute_gview _ _ _ _) h
    · exact tp_ginv_of_gview _ _ (tp_process_absolute_st_gview _ _ _ _) h
    · exact tp_ginv_of_gview _ _ (tp_process_key_gview _ _ _ _ _) h
    · exact tp_handle_state_ginv _ _ _ h
    · exact h
  | keyboard_event time is_key pressed keycode => exact tp_keyboard_event_ginv _ _ _ _ _ h
  | trackpoint_event time is_button => exact tp_trackpoint_event_ginv _ _ _ h
  | finger_count_switch_timeout now =>
    exact tp_gesture_finger_count_switch_timeout_ginv _ _ h
  | trackpoint_timeout now =>
    exact tp_ginv_of_gview _ _ (tp_gview_of_eq _ (tp.call (.tp_tap_resume now)) rfl rfl)
      (tp_ginv_of_gview _ _ (tp_gview_call_neutral tp (.tp_tap_resume now)
        (by intro _; rfl)) h)
  | keyboard_timeout now =>
    exact tp_ginv_of_gview _ _ (tp_gview_of_eq _ (tp.call (.tp_tap_resume now)) rfl rfl)
      (tp_ginv_of_gview _ _ (tp_gview_call_neutral tp (.tp_tap_resume now)
        (by intro _; rfl)) h)
  | clear_state now => exact tp_clear_state_ginv _ _ _ h
  | set_suspended b => exact tp_ginv_of_gview _ tp (tp_gview_of_eq _ _ rfl rfl) h
  | set_trackpoint b => exact tp_ginv_of_gview _ tp (tp_gview_of_eq _ _ rfl rfl) h
  | keyboard_added => exact tp_ginv_of_gview _ tp (tp_gview_of_eq _ _ rfl rfl) h
  | set_scroll_method method time =>
    exact tp_scroll_config_scroll_method_set_method_ginv _ _ _ h
  | dwt_config_set enable => exact tp_ginv_of_gview _ tp (tp_gview_of_eq _ _ rfl rfl) h

theorem tp_initial_ginv (tp : tp_dispatch) (h : tp_initial tp) : tp_ginv tp := by
  obtain ⟨_, _, _, _, _, _, _, _, _, g1, g2, g3, g4, _, _, _, g5⟩ := h
  refine tp_gesture_inv_not_started _ _ (fun _ => g1) g2 ?_
  rw [g5]; rfl

theorem reachable_ginv (tp : tp_dispatch) (h : Reachable tp) : tp_ginv tp := by
  induction h with
  | init tp h0 => exact tp_initial_ginv tp h0
  | step p tp input _ ih => exact tp_step_ginv p tp input ih

/-! ## The queued button press and the buttons survive the touch processing -/

theorem tp_queued_motion_press (q : Nat) :
    (q ||| TOUCHPAD_EVENT_MOTION) &&& TOUCHPAD_EVENT_BUTTON_PRESS =
      q &&& TOUCHPAD_EVENT_BUTTON_PRESS := by
  apply Nat.eq_of_testBit_eq
  intro i
  simp only [Nat.testBit_and, Nat.testBit_or, TOUCHPAD_EVENT_MOTION,
    TOUCHPAD_EVENT_BUTTON_PRESS]
  have h1 : Nat.testBit (1 <<< 0) i = decide (i = 0) := by
    simp [Nat.testBit_one_eq_true_iff_self_eq_zero, Nat.testBit_shiftLeft]
    rcases i with _ | i <;> simp [Nat.testBit_succ]
  have h2 : Nat.testBit (1 <<< 1) i = decide (i = 1) := by
    rcases i with _ | _ | i <;> simp [Nat.testBit_succ, Nat.testBit_shiftLeft]
  rw [h1, h2]
  rcases i with _ | _ | i <;> simp

theorem tp_bview_of_eq (tp' tp : tp_dispatch)
    (h1 : tp'.queued &&& TOUCHPAD_EVENT_BUTTON_PRESS = tp.queued &&& TOUCHPAD_EVENT_BUTTON_PRESS)
    (h2 : tp'.buttons = tp.buttons) : tp_bview tp' = tp_bview tp := by
  unfold tp_bview
  rw [h1, h2]

theorem tp_bview_call (tp : tp_dispatch) (c : tp_call) : tp_bview (tp.call c) = tp_bview tp :=
  rfl

theorem tp_bview_modify (tp : tp_dispatch) (i : Nat) (f : tp_touch → tp_touch) :
    tp_bview (tp.modify i f) = tp_bview tp := rfl

theorem tp_new_touch_bview (tp : tp_dispatch) (i time : Nat) :
    tp_bview (tp_new_touch tp i time) = tp_bview tp := by
  unfold tp_new_touch
  simp only []
  split_ifs
  · rfl
  · exact tp_bview_of_eq _ _ (tp_queued_motion_press _) rfl

theorem tp_begin_touch_bview (tp : tp_dispatch) (i time : Nat) :
    tp_bview (tp_begin_touch tp i time) = tp_bview tp := by
  exact tp_bview_of_eq _ _ rfl rfl

theorem tp_end_touch_bview (tp : tp_dispatch) (i time : Nat) :
    tp_bview (tp_end_touch tp i time) = tp_bview tp := by
  unfold tp_end_touch
  split
  · exact tp_bview_of_eq _ _ rfl rfl
  · rfl
  · rfl
  · exact tp_bview_of_eq _ _ (tp_queued_motion_press _) rfl

theorem tp_end_sequence_bview (tp : tp_dispatch) (i time : Nat) :
    tp_bview (tp_end_sequence tp i time) = tp_bview tp := by
  unfold tp_end_sequence
  exact (tp_end_touch_bview _ _ _).trans rfl

theorem tp_loop_bview (body : Nat → tp_dispatch → tp_dispatch)
    (hb : ∀ i s, tp_bview (body i s) = tp_bview s) (lo hi : Nat) (tp : tp_dispatch) :
    tp_bview (tp_loop lo hi body tp) = tp_bview tp :=
  tp_loop_inv (fun s => tp_bview s = tp_bview tp) body (fun i s hs => (hb i s).trans hs)
    lo hi tp rfl

theorem tp_loop_list_bview (body : Nat → tp_dispatch → tp_dispatch × Bool)
    (hb : ∀ i s, tp_bview (body i s).1 = tp_bview s) (l : List Nat) (tp : tp_dispatch) :
    tp_bview (tp_loop_list body l tp) = tp_bview tp :=
  tp_loop_list_inv (fun s => tp_bview s = tp_bview tp) body (fun i s hs => (hb i s).trans hs)
    l tp rfl

theorem tp_restore_synaptics_touches_bview (tp : tp_dispatch) (time : Nat) :
    tp_bview (tp_restore_synaptics_touches tp time) = tp_bview tp := by
  unfold tp_restore_synaptics_touches
  simp only []
  split_ifs <;> first
    | exact tp_bview_of_eq _ _ rfl rfl
    | (apply tp_loop_bview
       intro i s
       split_ifs
       · exact tp_bview_of_eq _ _ rfl rfl
       · exact (tp_bview_modify _ _ _).trans
           ((tp_begin_touch_bview _ _ _).trans (tp_new_touch_bview _ _ _)))

theorem tp_process_fake_touches_bview (tp : tp_dispatch) (time : Nat) :
    tp_bview (tp_process_fake_touches tp time) = tp_bview tp := by
  have hbody : ∀ (nf i : Nat) (s : tp_dispatch),
      tp_bview (if i < nf then tp_new_touch s i time else tp_end_sequence s i time) =
        tp_bview s := by
    intro nf i s
    split_ifs
    · exact tp_new_touch_bview _ _ _
    · exact tp_end_sequence_bview _ _ _
  unfold tp_process_fake_touches
  simp only []
  split_ifs <;> first
    | exact tp_bview_of_eq _ _ rfl rfl
    | exact (tp_loop_bview _ (hbody _) _ _ _).trans (tp_restore_synaptics_touches_bview _ _)
    | exact tp_loop_bview _ (hbody _) _ _ _

theorem tp_unhover_abs_distance_bview (tp : tp_dispatch) (time : Nat) :
    tp_bview (tp_unhover_abs_distance tp time) = tp_bview tp := by
  unfold tp_unhover_abs_distance
  apply tp_loop_bview
  intro i s
  simp only []
  split_ifs
  · exact (tp_begin_touch_bview _ _ _).trans (tp_bview_modify _ _ _)
  · exact tp_bview_of_eq _ _ rfl rfl
  · exact tp_end_touch_bview _ _ _
  · exact tp_bview_of_eq _ _ rfl rfl

theorem tp_unhover_fake_touches_bview (tp : tp_dispatch) (time : Nat) :
    tp_bview (tp_unhover_fake_touches tp time) = tp_bview tp := by
  have hloop1 : ∀ (nf : Nat) (l : List Nat) (s : tp_dispatch),
      tp_bview (tp_loop_list (fun i tp =>
            if (tp_get_touch tp i).state = .TOUCH_HOVERING then
              (tp_begin_touch tp i time,
                decide ((tp_begin_touch tp i time).nfingers_down ≥ nf))
            else (tp, false)) l s) = tp_bview s := by
    intro nf l s
    apply tp_loop_list_bview
    intro i s
    split_ifs
    · exact tp_begin_touch_bview _ _ _
    · exact tp_bview_of_eq _ _ rfl rfl
  have hloop2 : ∀ (nf : Nat) (l : List Nat) (s : tp_dispatch),
      tp_bview (tp_loop_list (fun i tp =>
          if (tp_get_touch tp i).state = .TOUCH_HOVERING ∨
              (tp_get_touch tp i).state = .TOUCH_NONE then (tp, false)
          else
            (tp_end_touch tp i time,
              tp_fake_finger_is_touching (tp_end_touch tp i time) &&
                decide ((tp_end_touch tp i time).nfingers_down = nf))) l s) = tp_bview s := by
    intro nf l s
    apply tp_loop_list_bview
    intro i s
    split_ifs
    · exact tp_bview_of_eq _ _ rfl rfl
    · exact tp_end_touch_bview _ _ _
  unfold tp_unhover_fake_touches
  simp only []
  split_ifs <;> first
    | exact tp_bview_of_eq _ _ rfl rfl
    | exact (hloop2 _ _ _).trans (hloop1 _ _ _)
    | exact hloop1 _ _ _
    | exact hloop2 _ _ _

theorem tp_unhover_touches_bview (tp : tp_dispatch) (time : Nat) :
    tp_bview (tp_unhover_touches tp time) = tp_bview tp := by
  unfold tp_unhover_touches
  split_ifs
  · exact tp_unhover_abs_distance_bview _ _
  · exact tp_unhover_fake_touches_bview _ _

theorem tp_position_fake_touches_bview (tp : tp_dispatch) :
    tp_bview (tp_position_fake_touches tp) = tp_bview tp := by
  unfold tp_position_fake_touches
  split_ifs <;> first
    | exact tp_bview_of_eq _ _ rfl rfl
    | (split
       · exact tp_bview_call _ _
       · apply tp_loop_bview
         intro i s
         split_ifs <;> exact tp_bview_of_eq _ _ rfl rfl)

theorem tp_process_touches_bview (p : tp_peers) (tp : tp_dispatch) (time : Nat) :
    tp_bview (tp_process_touches p tp time) = tp_bview tp := by
  have hloop : ∀ (w : Bool) (n : Nat) (s : tp_dispatch),
      tp_bview (tp_loop 0 n (fun i tp =>
        tp.modify i (fun t => (tp_process_touch p tp w t time).1)) s) = tp_bview s := by
    intro w n s
    apply tp_loop_bview
    intro i s
    exact tp_bview_of_eq _ _ rfl rfl
  unfold tp_process_touches
  simp only []
  split_ifs
  · exact (tp_bview_call _ _).trans (hloop _ _ _)
  · exact hloop _ _ _

theorem tp_pin_fingers_bview (tp : tp_dispatch) : tp_bview (tp_pin_fingers tp) = tp_bview tp := by
  unfold tp_pin_fingers tp_for_each_touch
  apply tp_loop_bview
  intro i s
  exact tp_bview_of_eq _ _ rfl rfl


theorem tp_process_state_pre_pins (p : tp_peers) (tp : tp_dispatch) (time : Nat)
    (hq : tp.queued &&& TOUCHPAD_EVENT_BUTTON_PRESS ≠ 0) (hc : tp.buttons.is_clickpad = true) :
    tp_process_state_pre p tp time =
      tp_pin_fingers (((tp_process_touches p (tp_position_fake_touches
        (tp_unhover_touches (tp_process_fake_touches tp time) time)) time).call
          (.tp_button_handle_state time)).call (.tp_edge_scroll_handle_state time)) := by
  have h1 : tp_bview (((tp_process_touches p (tp_position_fake_touches
      (tp_unhover_touches (tp_process_fake_touches tp time) time)) time).call
        (.tp_button_handle_state time)).call (.tp_edge_scroll_handle_state time)) =
      tp_bview tp := by
    rw [tp_bview_call, tp_bview_call,
      tp_process_touches_bview, tp_position_fake_touches_bview, tp_unhover_touches_bview,
      tp_process_fake_touches_bview]
  have e1 := congrArg Prod.fst h1
  have e2 := congrArg Prod.snd h1
  simp only [tp_bview] at e1 e2
  unfold tp_process_state_pre
  simp only []
  rw [if_pos]
  rw [e1, e2]
  exact ⟨hq, hc⟩

/-! ## Motion history and hysteresis -/

theorem tp_push_sample_count (t : tp_touch) (pos : device_coords) :
    (tp_push_sample t pos).history.count =
      if t.history.count < 4 then t.history.count + 1 else t.history.count := by
  simp [tp_push_sample, tp_motion_history_push, TOUCHPAD_HISTORY_LENGTH]

theorem tp_push_samples_count :
    ∀ (ps : List device_coords) (t : tp_touch), t.history.count ≤ 4 →
      (tp_push_samples t ps).history.count = min (t.history.count + ps.length) 4
  | [], t, h => by simp [tp_push_samples, h]
  | pos :: ps, t, h => by
    have hc := tp_push_sample_count t pos
    have ih := tp_push_samples_count ps (tp_push_sample t pos) (by rw [hc]; split_ifs <;> omega)
    show (tp_push_samples (tp_push_sample t pos) ps).history.count = _
    rw [ih, hc]
    simp only [List.length_cons]
    split_ifs <;> omega

theorem tp_push_four_offsets (t : tp_touch) (x3 x2 x1 x0 : device_coords) :
    let r := tp_push_sample (tp_push_sample (tp_push_sample (tp_push_sample t x3) x2) x1) x0
    tp_motion_history_offset r 0 = x0 ∧ tp_motion_history_offset r 1 = x1 ∧
    tp_motion_history_offset r 2 = x2 ∧ tp_motion_history_offset r 3 = x3 := by
  have hm : (t.history.index + 1) % 4 < 4 := Nat.mod_lt _ (by decide)
  simp only [tp_push_sample, tp_motion_history_push, tp_motion_history_offset,
    TOUCHPAD_HISTORY_LENGTH]
  generalize (t.history.index + 1) % 4 = m at hm
  interval_cases m <;> simp [tp_samples.get, tp_samples.set]

/-- A value that fits in a 32-bit `int` is not changed by the wrap. -/
theorem c_int_wrap_of_range (v : Int) (h : c_int_range v) : c_int_wrap v = v := by
  unfold c_int_wrap
  unfold c_int_range at h
  omega

/-- Without overflow `tp_estimate_delta` is the exact quotient. -/
theorem tp_estimate_delta_of_fits (x0 x1 x2 x3 : Int)
    (h : tp_estimate_delta_fits x0 x1 x2 x3) :
    tp_estimate_delta x0 x1 x2 x3 = ((x0 + x1 - x2 - x3 : Int) : ℚ) / 4 := by
  obtain ⟨h1, h2, h3⟩ := h
  unfold tp_estimate_delta
  rw [c_int_wrap_of_range _ h1, c_int_wrap_of_range _ h2, c_int_wrap_of_range _ h3]

/-- Where the 32-bit sum overflows, `tp_estimate_delta` is not the exact
quotient: for the positions 2000000000, 2000000000, 0, 0 it is
`-294967296 / 4`. -/
theorem tp_estimate_delta_wraps :
    tp_estimate_delta 2000000000 2000000000 0 0 = -73741824 := by
  simp [tp_estimate_delta, c_int_wrap]
  norm_num

/-- Where `in - center` overflows the 32-bit `int`, `tp_hysteresis` is not the
deadband of the exact difference: the wrapped difference decides. -/
theorem tp_hysteresis_wraps :
    tp_hysteresis 2147483647 (-1) 2 = -1 ∧ tp_hysteresis (-2147483648) 1 2 = 2147483646 := by
  decide

/-- C10 (as stated, refuted): a touch in BEGIN with palm NONE, keyboard and
trackpoint inactive, whose x equals `palm.left_edge`, is tagged PALM_EDGE by
`tp_palm_detect`. -/
theorem c10_left_edge_is_tagged :
    tp_touch_at_left_edge.state = .TOUCH_BEGIN ∧
    tp_touch_at_left_edge.palm.state = .PALM_NONE ∧
    tp_example.dwt.keyboard_active = false ∧ tp_example.palm.trackpoint_active = false ∧
    tp_touch_at_left_edge.point.x = tp_example.palm.left_edge ∧
    (tp_palm_detect tp_example_peers tp_example tp_touch_at_left_edge 1000).palm.state =
      .PALM_EDGE := by
  decide

/-- C10 (amended): a touch in BEGIN with palm NONE, keyboard and trackpoint
inactive, is tagged PALM_EDGE by `tp_palm_detect` exactly when its x is not
strictly between `left_edge` and `right_edge` (so also at exactly `left_edge`
or `right_edge`), it is not inside a software-button area of a clickpad and not
on the right edge; otherwise its palm state stays NONE. -/
theorem c10_palm_edge_tagging (p : tp_peers) (tp : tp_dispatch) (t : tp_touch) (time : Nat)
    (hs : t.state = .TOUCH_BEGIN) (hp : t.palm.state = .PALM_NONE)
    (hk : tp.dwt.keyboard_active = false) (ht : tp.palm.trackpoint_active = false) :
    ((tp_palm_detect p tp t time).palm.state = .PALM_EDGE ↔
      (¬ (t.point.x > tp.palm.left_edge ∧ t.point.x < tp.palm.right_edge) ∧
       ¬ (tp.buttons.is_clickpad = true ∧ p.tp_button_is_inside_softbutton_area t.point = true) ∧
       p.tp_touch_get_edge_right t.point = false)) ∧
    ((tp_palm_detect p tp t time).palm.state = .PALM_EDGE ∨
      (tp_palm_detect p tp t time).palm.state = .PALM_NONE) := by
  have h1 : tp_palm_detect_dwt tp t time = (t, false) := by
    simp [tp_palm_detect_dwt, hk, hs, hp]
  have h2 : tp_palm_detect_trackpoint tp t time = (t, false) := by
    unfold tp_palm_detect_trackpoint
    split_ifs <;> simp_all
  unfold tp_palm_detect
  simp only [h1, h2, Bool.false_eq_true, if_false, hp, hs]
  by_cases c1 : t.point.x > tp.palm.left_edge ∧ t.point.x < tp.palm.right_edge
  · simp [c1, hp]
  · by_cases c2 : tp.buttons.is_clickpad = true ∧
        p.tp_button_is_inside_softbutton_area t.point = true
    · simp [c1, c2, hp]
    · by_cases c3 : p.tp_touch_get_edge_right t.point = true
      · simp [c1, c2, c3, hp]
      · simp [c1, c2, c3]

theorem c10_palm_edge_tagging_witness :
    tp_touch_at_left_edge.state = .TOUCH_BEGIN ∧
    tp_touch_at_left_edge.palm.state = .PALM_NONE ∧
    tp_example.dwt.keyboard_active = false ∧ tp_example.palm.trackpoint_active = false ∧
    ((tp_palm_detect tp_example_peers tp_example tp_touch_at_left_edge 1000).palm.state =
        .PALM_EDGE ↔
      (¬ (tp_touch_at_left_edge.point.x > tp_example.palm.left_edge ∧
          tp_touch_at_left_edge.point.x < tp_example.palm.right_edge) ∧
       ¬ (tp_example.buttons.is_clickpad = true ∧
          tp_example_peers.tp_button_is_inside_softbutton_area
            tp_touch_at_left_edge.point = true) ∧
       tp_example_peers.tp_touch_get_edge_right tp_touch_at_left_edge.point = false)) :=
  ⟨rfl, rfl, rfl, rfl,
   (c10_palm_edge_tagging tp_example_peers tp_example tp_touch_at_left_edge 1000
     rfl rfl rfl rfl).1⟩

/-! ## Pointer motion ignores excluded touches -/

theorem tp_touches_differ_get (l l' : List tp_touch)
    (h : tp_touches_differ_in_excluded_history l l') (i : Nat) :
    l'.getD i default = l.getD i default ∨
      (tp_touch_excluded (l.getD i default) ∧
        l'.getD i default =
          { l.getD i default with history := (l'.getD i default).history }) := by
  induction h generalizing i with
  | nil => left; rfl
  | cons hd _ ih =>
    cases i with
    | zero => simpa using hd
    | succ j => simpa using ih j

theorem tp_touch_active_of_differ (p : tp_peers) (tp tp' : tp_dispatch)
    (h : tp_touches_differ_in_excluded_history tp.touches tp'.touches) (i : Nat) :
    tp_touch_active p tp' i = tp_touch_active p tp i ∧
    (tp_touch_active p tp i = true → tp_get_touch tp' i = tp_get_touch tp i) := by
  rcases tp_touches_differ_get _ _ h i with he | ⟨hx, he⟩
  · have : tp_get_touch tp' i = tp_get_touch tp i := he
    simp [tp_touch_active, this]
  · have he' : tp_get_touch tp' i =
        { tp_get_touch tp i with history := (tp_get_touch tp' i).history } := he
    constructor
    · unfold tp_touch_active
      rw [he']
    · intro ha
      exfalso
      have hx' : tp_touch_excluded (tp_get_touch tp i) := hx
      unfold tp_touch_active at ha
      unfold tp_touch_excluded at hx'
      simp only [Bool.and_eq_true, decide_eq_true_eq, Bool.not_eq_true',
        bne_iff_ne, ne_eq] at ha
      obtain ⟨⟨⟨⟨⟨a1, a2⟩, a3⟩, a4⟩, _⟩, _⟩ := ha
      rcases hx' with q | q | q | q
      · exact q a2
      · simp [q] at a4
      · rw [q] at a3; cases a3
      · exact q a1

/-- C3, amended: the delta that `tp_get_touches_delta` computes for the pointer
motion of a frame does not depend on the position history of a touch that is,
in that frame, palm-tagged, marked thumb YES, pinned, or not in BEGIN / UPDATE:
two device states that differ only in the history of such touches give the
same combined and the same average delta, and `tp_gesture_post_pointer_motion`
posts the same pointer motion. -/
theorem c3_pointer_delta_ignores_excluded (p : tp_peers) (tp tp' : tp_dispatch) (time : Nat)
    (hcfg : tp' = { tp with touches := tp'.touches })
    (h : tp_touches_differ_in_excluded_history tp.touches tp'.touches) :
    (∀ average, tp_get_touches_delta p tp' average = tp_get_touches_delta p tp average) ∧
    (tp_gesture_post_pointer_motion p tp' time).sink =
      (tp_gesture_post_pointer_motion p tp time).sink := by
  have hn : tp'.num_slots = tp.num_slots := by rw [hcfg]
  have ha : tp'.accel = tp.accel := by rw [hcfg]
  have hb : tp'.buttons = tp.buttons := by rw [hcfg]
  have hk : tp'.sink = tp.sink := by rw [hcfg]
  have hstep : ∀ (acc : Nat × normalized_coords) (i : Nat),
      (if tp_touch_active p tp' i && (tp_get_touch tp' i).dirty then
        (acc.1 + 1, (⟨acc.2.x + (tp_get_delta tp' (tp_get_touch tp' i)).x,
          acc.2.y + (tp_get_delta tp' (tp_get_touch tp' i)).y⟩ : normalized_coords))
      else acc) =
      (if tp_touch_active p tp i && (tp_get_touch tp i).dirty then
        (acc.1 + 1, (⟨acc.2.x + (tp_get_delta tp (tp_get_touch tp i)).x,
          acc.2.y + (tp_get_delta tp (tp_get_touch tp i)).y⟩ : normalized_coords))
      else acc) := by
    intro acc i
    obtain ⟨e1, e2⟩ := tp_touch_active_of_differ p tp tp' h i
    rw [e1]
    cases hact : tp_touch_active p tp i with
    | false => simp
    | true =>
      rw [e2 hact]
      have : tp_get_delta tp' (tp_get_touch tp i) = tp_get_delta tp (tp_get_touch tp i) := by
        unfold tp_get_delta tp_normalize_delta
        rw [ha]
      rw [this]
  have hd : ∀ average, tp_get_touches_delta p tp' average = tp_get_touches_delta p tp average := by
    intro average
    unfold tp_get_touches_delta
    simp only [hn, hstep]
  refine ⟨hd, ?_⟩
  unfold tp_gesture_post_pointer_motion tp_get_combined_touches_delta
    tp_get_average_touches_delta
  simp only [hd, hb]
  split_ifs <;> simp [tp_dispatch.call, hk]

theorem c3_pointer_delta_ignores_excluded_witness :
    tp_touches_differ_in_excluded_history tp_example_palm.touches tp_example_palm'.touches ∧
    tp_get_touches_delta tp_example_peers tp_example_palm' true =
      tp_get_touches_delta tp_example_peers tp_example_palm true :=
  have h : tp_touches_differ_in_excluded_history tp_example_palm.touches
      tp_example_palm'.touches :=
    List.Forall₂.cons (Or.inr ⟨Or.inl (by decide), rfl⟩)
      (List.Forall₂.cons (Or.inl rfl) (List.Forall₂.cons (Or.inl rfl) List.Forall₂.nil))
  ⟨h, (c3_pointer_delta_ignores_excluded tp_example_peers tp_example_palm tp_example_palm' 0
    rfl h).1 true⟩

/-! ## Runs -/

theorem reachable_run (p : tp_peers) (inputs : List tp_input) :
    ∀ tp : tp_dispatch, Reachable tp → Reachable (tp_run p tp inputs) := by
  induction inputs with
  | nil => intro tp h; exact h
  | cons input rest ih =>
    intro tp h
    exact ih _ (Reachable.step p tp input h)

set_option maxRecDepth 100000 in
/-- C3 counterexample: a finger put down inside the left edge zone of
`tp_example` is tagged PALM_EDGE and stays so while it moves right inside the
zone, and no motion is posted. In the frame in which it leaves the zone, 40 ms
after the touch-down and moving east, `tp_palm_detect` sets its palm state
back to NONE without resetting its history; the touch is still down
(UPDATE), and `pointer_notify_motion` is posted with the delta
`(118 + 78 - 68 - 58) / 4`, three of whose four samples were pushed while the
touch was palm-tagged. -/
theorem c3_released_palm_moves_pointer :
    Reachable (tp_run tp_example_peers_axes tp_example tp_example_palm_becomes_pointer) ∧
    (tp_get_touch (tp_run tp_example_peers_axes tp_example tp_example_edge_touch_down)
      0).palm.state = .PALM_EDGE ∧
    (tp_get_touch (tp_run tp_example_peers_axes tp_example tp_example_palm_in_edge_zone)
      0).palm.state = .PALM_EDGE ∧
    (tp_get_touch (tp_run tp_example_peers_axes tp_example tp_example_palm_in_edge_zone)
      0).history = ⟨⟨⟨78, 600⟩, ⟨50, 600⟩, ⟨58, 600⟩, ⟨68, 600⟩⟩, 0, 4⟩ ∧
    (tp_run tp_example_peers_axes tp_example tp_example_palm_in_edge_zone).sink.filter
      tp_call_is_pointer_or_gesture = [] ∧
    (tp_get_touch (tp_run tp_example_peers_axes tp_example tp_example_palm_becomes_pointer)
      0).state = .TOUCH_UPDATE ∧
    (tp_get_touch (tp_run tp_example_peers_axes tp_example tp_example_palm_becomes_pointer)
      0).palm.state = .PALM_NONE ∧
    (tp_get_touch (tp_run tp_example_peers_axes tp_example tp_example_palm_becomes_pointer)
      0).history = ⟨⟨⟨78, 600⟩, ⟨118, 600⟩, ⟨58, 600⟩, ⟨68, 600⟩⟩, 1, 4⟩ ∧
    (tp_run tp_example_peers_axes tp_example tp_example_palm_becomes_pointer).sink.filter
      tp_call_is_pointer_or_gesture = [.pointer_notify_motion 40000 ⟨35 / 2, 0⟩ ⟨35 / 2, 0⟩] :=
  ⟨reachable_run _ _ _ (Reachable.init _ (by decide)), by decide!, by decide!, by decide!,
    by decide!, by decide!, by decide!, by decide!, by decide!⟩

/-- C1: in every state reachable from an initial touchpad state by absolute,
key and sync events (and the other entries into the dispatcher),
`nfingers_down` equals the number of touches whose state is BEGIN or UPDATE;
in particular this holds after each processed sync frame, and the touch table
keeps its `ntouches` entries. -/
theorem c1_nfingers_down_counts_touches (p : tp_peers) (tp : tp_dispatch)
    (code : Nat) (value : Int) (time : Nat) (h : Reachable tp) :
    tp.nfingers_down =
      tp.touches.countP (fun t => decide (t.state = .TOUCH_BEGIN ∨ t.state = .TOUCH_UPDATE)) ∧
    (tp_interface_process p tp EV_SYN code value time).nfingers_down =
      (tp_interface_process p tp EV_SYN code value time).touches.countP
        (fun t => decide (t.state = .TOUCH_BEGIN ∨ t.state = .TOUCH_UPDATE)) ∧
    (tp_interface_process p tp EV_SYN code value time).touches.length =
      (tp_interface_process p tp EV_SYN code value time).ntouches := by
  have h1 := reachable_inv tp h
  have h2 := reachable_inv _ (Reachable.step p tp (.process EV_SYN code value time) h)
  exact ⟨h1.2.2.1, h2.2.2.1, h2.1⟩

theorem c1_nfingers_down_counts_touches_witness :
    Reachable (tp_run tp_example_peers tp_example tp_example_touch_down) ∧
    (tp_run tp_example_peers tp_example tp_example_touch_down).nfingers_down =
      (tp_run tp_example_peers tp_example tp_example_touch_down).touches.countP
        (fun t => decide (t.state = .TOUCH_BEGIN ∨ t.state = .TOUCH_UPDATE)) :=
  ⟨reachable_run _ _ _ (Reachable.init _ (by decide)),
   (c1_nfingers_down_counts_touches tp_example_peers _ 0 0 20
     (reachable_run tp_example_peers tp_example_touch_down _
       (Reachable.init tp_example (by decide)))).1⟩

/-- C4: for every sequence of frames, timer expiries and other entries into
the dispatcher, the swipe and pinch events posted so far form sessions BEGIN,
UPDATE*, END: `gesture_sessions` accepts the posted calls, that is, every
UPDATE or END follows a BEGIN of the same gesture type with no END in
between, no BEGIN is posted while a session is open, and all events of a
session carry the finger count of its BEGIN. The session left open is the one
of the started gesture. -/
theorem c4_gesture_sessions (tp : tp_dispatch) (h : Reachable tp) :
    gesture_sessions tp.sink = some (tp_open_session tp.gesture) :=
  (reachable_ginv tp h).2.2

theorem c4_gesture_sessions_witness :
    Reachable (tp_run tp_example_peers tp_example tp_example_touch_down) ∧
    gesture_sessions (tp_run tp_example_peers tp_example tp_example_touch_down).sink =
      some (tp_open_session (tp_run tp_example_peers tp_example tp_example_touch_down).gesture) :=
  ⟨reachable_run _ _ _ (Reachable.init _ (by decide)),
   c4_gesture_sessions _ (reachable_run tp_example_peers tp_example_touch_down _
     (Reachable.init tp_example (by decide)))⟩

/-! ## No active touch -/

theorem tp_touch_active_down (p : tp_peers) (tp : tp_dispatch) (i : Nat)
    (h : tp_touch_active p tp i = true) : tp_touch_down (tp_get_touch tp i) = true := by
  unfold tp_touch_active at h
  simp only [Bool.and_eq_true, decide_eq_true_eq] at h
  simp [tp_touch_down, h.1.1.1.1.1]

theorem tp_count_active_of_nfingers_zero (p : tp_peers) (tp : tp_dispatch) (h : tp_inv tp)
    (h0 : tp.nfingers_down = 0) : tp_count_active_touches p tp = 0 := by
  obtain ⟨_, _, h3, _⟩ := h
  rw [h0] at h3
  have hall := List.countP_eq_zero.1 h3.symm
  unfold tp_count_active_touches
  rw [List.countP_eq_zero]
  intro i _ ha
  have hd := tp_touch_active_down p tp i ha
  cases hi : tp.touches[i]? with
  | none =>
    rw [tp_get_touch_of_none tp i hi] at hd
    exact absurd hd (by decide)
  | some t =>
    rw [tp_get_touch_of_some tp i t hi] at hd
    exact hall t (List.getElem?_mem hi) hd

theorem tp_gesture_handle_state_no_active (p : tp_peers) (tp : tp_dispatch) (time : Nat)
    (h : tp_ginv tp) (h0 : tp_count_active_touches p tp = 0) :
    (tp_gesture_handle_state p tp time).gesture.state = .GESTURE_STATE_NONE ∧
    (tp_gesture_handle_state p tp time).gesture.started = false ∧
    (tp_gesture_handle_state p tp time).gesture.finger_count = 0 ∧
    (tp_gesture_handle_state p tp time).gesture.finger_count_pending = 0 ∧
    gesture_sessions (tp_gesture_handle_state p tp time).sink = some none := by
  obtain ⟨e1, e2, e3, _, _⟩ := tp_gesture_end_spec tp time false h
  unfold tp_gesture_handle_state
  simp only [h0]
  by_cases hfc : tp.gesture.finger_count = 0
  · have hs := h.1 hfc
    have hst := tp_ginv_started_false_of_state tp h (Or.inl hs)
    have hss := tp_ginv_not_started tp h hst
    simp only [hfc, ne_eq, not_true_eq_false, if_false]
    exact ⟨hs, hst, trivial, trivial, hss⟩
  · have : (0 : Nat) ≠ tp.gesture.finger_count := fun h' => hfc h'.symm
    simp only [ne_eq, this, not_false_eq_true, if_true]
    exact ⟨e1, e2, trivial, trivial, e3⟩

/-- C5: in a frame that starts in a reachable state, when no touch is active at
the time `tp_gesture_handle_state` runs (in particular when `nfingers_down` is
0), the gesture machine is at rest afterwards: `gesture.state` is NONE,
`gesture.started` is false, `finger_count` and `finger_count_pending` are 0,
and no swipe or pinch session is left open. -/
theorem c5_no_active_touch_ends_gesture (p : tp_peers) (tp : tp_dispatch) (time : Nat)
    (h : Reachable tp)
    (h0 : tp_count_active_touches p (tp_process_state_pre p tp time) = 0 ∨
      (tp_process_state_pre p tp time).nfingers_down = 0) :
    (tp_process_state p tp time).gesture.state = .GESTURE_STATE_NONE ∧
    (tp_process_state p tp time).gesture.started = false ∧
    (tp_process_state p tp time).gesture.finger_count = 0 ∧
    (tp_process_state p tp time).gesture.finger_count_pending = 0 ∧
    gesture_sessions (tp_process_state p tp time).sink = some none := by
  have hi := tp_process_state_pre_inv p tp time (reachable_inv tp h)
  have hg := tp_ginv_of_gview _ _ (tp_process_state_pre_gview p tp time) (reachable_ginv tp h)
  have hz : tp_count_active_touches p (tp_process_state_pre p tp time) = 0 := by
    rcases h0 with h0 | h0
    · exact h0
    · exact tp_count_active_of_nfingers_zero p _ hi h0
  exact tp_gesture_handle_state_no_active p _ time hg hz

theorem c5_no_active_touch_ends_gesture_witness :
    Reachable (tp_run tp_example_peers tp_example tp_example_pinch_then_lift_pending) ∧
    (tp_run tp_example_peers tp_example tp_example_pinch_then_lift_pending).gesture.state =
      .GESTURE_STATE_PINCH ∧
    (tp_run tp_example_peers tp_example tp_example_pinch_then_lift_pending).gesture.started =
      true ∧
    (tp_run tp_example_peers tp_example
      tp_example_pinch_then_lift_pending).gesture.finger_count = 2 ∧
    (tp_count_active_touches tp_example_peers
        (tp_process_state_pre tp_example_peers
          (tp_run tp_example_peers tp_example tp_example_pinch_then_lift_pending) 40000) = 0 ∨
      (tp_process_state_pre tp_example_peers
        (tp_run tp_example_peers tp_example tp_example_pinch_then_lift_pending)
          40000).nfingers_down = 0) ∧
    ((tp_process_state tp_example_peers
        (tp_run tp_example_peers tp_example tp_example_pinch_then_lift_pending)
          40000).gesture.state = .GESTURE_STATE_NONE ∧
      (tp_process_state tp_example_peers
        (tp_run tp_example_peers tp_example tp_example_pinch_then_lift_pending)
          40000).gesture.started = false ∧
      (tp_process_state tp_example_peers
        (tp_run tp_example_peers tp_example tp_example_pinch_then_lift_pending)
          40000).gesture.finger_count = 0 ∧
      (tp_process_state tp_example_peers
        (tp_run tp_example_peers tp_example tp_example_pinch_then_lift_pending)
          40000).gesture.finger_count_pending = 0 ∧
      gesture_sessions (tp_process_state tp_example_peers
        (tp_run tp_example_peers tp_example tp_example_pinch_then_lift_pending)
          40000).sink = some none) ∧
    (tp_process_state tp_example_peers
      (tp_run tp_example_peers tp_example tp_example_pinch_then_lift_pending)
        40000).sink.getLast? =
      some (.gesture_notify_pinch_end 40000 2 (.fin (376 / 425)) false) :=
  ⟨reachable_run _ _ _ (Reachable.init _ (by decide)), by decide!, by decide!, by decide!,
   Or.inl (by decide!),
   c5_no_active_touch_ends_gesture tp_example_peers
     (tp_run tp_example_peers tp_example tp_example_pinch_then_lift_pending) 40000
     (reachable_run _ _ _ (Reachable.init _ (by decide))) (Or.inl (by decide!)),
   by decide!⟩

/-! ## Loops that rewrite every touch -/

theorem tp_loop_list_touches_get (g : tp_touch → tp_touch)
    (body : Nat → tp_dispatch → tp_dispatch)
    (hb : ∀ i s, (body i s).touches = tp_modify_touch g i s.touches) :
    ∀ (k lo : Nat) (tp : tp_dispatch) (j : Nat),
      (tp_loop_list (fun i s => (body i s, false)) (List.range' lo k) tp).touches[j]? =
        if lo ≤ j ∧ j < lo + k then (tp.touches[j]?).map g else tp.touches[j]?
  | 0, lo, tp, j => by
    have : ¬ (lo ≤ j ∧ j < lo) := by omega
    simp [tp_loop_list, this]
  | k + 1, lo, tp, j => by
    rw [List.range'_succ]
    unfold tp_loop_list
    simp only [Bool.false_eq_true, if_false]
    rw [tp_loop_list_touches_get g body hb k (lo + 1) (body lo tp) j, hb, tp_modify_touch_get]
    by_cases h1 : j = lo
    · subst h1
      simp
    · by_cases h2 : lo + 1 ≤ j ∧ j < lo + 1 + k
      · have h3 : lo ≤ j ∧ j < lo + (k + 1) := by omega
        simp [h1, h2, h3]
      · have h3 : ¬ (lo ≤ j ∧ j < lo + (k + 1)) := by omega
        simp [h1, h2, h3]

theorem tp_for_each_touch_touches_get (g : tp_touch → tp_touch)
    (body : Nat → tp_dispatch → tp_dispatch)
    (hb : ∀ i s, (body i s).touches = tp_modify_touch g i s.touches)
    (tp : tp_dispatch) (hlen : tp.touches.length = tp.ntouches) (j : Nat) :
    (tp_for_each_touch tp body).touches[j]? = (tp.touches[j]?).map g := by
  unfold tp_for_each_touch tp_loop
  rw [tp_loop_list_touches_get g body hb]
  by_cases h : j < tp.ntouches
  · simp [h]
  · have : tp.touches[j]? = none := by
      rw [List.getElem?_eq_none_iff]; omega
    simp [h, this]

theorem tp_for_each_touch_mem (g : tp_touch → tp_touch)
    (body : Nat → tp_dispatch → tp_dispatch)
    (hb : ∀ i s, (body i s).touches = tp_modify_touch g i s.touches)
    (tp : tp_dispatch) (hlen : tp.touches.length = tp.ntouches) (t' : tp_touch)
    (h : t' ∈ (tp_for_each_touch tp body).touches) : ∃ t ∈ tp.touches, t' = g t := by
  obtain ⟨j, hj⟩ := List.getElem?_of_mem h
  rw [tp_for_each_touch_touches_get g body hb tp hlen j] at hj
  cases ht : tp.touches[j]? with
  | none => rw [ht] at hj; simp at hj
  | some t =>
    rw [ht] at hj
    simp at hj
    exact ⟨t, List.getElem?_mem ht, hj.symm⟩

theorem tp_post_process_state_get (tp : tp_dispatch) (time : Nat)
    (hlen : tp.touches.length = tp.ntouches) (j : Nat) :
    (tp_post_process_state tp time).touches[j]? =
      (tp.touches[j]?).map (fun t =>
          if !t.dirty then t
          else
            { (if t.state = .TOUCH_END then
                if t.has_ended then { t with state := .TOUCH_NONE }
                else { t with state := .TOUCH_HOVERING }
              else if t.state = .TOUCH_BEGIN then { t with state := .TOUCH_UPDATE }
              else t) with dirty := false }) :=
  tp_for_each_touch_touches_get _ (fun i tp => tp.modify i _) (fun _ _ => rfl) tp hlen j

theorem tp_post_process_state_mem (tp : tp_dispatch) (time : Nat)
    (hlen : tp.touches.length = tp.ntouches) (t' : tp_touch)
    (h : t' ∈ (tp_post_process_state tp time).touches) :
    ∃ t ∈ tp.touches, t' =
          if !t.dirty then t
          else
            { (if t.state = .TOUCH_END then
                if t.has_ended then { t with state := .TOUCH_NONE }
                else { t with state := .TOUCH_HOVERING }
              else if t.state = .TOUCH_BEGIN then { t with state := .TOUCH_UPDATE }
              else t) with dirty := false } :=
  tp_for_each_touch_mem _ (fun i tp => tp.modify i _) (fun _ _ => rfl) tp hlen t' h

theorem tp_handle_state_pre_post_inv (p : tp_peers) (tp : tp_dispatch) (time : Nat)
    (h : tp_inv tp) : tp_inv (tp_post_events p (tp_process_state p tp time) time) := by
  unfold tp_process_state
  apply tp_inv_of_core _ _ (tp_post_events_core _ _ _)
  apply tp_inv_of_core _ _ (tp_gesture_handle_state_core _ _ _)
  exact tp_process_state_pre_inv _ _ _ h

/-- C2: after `tp_handle_state` has completed for a sync frame that starts in a
reachable state, no touch is dirty and no touch is in BEGIN or END; a touch
that was END when the frame was post-processed is NONE if its sequence has
ended (`has_ended`) and HOVERING otherwise, and a touch that was BEGIN is
UPDATE. -/
theorem c2_post_process_advances_touches (p : tp_peers) (tp : tp_dispatch) (time : Nat)
    (h : Reachable tp) :
    (∀ t ∈ (tp_handle_state p tp time).touches,
      t.dirty = false ∧ t.state ≠ .TOUCH_BEGIN ∧ t.state ≠ .TOUCH_END) ∧
    (∀ i : Nat,
      ((tp_get_touch (tp_post_events p (tp_process_state p tp time) time) i).state =
          .TOUCH_END →
        (tp_get_touch (tp_handle_state p tp time) i).state =
          if (tp_get_touch (tp_post_events p (tp_process_state p tp time) time) i).has_ended
          then .TOUCH_NONE else .TOUCH_HOVERING) ∧
      ((tp_get_touch (tp_post_events p (tp_process_state p tp time) time) i).state =
          .TOUCH_BEGIN →
        (tp_get_touch (tp_handle_state p tp time) i).state = .TOUCH_UPDATE)) := by
  have hinv := tp_handle_state_pre_post_inv p tp time (reachable_inv tp h)
  have hget := fun j => tp_post_process_state_get
    (tp_post_events p (tp_process_state p tp time) time) time hinv.1 j
  have hmem := fun t' => tp_post_process_state_mem
    (tp_post_events p (tp_process_state p tp time) time) time hinv.1 t'
  constructor
  · intro t ht
    obtain ⟨t0, ht0, rfl⟩ := hmem t ht
    have hok := hinv.2.2.2 t0 ht0
    unfold tp_touch_dirty_ok at hok
    cases hd : t0.dirty with
    | false =>
      have hne : ¬ (t0.state = .TOUCH_BEGIN ∨ t0.state = .TOUCH_END) := by
        intro hs; rw [hok hs] at hd; cases hd
      simp only [hd, Bool.not_false, if_true]
      exact ⟨trivial, fun hb => hne (Or.inl hb), fun he => hne (Or.inr he)⟩
    | true =>
      cases hs : t0.state <;> cases he : t0.has_ended <;> simp [hd, hs, he]
  · intro i
    have hi : (tp_handle_state p tp time).touches[i]? = _ := hget i
    cases ht : (tp_post_events p (tp_process_state p tp time) time).touches[i]? with
    | none =>
      rw [tp_get_touch_of_none _ i ht]
      constructor <;> intro hs <;> simp [default, instInhabitedTp_touch, tp_init_touch] at hs
    | some t0 =>
      rw [ht] at hi
      rw [tp_get_touch_of_some _ i t0 ht, tp_get_touch_of_some _ i _ hi]
      have hok := hinv.2.2.2 t0 (List.getElem?_mem ht)
      unfold tp_touch_dirty_ok at hok
      constructor
      · intro hs
        have hd := hok (Or.inr hs)
        cases he : t0.has_ended <;> simp [hd, hs, he]
      · intro hs
        have hd := hok (Or.inl hs)
        simp [hd, hs]

theorem c2_post_process_advances_touches_witness :
    Reachable (tp_run tp_example_peers tp_example tp_example_touch_down_pending) ∧
    (tp_get_touch (tp_post_events tp_example_peers (tp_process_state tp_example_peers
      (tp_run tp_example_peers tp_example tp_example_touch_down_pending) 10) 10) 0).state =
        .TOUCH_BEGIN ∧
    (tp_get_touch (tp_handle_state tp_example_peers
      (tp_run tp_example_peers tp_example tp_example_touch_down_pending) 10) 0).state =
        .TOUCH_UPDATE ∧
    Reachable (tp_run tp_example_peers tp_example tp_example_touch_up_pending) ∧
    (tp_get_touch (tp_post_events tp_example_peers (tp_process_state tp_example_peers
      (tp_run tp_example_peers tp_example tp_example_touch_up_pending) 20000) 20000) 0).state =
        .TOUCH_END ∧
    (tp_get_touch (tp_post_events tp_example_peers (tp_process_state tp_example_peers
      (tp_run tp_example_peers tp_example tp_example_touch_up_pending) 20000)
        20000) 0).has_ended = true ∧
    (tp_get_touch (tp_handle_state tp_example_peers
      (tp_run tp_example_peers tp_example tp_example_touch_up_pending) 20000) 0).state =
        .TOUCH_NONE ∧
    (∀ t ∈ (tp_handle_state tp_example_peers
        (tp_run tp_example_peers tp_example tp_example_touch_down_pending) 10).touches,
      t.dirty = false ∧ t.state ≠ .TOUCH_BEGIN ∧ t.state ≠ .TOUCH_END) :=
  ⟨reachable_run _ _ _ (Reachable.init _ (by decide)), by decide!,
   ((c2_post_process_advances_touches tp_example_peers
      (tp_run tp_example_peers tp_example tp_example_touch_down_pending) 10
      (reachable_run _ _ _ (Reachable.init _ (by decide)))).2 0).2 (by decide!),
   reachable_run _ _ _ (Reachable.init _ (by decide)), by decide!, by decide!,
   (((c2_post_process_advances_touches tp_example_peers
      (tp_run tp_example_peers tp_example tp_example_touch_up_pending) 20000
      (reachable_run _ _ _ (Reachable.init _ (by decide)))).2 0).1 (by decide!)).trans
        (by decide!),
   (c2_post_process_advances_touches tp_example_peers
      (tp_run tp_example_peers tp_example tp_example_touch_down_pending) 10
      (reachable_run _ _ _ (Reachable.init _ (by decide)))).1⟩

/-! ## Pinning -/

/-- A touch is pinned at its current point. -/
theorem tp_pin_fingers_mem (tp : tp_dispatch) (hlen : tp.touches.length = tp.ntouches)
    (t' : tp_touch) (h : t' ∈ (tp_pin_fingers tp).touches) :
    t'.pinned.is_pinned = true ∧ t'.pinned.center = t'.point := by
  obtain ⟨t, _, rfl⟩ := tp_for_each_touch_mem
    (fun t => { t with pinned.is_pinned := true, pinned.center := t.point })
    (fun i tp => tp.modify i _) (fun _ _ => rfl) tp hlen t' h
  exact ⟨rfl, rfl⟩

theorem tp_touches_of_core (tp tp' : tp_dispatch) (hc : tp_core tp' = tp_core tp)
    (P : tp_touch → Prop) (hP : ∀ t t', tp_touch_core t' = tp_touch_core t → P t → P t')
    (h : ∀ t ∈ tp.touches, P t) : ∀ t ∈ tp'.touches, P t := by
  have h1 : tp'.touches.map tp_touch_core = tp.touches.map tp_touch_core :=
    congrArg Prod.fst hc
  intro t' ht'
  have hm : tp_touch_core t' ∈ tp.touches.map tp_touch_core := by
    rw [← h1]; exact List.mem_map_of_mem _ ht'
  obtain ⟨t0, ht0, he⟩ := List.mem_map.1 hm
  exact hP t0 t' he.symm (h t0 ht0)

/-- C6: at the end of a frame that starts in a reachable state with a physical
button press queued on a clickpad, every touch of the device is pinned
(`pinned.is_pinned`) with `pinned.center` equal to its current point. -/
theorem c6_button_press_pins_all_touches (p : tp_peers) (tp : tp_dispatch) (time : Nat)
    (h : Reachable tp) (hq : tp.queued &&& TOUCHPAD_EVENT_BUTTON_PRESS ≠ 0)
    (hc : tp.buttons.is_clickpad = true) :
    (tp_handle_state p tp time).touches.length = (tp_handle_state p tp time).ntouches ∧
    ∀ t ∈ (tp_handle_state p tp time).touches,
      t.pinned.is_pinned = true ∧ t.pinned.center = t.point := by
  have hX := tp_inv_call _ (.tp_edge_scroll_handle_state time)
    (tp_inv_call _ (.tp_button_handle_state time)
      (tp_process_touches_inv p _ time (tp_position_fake_touches_inv _
        (tp_unhover_touches_inv _ time (tp_process_fake_touches_inv tp time
          (reachable_inv tp h))))))
  have hpre := tp_process_state_pre_pins p tp time hq hc
  have hinv := tp_handle_state_pre_post_inv p tp time (reachable_inv tp h)
  have hP : ∀ t t' : tp_touch, tp_touch_core t' = tp_touch_core t →
      (t.pinned.is_pinned = true ∧ t.pinned.center = t.point) →
      (t'.pinned.is_pinned = true ∧ t'.pinned.center = t'.point) := by
    intro t t' he ht
    have e1 : t'.pinned = t.pinned := by
      have := congrArg tp_touch.pinned he; exact this
    have e2 : t'.point = t.point := by
      have := congrArg tp_touch.point he; exact this
    rw [e1, e2]; exact ht
  have h1 : ∀ t ∈ (tp_process_state_pre p tp time).touches,
      t.pinned.is_pinned = true ∧ t.pinned.center = t.point := by
    rw [hpre]
    exact tp_pin_fingers_mem _ hX.1
  have h2 : ∀ t ∈ (tp_post_events p (tp_process_state p tp time) time).touches,
      t.pinned.is_pinned = true ∧ t.pinned.center = t.point := by
    unfold tp_process_state
    exact tp_touches_of_core _ _ (tp_post_events_core _ _ _) _ hP
      (tp_touches_of_core _ _ (tp_gesture_handle_state_core _ _ _) _ hP h1)
  have hfin := tp_handle_state_inv p tp time (reachable_inv tp h)
  refine ⟨hfin.1, ?_⟩
  intro t ht
  obtain ⟨t0, ht0, rfl⟩ := tp_post_process_state_mem _ time hinv.1 t ht
  obtain ⟨a, b⟩ := h2 t0 ht0
  cases hd : t0.dirty <;> cases hs : t0.state <;> cases he : t0.has_ended <;>
    simp [hd, hs, he, a, b]

theorem c6_button_press_pins_all_touches_witness :
    Reachable (tp_run tp_example_peers tp_example tp_example_click) ∧
    (tp_run tp_example_peers tp_example tp_example_click).queued &&&
      TOUCHPAD_EVENT_BUTTON_PRESS ≠ 0 ∧
    (tp_run tp_example_peers tp_example tp_example_click).buttons.is_clickpad = true ∧
    ∀ t ∈ (tp_handle_state tp_example_peers
        (tp_run tp_example_peers tp_example tp_example_click) 20).touches,
      t.pinned.is_pinned = true ∧ t.pinned.center = t.point :=
  ⟨reachable_run _ _ _ (Reachable.init _ (by decide)), by decide, by decide,
   (c6_button_press_pins_all_touches tp_example_peers _ 20
     (reachable_run tp_example_peers tp_example_click _
       (Reachable.init tp_example (by decide))) (by decide) (by decide)).2⟩


/-! ## The force-clear -/

theorem tp_modify_touch_all (P : tp_touch → Prop) (f : tp_touch → tp_touch)
    (hf : ∀ t, P t → P (f t)) (i : Nat) (l : List tp_touch) (h : ∀ t ∈ l, P t) :
    ∀ t ∈ tp_modify_touch f i l, P t := by
  intro t' ht'
  rcases tp_modify_touch_mem f i l t' ht' with hm | ⟨t, ht, rfl⟩
  · exact h t' hm
  · exact hf t (h t (List.getElem?_mem ht))

theorem tp_cleared_modify (tp : tp_dispatch) (i : Nat) (f : tp_touch → tp_touch)
    (hf : ∀ t, tp_touch_ended t → tp_touch_ended (f t))
    (h : ∀ t ∈ tp.touches, tp_touch_ended t) :
    ∀ t ∈ (tp.modify i f).touches, tp_touch_ended t :=
  tp_modify_touch_all _ f hf i tp.touches h

theorem tp_end_touch_fake_touches (tp : tp_dispatch) (i time : Nat) :
    (tp_end_touch tp i time).fake_touches = tp.fake_touches := by
  unfold tp_end_touch
  split <;> simp only [tp_dispatch.modify]

theorem tp_end_touch_cleared (tp : tp_dispatch) (i time : Nat) (h : tp_cleared tp) :
    tp_cleared (tp_end_touch tp i time) := by
  obtain ⟨h1, h2, h3⟩ := h
  refine ⟨tp_end_touch_inv tp i time h1, ?_, ?_⟩
  · rw [tp_end_touch_fake_touches]; exact h2
  · unfold tp_end_touch
    split
    · exact tp_cleared_modify _ _ _ (fun t ht => ⟨Or.inl rfl, ht.2⟩) h3
    · exact h3
    · exact h3
    · show ∀ t ∈ tp_modify_touch _ i tp.touches, tp_touch_ended t
      exact tp_modify_touch_all _ _ (fun t ht => ⟨Or.inr rfl, ht.2⟩) i tp.touches h3

theorem tp_end_sequence_cleared (tp : tp_dispatch) (i time : Nat) (h : tp_cleared tp) :
    tp_cleared (tp_end_sequence tp i time) := by
  unfold tp_end_sequence
  apply tp_end_touch_cleared
  obtain ⟨h1, h2, h3⟩ := h
  refine ⟨tp_inv_modify_same _ _ _ h1 (fun t => by simp [tp_touch_down, tp_touch_dirty_ok]),
    h2, ?_⟩
  exact tp_cleared_modify _ _ _ (fun t ht => ⟨ht.1, rfl⟩) h3

theorem tp_cleared_nfingers_down (tp : tp_dispatch) (h : tp_cleared tp) :
    tp.nfingers_down = 0 := by
  obtain ⟨h1, _, h3⟩ := h
  rw [h1.2.2.1, List.countP_eq_zero]
  intro t ht
  rcases (h3 t ht).1 with hs | hs <;> simp [tp_touch_down, hs]

theorem tp_cleared_fake_finger_count (tp : tp_dispatch) (h : tp_cleared tp) :
    tp_fake_finger_count tp = 0 := by
  unfold tp_fake_finger_count
  rw [h.2.1]
  decide

theorem tp_cleared_state (tp : tp_dispatch) (h : tp_cleared tp) (i : Nat) :
    (tp_get_touch tp i).state = .TOUCH_NONE ∨ (tp_get_touch tp i).state = .TOUCH_END := by
  cases hi : tp.touches[i]? with
  | none => rw [tp_get_touch_of_none tp i hi]; left; rfl
  | some t => rw [tp_get_touch_of_some tp i t hi]; exact (h.2.2 t (List.getElem?_mem hi)).1

theorem tp_process_fake_touches_cleared (tp : tp_dispatch) (time : Nat) (h : tp_cleared tp) :
    tp_cleared (tp_process_fake_touches tp time) := by
  have hz := tp_cleared_fake_finger_count tp h
  have hr : tp_restore_synaptics_touches tp time = tp := by
    unfold tp_restore_synaptics_touches
    simp [hz]
  unfold tp_process_fake_touches
  simp only [hz, hr, ite_self]
  rw [if_neg (by decide)]
  apply tp_loop_inv tp_cleared _ _ _ _ _ h
  intro i s hs
  simp only [Nat.not_lt_zero, if_false]
  exact tp_end_sequence_cleared _ _ _ hs

theorem tp_unhover_touches_cleared (tp : tp_dispatch) (time : Nat) (h : tp_cleared tp) :
    tp_cleared (tp_unhover_touches tp time) := by
  unfold tp_unhover_touches
  split_ifs
  · unfold tp_unhover_abs_distance
    apply tp_loop_inv tp_cleared _ _ _ _ _ h
    intro i s hs
    have hst := tp_cleared_state s hs i
    have hne : (tp_get_touch s i).state ≠ .TOUCH_HOVERING := by
      rcases hst with e | e <;> rw [e] <;> decide
    simp only [hne, if_false]
    split_ifs
    · exact tp_end_touch_cleared _ _ _ hs
    · exact hs
  · unfold tp_unhover_fake_touches
    rw [if_pos ⟨h.2.1, tp_cleared_nfingers_down tp h⟩]
    exact h

theorem tp_position_fake_touches_cleared (tp : tp_dispatch) (h : tp_cleared tp) :
    tp_cleared (tp_position_fake_touches tp) := by
  have hn := tp_cleared_nfingers_down tp h
  unfold tp_position_fake_touches
  split_ifs with hc <;> first
    | exact h
    | exact absurd (Or.inr hn) hc

theorem tp_cleared_modify_skel (tp : tp_dispatch) (i : Nat) (f : tp_touch → tp_touch)
    (hf : ∀ t, tp_touch_skel_eq (f t) t) (h : tp_cleared tp) : tp_cleared (tp.modify i f) := by
  obtain ⟨h1, h2, h3⟩ := h
  refine ⟨tp_inv_modify_skel _ _ _ h1 hf, h2, ?_⟩
  apply tp_cleared_modify _ _ _ _ h3
  intro t ht
  obtain ⟨e1, _, e3⟩ := hf t
  unfold tp_touch_ended
  rw [e1, e3]
  exact ht

theorem tp_cleared_call (tp : tp_dispatch) (c : tp_call) (h : tp_cleared tp) :
    tp_cleared (tp.call c) := h

theorem tp_process_touches_cleared (p : tp_peers) (tp : tp_dispatch) (time : Nat)
    (h : tp_cleared tp) : tp_cleared (tp_process_touches p tp time) := by
  have hloop : ∀ (w : Bool) (n : Nat) (s : tp_dispatch), tp_cleared s →
      tp_cleared (tp_loop 0 n (fun i tp =>
        tp.modify i (fun t => (tp_process_touch p tp w t time).1)) s) := by
    intro w n s hs
    apply tp_loop_inv tp_cleared _ _ _ _ _ hs
    intro i s hs
    exact tp_cleared_modify_skel _ _ _ (fun t => tp_process_touch_skel _ _ _ _ _) hs
  unfold tp_process_touches
  simp only []
  split_ifs
  · exact tp_cleared_call _ _ (hloop _ _ _ h)
  · exact hloop _ _ _ h

theorem tp_pin_fingers_cleared (tp : tp_dispatch) (h : tp_cleared tp) :
    tp_cleared (tp_pin_fingers tp) := by
  unfold tp_pin_fingers
  apply tp_for_each_touch_inv tp_cleared _ _ _ h
  intro i s hs
  exact tp_cleared_modify_skel _ _ _ (fun t => ⟨rfl, rfl, rfl⟩) hs

theorem tp_process_state_pre_cleared (p : tp_peers) (tp : tp_dispatch) (time : Nat)
    (h : tp_cleared tp) : tp_cleared (tp_process_state_pre p tp time) := by
  have h1 : tp_cleared (((tp_process_touches p (tp_position_fake_touches
      (tp_unhover_touches (tp_process_fake_touches tp time) time)) time).call
        (.tp_button_handle_state time)).call (.tp_edge_scroll_handle_state time)) :=
    tp_cleared_call _ _ (tp_cleared_call _ _
      (tp_process_touches_cleared p _ time (tp_position_fake_touches_cleared _
        (tp_unhover_touches_cleared _ time (tp_process_fake_touches_cleared tp time h)))))
  unfold tp_process_state_pre
  simp only []
  split_ifs
  · exact tp_pin_fingers_cleared _ h1
  · exact h1

theorem tp_cleared_of_core (tp tp' : tp_dispatch) (hc : tp_core tp' = tp_core tp)
    (h : tp_cleared tp) : tp_cleared tp' := by
  obtain ⟨h1, h2, h3⟩ := h
  refine ⟨tp_inv_of_core _ _ hc h1, ?_, ?_⟩
  · have : tp'.fake_touches = tp.fake_touches := congrArg (fun x => x.2.2.2) hc
    rw [this]; exact h2
  · apply tp_touches_of_core _ _ hc _ _ h3
    intro t t' he ht
    have e1 : t'.state = t.state := by
      have := congrArg tp_touch.state he; exact this
    have e2 : t'.has_ended = t.has_ended := by
      have := congrArg tp_touch.has_ended he; exact this
    unfold tp_touch_ended
    rw [e1, e2]; exact ht

theorem tp_post_events_rest (p : tp_peers) (tp : tp_dispatch) (time : Nat) (h : tp_ginv tp)
    (hfc : tp.gesture.finger_count = 0) :
    (tp_post_events p tp time).gesture.state = .GESTURE_STATE_NONE ∧
    (tp_post_events p tp time).gesture.started = false := by
  have hs := h.1 hfc
  have hst := tp_ginv_started_false_of_state tp h (Or.inl hs)
  have c1 : ∀ (s : tp_dispatch) (c : tp_call), (∀ x, gesture_session_step x c = some x) →
      tp_ginv s → tp_ginv (s.call c) :=
    fun s c hc hs => tp_ginv_of_gview _ _ (tp_gview_call_neutral _ _ hc) hs
  unfold tp_post_events
  simp only []
  split_ifs
  · exact ⟨hs, hst⟩
  · obtain ⟨e1, e2, _⟩ := tp_gesture_end_spec _ time true
      (c1 _ (.tp_edge_scroll_stop_events time) (by intro _; rfl)
        (c1 _ (.tp_post_button_events time) (by intro _; rfl)
          (c1 _ (.tp_tap_handle_state time) (by intro _; rfl) h)))
    exact ⟨e1, e2⟩
  · exact ⟨hs, hst⟩
  · unfold tp_gesture_post_events
    rw [if_pos (by exact hfc)]
    exact ⟨hs, hst⟩

theorem tp_end_sequence_touches (tp : tp_dispatch) (i time : Nat) :
    (tp_end_sequence tp i time).touches =
      tp_modify_touch (tp_end_sequence_touch time) i tp.touches := by
  cases hi : tp.touches[i]? with
  | none =>
    have h1 : (tp.modify i (fun t => { t with has_ended := true })).touches = tp.touches :=
      tp_modify_touch_of_none _ i tp.touches hi
    have h2 : tp_get_touch (tp.modify i (fun t => { t with has_ended := true })) i =
        default := tp_get_touch_of_none _ i (by rw [h1]; exact hi)
    have h3 : (default : tp_touch).state = .TOUCH_NONE := rfl
    unfold tp_end_sequence tp_end_touch
    rw [h2]
    simp only [h3]
    rw [h1, tp_modify_touch_of_none _ i tp.touches hi]
  | some t =>
    have h2 : tp_get_touch (tp.modify i (fun t => { t with has_ended := true })) i =
        { t with has_ended := true } := tp_get_touch_modify_self tp i _ t hi
    unfold tp_end_sequence tp_end_touch
    rw [h2]
    apply List.ext_getElem?
    intro j
    cases hs : t.state <;>
      simp only [hs, tp_dispatch.modify, tp_modify_touch_get] <;>
      by_cases hj : j = i <;>
      simp [hj, hi, tp_end_sequence_touch, hs]

theorem tp_end_sequence_touch_ended (time : Nat) (t : tp_touch) :
    tp_touch_ended (tp_end_sequence_touch time t) := by
  unfold tp_end_sequence_touch tp_touch_ended
  cases hs : t.state <;> simp [hs]

theorem tp_post_process_state_fields (tp : tp_dispatch) (time : Nat) :
    (tp_post_process_state tp time).fake_touches = tp.fake_touches := by
  unfold tp_post_process_state
  simp only []
  show (tp_for_each_touch tp _).fake_touches = _
  unfold tp_for_each_touch
  apply tp_loop_inv (fun s => s.fake_touches = tp.fake_touches) _ _ _ _ _ rfl
  intro i s hs
  exact hs

theorem tp_end_sequences_frame (p : tp_peers) (s : tp_dispatch) (now : Nat)
    (hi0 : tp_inv s) (hg0 : tp_ginv s) :
    (∀ t ∈ (tp_handle_state p (tp_release_fake_touches
        (tp_for_each_touch s (fun i tp => tp_end_sequence tp i now))) now).touches,
      t.state = .TOUCH_NONE) ∧
    (tp_handle_state p (tp_release_fake_touches
        (tp_for_each_touch s (fun i tp => tp_end_sequence tp i now))) now).fake_touches = 0 ∧
    (tp_handle_state p (tp_release_fake_touches
        (tp_for_each_touch s (fun i tp => tp_end_sequence tp i now))) now).gesture.state =
      .GESTURE_STATE_NONE ∧
    (tp_handle_state p (tp_release_fake_touches
        (tp_for_each_touch s (fun i tp => tp_end_sequence tp i now))) now).gesture.started =
      false := by
  have hi1 := tp_for_each_touch_inv tp_inv (fun i tp => tp_end_sequence tp i now)
    (fun i s hs => tp_end_sequence_inv _ _ _ hs) s hi0
  have hg1 := tp_for_each_touch_inv tp_ginv (fun i tp => tp_end_sequence tp i now)
    (fun i s hs => tp_ginv_of_gview _ _ (tp_end_sequence_gview _ _ _) hs) s hg0
  have he1 : ∀ t ∈ (tp_for_each_touch s (fun i tp => tp_end_sequence tp i now)).touches,
      tp_touch_ended t := by
    intro t ht
    obtain ⟨t0, _, rfl⟩ := tp_for_each_touch_mem (tp_end_sequence_touch now)
      (fun i tp => tp_end_sequence tp i now) (fun i s => tp_end_sequence_touches s i now)
      s hi0.1 t ht
    exact tp_end_sequence_touch_ended now t0
  have h0 : tp_cleared (tp_release_fake_touches
      (tp_for_each_touch s (fun i tp => tp_end_sequence tp i now))) :=
    ⟨tp_inv_of_table_eq _ _ ⟨rfl, rfl, rfl⟩ hi1, rfl, he1⟩
  have hg2 : tp_ginv (tp_release_fake_touches
      (tp_for_each_touch s (fun i tp => tp_end_sequence tp i now))) :=
    tp_ginv_of_gview _ _ (tp_gview_of_eq _ _ rfl rfl) hg1
  have hpre := tp_process_state_pre_cleared p _ now h0
  have hgpre := tp_ginv_of_gview _ _ (tp_process_state_pre_gview p _ now) hg2
  have hrest := tp_gesture_handle_state_no_active p _ now hgpre
    (tp_count_active_of_nfingers_zero p _ hpre.1 (tp_cleared_nfingers_down _ hpre))
  have hgh := tp_gesture_handle_state_ginv p _ now hgpre
  have hch := tp_cleared_of_core _ _ (tp_gesture_handle_state_core p _ now) hpre
  have hpe := tp_post_events_rest p _ now hgh hrest.2.2.1
  have hcp := tp_cleared_of_core _ _ (tp_post_events_core p _ now) hch
  have hv := tp_post_process_state_gview
    (tp_post_events p (tp_process_state p (tp_release_fake_touches
      (tp_for_each_touch s (fun i tp => tp_end_sequence tp i now))) now) now) now
  refine ⟨?_, ?_, ?_, ?_⟩
  · intro t ht
    obtain ⟨t0, ht0, rfl⟩ := tp_post_process_state_mem _ now hcp.1.1 t ht
    obtain ⟨hs, he⟩ := hcp.2.2 t0 ht0
    cases hd : t0.dirty <;> rcases hs with hs | hs <;> simp [hd, hs, he]
    have := hcp.1.2.2.2 t0 ht0 (Or.inr hs)
    rw [this] at hd; cases hd
  · exact (tp_post_process_state_fields _ now).trans hcp.2.1
  · exact (congrArg (fun x => x.1.state) hv).trans hpe.1
  · exact (congrArg (fun x => x.1.started) hv).trans hpe.2

/-- C7: from every reachable state, after `tp_clear_state` every touch is in
state NONE, `nfingers_down` is 0, `fake_touches` is 0 and the gesture machine
is at rest (`gesture.state` NONE, `gesture.started` false). -/
theorem c7_clear_state_neutral (p : tp_peers) (tp : tp_dispatch) (now : Nat)
    (h : Reachable tp) :
    (∀ t ∈ (tp_clear_state p tp now).touches, t.state = .TOUCH_NONE) ∧
    (tp_clear_state p tp now).touches.length = (tp_clear_state p tp now).ntouches ∧
    (tp_clear_state p tp now).nfingers_down = 0 ∧
    (tp_clear_state p tp now).fake_touches = 0 ∧
    (tp_clear_state p tp now).gesture.state = .GESTURE_STATE_NONE ∧
    (tp_clear_state p tp now).gesture.started = false := by
  have hi := reachable_inv tp h
  have hg := reachable_ginv tp h
  have hi0 : tp_inv ((({ tp with
          buttons.state := (p.tp_release_all_buttons tp.buttons.state tp.queued).1,
          queued := (p.tp_release_all_buttons tp.buttons.state tp.queued).2 } :
          tp_dispatch).call (.tp_release_all_buttons now)).call (.tp_release_all_taps now)) :=
    tp_inv_of_table_eq tp _ ⟨rfl, rfl, rfl⟩ hi
  have hg0 : tp_ginv ((({ tp with
          buttons.state := (p.tp_release_all_buttons tp.buttons.state tp.queued).1,
          queued := (p.tp_release_all_buttons tp.buttons.state tp.queued).2 } :
          tp_dispatch).call (.tp_release_all_buttons now)).call (.tp_release_all_taps now)) :=
    tp_ginv_of_gview _ _ (tp_gview_call_neutral _ _ (by intro _; rfl))
      (tp_ginv_of_gview _ _ (tp_gview_call_neutral _ _ (by intro _; rfl))
        (tp_ginv_of_gview _ tp (tp_gview_of_eq _ _ rfl rfl) hg))
  have hfin : tp_inv (tp_clear_state p tp now) := tp_clear_state_inv p tp now hi
  have hall : (∀ t ∈ (tp_clear_state p tp now).touches, t.state = .TOUCH_NONE) ∧
      (tp_clear_state p tp now).fake_touches = 0 ∧
      (tp_clear_state p tp now).gesture.state = .GESTURE_STATE_NONE ∧
      (tp_clear_state p tp now).gesture.started = false := by
    unfold tp_clear_state
    exact tp_end_sequences_frame p _ now hi0 hg0
  refine ⟨hall.1, hfin.1, ?_, hall.2⟩
  rw [hfin.2.2.1, List.countP_eq_zero]
  intro t ht
  simp [tp_touch_down, hall.1 t ht]

theorem c7_clear_state_neutral_witness :
    Reachable (tp_run tp_example_peers tp_example tp_example_touch_down) ∧
    ∀ t ∈ (tp_clear_state tp_example_peers
        (tp_run tp_example_peers tp_example tp_example_touch_down) 30).touches,
      t.state = .TOUCH_NONE :=
  ⟨reachable_run _ _ _ (Reachable.init _ (by decide)),
   (c7_clear_state_neutral tp_example_peers _ 30
     (reachable_run tp_example_peers tp_example_touch_down _
       (Reachable.init tp_example (by decide)))).1⟩

/-! ## Disable-while-typing -/

/-- C15 (as stated, refuted): `KEY_F1` is none of the listed modifiers and is
not above `KEY_F1`, yet a press of it is ignored for disable-while-typing. -/
theorem c15_key_f1_is_ignored :
    KEY_F1 ≠ KEY_LEFTCTRL ∧ KEY_F1 ≠ KEY_RIGHTCTRL ∧ KEY_F1 ≠ KEY_LEFTSHIFT ∧
    KEY_F1 ≠ KEY_RIGHTSHIFT ∧ KEY_F1 ≠ KEY_LEFTALT ∧ KEY_F1 ≠ KEY_RIGHTALT ∧
    KEY_F1 ≠ KEY_LEFTMETA ∧ KEY_F1 ≠ KEY_RIGHTMETA ∧ KEY_F1 ≠ KEY_FN ∧
    KEY_F1 ≠ KEY_CAPSLOCK ∧ KEY_F1 ≠ KEY_TAB ∧ KEY_F1 ≠ KEY_COMPOSE ∧
    ¬ (KEY_F1 > KEY_F1) ∧
    tp_key_ignore_for_dwt KEY_F1 = true := by
  decide

/-- C15 (amended): a press of key code `k` triggers disable-while-typing
(`tp_key_ignore_for_dwt k` is false) exactly when `k` is none of the modifiers
Ctrl, Shift, Alt, Meta (left or right), Fn, CapsLock, Tab, Compose and `k` is
below `KEY_F1`: `KEY_F1` itself and every key above it is ignored. -/
theorem c15_dwt_trigger_keys (k : Nat) :
    tp_key_ignore_for_dwt k = false ↔
      (k ≠ KEY_LEFTCTRL ∧ k ≠ KEY_RIGHTCTRL ∧ k ≠ KEY_LEFTSHIFT ∧ k ≠ KEY_RIGHTSHIFT ∧
       k ≠ KEY_LEFTALT ∧ k ≠ KEY_RIGHTALT ∧ k ≠ KEY_LEFTMETA ∧ k ≠ KEY_RIGHTMETA ∧
       k ≠ KEY_FN ∧ k ≠ KEY_CAPSLOCK ∧ k ≠ KEY_TAB ∧ k ≠ KEY_COMPOSE ∧ k < KEY_F1) := by
  unfold tp_key_ignore_for_dwt
  split_ifs with h1 h2
  · simp only [Bool.true_eq_false, false_iff]
    intro h
    rcases h1 with h1 | h1 | h1 | h1 | h1 | h1 | h1 | h1 | h1 | h1 | h1 | h1 <;> simp [h1] at h
  · simp only [Bool.true_eq_false, false_iff]
    intro h
    omega
  · simp only [true_iff]
    simp only [not_or] at h1
    obtain ⟨a, b, c, d, e, f, g, i, j, l, m, n⟩ := h1
    exact ⟨a, b, e, f, c, d, n, m, g, i, j, l, by omega⟩

theorem tp_gesture_end_dwt (tp : tp_dispatch) (time : Nat) (cancelled : Bool) :
    (tp_gesture_end tp time cancelled).dwt = tp.dwt := by
  unfold tp_gesture_end tp_gesture_stop_twofinger_scroll
  simp only []
  split_ifs <;> first | rfl | (split <;> rfl)

/-- C14: with disable-while-typing enabled, a press at `time` of a key that is
not ignored sets `keyboard_last_press_time` to `time`, marks the keyboard
active, and arms the keyboard timer as the last call: for `time + 200 ms` if
the keyboard was not active, for `time + 500 ms` (and nothing else posted) if
it already was. With disable-while-typing disabled, or for an event that is
no key event, a release or an ignored key, the dispatch is left unchanged. -/
theorem c14_keyboard_event_deadline (tp : tp_dispatch) (time keycode : Nat)
    (is_key pressed : Bool) :
    (tp.dwt.dwt_enabled = true → tp_key_ignore_for_dwt keycode = false →
      (tp_keyboard_event tp time true true keycode).dwt.keyboard_last_press_time = time ∧
      (tp_keyboard_event tp time true true keycode).dwt.keyboard_active = true ∧
      (tp_keyboard_event tp time true true keycode).dwt.dwt_enabled = true ∧
      (tp.dwt.keyboard_active = false →
        (tp_keyboard_event tp time true true keycode).sink.getLast? =
          some (.libinput_timer_set .keyboard_timer (time + ms2us 200))) ∧
      (tp.dwt.keyboard_active = true →
        (tp_keyboard_event tp time true true keycode).sink =
          tp.sink ++ [.libinput_timer_set .keyboard_timer (time + ms2us 500)])) ∧
    (tp.dwt.dwt_enabled = false ∨ is_key = false ∨ pressed = false ∨
        tp_key_ignore_for_dwt keycode = true →
      tp_keyboard_event tp time is_key pressed keycode = tp) := by
  constructor
  · intro he hk
    have hd := tp_gesture_end_dwt (tp.call (.tp_edge_scroll_stop_events time)) time true
    cases ha : tp.dwt.keyboard_active <;>
      simp [tp_keyboard_event, he, hk, ha, tp_dispatch.call, tp_gesture_cancel,
        DEFAULT_KEYBOARD_ACTIVITY_TIMEOUT_1, DEFAULT_KEYBOARD_ACTIVITY_TIMEOUT_2]
    simp only [tp_dispatch.call] at hd
    rw [hd]
    exact he
  · intro h
    unfold tp_keyboard_event
    rcases h with h | h | h | h <;> simp [h]

theorem c14_keyboard_event_deadline_witness :
    tp_example.dwt.dwt_enabled = true ∧ tp_key_ignore_for_dwt 30 = false ∧
    tp_example.dwt.keyboard_active = false ∧
    (tp_keyboard_event tp_example 1000 true true 30).dwt.keyboard_last_press_time = 1000 ∧
    (tp_keyboard_event tp_example 1000 true true 30).sink.getLast? =
      some (.libinput_timer_set .keyboard_timer (1000 + ms2us 200)) :=
  ⟨by decide, by decide, by decide,
   ((c14_keyboard_event_deadline tp_example 1000 30 true true).1 (by decide) (by decide)).1,
   ((c14_keyboard_event_deadline tp_example 1000 30 true true).1 (by decide)
     (by decide)).2.2.2.1 (by decide)⟩

/-! ## Palm by typing -/

/-- C12 (as stated, refuted): a touch in UPDATE tagged PALM_TYPING whose
palm-mark time equals `keyboard_last_press_time` (so is at or after it), with
the keyboard no longer active, keeps its palm tag in `tp_palm_detect`. -/
theorem c12_typing_palm_kept_at_equal_time :
    tp_touch_typing.state = .TOUCH_UPDATE ∧
    tp_touch_typing.palm.state = .PALM_TYPING ∧
    tp_example_typed.dwt.keyboard_active = false ∧
    tp_touch_typing.palm.time ≥ tp_example_typed.dwt.keyboard_last_press_time ∧
    (tp_palm_detect tp_example_peers tp_example_typed tp_touch_typing 300000).palm.state =
      .PALM_TYPING := by
  decide

/-- C12 (amended): for a touch in UPDATE tagged PALM_TYPING, `tp_palm_detect`
clears the palm tag if and only if the keyboard is no longer active and the
palm-mark time of the touch (`palm.time`) is 0 or strictly after
`dwt.keyboard_last_press_time`; otherwise the touch stays PALM_TYPING. A touch
in BEGIN while disable-while-typing is enabled and the keyboard is active is
tagged PALM_TYPING. -/
theorem c12_palm_typing (p : tp_peers) (tp : tp_dispatch) (t : tp_touch) (time : Nat) :
    (t.state = .TOUCH_UPDATE → t.palm.state = .PALM_TYPING →
      ((tp_palm_detect p tp t time).palm.state = .PALM_NONE ↔
        (tp.dwt.keyboard_active = false ∧
         (t.palm.time = 0 ∨ t.palm.time > tp.dwt.keyboard_last_press_time))) ∧
      ((tp_palm_detect p tp t time).palm.state = .PALM_NONE ∨
        (tp_palm_detect p tp t time).palm.state = .PALM_TYPING)) ∧
    (t.state = .TOUCH_BEGIN → tp.dwt.dwt_enabled = true → tp.dwt.keyboard_active = true →
      (tp_palm_detect p tp t time).palm.state = .PALM_TYPING) := by
  constructor
  · intro hs hp
    by_cases hc : tp.dwt.keyboard_active = false ∧
        (t.palm.time = 0 ∨ t.palm.time > tp.dwt.keyboard_last_press_time)
    · have h1 : tp_palm_detect_dwt tp t time =
          ({ t with palm.state := .PALM_NONE }, false) := by
        simp [tp_palm_detect_dwt, hc.1, hs, hp, hc.2]
      have h2 : tp_palm_detect_trackpoint tp { t with palm.state := .PALM_NONE } time =
          ({ t with palm.state := .PALM_NONE }, false) := by
        unfold tp_palm_detect_trackpoint
        split_ifs <;> simp_all
      have h3 : (tp_palm_detect p tp t time).palm.state = .PALM_NONE := by
        unfold tp_palm_detect
        simp only [h1, h2]
        simp [hs]
      exact ⟨⟨fun _ => hc, fun _ => h3⟩, Or.inl h3⟩
    · have h1 : tp_palm_detect_dwt tp t time = (t, false) := by
        unfold tp_palm_detect_dwt
        split_ifs <;> simp_all
      have h2 : tp_palm_detect_trackpoint tp t time = (t, false) := by
        unfold tp_palm_detect_trackpoint
        split_ifs <;> simp_all
      have h3 : (tp_palm_detect p tp t time).palm.state = .PALM_TYPING := by
        unfold tp_palm_detect
        simp only [h1, h2]
        simp [hs, hp]
      refine ⟨⟨fun h => ?_, fun h => absurd h hc⟩, Or.inr h3⟩
      rw [h3] at h; cases h
  · intro hs he hk
    unfold tp_palm_detect tp_palm_detect_dwt
    simp [hs, he, hk]

theorem c12_palm_typing_witness :
    tp_touch_typing.state = .TOUCH_UPDATE ∧
    tp_touch_typing.palm.state = .PALM_TYPING ∧
    ((tp_palm_detect tp_example_peers tp_example_typed tp_touch_typing 300000).palm.state =
        .PALM_NONE ↔
      (tp_example_typed.dwt.keyboard_active = false ∧
       (tp_touch_typing.palm.time = 0 ∨
        tp_touch_typing.palm.time > tp_example_typed.dwt.keyboard_last_press_time))) :=
  ⟨by decide, by decide,
   ((c12_palm_typing tp_example_peers tp_example_typed tp_touch_typing 300000).1
     (by decide) (by decide)).1⟩

/-! ## Thumb detection -/

theorem tp_gesture_end_calls (tp : tp_dispatch) (time : Nat) (cancelled : Bool) :
    (tp_gesture_end tp time cancelled).gesture.state = .GESTURE_STATE_NONE ∧
    (tp_gesture_end tp time cancelled).gesture.started = false ∧
    ∃ l, (tp_gesture_end tp time cancelled).sink = tp.sink ++ l ∧
      ∀ c ∈ l, tp_call_is_motion c = false := by
  unfold tp_gesture_end tp_gesture_stop_twofinger_scroll
  cases hst : tp.gesture.started with
  | false => exact ⟨by simp [hst], by simp [hst], [], by simp [hst], by simp⟩
  | true =>
    cases hs : tp.gesture.state <;>
      by_cases hm : tp.scroll_method = .LIBINPUT_CONFIG_SCROLL_2FG <;>
      refine ⟨?_, ?_, ?_⟩ <;>
      simp [hst, hs, hm, tp_dispatch.call, tp_call_is_motion]

/-- C13: in a frame processed on a device that is not suspended while
`dwt.keyboard_active` or `palm.trackpoint_active` is set, whatever the value
of `dwt_enabled`, `tp_post_events` lets the tap and button subsystems handle
their state, stops edge scrolling and cancels the gesture: afterwards
`gesture.state` is NONE and `gesture.started` is false, and none of the calls
it makes posts pointer motion, scroll motion or a gesture begin or update. -/
theorem c13_active_keyboard_suppresses_motion (p : tp_peers) (tp : tp_dispatch) (time : Nat)
    (hs : tp.device.suspended = false)
    (ha : tp.dwt.keyboard_active = true ∨ tp.palm.trackpoint_active = true) :
    (tp_post_events p tp time).gesture.state = .GESTURE_STATE_NONE ∧
    (tp_post_events p tp time).gesture.started = false ∧
    ∃ l, (tp_post_events p tp time).sink =
        tp.sink ++ [.tp_tap_handle_state time, .tp_post_button_events time,
          .tp_edge_scroll_stop_events time] ++ l ∧
      ∀ c ∈ l, tp_call_is_motion c = false := by
  have hc : (p.tp_tap_handle_state || p.tp_post_button_events) = true ∨
      tp.palm.trackpoint_active = true ∨ tp.dwt.keyboard_active = true := by
    rcases ha with ha | ha
    · exact Or.inr (Or.inr ha)
    · exact Or.inr (Or.inl ha)
  obtain ⟨e1, e2, l, e3, e4⟩ := tp_gesture_end_calls
    (((tp.call (.tp_tap_handle_state time)).call (.tp_post_button_events time)).call
      (.tp_edge_scroll_stop_events time)) time true
  have hr : tp_post_events p tp time = tp_gesture_end
      (((tp.call (.tp_tap_handle_state time)).call (.tp_post_button_events time)).call
        (.tp_edge_scroll_stop_events time)) time true := by
    unfold tp_post_events tp_gesture_cancel
    simp only [hs, Bool.false_eq_true, if_false]
    rw [if_pos (by exact hc)]
  rw [hr]
  refine ⟨e1, e2, l, ?_, e4⟩
  rw [e3]
  simp [tp_dispatch.call]

theorem c13_active_keyboard_suppresses_motion_witness :
    tp_example_keyboard_active.device.suspended = false ∧
    (tp_example_keyboard_active.dwt.keyboard_active = true ∨
      tp_example_keyboard_active.palm.trackpoint_active = true) ∧
    (tp_post_events tp_example_peers tp_example_keyboard_active 6000).gesture.state =
      .GESTURE_STATE_NONE :=
  ⟨by decide, by decide,
   (c13_active_keyboard_suppresses_motion tp_example_peers tp_example_keyboard_active 6000
     (by decide) (by decide)).1⟩

/-! ## The two-finger scroll timeout -/

theorem normalized_get_direction_lt (p : tp_peers) (norm : normalized_coords) :
    normalized_get_direction p norm < 256 := by
  have hb : ∀ a, a < 8 → ∀ b, b < 8 → (1 <<< a) ||| (1 <<< b) < 256 := by decide
  have ht : ∀ x : Int, (Int.tmod x 8).toNat < 8 := by
    intro x
    have := Int.tmod_lt_of_pos x (show (0 : Int) < 8 by norm_num)
    omega
  unfold normalized_get_direction
  simp only []
  split_ifs <;> first
    | decide
    | exact hb _ (ht _) _ (ht _)

set_option maxRecDepth 100000 in
theorem tp_palm_directions_mask (d : Nat) (h : d < 256) :
    (d &&& (NE ||| E ||| SE ||| SW ||| W ||| NW) ≠ 0 ∧
      ¬ (d &&& c_not32 (NE ||| E ||| SE ||| SW ||| W ||| NW) ≠ 0)) ↔
    (d ≠ 0 ∧ d &&& N = 0 ∧ d &&& S = 0) := by
  revert d
  decide

/-- For a touch tagged PALM_EDGE that is not retagged by typing (it is not a
touch in BEGIN while disable-while-typing is enabled and the keyboard active),
`tp_palm_detect` clears the tag exactly when `time < palm.time + 200 ms`, the
x of the touch lies strictly between the edges and the direction mask of its
displacement from `palm.first` is non-empty and holds none of N and S;
otherwise the tag stays. -/
theorem tp_palm_detect_edge_release (p : tp_peers) (tp : tp_dispatch) (t : tp_touch) (time : Nat)
    (he : t.palm.state = .PALM_EDGE)
    (hb : t.state = .TOUCH_BEGIN →
      ¬ (tp.dwt.dwt_enabled = true ∧ tp.dwt.keyboard_active = true)) :
    ((tp_palm_detect p tp t time).palm.state = .PALM_NONE ↔
      (time < t.palm.time + ms2us 200 ∧
       (t.point.x > tp.palm.left_edge ∧ t.point.x < tp.palm.right_edge) ∧
       normalized_get_direction p
         (tp_normalize_delta tp (device_delta t.point t.palm.first)) ≠ 0 ∧
       normalized_get_direction p
         (tp_normalize_delta tp (device_delta t.point t.palm.first)) &&& N = 0 ∧
       normalized_get_direction p
         (tp_normalize_delta tp (device_delta t.point t.palm.first)) &&& S = 0)) ∧
    ((tp_palm_detect p tp t time).palm.state = .PALM_NONE ∨
      (tp_palm_detect p tp t time).palm.state = .PALM_EDGE) := by
  have h1 : tp_palm_detect_dwt tp t time = (t, false) := by
    unfold tp_palm_detect_dwt
    split_ifs with c1 c2 c3
    · exact absurd ⟨c1.1, c1.2.1⟩ (hb c1.2.2)
    · rw [he] at c2
      exact absurd c2.2.2 (by decide)
    · rfl
    · rfl
  have h2 : tp_palm_detect_trackpoint tp t time = (t, false) := by
    unfold tp_palm_detect_trackpoint
    split_ifs <;> simp_all
  have hm := tp_palm_directions_mask _ (normalized_get_direction_lt p
    (tp_normalize_delta tp (device_delta t.point t.palm.first)))
  unfold tp_palm_detect
  simp only [h1, h2, Bool.false_eq_true, if_false, he, if_true]
  by_cases c1 : time < t.palm.time + ms2us 200 ∧
      (t.point.x > tp.palm.left_edge ∧ t.point.x < tp.palm.right_edge)
  · rw [if_pos c1]
    by_cases c2 : normalized_get_direction p
          (tp_normalize_delta tp (device_delta t.point t.palm.first)) &&&
            (NE ||| E ||| SE ||| SW ||| W ||| NW) ≠ 0 ∧
        ¬ (normalized_get_direction p
          (tp_normalize_delta tp (device_delta t.point t.palm.first)) &&&
            c_not32 (NE ||| E ||| SE ||| SW ||| W ||| NW) ≠ 0)
    · rw [if_pos c2]
      exact ⟨⟨fun _ => ⟨c1.1, c1.2, hm.1 c2⟩, fun _ => rfl⟩, Or.inl rfl⟩
    · rw [if_neg c2]
      refine ⟨⟨fun h => ?_, fun h => absurd (hm.2 h.2.2) c2⟩, Or.inr he⟩
      rw [he] at h; cases h
  · rw [if_neg c1]
    refine ⟨⟨fun h => ?_, fun h => absurd ⟨h.1, h.2.1⟩ c1⟩, Or.inr he⟩
    rw [he] at h; cases h

/-! ## Directions of two touches -/

theorem nat_and_ne_zero_iff (a b : Nat) :
    a &&& b ≠ 0 ↔ ∃ i, a.testBit i = true ∧ b.testBit i = true := by
  constructor
  · intro h
    obtain ⟨i, hi⟩ := Nat.ne_zero_implies_bit_true h
    rw [Nat.testBit_and, Bool.and_eq_true] at hi
    exact ⟨i, hi⟩
  · rintro ⟨i, ha, hb⟩ h0
    have : (a &&& b).testBit i = true := by
      rw [Nat.testBit_and, ha, hb]; rfl
    rw [h0, Nat.zero_testBit] at this
    cases this

theorem nat_testBit_lt_of_lt_256 (d i : Nat) (hd : d < 256) (h : d.testBit i = true) :
    i < 8 := by
  by_contra hi
  have h8 : d < 2 ^ i :=
    lt_of_lt_of_le hd (by
      have : 2 ^ 8 ≤ 2 ^ i := Nat.pow_le_pow_right (by norm_num) (by omega)
      simpa using this)
  rw [Nat.testBit_lt_two_pow h8] at h
  cases h

theorem tp_gesture_same_directions_iff (d1 d2 : Nat) (h1 : d1 < 256) (h2 : d2 < 256) :
    tp_gesture_same_directions d1 d2 = true ↔
      ∃ i, i < 8 ∧ ∃ j, j < 8 ∧ d1.testBit i = true ∧ d2.testBit j = true ∧
        (i = j ∨ (i + 1) % 8 = j ∨ (j + 1) % 8 = i) := by
  have e80 : ∀ d : Nat, d &&& 0x80 ≠ 0 ↔ d.testBit 7 = true := by
    intro d
    rw [nat_and_ne_zero_iff]
    constructor
    · rintro ⟨i, hi, hj⟩
      have : i = 7 := by
        by_contra hne
        have : (0x80 : Nat).testBit i = false := by
          have e : (0x80 : Nat) = 2 ^ 7 := by norm_num
          rw [e, Nat.testBit_two_pow]
          simp [Ne.symm hne]
        rw [this] at hj; cases hj
      rw [← this]; exact hi
    · intro h
      exact ⟨7, h, by decide⟩
  have e01 : ∀ d : Nat, d &&& 0x01 ≠ 0 ↔ d.testBit 0 = true := by
    intro d
    rw [nat_and_ne_zero_iff]
    constructor
    · rintro ⟨i, hi, hj⟩
      have : i = 0 := by
        by_contra hne
        have : (0x01 : Nat).testBit i = false := by
          have e : (0x01 : Nat) = 2 ^ 0 := by norm_num
          rw [e, Nat.testBit_two_pow]
          simp [Ne.symm hne]
        rw [this] at hj; cases hj
      rw [← this]; exact hi
    · intro h
      exact ⟨0, h, by decide⟩
  have esh : ∀ a b : Nat, (a ||| (a >>> 1)) &&& b ≠ 0 ↔
      ∃ i, (a.testBit i = true ∨ a.testBit (i + 1) = true) ∧ b.testBit i = true := by
    intro a b
    rw [nat_and_ne_zero_iff]
    constructor
    · rintro ⟨i, hi, hj⟩
      rw [Nat.testBit_or, Nat.testBit_shiftRight, Bool.or_eq_true] at hi
      exact ⟨i, by rwa [Nat.add_comm] at hi, hj⟩
    · rintro ⟨i, hi, hj⟩
      refine ⟨i, ?_, hj⟩
      rw [Nat.testBit_or, Nat.testBit_shiftRight, Bool.or_eq_true, Nat.add_comm]
      exact hi
  unfold tp_gesture_same_directions
  simp only [Bool.or_eq_true, Bool.and_eq_true, decide_eq_true_eq]
  rw [esh, esh, e80, e80, e01, e01]
  constructor
  · rintro (((⟨i, hi | hi, hj⟩ | ⟨i, hi | hi, hj⟩) | ⟨ha, hb⟩) | ⟨ha, hb⟩)
    · have := nat_testBit_lt_of_lt_256 d1 i h1 hi
      exact ⟨i, this, i, this, hi, hj, Or.inl rfl⟩
    · have h8 := nat_testBit_lt_of_lt_256 d1 (i + 1) h1 hi
      exact ⟨i + 1, h8, i, by omega, hi, hj, Or.inr (Or.inr (by omega))⟩
    · have := nat_testBit_lt_of_lt_256 d2 i h2 hi
      exact ⟨i, this, i, this, hj, hi, Or.inl rfl⟩
    · have h8 := nat_testBit_lt_of_lt_256 d2 (i + 1) h2 hi
      exact ⟨i, by omega, i + 1, h8, hj, hi, Or.inr (Or.inl (by omega))⟩
    · exact ⟨7, by norm_num, 0, by norm_num, ha, hb, Or.inr (Or.inl (by norm_num))⟩
    · exact ⟨0, by norm_num, 7, by norm_num, hb, ha, Or.inr (Or.inr (by norm_num))⟩
  · rintro ⟨i, hi, j, hj, ha, hb, hij | hij | hij⟩
    · subst hij
      exact Or.inl (Or.inl (Or.inl ⟨i, Or.inl ha, hb⟩))
    · by_cases h7 : i = 7
      · subst h7
        have : j = 0 := by omega
        subst this
        exact Or.inl (Or.inr ⟨ha, hb⟩)
      · have : j = i + 1 := by omega
        subst this
        exact Or.inl (Or.inl (Or.inr ⟨i, Or.inr hb, ha⟩))
    · by_cases h7 : j = 7
      · subst h7
        have : i = 0 := by omega
        subst this
        exact Or.inr ⟨hb, ha⟩
      · have : i = j + 1 := by omega
        subst this
        exact Or.inl (Or.inl (Or.inl ⟨j, Or.inr ha, hb⟩))

/-- C20: `tp_gesture_same_directions` is symmetric in its two arguments; for
8-bit direction masks `d1`, `d2` it is true exactly when some octant set in
`d1` and some octant set in `d2` are equal or adjacent modulo 8 (octants 0 and
7 being adjacent); for single octants `1 << i` and `1 << j` it holds iff `i`
and `j` differ by at most one octant on the circle. -/
theorem c20_same_directions (d1 d2 : Nat) :
    tp_gesture_same_directions d1 d2 = tp_gesture_same_directions d2 d1 ∧
    (d1 < 256 → d2 < 256 →
      (tp_gesture_same_directions d1 d2 = true ↔
        ∃ i, i < 8 ∧ ∃ j, j < 8 ∧ d1.testBit i = true ∧ d2.testBit j = true ∧
          (i = j ∨ (i + 1) % 8 = j ∨ (j + 1) % 8 = i))) ∧
    (∀ i, i < 8 → ∀ j, j < 8 →
      (tp_gesture_same_directions (1 <<< i) (1 <<< j) = true ↔
        (i = j ∨ (i + 1) % 8 = j ∨ (j + 1) % 8 = i))) := by
  refine ⟨?_, fun h1 h2 => tp_gesture_same_directions_iff d1 d2 h1 h2, by decide⟩
  unfold tp_gesture_same_directions
  simp only [Bool.or_assoc, Bool.or_comm, Bool.or_left_comm]

theorem c20_same_directions_witness :
    (N ||| NE) < 256 ∧ (E ||| SE) < 256 ∧
    (tp_gesture_same_directions (N ||| NE) (E ||| SE) = true ↔
      ∃ i, i < 8 ∧ ∃ j, j < 8 ∧ (N ||| NE).testBit i = true ∧ (E ||| SE).testBit j = true ∧
        (i = j ∨ (i + 1) % 8 = j ∨ (j + 1) % 8 = i)) :=
  ⟨by decide, by decide, (c20_same_directions (N ||| NE) (E ||| SE)).2.1 (by decide) (by decide)⟩

/-! ## Entry into the gesture machine -/

theorem tp_gesture_get_active_touches_loop_eq (p : tp_peers) (tp : tp_dispatch) (count : Nat)
    (l acc : List Nat) (h : acc.length < count) :
    tp_gesture_get_active_touches_loop p tp count l acc =
      acc ++ (l.filter (fun i => tp_touch_active p tp i)).take (count - acc.length) := by
  induction l generalizing acc with
  | nil => simp [tp_gesture_get_active_touches_loop]
  | cons i rest ih =>
    unfold tp_gesture_get_active_touches_loop
    by_cases ha : tp_touch_active p tp i = true
    · simp only [ha, if_true, List.filter_cons_of_pos]
      by_cases hc : (acc ++ [i]).length = count
      · rw [if_pos hc]
        have : count - acc.length = 1 := by
          simp only [List.length_append, List.length_singleton] at hc; omega
        rw [this]
        simp
      · rw [if_neg hc]
        have hl : (acc ++ [i]).length < count := by
          simp only [List.length_append, List.length_singleton] at hc ⊢; omega
        rw [ih _ hl]
        have : count - acc.length = (count - (acc ++ [i]).length) + 1 := by
          simp only [List.length_append, List.length_singleton] at hl ⊢; omega
        rw [this, List.take_succ_cons]
        simp
    · simp only [ha, Bool.false_eq_true, if_false]
      rw [ih _ h, List.filter_cons_of_neg ha]

theorem tp_gesture_get_active_touches_eq (p : tp_peers) (tp : tp_dispatch) (count : Nat)
    (h : 0 < count) :
    tp_gesture_get_active_touches p tp count =
      ((List.range tp.ntouches).filter (fun i => tp_touch_active p tp i)).take count := by
  unfold tp_gesture_get_active_touches
  rw [tp_gesture_get_active_touches_loop_eq p tp count _ [] (by simpa using h)]
  simp

theorem list_foldl_range_inv {α : Type} (f : α → Nat → α) (P : Nat → α → Prop) (n : Nat) :
    ∀ (s : Nat) (a : α), P s a →
      (∀ k a, s ≤ k → k < s + n → P k a → P (k + 1) (f a k)) →
      P (s + n) ((List.range' s n).foldl f a) := by
  induction n with
  | zero => intro s a h0 _; simpa using h0
  | succ n ih =>
    intro s a h0 hstep
    rw [List.range'_succ, List.foldl_cons]
    have := ih (s + 1) (f a s) (hstep s a (le_refl _) (by omega) h0)
      (fun k a hk hk2 hp => hstep k a (by omega) (by omega) hp)
    have e : s + 1 + n = s + (n + 1) := by omega
    rw [e] at this
    exact this

theorem tp_gesture_pick_touches_spec (tp : tp_dispatch) (touches : List Nat)
    (hl : touches.length > 2) (hn : 1 ≤ tp.num_slots) :
    (tp_gesture_pick_touches tp touches).1 ∈
        touches.take (min touches.length tp.num_slots) ∧
    (tp_gesture_pick_touches tp touches).2 ∈
        touches.take (min touches.length tp.num_slots) ∧
    (∀ j ∈ touches.take (min touches.length tp.num_slots),
      (tp_get_touch tp (tp_gesture_pick_touches tp touches).1).point.x ≤
          (tp_get_touch tp j).point.x ∧
      (tp_get_touch tp j).point.x ≤
          (tp_get_touch tp (tp_gesture_pick_touches tp touches).2).point.x) ∧
    ((tp_gesture_pick_touches tp touches).1 = (tp_gesture_pick_touches tp touches).2 ↔
      ∀ j ∈ touches.take (min touches.length tp.num_slots),
        (tp_get_touch tp j).point.x = (tp_get_touch tp (touches.getD 0 0)).point.x) := by
  unfold tp_gesture_pick_touches
  rw [if_pos hl]
  have key := list_foldl_range_inv
    (fun (fs : Nat × Nat) i =>
        if (tp_get_touch tp (touches.getD i 0)).point.x < (tp_get_touch tp fs.1).point.x then
          (touches.getD i 0, fs.2)
        else if (tp_get_touch tp (touches.getD i 0)).point.x >
            (tp_get_touch tp fs.2).point.x then
          (fs.1, touches.getD i 0)
        else fs)
    (fun k fs => k ≤ min touches.length tp.num_slots →
      fs.1 ∈ touches.take k ∧ fs.2 ∈ touches.take k ∧
      (∀ j ∈ touches.take k,
        (tp_get_touch tp fs.1).point.x ≤ (tp_get_touch tp j).point.x ∧
        (tp_get_touch tp j).point.x ≤ (tp_get_touch tp fs.2).point.x) ∧
      ((fs.1 = fs.2 ∧ ∀ j ∈ touches.take k,
          (tp_get_touch tp j).point.x = (tp_get_touch tp (touches.getD 0 0)).point.x) ∨
       ((tp_get_touch tp fs.1).point.x < (tp_get_touch tp fs.2).point.x)))
    (min touches.length tp.num_slots - 1) 1 (touches.getD 0 0, touches.getD 0 0)
    (by
      intro _
      obtain ⟨a, rest, rfl⟩ : ∃ a rest, touches = a :: rest := by
        cases touches with
        | nil => simp at hl
        | cons a rest => exact ⟨a, rest, rfl⟩
      simp)
    (by
      intro k fs hk1 hk2 ih hk3
      have hk : k < touches.length := by omega
      obtain ⟨i1, i2, i3, i4⟩ := ih (by omega)
      have etake : touches.take (k + 1) = touches.take k ++ [touches.getD k 0] := by
        rw [List.take_succ, List.getD_eq_getElem?_getD, List.getElem?_eq_getElem hk]
        simp
      rw [etake]
      simp only []
      have hsub : ∀ j, j ∈ touches.take k → j ∈ touches.take k ++ [touches.getD k 0] :=
        fun j hj => List.mem_append_left _ hj
      have hlast : touches.getD k 0 ∈ touches.take k ++ [touches.getD k 0] :=
        List.mem_append_right _ (List.mem_singleton_self _)
      split_ifs with c1 c2
      · refine ⟨hlast, hsub _ i2, ?_, Or.inr ?_⟩
        · intro j hj
          rcases List.mem_append.1 hj with hj | hj
          · exact ⟨le_trans (le_of_lt c1) (i3 j hj).1, (i3 j hj).2⟩
          · rw [List.mem_singleton] at hj
            subst hj
            exact ⟨le_refl _, le_trans (le_of_lt c1) (le_trans (i3 _ i1).1 (i3 _ i1).2)⟩
        · exact lt_of_lt_of_le c1 (i3 _ i2).1
      · refine ⟨hsub _ i1, hlast, ?_, Or.inr ?_⟩
        · intro j hj
          rcases List.mem_append.1 hj with hj | hj
          · exact ⟨(i3 j hj).1, le_trans (i3 j hj).2 (le_of_lt c2)⟩
          · rw [List.mem_singleton] at hj
            subst hj
            exact ⟨le_of_not_lt c1, le_refl _⟩
        · exact lt_of_le_of_lt (i3 _ i1).2 c2
      · refine ⟨hsub _ i1, hsub _ i2, ?_, ?_⟩
        · intro j hj
          rcases List.mem_append.1 hj with hj | hj
          · exact i3 j hj
          · rw [List.mem_singleton] at hj
            subst hj
            exact ⟨le_of_not_lt c1, le_of_not_lt c2⟩
        · rcases i4 with ⟨e, hall⟩ | hlt
          · refine Or.inl ⟨e, ?_⟩
            intro j hj
            rcases List.mem_append.1 hj with hj | hj
            · exact hall j hj
            · rw [List.mem_singleton] at hj
              subst hj
              have h1 := hall _ i1
              have h2 := hall _ i2
              have a1 := le_of_not_lt c1
              have a2 := le_of_not_lt c2
              rw [h1] at a1
              rw [h2] at a2
              exact le_antisymm a2 a1
          · exact Or.inr hlt)
  have e : 1 + (min touches.length tp.num_slots - 1) = min touches.length tp.num_slots := by
    have : 1 ≤ min touches.length tp.num_slots := by
      rw [Nat.le_min]; exact ⟨by omega, hn⟩
    omega
  rw [e] at key
  obtain ⟨k1, k2, k3, k4⟩ := key (le_refl _)
  refine ⟨k1, k2, k3, ?_⟩
  constructor
  · intro heq
    rcases k4 with ⟨_, hall⟩ | hlt
    · exact hall
    · rw [heq] at hlt
      exact absurd hlt (lt_irrefl _)
  · intro hall
    rcases k4 with ⟨e, _⟩ | hlt
    · exact e
    · rw [hall _ k1, hall _ k2] at hlt
      exact absurd hlt (lt_irrefl _)

theorem tp_gesture_snapshot_get (l : List tp_touch) (a b j : Nat) :
    ((tp_modify_touch (fun t => { t with gesture_initial := t.point }) b
        (tp_modify_touch (fun t => { t with gesture_initial := t.point }) a l)).getD j
          default).point = (l.getD j default).point ∧
    (j = a ∨ j = b →
      ((tp_modify_touch (fun t => { t with gesture_initial := t.point }) b
          (tp_modify_touch (fun t => { t with gesture_initial := t.point }) a l)).getD j
            default).gesture_initial =
        ((tp_modify_touch (fun t => { t with gesture_initial := t.point }) b
          (tp_modify_touch (fun t => { t with gesture_initial := t.point }) a l)).getD j
            default).point) := by
  simp only [List.getD_eq_getElem?_getD, tp_modify_touch_get]
  have hd : (default : tp_touch).gesture_initial = (default : tp_touch).point := rfl
  by_cases hb : j = b
  · subst hb
    cases hj : l[j]? <;> by_cases ha : j = a <;> simp [ha, hd]
  · cases hj : l[j]? <;> by_cases ha : j = a <;> simp [ha, hb, hd]

/-- C18: `tp_gesture_handle_state_none` looks at the first four active touches
in slot order. With fewer than 2 of them it stays in NONE and changes nothing.
With more than two (and at least one slot) it considers the first
`min(n, num_slots)` of them: it stays in NONE, changing nothing, exactly when
the left-most and the right-most pick are the same touch, which is when all
considered touches have the same x; otherwise it enters UNKNOWN with
`gesture.touches[0]` a considered touch of minimum x and `gesture.touches[1]`
a considered touch of maximum x. It only returns NONE or UNKNOWN, and on
entering UNKNOWN `initial_time` is the time of the call, no point has moved
and `gesture.initial` equals the point for both selected touches. -/
theorem c18_gesture_entry_selection (p : tp_peers) (tp : tp_dispatch) (time : Nat) :
    tp_gesture_get_active_touches p tp 4 = tp_gesture_active4 p tp ∧
    ((tp_gesture_active4 p tp).length < 2 →
      tp_gesture_handle_state_none p tp time = (tp, .GESTURE_STATE_NONE)) ∧
    ((tp_gesture_active4 p tp).length > 2 → 1 ≤ tp.num_slots →
      (((tp_gesture_handle_state_none p tp time).2 = .GESTURE_STATE_NONE ↔
          (tp_gesture_pick_touches tp (tp_gesture_active4 p tp)).1 =
            (tp_gesture_pick_touches tp (tp_gesture_active4 p tp)).2) ∧
       ((tp_gesture_handle_state_none p tp time).2 = .GESTURE_STATE_NONE ↔
          ∀ j ∈ tp_gesture_considered p tp,
            (tp_get_touch tp j).point.x =
              (tp_get_touch tp ((tp_gesture_active4 p tp).getD 0 0)).point.x) ∧
       ((tp_gesture_handle_state_none p tp time).2 = .GESTURE_STATE_NONE →
          (tp_gesture_handle_state_none p tp time).1 = tp) ∧
       ((tp_gesture_handle_state_none p tp time).2 = .GESTURE_STATE_UNKNOWN →
          (tp_gesture_handle_state_none p tp time).1.gesture.touches0 ∈
            tp_gesture_considered p tp ∧
          (tp_gesture_handle_state_none p tp time).1.gesture.touches1 ∈
            tp_gesture_considered p tp ∧
          ∀ j ∈ tp_gesture_considered p tp,
            (tp_get_touch tp (tp_gesture_handle_state_none p tp time).1.gesture.touches0).point.x
                ≤ (tp_get_touch tp j).point.x ∧
            (tp_get_touch tp j).point.x ≤
              (tp_get_touch tp
                (tp_gesture_handle_state_none p tp time).1.gesture.touches1).point.x))) ∧
    ((tp_gesture_handle_state_none p tp time).2 = .GESTURE_STATE_NONE ∨
      (tp_gesture_handle_state_none p tp time).2 = .GESTURE_STATE_UNKNOWN) ∧
    ((tp_gesture_handle_state_none p tp time).2 = .GESTURE_STATE_UNKNOWN →
      (tp_gesture_handle_state_none p tp time).1.gesture.initial_time = time ∧
      (∀ j, (tp_get_touch (tp_gesture_handle_state_none p tp time).1 j).point =
        (tp_get_touch tp j).point) ∧
      (tp_get_touch (tp_gesture_handle_state_none p tp time).1
          (tp_gesture_handle_state_none p tp time).1.gesture.touches0).gesture_initial =
        (tp_get_touch (tp_gesture_handle_state_none p tp time).1
          (tp_gesture_handle_state_none p tp time).1.gesture.touches0).point ∧
      (tp_get_touch (tp_gesture_handle_state_none p tp time).1
          (tp_gesture_handle_state_none p tp time).1.gesture.touches1).gesture_initial =
        (tp_get_touch (tp_gesture_handle_state_none p tp time).1
          (tp_gesture_handle_state_none p tp time).1.gesture.touches1).point) := by
  have hA : tp_gesture_get_active_touches p tp 4 = tp_gesture_active4 p tp :=
    tp_gesture_get_active_touches_eq p tp 4 (by norm_num)
  unfold tp_gesture_handle_state_none
  simp only [hA]
  refine ⟨trivial, ?_, ?_, ?_, ?_⟩
  · intro h
    rw [if_pos h]
  · intro h hn
    obtain ⟨s1, s2, s3, s4⟩ := tp_gesture_pick_touches_spec tp _ h hn
    have h2 : ¬ (tp_gesture_active4 p tp).length < 2 := by omega
    rw [if_neg h2]
    by_cases hsame : (tp_gesture_pick_touches tp (tp_gesture_active4 p tp)).1 =
        (tp_gesture_pick_touches tp (tp_gesture_active4 p tp)).2
    · rw [if_pos ⟨h, hsame⟩]
      refine ⟨⟨fun _ => hsame, fun _ => rfl⟩, ⟨fun _ => s4.1 hsame, fun _ => rfl⟩,
        fun _ => rfl, fun hc => ?_⟩
      cases hc
    · rw [if_neg (fun hc => hsame hc.2)]
      refine ⟨⟨fun hc => ?_, fun hc => absurd hc hsame⟩,
        ⟨fun hc => ?_, fun hc => absurd (s4.2 hc) hsame⟩, fun hc => ?_, fun _ => ⟨s1, s2, s3⟩⟩
      · cases hc
      · cases hc
      · cases hc
  · split_ifs
    · exact Or.inl rfl
    · exact Or.inl rfl
    · exact Or.inr rfl
  · split_ifs
    · intro hc; cases hc
    · intro hc; cases hc
    · intro _
      refine ⟨rfl, fun j => ?_, ?_, ?_⟩
      · exact (tp_gesture_snapshot_get tp.touches _ _ j).1
      · exact (tp_gesture_snapshot_get tp.touches _ _ _).2 (Or.inl rfl)
      · exact (tp_gesture_snapshot_get tp.touches _ _ _).2 (Or.inr rfl)

theorem c18_gesture_entry_selection_witness :
    (tp_gesture_active4 tp_example_peers tp_example_three_fingers).length > 2 ∧
    1 ≤ tp_example_three_fingers.num_slots ∧
    ((tp_gesture_handle_state_none tp_example_peers tp_example_three_fingers 1000).2 =
        .GESTURE_STATE_NONE ↔
      (tp_gesture_pick_touches tp_example_three_fingers
          (tp_gesture_active4 tp_example_peers tp_example_three_fingers)).1 =
        (tp_gesture_pick_touches tp_example_three_fingers
          (tp_gesture_active4 tp_example_peers tp_example_three_fingers)).2) :=
  ⟨by decide, by decide,
   ((c18_gesture_entry_selection tp_example_peers tp_example_three_fingers 1000).2.2.1
     (by decide) (by decide)).1⟩

/-! ## A palm-tagged touch is down -/

theorem tp_modify_touch_all_at (P : tp_touch → Prop) (f : tp_touch → tp_touch) (i : Nat)
    (l : List tp_touch) (hf : ∀ t, l[i]? = some t → P t → P (f t)) (h : ∀ t ∈ l, P t) :
    ∀ t ∈ tp_modify_touch f i l, P t := by
  intro t' ht'
  rcases tp_modify_touch_mem f i l t' ht' with hm | ⟨t, ht, rfl⟩
  · exact h t' hm
  · exact hf t ht (h t (List.getElem?_mem ht))

theorem tp_new_touch_pinv (tp : tp_dispatch) (i time : Nat) (h : tp_pinv tp) :
    tp_pinv (tp_new_touch tp i time) := by
  unfold tp_new_touch
  by_cases hs : (tp_get_touch tp i).state = .TOUCH_BEGIN ∨
      (tp_get_touch tp i).state = .TOUCH_UPDATE ∨ (tp_get_touch tp i).state = .TOUCH_HOVERING
  · simp only [hs, if_true]; exact h
  · simp only [hs, if_false]
    show ∀ t ∈ tp_modify_touch _ i tp.touches, tp_touch_palm_ok t
    apply tp_modify_touch_all_at _ _ _ _ _ h
    intro t ht hok
    rw [tp_get_touch_of_some tp i t ht] at hs
    simp only [not_or] at hs
    intro hp
    exact absurd (hok hp) hs.2.1

theorem tp_begin_touch_pinv (tp : tp_dispatch) (i time : Nat) (h : tp_pinv tp)
    (hs : (tp_get_touch tp i).state = .TOUCH_HOVERING) :
    tp_pinv (tp_begin_touch tp i time) := by
  unfold tp_begin_touch
  show ∀ t ∈ tp_modify_touch _ i tp.touches, tp_touch_palm_ok t
  apply tp_modify_touch_all_at _ _ _ _ _ h
  intro t ht hok
  rw [tp_get_touch_of_some tp i t ht] at hs
  intro hp
  have := hok hp
  rw [hs] at this
  cases this

theorem tp_end_touch_pinv (tp : tp_dispatch) (i time : Nat) (h : tp_pinv tp) :
    tp_pinv (tp_end_touch tp i time) := by
  unfold tp_end_touch
  split
  · rename_i hs
    show ∀ t ∈ tp_modify_touch _ i tp.touches, tp_touch_palm_ok t
    apply tp_modify_touch_all_at _ _ _ _ _ h
    intro t ht hok
    rw [tp_get_touch_of_some tp i t ht] at hs
    intro hp
    have := hok hp
    rw [hs] at this
    cases this
  · exact h
  · exact h
  · show ∀ t ∈ tp_modify_touch _ i tp.touches, tp_touch_palm_ok t
    apply tp_modify_touch_all_at _ _ _ _ _ h
    intro t _ _ hp
    exact absurd rfl hp

theorem tp_pinv_modify (tp : tp_dispatch) (i : Nat) (f : tp_touch → tp_touch)
    (hf : ∀ t, (f t).palm.state = t.palm.state ∧ (f t).state = t.state) (h : tp_pinv tp) :
    tp_pinv (tp.modify i f) := by
  show ∀ t ∈ tp_modify_touch _ i tp.touches, tp_touch_palm_ok t
  apply tp_modify_touch_all_at _ _ _ _ _ h
  intro t _ hok
  unfold tp_touch_palm_ok
  rw [(hf t).1, (hf t).2]
  exact hok

theorem tp_end_sequence_pinv (tp : tp_dispatch) (i time : Nat) (h : tp_pinv tp) :
    tp_pinv (tp_end_sequence tp i time) := by
  unfold tp_end_sequence
  apply tp_end_touch_pinv
  exact tp_pinv_modify _ _ _ (fun t => ⟨rfl, rfl⟩) h

theorem tp_process_absolute_pinv (tp : tp_dispatch) (code : Nat) (value : Int) (time : Nat)
    (h : tp_pinv tp) : tp_pinv (tp_process_absolute tp code value time) := by
  unfold tp_process_absolute
  simp only []
  split_ifs
  · exact tp_pinv_modify _ _ _ (fun t => ⟨rfl, rfl⟩) h
  · exact tp_pinv_modify _ _ _ (fun t => ⟨rfl, rfl⟩) h
  · exact h
  · exact tp_pinv_modify _ _ _ (fun t => ⟨rfl, rfl⟩) h
  · exact tp_new_touch_pinv _ _ _ h
  · exact tp_end_sequence_pinv _ _ _ h
  · exact tp_pinv_modify _ _ _ (fun t => ⟨rfl, rfl⟩) h
  · exact h

theorem tp_process_absolute_st_pinv (tp : tp_dispatch) (code : Nat) (value : Int) (time : Nat)
    (h : tp_pinv tp) : tp_pinv (tp_process_absolute_st tp code value time) := by
  unfold tp_process_absolute_st
  simp only []
  split_ifs
  · exact tp_pinv_modify _ _ _ (fun t => ⟨rfl, rfl⟩) h
  · exact tp_pinv_modify _ _ _ (fun t => ⟨rfl, rfl⟩) h
  · exact h

theorem tp_process_key_pinv (p : tp_peers) (tp : tp_dispatch) (code : Nat) (value : Int)
    (time : Nat) (h : tp_pinv tp) : tp_pinv (tp_process_key p tp code value time) := by
  unfold tp_pinv
  rw [(tp_process_key_touches p tp code value time).1]
  exact h

theorem tp_restore_synaptics_touches_pinv (tp : tp_dispatch) (time : Nat) (h : tp_pinv tp) :
    tp_pinv (tp_restore_synaptics_touches tp time) := by
  unfold tp_restore_synaptics_touches
  simp only []
  split_ifs
  · exact h
  · exact h
  · apply tp_loop_inv tp_pinv _ _ _ _ _ h
    intro i s hs
    by_cases he : (tp_get_touch s i).state = .TOUCH_END
    · simp only [he, ne_eq, not_true_eq_false, if_false]
      have h1 := tp_new_touch_pinv s i time hs
      have hst : (tp_get_touch (tp_new_touch s i time) i).state = .TOUCH_HOVERING := by
        have hsome := tp_get_touch_some s i (by rw [he]; decide)
        unfold tp_new_touch
        simp only [he, false_or, if_false, reduceCtorEq]
        rw [tp_get_touch_eq]
        simp [tp_dispatch.modify, tp_modify_touch_get, hsome]
      have h2 := tp_begin_touch_pinv _ i time h1 hst
      show ∀ t ∈ tp_modify_touch _ i (tp_begin_touch (tp_new_touch s i time) i time).touches,
        tp_touch_palm_ok t
      apply tp_modify_touch_all_at _ _ _ _ _ h2
      intro t _ _ _
      rfl
    · simp only [ne_eq, he, not_false_eq_true, if_true]
      exact hs

theorem tp_process_fake_touches_pinv (tp : tp_dispatch) (time : Nat) (h : tp_pinv tp) :
    tp_pinv (tp_process_fake_touches tp time) := by
  have hbody : ∀ (nf i : Nat) (s : tp_dispatch), tp_pinv s →
      tp_pinv (if i < nf then tp_new_touch s i time else tp_end_sequence s i time) := by
    intro nf i s hs
    split_ifs
    · exact tp_new_touch_pinv _ _ _ hs
    · exact tp_end_sequence_pinv _ _ _ hs
  unfold tp_process_fake_touches
  simp only []
  split_ifs <;> first
    | exact h
    | exact tp_loop_inv tp_pinv _ (hbody _) _ _ _ h
    | exact tp_loop_inv tp_pinv _ (hbody _) _ _ _ (tp_restore_synaptics_touches_pinv tp time h)

theorem tp_unhover_abs_distance_pinv (tp : tp_dispatch) (time : Nat) (h : tp_pinv tp) :
    tp_pinv (tp_unhover_abs_distance tp time) := by
  unfold tp_unhover_abs_distance
  apply tp_loop_inv tp_pinv _ _ _ _ _ h
  intro i s hs
  simp only []
  split_ifs with h1 h2 h3
  · apply tp_begin_touch_pinv
    · exact tp_pinv_modify _ _ _ (fun t => ⟨rfl, rfl⟩) hs
    · have hsome := tp_get_touch_some s i (by rw [h1]; decide)
      rw [tp_get_touch_modify_self s i _ _ hsome]
      simpa [tp_motion_history_reset] using h1
  · exact hs
  · exact tp_end_touch_pinv _ _ _ hs
  · exact hs

theorem tp_unhover_fake_touches_pinv (tp : tp_dispatch) (time : Nat) (h : tp_pinv tp) :
    tp_pinv (tp_unhover_fake_touches tp time) := by
  unfold tp_unhover_fake_touches
  simp only []
  have hloop1 : ∀ (nf : Nat) (l : List Nat) (s : tp_dispatch), tp_pinv s →
      tp_pinv (tp_loop_list (fun i tp =>
            if (tp_get_touch tp i).state = .TOUCH_HOVERING then
              (tp_begin_touch tp i time,
                decide ((tp_begin_touch tp i time).nfingers_down ≥ nf))
            else (tp, false)) l s) := by
    intro nf l s hs
    apply tp_loop_list_inv tp_pinv _ _ _ _ hs
    intro i s hs
    split_ifs with h1
    · exact tp_begin_touch_pinv _ _ _ hs h1
    · exact hs
  have hloop2 : ∀ (nf : Nat) (l : List Nat) (s : tp_dispatch), tp_pinv s →
      tp_pinv (tp_loop_list (fun i tp =>
          if (tp_get_touch tp i).state = .TOUCH_HOVERING ∨
              (tp_get_touch tp i).state = .TOUCH_NONE then (tp, false)
          else
            (tp_end_touch tp i time,
              tp_fake_finger_is_touching (tp_end_touch tp i time) &&
                decide ((tp_end_touch tp i time).nfingers_down = nf))) l s) := by
    intro nf l s hs
    apply tp_loop_list_inv tp_pinv _ _ _ _ hs
    intro i s hs
    split_ifs with h1
    · exact hs
    · exact tp_end_touch_pinv _ _ _ hs
  split_ifs
  · exact h
  · exact h
  · exact h
  · exact hloop2 _ _ _ (hloop1 _ _ _ h)
  · exact hloop1 _ _ _ h
  · exact hloop2 _ _ _ h
  · exact h

theorem tp_unhover_touches_pinv (tp : tp_dispatch) (time : Nat) (h : tp_pinv tp) :
    tp_pinv (tp_unhover_touches tp time) := by
  unfold tp_unhover_touches
  split_ifs
  · exact tp_unhover_abs_distance_pinv _ _ h
  · exact tp_unhover_fake_touches_pinv _ _ h

theorem tp_position_fake_touches_pinv (tp : tp_dispatch) (h : tp_pinv tp) :
    tp_pinv (tp_position_fake_touches tp) := by
  have hbody : ∀ (top i : Nat) (s : tp_dispatch), tp_pinv s →
      tp_pinv (if (tp_get_touch s i).state = .TOUCH_NONE then s
        else s.modify i (fun t =>
          { t with
            point := (tp_get_touch s top).point,
            dirty := if !t.dirty then (tp_get_touch s top).dirty else t.dirty })) := by
    intro top i s hs
    split_ifs
    · exact hs
    · exact tp_pinv_modify _ _ _ (fun t => ⟨rfl, rfl⟩) hs
  unfold tp_position_fake_touches
  split_ifs <;> first
    | exact h
    | (split
       · exact h
       · exact tp_loop_inv tp_pinv _ (hbody _) _ _ _ h)

theorem tp_process_state_unhovered_pinv (tp : tp_dispatch) (time : Nat) (h : tp_pinv tp) :
    tp_pinv (tp_process_state_unhovered tp time) :=
  tp_position_fake_touches_pinv _
    (tp_unhover_touches_pinv _ time (tp_process_fake_touches_pinv tp time h))

theorem tp_palm_detect_tag (p : tp_peers) (tp : tp_dispatch) (t : tp_touch) (time : Nat)
    (h : (tp_palm_detect p tp t time).palm.state ≠ .PALM_NONE) :
    t.palm.state ≠ .PALM_NONE ∨ t.state = .TOUCH_BEGIN := by
  by_cases hp : t.palm.state = .PALM_NONE
  · by_cases hb : t.state = .TOUCH_BEGIN
    · exact Or.inr hb
    · exfalso
      apply h
      have h1 : tp_palm_detect_dwt tp t time = (t, false) := by
        unfold tp_palm_detect_dwt
        split_ifs <;> simp_all
      have h2 : tp_palm_detect_trackpoint tp t time = (t, false) := by
        unfold tp_palm_detect_trackpoint
        split_ifs <;> simp_all
      unfold tp_palm_detect
      simp only [h1, h2]
      simp [hp, hb]
  · exact Or.inl hp

theorem tp_thumb_detect_palm (p : tp_peers) (tp : tp_dispatch) (t : tp_touch) (time : Nat) :
    (tp_thumb_detect p tp t time).palm = t.palm ∧
    (tp_thumb_detect p tp t time).point = t.point := by
  unfold tp_thumb_detect
  simp only []
  split_ifs <;> exact ⟨rfl, rfl⟩

theorem tp_unpin_finger_palm (p : tp_peers) (tp : tp_dispatch) (t : tp_touch) :
    (tp_unpin_finger p tp t).palm = t.palm := by
  unfold tp_unpin_finger
  simp only []
  split_ifs <;> rfl

theorem tp_motion_hysteresis_palm (tp : tp_dispatch) (t : tp_touch) :
    (tp_motion_hysteresis tp t).palm = t.palm := by
  unfold tp_motion_hysteresis
  split_ifs <;> rfl

theorem tp_process_touch_palm_tag (p : tp_peers) (tp : tp_dispatch) (w : Bool) (t : tp_touch)
    (time : Nat) (hne : (tp_process_touch p tp w t time).1.palm.state ≠ .PALM_NONE) :
    t.palm.state ≠ .PALM_NONE ∨ t.state = .TOUCH_BEGIN := by
  have key : ∀ t0 : tp_touch, (t0.palm = t.palm ∧ t0.state = t.state) →
      ((if !t0.dirty then (t0, false)
        else
          (tp_unpin_finger p tp (tp_motion_history_push (tp_motion_hysteresis tp
              (tp_palm_detect p tp (tp_thumb_detect p tp t0 time) time))),
            decide ((tp_unpin_finger p tp (tp_motion_history_push (tp_motion_hysteresis tp
              (tp_palm_detect p tp (tp_thumb_detect p tp t0 time) time)))).state =
                .TOUCH_BEGIN))).1.palm.state ≠ .PALM_NONE →
        t.palm.state ≠ .PALM_NONE ∨ t.state = .TOUCH_BEGIN) := by
    intro t0 e hne
    obtain ⟨e1, e2⟩ := e
    split_ifs at hne
    · left; rw [← e1]; exact hne
    · have hne2 : (tp_palm_detect p tp (tp_thumb_detect p tp t0 time) time).palm.state ≠
          .PALM_NONE := by
        have e : (tp_unpin_finger p tp (tp_motion_history_push (tp_motion_hysteresis tp
            (tp_palm_detect p tp (tp_thumb_detect p tp t0 time) time)))).palm =
            (tp_palm_detect p tp (tp_thumb_detect p tp t0 time) time).palm := by
          rw [tp_unpin_finger_palm]
          show (tp_motion_hysteresis tp _).palm = _
          rw [tp_motion_hysteresis_palm]
        rw [← e]; exact hne
      rcases tp_palm_detect_tag p tp _ time hne2 with h1 | h1
      · left
        rw [(tp_thumb_detect_palm p tp t0 time).1, e1] at h1
        exact h1
      · right
        rw [(tp_thumb_detect_skel p tp t0 time).1, e2] at h1
        exact h1
  unfold tp_process_touch at hne
  exact key _ (by split_ifs <;> exact ⟨rfl, rfl⟩) hne

theorem tp_process_touch_palm_down (p : tp_peers) (tp : tp_dispatch) (w : Bool) (t : tp_touch)
    (time : Nat) (h : tp_touch_palm_down t) :
    tp_touch_palm_down (tp_process_touch p tp w t time).1 := by
  intro hne
  rw [(tp_process_touch_skel p tp w t time).1]
  rcases tp_process_touch_palm_tag p tp w t time hne with h1 | h1
  · exact h h1
  · exact Or.inl h1

theorem tp_pinv_frame_call (tp : tp_dispatch) (c : tp_call) (h : tp_pinv_frame tp) :
    tp_pinv_frame (tp.call c) := h

theorem tp_pinv_frame_of_pinv (tp : tp_dispatch) (h : tp_pinv tp) : tp_pinv_frame tp :=
  fun t ht hp => Or.inr (h t ht hp)

theorem tp_process_touches_pinv_frame (p : tp_peers) (tp : tp_dispatch) (time : Nat)
    (h : tp_pinv_frame tp) : tp_pinv_frame (tp_process_touches p tp time) := by
  have hloop : ∀ (w : Bool) (n : Nat) (s : tp_dispatch), tp_pinv_frame s →
      tp_pinv_frame (tp_loop 0 n (fun i tp =>
        tp.modify i (fun t => (tp_process_touch p tp w t time).1)) s) := by
    intro w n s hs
    apply tp_loop_inv tp_pinv_frame _ _ _ _ _ hs
    intro i s hs
    show ∀ t ∈ tp_modify_touch _ i s.touches, tp_touch_palm_down t
    exact tp_modify_touch_all _ _ (fun t ht => tp_process_touch_palm_down p s w t time ht)
      i s.touches hs
  unfold tp_process_touches
  simp only []
  split_ifs
  · exact tp_pinv_frame_call _ _ (hloop _ _ _ h)
  · exact hloop _ _ _ h

theorem tp_pin_fingers_pinv_frame (tp : tp_dispatch) (h : tp_pinv_frame tp) :
    tp_pinv_frame (tp_pin_fingers tp) := by
  unfold tp_pin_fingers
  apply tp_for_each_touch_inv tp_pinv_frame _ _ _ h
  intro i s hs
  show ∀ t ∈ tp_modify_touch _ i s.touches, tp_touch_palm_down t
  refine tp_modify_touch_all tp_touch_palm_down _ ?_ i s.touches hs
  intro t ht
  exact ht

theorem tp_process_state_pre_pinv_frame (p : tp_peers) (tp : tp_dispatch) (time : Nat)
    (h : tp_pinv tp) : tp_pinv_frame (tp_process_state_pre p tp time) := by
  have h1 : tp_pinv_frame (((tp_process_touches p (tp_position_fake_touches
      (tp_unhover_touches (tp_process_fake_touches tp time) time)) time).call
        (.tp_button_handle_state time)).call (.tp_edge_scroll_handle_state time)) :=
    tp_pinv_frame_call _ _ (tp_pinv_frame_call _ _
      (tp_process_touches_pinv_frame p _ time (tp_pinv_frame_of_pinv _
        (tp_process_state_unhovered_pinv tp time h))))
  unfold tp_process_state_pre
  simp only []
  split_ifs
  · exact tp_pin_fingers_pinv_frame _ h1
  · exact h1

theorem tp_pinv_frame_of_core (tp tp' : tp_dispatch) (hc : tp_core tp' = tp_core tp)
    (h : tp_pinv_frame tp) : tp_pinv_frame tp' := by
  apply tp_touches_of_core _ _ hc _ _ h
  intro t t' he ht
  have e1 : t'.state = t.state := by
    have := congrArg tp_touch.state he; exact this
  have e2 : t'.palm = t.palm := by
    have := congrArg tp_touch.palm he; exact this
  unfold tp_touch_palm_down
  rw [e1, e2]; exact ht

theorem tp_pinv_of_core (tp tp' : tp_dispatch) (hc : tp_core tp' = tp_core tp)
    (h : tp_pinv tp) : tp_pinv tp' := by
  apply tp_touches_of_core _ _ hc _ _ h
  intro t t' he ht
  have e1 : t'.state = t.state := by
    have := congrArg tp_touch.state he; exact this
  have e2 : t'.palm = t.palm := by
    have := congrArg tp_touch.palm he; exact this
  unfold tp_touch_palm_ok
  rw [e1, e2]; exact ht

theorem tp_handle_state_pinv (p : tp_peers) (tp : tp_dispatch) (time : Nat)
    (hi : tp_inv tp) (h : tp_pinv tp) : tp_pinv (tp_handle_state p tp time) := by
  have hpre : tp_pinv_frame (tp_post_events p (tp_process_state p tp time) time) := by
    unfold tp_process_state
    apply tp_pinv_frame_of_core _ _ (tp_post_events_core _ _ _)
    apply tp_pinv_frame_of_core _ _ (tp_gesture_handle_state_core _ _ _)
    exact tp_process_state_pre_pinv_frame p tp time h
  have hinv := tp_handle_state_pre_post_inv p tp time hi
  unfold tp_handle_state
  intro t ht
  obtain ⟨t0, ht0, rfl⟩ := tp_post_process_state_mem _ time hinv.1 t ht
  have hd := hinv.2.2.2 t0 ht0
  have hp := hpre t0 ht0
  unfold tp_touch_palm_ok
  unfold tp_touch_palm_down at hp
  unfold tp_touch_dirty_ok at hd
  cases hdirty : t0.dirty <;> cases hs : t0.state <;> cases he : t0.has_ended <;> simp_all

theorem tp_clear_state_pinv (p : tp_peers) (tp : tp_dispatch) (now : Nat)
    (hi : tp_inv tp) (h : tp_pinv tp) : tp_pinv (tp_clear_state p tp now) := by
  unfold tp_clear_state
  have hi0 : tp_inv ((({ tp with
          buttons.state := (p.tp_release_all_buttons tp.buttons.state tp.queued).1,
          queued := (p.tp_release_all_buttons tp.buttons.state tp.queued).2 } :
          tp_dispatch).call (.tp_release_all_buttons now)).call (.tp_release_all_taps now)) :=
    tp_inv_of_table_eq tp _ ⟨rfl, rfl, rfl⟩ hi
  have hp0 : tp_pinv ((({ tp with
          buttons.state := (p.tp_release_all_buttons tp.buttons.state tp.queued).1,
          queued := (p.tp_release_all_buttons tp.buttons.state tp.queued).2 } :
          tp_dispatch).call (.tp_release_all_buttons now)).call (.tp_release_all_taps now)) := h
  have hi1 := tp_for_each_touch_inv tp_inv (fun i tp => tp_end_sequence tp i now)
    (fun i s hs => tp_end_sequence_inv _ _ _ hs) _ hi0
  have hp1 := tp_for_each_touch_inv tp_pinv (fun i tp => tp_end_sequence tp i now)
    (fun i s hs => tp_end_sequence_pinv _ _ _ hs) _ hp0
  exact tp_handle_state_pinv p _ now (tp_inv_of_table_eq _ _ ⟨rfl, rfl, rfl⟩ hi1) hp1

theorem tp_step_pinv (p : tp_peers) (tp : tp_dispatch) (input : tp_input) (hi : tp_inv tp)
    (h : tp_pinv tp) : tp_pinv (tp_step p tp input) := by
  cases input with
  | process type code value time =>
    show tp_pinv (tp_interface_process p tp type code value time)
    unfold tp_interface_process
    split_ifs
    · exact tp_process_absolute_pinv _ _ _ _ h
    · exact tp_process_absolute_st_pinv _ _ _ _ h
    · exact tp_process_key_pinv _ _ _ _ _ h
    · exact tp_handle_state_pinv _ _ _ hi h
    · exact h
  | keyboard_event time is_key pressed keycode =>
    exact tp_pinv_of_core _ _ (tp_keyboard_event_core _ _ _ _ _) h
  | trackpoint_event time is_button =>
    exact tp_pinv_of_core _ _ (tp_trackpoint_event_core _ _ _) h
  | finger_count_switch_timeout now =>
    exact tp_pinv_of_core _ _ (tp_gesture_finger_count_switch_timeout_core _ _) h
  | trackpoint_timeout now => exact h
  | keyboard_timeout now => exact h
  | clear_state now => exact tp_clear_state_pinv _ _ _ hi h
  | set_suspended b => exact h
  | set_trackpoint b => exact h
  | keyboard_added => exact h
  | set_scroll_method method time =>
    exact tp_pinv_of_core _ _ (tp_scroll_config_scroll_method_set_method_core _ _ _) h
  | dwt_config_set enable => exact h

theorem tp_initial_pinv (tp : tp_dispatch) (h : tp_initial tp) : tp_pinv tp := by
  obtain ⟨_, _, _, _, h5, _⟩ := h
  intro t ht
  rw [h5 t ht]
  intro hp
  exact absurd rfl hp

theorem reachable_pinv (tp : tp_dispatch) (h : Reachable tp) : tp_pinv tp := by
  induction h with
  | init tp h0 => exact tp_initial_pinv tp h0
  | step p tp input hr ih => exact tp_step_pinv p tp input (reachable_inv tp hr) ih

theorem ffs_eq_zero (n : Nat) (h : ∀ i, i < 32 → n.testBit i = false) : ffs n = 0 := by
  unfold ffs
  have : (List.range 32).find? (fun i => n.testBit i) = none := by
    rw [List.find?_range_eq_none]
    intro i hi
    simp [h i hi]
  rw [this]

theorem ffs_eq_succ (n k : Nat) (hk : k < 32) (h1 : n.testBit k = true)
    (h2 : ∀ j, j < k → n.testBit j = false) : ffs n = k + 1 := by
  unfold ffs
  have : (List.range 32).find? (fun i => n.testBit i) = some k := by
    rw [List.find?_range_eq_some]
    refine ⟨h1, List.mem_range.2 hk, ?_⟩
    intro j hj
    simp [h2 j hj]
  rw [this]

/-- C28 (as stated, refuted): with the tool bits of BTN_TOOL_FINGER and
BTN_TOOL_DOUBLETAP both set and the overflow bit clear, the highest set bit
of `fake_touches >> 1` is at 1-based position 2, but `tp_fake_finger_count`
returns 1. -/
theorem c28_two_tool_bits_count_lowest :
    tp_example_two_tool_bits.fake_touches &&& FAKE_FINGER_OVERFLOW = 0 ∧
    (tp_example_two_tool_bits.fake_touches >>> 1).testBit 1 = true ∧
    tp_example_two_tool_bits.fake_touches >>> 1 < 2 ^ 2 ∧
    tp_fake_finger_count tp_example_two_tool_bits = 1 := by
  decide

/-- C28 (amended): `tp_fake_finger_count` returns the overflow sentinel when
the overflow bit of `fake_touches` is set, and otherwise the 1-based position
of the lowest set bit of `fake_touches >> 1` (0 when no tool-count bit is
set); a single set tool bit FINGER / DOUBLETAP / TRIPLETAP / QUADTAP, with or
without the bit of BTN_TOUCH, counts as 1 / 2 / 3 / 4 fingers. -/
theorem c28_fake_finger_count (tp : tp_dispatch) :
    (tp.fake_touches &&& FAKE_FINGER_OVERFLOW ≠ 0 →
      tp_fake_finger_count tp = FAKE_FINGER_OVERFLOW) ∧
    (tp.fake_touches &&& FAKE_FINGER_OVERFLOW = 0 →
      ((∀ i, i < 32 → (tp.fake_touches >>> 1).testBit i = false) →
        tp_fake_finger_count tp = 0) ∧
      (∀ k, k < 32 → (tp.fake_touches >>> 1).testBit k = true →
        (∀ j, j < k → (tp.fake_touches >>> 1).testBit j = false) →
        tp_fake_finger_count tp = k + 1)) ∧
    (∀ k, 1 ≤ k → k ≤ 4 →
      (tp.fake_touches = 1 <<< k ∨ tp.fake_touches = (1 <<< k) ||| 1) →
      tp_fake_finger_count tp = k) := by
  refine ⟨?_, ?_, ?_⟩
  · intro h
    unfold tp_fake_finger_count
    rw [if_pos h]
  · intro h
    unfold tp_fake_finger_count
    rw [if_neg (by rw [h]; exact fun hc => hc rfl)]
    exact ⟨ffs_eq_zero _, fun k hk h1 h2 => ffs_eq_succ _ k hk h1 h2⟩
  · intro k h1 h4 hft
    unfold tp_fake_finger_count
    have hk : k = 1 ∨ k = 2 ∨ k = 3 ∨ k = 4 := by omega
    rcases hk with rfl | rfl | rfl | rfl <;> rcases hft with e | e <;> rw [e] <;> decide

theorem c28_fake_finger_count_witness :
    tp_example_two_tool_bits.fake_touches &&& FAKE_FINGER_OVERFLOW = 0 ∧
    (tp_example_two_tool_bits.fake_touches >>> 1).testBit 0 = true ∧
    tp_fake_finger_count tp_example_two_tool_bits = 0 + 1 :=
  ⟨by decide, by decide,
   ((c28_fake_finger_count tp_example_two_tool_bits).2.1 (by decide)).2 0 (by decide)
     (by decide) (by intro j hj; omega)⟩

theorem nat_testBit_of_lt_two_pow_32 (n j : Nat) (hn : n < 2 ^ 32) (hj : 32 ≤ j) :
    n.testBit j = false :=
  Nat.testBit_lt_two_pow (lt_of_lt_of_le hn (Nat.pow_le_pow_right (by norm_num) hj))

theorem c_not32_testBit (s j : Nat) :
    (c_not32 (1 <<< s)).testBit j = (decide (j < 32) != decide (s = j)) := by
  unfold c_not32
  rw [Nat.testBit_xor, Nat.one_shiftLeft, Nat.testBit_two_pow]
  have : (0xFFFFFFFF : Nat) = 2 ^ 32 - 1 := by norm_num
  rw [this, Nat.testBit_two_pow_sub_one]

theorem and_c_not32_testBit (n s j : Nat) (hn : n < 2 ^ 32) (hs : s < 32) :
    (n &&& c_not32 (1 <<< s)).testBit j = (n.testBit j && !decide (j = s)) := by
  rw [Nat.testBit_and, c_not32_testBit]
  by_cases hj : j < 32
  · by_cases e : j = s
    · subst e; simp [hj]
    · have e2 : ¬ s = j := fun h => e h.symm
      simp [hj, e, e2]
  · rw [nat_testBit_of_lt_two_pow_32 n j hn (by omega)]
    simp

theorem and_c_not32_lt (n s : Nat) (hn : n < 2 ^ 32) : n &&& c_not32 (1 <<< s) < 2 ^ 32 :=
  lt_of_le_of_lt Nat.and_le_left hn

theorem tp_fake_finger_press_testBit (n s j : Nat) (hn : n < 2 ^ 32) (hs : s < 32) :
    ((n &&& c_not32 FAKE_FINGER_OVERFLOW) ||| (1 <<< s)).testBit j =
      if j = s then true else if j = 7 then false else n.testBit j := by
  have e : FAKE_FINGER_OVERFLOW = 1 <<< 7 := rfl
  rw [Nat.testBit_or, e, and_c_not32_testBit n 7 j hn (by norm_num), Nat.one_shiftLeft,
    Nat.testBit_two_pow]
  by_cases h1 : j = s
  · subst h1; simp
  · have h2 : ¬ s = j := fun h => h1 h.symm
    by_cases h7 : j = 7
    · subst h7
      simp [h1, h2]
    · simp [h1, h2, h7]

/-- C29 (as stated, refuted): after a press of BTN_TOOL_QUINTTAP has set the
overflow bit, a press of BTN_TOOL_FINGER, which is neither a release of
BTN_TOUCH nor a press of DOUBLETAP / TRIPLETAP / QUADTAP, clears it. -/
theorem c29_finger_press_clears_overflow :
    tp_example_overflow.fake_touches &&& FAKE_FINGER_OVERFLOW ≠ 0 ∧
    (tp_fake_finger_set tp_example_overflow BTN_TOOL_FINGER true).fake_touches &&&
      FAKE_FINGER_OVERFLOW = 0 := by
  decide

/-- C29 (amended): on a 32-bit `fake_touches`, `tp_fake_finger_set` changes
`fake_touches` only. A press of BTN_TOUCH, BTN_TOOL_FINGER, DOUBLETAP,
TRIPLETAP or QUADTAP sets bit 0, 1, 2, 3 or 4 respectively and clears the
overflow bit (bit 7), leaving all other bits unchanged; a release clears that
bit and, for BTN_TOUCH, also the overflow bit, leaving all other bits
unchanged. A press of BTN_TOOL_QUINTTAP sets the overflow bit and changes no
other bit; its release and any other key code leave `fake_touches`
unchanged. So the overflow bit stays set until BTN_TOUCH is released or any
of BTN_TOUCH, FINGER, DOUBLETAP, TRIPLETAP, QUADTAP is pressed. -/
theorem c29_fake_finger_set (tp : tp_dispatch) (code : Nat) (is_press : Bool)
    (hft : tp.fake_touches < 2 ^ 32) :
    tp_fake_finger_set tp code is_press =
      { tp with fake_touches := (tp_fake_finger_set tp code is_press).fake_touches } ∧
    (∀ k, tp_fake_finger_bit code = some k →
      (∀ j, (tp_fake_finger_set tp code true).fake_touches.testBit j =
        if j = k then true else if j = 7 then false else tp.fake_touches.testBit j) ∧
      (∀ j, (tp_fake_finger_set tp code false).fake_touches.testBit j =
        if j = k then false
        else if code = BTN_TOUCH ∧ j = 7 then false else tp.fake_touches.testBit j)) ∧
    (code = BTN_TOOL_QUINTTAP →
      (∀ j, (tp_fake_finger_set tp code true).fake_touches.testBit j =
        if j = 7 then true else tp.fake_touches.testBit j) ∧
      (tp_fake_finger_set tp code false).fake_touches = tp.fake_touches) ∧
    (tp_fake_finger_bit code = none → code ≠ BTN_TOOL_QUINTTAP →
      (tp_fake_finger_set tp code is_press).fake_touches = tp.fake_touches) := by
  refine ⟨?_, ?_, ?_, ?_⟩
  · unfold tp_fake_finger_set
    simp only []
    split_ifs <;> rfl
  · intro k hk
    have hrel : ∀ s j, s < 32 → (tp.fake_touches &&& c_not32 (0x1 <<< s)).testBit j =
        if j = s then false else tp.fake_touches.testBit j := by
      intro s j hs
      rw [and_c_not32_testBit _ s j hft hs]
      by_cases e : j = s <;> simp [e]
    unfold tp_fake_finger_bit at hk
    split_ifs at hk with c1 c2 c3 c4 c5 <;> cases hk
    · subst c1
      constructor
      · intro j
        simp only [tp_fake_finger_set, if_true, Bool.not_true, Bool.false_eq_true, if_false]
        exact tp_fake_finger_press_testBit _ 0 j hft (by norm_num)
      · intro j
        have e : FAKE_FINGER_OVERFLOW = 1 <<< 7 := rfl
        simp only [tp_fake_finger_set, if_true, Bool.not_false, Bool.false_eq_true, if_false,
          true_and]
        rw [and_c_not32_testBit _ 0 j (by rw [e]; exact and_c_not32_lt _ 7 hft) (by norm_num),
          e, and_c_not32_testBit _ 7 j hft (by norm_num)]
        by_cases h0 : j = 0
        · simp [h0]
        · by_cases h7 : j = 7 <;> simp [h0, h7]
    · subst c2
      have hne : ¬ BTN_TOOL_FINGER = BTN_TOUCH := by decide
      constructor
      · intro j
        simp only [tp_fake_finger_set, hne, if_false, if_true]
        exact tp_fake_finger_press_testBit _ 1 j hft (by norm_num)
      · intro j
        simp only [tp_fake_finger_set, hne, if_false, if_true, Bool.false_eq_true, false_and]
        exact hrel 1 j (by norm_num)
    · subst c3
      have hne : ¬ BTN_TOOL_DOUBLETAP = BTN_TOUCH := by decide
      have hne2 : ¬ BTN_TOOL_DOUBLETAP = BTN_TOOL_FINGER := by decide
      have hs : BTN_TOOL_DOUBLETAP - BTN_TOOL_DOUBLETAP + 2 = 2 := by decide
      constructor
      · intro j
        simp only [tp_fake_finger_set, hne, hne2, if_false, if_true, true_or, hs]
        exact tp_fake_finger_press_testBit _ 2 j hft (by norm_num)
      · intro j
        simp only [tp_fake_finger_set, hne, hne2, if_false, if_true, true_or, hs,
          Bool.false_eq_true, false_and]
        exact hrel 2 j (by norm_num)
    · subst c4
      have hne : ¬ BTN_TOOL_TRIPLETAP = BTN_TOUCH := by decide
      have hne2 : ¬ BTN_TOOL_TRIPLETAP = BTN_TOOL_FINGER := by decide
      have hs : BTN_TOOL_TRIPLETAP - BTN_TOOL_DOUBLETAP + 2 = 3 := by decide
      constructor
      · intro j
        simp only [tp_fake_finger_set, hne, hne2, if_false, if_true, true_or, or_true, hs]
        exact tp_fake_finger_press_testBit _ 3 j hft (by norm_num)
      · intro j
        simp only [tp_fake_finger_set, hne, hne2, if_false, if_true, true_or, or_true, hs,
          Bool.false_eq_true, false_and]
        exact hrel 3 j (by norm_num)
    · subst c5
      have hne : ¬ BTN_TOOL_QUADTAP = BTN_TOUCH := by decide
      have hne2 : ¬ BTN_TOOL_QUADTAP = BTN_TOOL_FINGER := by decide
      have hs : BTN_TOOL_QUADTAP - BTN_TOOL_DOUBLETAP + 2 = 4 := by decide
      constructor
      · intro j
        simp only [tp_fake_finger_set, hne, hne2, if_false, if_true, or_true, hs]
        exact tp_fake_finger_press_testBit _ 4 j hft (by norm_num)
      · intro j
        simp only [tp_fake_finger_set, hne, hne2, if_false, if_true, or_true, hs,
          Bool.false_eq_true, false_and]
        exact hrel 4 j (by norm_num)
  · intro hc
    subst hc
    have n1 : ¬ BTN_TOOL_QUINTTAP = BTN_TOUCH := by decide
    have n2 : ¬ BTN_TOOL_QUINTTAP = BTN_TOOL_FINGER := by decide
    have n3 : ¬ (BTN_TOOL_QUINTTAP = BTN_TOOL_DOUBLETAP ∨
        BTN_TOOL_QUINTTAP = BTN_TOOL_TRIPLETAP ∨ BTN_TOOL_QUINTTAP = BTN_TOOL_QUADTAP) := by
      decide
    constructor
    · intro j
      simp only [tp_fake_finger_set, n1, n2, n3, if_false, if_true]
      have e : FAKE_FINGER_OVERFLOW = 2 ^ 7 := rfl
      rw [Nat.testBit_or, e, Nat.testBit_two_pow]
      by_cases h7 : j = 7
      · simp [h7]
      · have : ¬ 7 = j := fun h => h7 h.symm
        simp [h7, this]
    · simp only [tp_fake_finger_set, n1, n2, n3, if_false, if_true, Bool.false_eq_true]
  · intro hb hq
    unfold tp_fake_finger_bit at hb
    split_ifs at hb with c1 c2 c3 c4 c5
    have n3 : ¬ (code = BTN_TOOL_DOUBLETAP ∨ code = BTN_TOOL_TRIPLETAP ∨
        code = BTN_TOOL_QUADTAP) := by
      rintro (h | h | h)
      · exact c3 h
      · exact c4 h
      · exact c5 h
    simp only [tp_fake_finger_set, c1, c2, n3, hq, if_false]

theorem c29_fake_finger_set_witness :
    tp_example_overflow.fake_touches < 2 ^ 32 ∧
    tp_fake_finger_bit BTN_TOOL_DOUBLETAP = some 2 ∧
    ∀ j, (tp_fake_finger_set tp_example_overflow BTN_TOOL_DOUBLETAP true).fake_touches.testBit
        j =
      if j = 2 then true else if j = 7 then false
      else tp_example_overflow.fake_touches.testBit j :=
  ⟨by decide, by decide,
   ((c29_fake_finger_set tp_example_overflow BTN_TOOL_DOUBLETAP true (by decide)).2.1 2
     (by decide)).1⟩

/-! ## Absolute events -/

/-- C30 (as stated, refuted): an ABS_MT_DISTANCE event at time 77 stores the
distance in the touch of the current slot but leaves the touch not dirty and
its `millis` at 0; an ABS_MT_PRESSURE event at time 77 stores the pressure
and marks the touch dirty but leaves `millis` at 0. -/
theorem c30_distance_event_not_dirty :
    (tp_get_touch (tp_process_absolute tp_example ABS_MT_DISTANCE 3 77)
      (tp_current_touch tp_example)).distance = 3 ∧
    (tp_get_touch (tp_process_absolute tp_example ABS_MT_DISTANCE 3 77)
      (tp_current_touch tp_example)).dirty = false ∧
    (tp_get_touch (tp_process_absolute tp_example ABS_MT_DISTANCE 3 77)
      (tp_current_touch tp_example)).millis = 0 ∧
    (tp_get_touch (tp_process_absolute tp_example ABS_MT_PRESSURE 30 77)
      (tp_current_touch tp_example)).pressure = 30 ∧
    (tp_get_touch (tp_process_absolute tp_example ABS_MT_PRESSURE 30 77)
      (tp_current_touch tp_example)).dirty = true ∧
    (tp_get_touch (tp_process_absolute tp_example ABS_MT_PRESSURE 30 77)
      (tp_current_touch tp_example)).millis = 0 := by
  decide

/-- C30 (amended): `tp_process_absolute` writes to the touch of the current
slot only. An ABS_MT_POSITION_X or ABS_MT_POSITION_Y event at time `t` stores
the value in the point, marks the touch dirty and sets its `millis` to `t`; an
ABS_MT_PRESSURE event stores the pressure and marks the touch dirty, leaving
`millis`; an ABS_MT_DISTANCE event stores the distance, leaving `dirty` and
`millis`. A tracking id of -1 ends the sequence: `has_ended` is set, a
touch in BEGIN or UPDATE becomes END (a hovering one NONE). -/
theorem c30_process_absolute (tp : tp_dispatch) (value : Int) (time : Nat) :
    (tp_process_absolute tp ABS_MT_POSITION_X value time).touches =
      tp_modify_touch (fun t => { t with point.x := value, millis := time, dirty := true })
        (tp_current_touch tp) tp.touches ∧
    (tp_process_absolute tp ABS_MT_POSITION_Y value time).touches =
      tp_modify_touch (fun t => { t with point.y := value, millis := time, dirty := true })
        (tp_current_touch tp) tp.touches ∧
    (tp_process_absolute tp ABS_MT_PRESSURE value time).touches =
      tp_modify_touch (fun t => { t with pressure := value, dirty := true })
        (tp_current_touch tp) tp.touches ∧
    (tp_process_absolute tp ABS_MT_DISTANCE value time).touches =
      tp_modify_touch (fun t => { t with distance := value })
        (tp_current_touch tp) tp.touches ∧
    (tp_process_absolute tp ABS_MT_TRACKING_ID (-1) time).touches =
      tp_modify_touch (tp_end_sequence_touch time) (tp_current_touch tp) tp.touches ∧
    (∀ t : tp_touch, (tp_end_sequence_touch time t).has_ended = true ∧
      (t.state = .TOUCH_BEGIN ∨ t.state = .TOUCH_UPDATE →
        (tp_end_sequence_touch time t).state = .TOUCH_END) ∧
      (t.state = .TOUCH_HOVERING → (tp_end_sequence_touch time t).state = .TOUCH_NONE)) := by
  refine ⟨rfl, rfl, rfl, rfl, ?_, ?_⟩
  · have e : tp_process_absolute tp ABS_MT_TRACKING_ID (-1) time =
        tp_end_sequence tp (tp_current_touch tp) time := by
      unfold tp_process_absolute
      simp [ABS_MT_TRACKING_ID, ABS_MT_POSITION_X, ABS_MT_POSITION_Y, ABS_MT_SLOT,
        ABS_MT_DISTANCE]
    rw [e]
    exact tp_end_sequence_touches tp _ time
  · intro t
    unfold tp_end_sequence_touch
    cases hs : t.state <;> simp

/-! ## Finger-count debouncing -/

/-- C21 (as stated, refuted): with a started gesture for 3 fingers and 2
active touches, which differs from `finger_count`, while `finger_count_pending`
is already 2, `tp_gesture_handle_state` does not arm the switch timer: it
changes nothing. -/
theorem c21_pending_count_not_rearmed :
    tp_count_active_touches tp_example_peers tp_example_pending_switch = 2 ∧
    tp_example_pending_switch.gesture.finger_count = 3 ∧
    tp_example_pending_switch.gesture.started = true ∧
    tp_gesture_handle_state tp_example_peers tp_example_pending_switch 5000 =
      tp_example_pending_switch := by
  decide

/-- C21 (amended): with `n` the number of active touches: when `n` differs
from `gesture.finger_count`, `tp_gesture_handle_state` for `n == 0` ends the
gesture (not cancelled) and sets `finger_count` and `finger_count_pending` to
0; otherwise, if no gesture has started, it sets `finger_count = n` and
`finger_count_pending = 0` and changes nothing else; otherwise, if `n` differs
from `finger_count_pending`, it records `finger_count_pending = n` and arms
the switch timer for `now + 100 ms`, changing nothing else; and if `n` already
is `finger_count_pending` it changes nothing (the timer is not armed again).
When `n == finger_count` it clears `finger_count_pending` and changes nothing
else. -/
theorem c21_finger_count_debounce (p : tp_peers) (tp : tp_dispatch) (time : Nat) :
    (tp_count_active_touches p tp ≠ tp.gesture.finger_count →
      (tp_count_active_touches p tp = 0 →
        tp_gesture_handle_state p tp time =
          { tp_gesture_end tp time false with
            gesture.finger_count := 0, gesture.finger_count_pending := 0 }) ∧
      (tp_count_active_touches p tp ≠ 0 → tp.gesture.started = false →
        tp_gesture_handle_state p tp time =
          { tp with
            gesture.finger_count := tp_count_active_touches p tp,
            gesture.finger_count_pending := 0 }) ∧
      (tp_count_active_touches p tp ≠ 0 → tp.gesture.started = true →
        tp_count_active_touches p tp ≠ tp.gesture.finger_count_pending →
        tp_gesture_handle_state p tp time =
          { tp with
            gesture.finger_count_pending := tp_count_active_touches p tp,
            sink := tp.sink ++ [.libinput_timer_set .finger_count_switch_timer
              (time + ms2us 100)] }) ∧
      (tp_count_active_touches p tp ≠ 0 → tp.gesture.started = true →
        tp_count_active_touches p tp = tp.gesture.finger_count_pending →
        tp_gesture_handle_state p tp time = tp)) ∧
    (tp_count_active_touches p tp = tp.gesture.finger_count →
      tp_gesture_handle_state p tp time = { tp with gesture.finger_count_pending := 0 }) := by
  constructor
  · intro hne
    refine ⟨?_, ?_, ?_, ?_⟩
    · intro h0
      unfold tp_gesture_handle_state tp_gesture_stop
      simp only []
      rw [if_pos hne, if_pos h0]
    · intro h0 hs
      unfold tp_gesture_handle_state
      simp only []
      rw [if_pos hne, if_neg h0]
      simp [hs]
    · intro h0 hs hp
      unfold tp_gesture_handle_state
      simp only []
      rw [if_pos hne, if_neg h0]
      simp [hs, hp, tp_dispatch.call, DEFAULT_GESTURE_SWITCH_TIMEOUT]
    · intro h0 hs hp
      unfold tp_gesture_handle_state
      simp only []
      rw [if_pos hne, if_neg h0]
      simp [hs, hp]
  · intro he
    unfold tp_gesture_handle_state
    simp only []
    rw [if_neg (by rw [he]; exact fun h => h rfl)]

theorem c21_finger_count_debounce_witness :
    tp_count_active_touches tp_example_peers tp_example_pending_switch ≠
      tp_example_pending_switch.gesture.finger_count ∧
    tp_count_active_touches tp_example_peers tp_example_pending_switch ≠ 0 ∧
    tp_example_pending_switch.gesture.started = true ∧
    tp_count_active_touches tp_example_peers tp_example_pending_switch =
      tp_example_pending_switch.gesture.finger_count_pending ∧
    tp_gesture_handle_state tp_example_peers tp_example_pending_switch 5000 =
      tp_example_pending_switch :=
  ⟨by decide, by decide, by decide, by decide,
   ((c21_finger_count_debounce tp_example_peers tp_example_pending_switch 5000).1
     (by decide)).2.2.2 (by decide) (by decide) (by decide)⟩

/-! ## Forcing one-finger mode -/

theorem tp_gesture_post_pointer_motion_sink (p : tp_peers) (tp : tp_dispatch) (time : Nat) :
    (tp_gesture_post_pointer_motion p tp time).gesture = tp.gesture ∧
    ∃ l, (tp_gesture_post_pointer_motion p tp time).sink = tp.sink ++ l := by
  unfold tp_gesture_post_pointer_motion
  simp only []
  split_ifs <;> first
    | exact ⟨rfl, [_], rfl⟩
    | exact ⟨rfl, [], by simp⟩

theorem tp_gesture_end_posts_end (tp : tp_dispatch) (time : Nat) (cancelled : Bool)
    (hs : tp.gesture.started = true) :
    (tp.gesture.state = .GESTURE_STATE_SWIPE →
      (tp_gesture_end tp time cancelled).sink =
        tp.sink ++ [.gesture_notify_swipe_end time tp.gesture.finger_count cancelled]) ∧
    (tp.gesture.state = .GESTURE_STATE_PINCH →
      (tp_gesture_end tp time cancelled).sink =
        tp.sink ++ [.gesture_notify_pinch_end time tp.gesture.finger_count
          tp.gesture.prev_scale cancelled]) ∧
    (tp.gesture.state = .GESTURE_STATE_SCROLL →
      tp.scroll_method = .LIBINPUT_CONFIG_SCROLL_2FG →
      (tp_gesture_end tp time cancelled).sink = tp.sink ++ [.evdev_stop_scroll time]) := by
  unfold tp_gesture_end tp_gesture_stop_twofinger_scroll
  refine ⟨?_, ?_, ?_⟩
  · intro h; simp [hs, h, tp_dispatch.call]
  · intro h; simp [hs, h, tp_dispatch.call]
  · intro h hm; simp [hs, h, hm, tp_dispatch.call]

/-- C22 (as stated, refuted): on a clickpad whose physical button is pressed
while no finger is counted (`finger_count == 0`), `tp_gesture_post_events`
returns at once: `finger_count` is not coerced to 1. -/
theorem c22_no_coercion_without_fingers :
    Reachable (tp_run tp_example_peers tp_example tp_example_click) ∧
    (tp_run tp_example_peers tp_example tp_example_click).buttons.is_clickpad = true ∧
    (tp_run tp_example_peers tp_example tp_example_click).buttons.state ≠ 0 ∧
    (tp_gesture_post_events tp_example_peers
      (tp_run tp_example_peers tp_example tp_example_click) 20).gesture.finger_count = 0 :=
  ⟨reachable_run _ _ _ (Reachable.init _ (by decide)), by decide, by decide, by decide⟩

/-- C22 (amended): in `tp_gesture_post_events` with a non-zero `finger_count`,
whenever tap-and-drag is in progress or a clickpad has a physical button
pressed, the gesture is cancelled, `finger_count` is set to 1 and
`finger_count_pending` to 0, and the frame is handled by
`tp_gesture_post_pointer_motion`: afterwards `gesture.state` is NONE and
`gesture.started` is false, and if a swipe or pinch had started its END event
with the cancelled flag has been posted (for a started two-finger scroll, the
scroll stop). With `finger_count == 0` nothing happens. -/
theorem c22_forced_one_finger (p : tp_peers) (tp : tp_dispatch) (time : Nat)
    (hforce : p.tp_tap_dragging = true ∨
      (tp.buttons.is_clickpad = true ∧ tp.buttons.state ≠ 0)) :
    (tp.gesture.finger_count = 0 → tp_gesture_post_events p tp time = tp) ∧
    (tp.gesture.finger_count ≠ 0 →
      tp_gesture_post_events p tp time =
        tp_gesture_post_pointer_motion p
          { tp_gesture_end tp time true with
            gesture.finger_count := 1, gesture.finger_count_pending := 0 } time ∧
      (tp_gesture_post_events p tp time).gesture.state = .GESTURE_STATE_NONE ∧
      (tp_gesture_post_events p tp time).gesture.started = false ∧
      (tp_gesture_post_events p tp time).gesture.finger_count = 1 ∧
      (tp_gesture_post_events p tp time).gesture.finger_count_pending = 0 ∧
      (tp.gesture.started = true →
        (tp.gesture.state = .GESTURE_STATE_SWIPE →
          .gesture_notify_swipe_end time tp.gesture.finger_count true ∈
            (tp_gesture_post_events p tp time).sink) ∧
        (tp.gesture.state = .GESTURE_STATE_PINCH →
          .gesture_notify_pinch_end time tp.gesture.finger_count tp.gesture.prev_scale true ∈
            (tp_gesture_post_events p tp time).sink) ∧
        (tp.gesture.state = .GESTURE_STATE_SCROLL →
          tp.scroll_method = .LIBINPUT_CONFIG_SCROLL_2FG →
          .evdev_stop_scroll time ∈ (tp_gesture_post_events p tp time).sink))) := by
  constructor
  · intro h0
    unfold tp_gesture_post_events
    rw [if_pos h0]
  · intro hfc
    have he : tp_gesture_post_events p tp time =
        tp_gesture_post_pointer_motion p
          { tp_gesture_end tp time true with
            gesture.finger_count := 1, gesture.finger_count_pending := 0 } time := by
      unfold tp_gesture_post_events tp_gesture_cancel
      rw [if_neg hfc]
      simp only [if_pos hforce]
      simp
    obtain ⟨g, l, hl⟩ := tp_gesture_post_pointer_motion_sink p
      { tp_gesture_end tp time true with
        gesture.finger_count := 1, gesture.finger_count_pending := 0 } time
    obtain ⟨e1, e2, _⟩ := tp_gesture_end_calls tp time true
    rw [he]
    refine ⟨rfl, ?_, ?_, ?_, ?_, ?_⟩
    · rw [g]; exact e1
    · rw [g]; exact e2
    · rw [g]
    · rw [g]
    · intro hs
      obtain ⟨p1, p2, p3⟩ := tp_gesture_end_posts_end tp time true hs
      rw [hl]
      refine ⟨fun h => ?_, fun h => ?_, fun h hm => ?_⟩
      · apply List.mem_append_left
        show _ ∈ (tp_gesture_end tp time true).sink
        rw [p1 h]; simp
      · apply List.mem_append_left
        show _ ∈ (tp_gesture_end tp time true).sink
        rw [p2 h]; simp
      · apply List.mem_append_left
        show _ ∈ (tp_gesture_end tp time true).sink
        rw [p3 h hm]; simp

theorem c22_forced_one_finger_witness :
    (tp_example_peers.tp_tap_dragging = true ∨
      ((tp_run tp_example_peers tp_example tp_example_click).buttons.is_clickpad = true ∧
       (tp_run tp_example_peers tp_example tp_example_click).buttons.state ≠ 0)) ∧
    (tp_run tp_example_peers tp_example tp_example_click).gesture.finger_count = 0 ∧
    tp_gesture_post_events tp_example_peers
        (tp_run tp_example_peers tp_example tp_example_click) 20 =
      tp_run tp_example_peers tp_example tp_example_click :=
  ⟨by decide, by decide,
   (c22_forced_one_finger tp_example_peers
     (tp_run tp_example_peers tp_example tp_example_click) 20 (by decide)).1 (by decide)⟩

/-- C25: for every s in [-1, 1], `accelerator_set_speed` passes its assertion and
returns true, sets the threshold to max(0.2, 0.4 - 0.25 s) units/ms, the
acceleration cap to 2 + 1.5 s and the incline to 1.1 + 0.75 s, leaves the other
fields of the accelerator as they were, and `filter_get_speed` afterwards
returns s. -/
theorem c25_set_speed (filter : pointer_accelerator) (s : ℚ) (h1 : -1 ≤ s) (h2 : s ≤ 1) :
    ∃ filter', accelerator_set_speed filter s = some (true, filter') ∧
      v_us2ms filter'.threshold = max (2 / 10) (4 / 10 - 25 / 100 * s) ∧
      filter'.accel = 2 + 15 / 10 * s ∧
      filter'.incline = 11 / 10 + 75 / 100 * s ∧
      filter_get_speed filter' = s ∧
      filter'.profile = filter.profile ∧ filter'.velocity = filter.velocity ∧
      filter'.last_velocity = filter.last_velocity ∧ filter'.trackers = filter.trackers ∧
      filter'.cur_tracker = filter.cur_tracker ∧ filter'.dpi_factor = filter.dpi_factor := by
  have he : accelerator_set_speed filter s = some (true,
      { filter with
        threshold :=
          if DEFAULT_THRESHOLD - v_ms2us (25 / 100) * s < MINIMUM_THRESHOLD then
            MINIMUM_THRESHOLD
          else DEFAULT_THRESHOLD - v_ms2us (25 / 100) * s,
        accel := DEFAULT_ACCELERATION + s * (15 / 10),
        incline := DEFAULT_INCLINE + s * (75 / 100),
        speed_adjustment := s }) := by
    unfold accelerator_set_speed
    rw [if_neg (by simp only [not_not]; exact ⟨h1, h2⟩)]
  refine ⟨_, he, ?_, ?_, ?_, ?_, ?_⟩
  · simp only [v_us2ms, DEFAULT_THRESHOLD, MINIMUM_THRESHOLD, v_ms2us]
    split_ifs with h
    · rw [max_eq_left (by linarith)]; norm_num
    · rw [max_eq_right (by push_neg at h; linarith)]; ring
  · simp only [DEFAULT_ACCELERATION]; ring
  · simp only [DEFAULT_INCLINE]; ring
  · rfl
  · exact ⟨rfl, rfl, rfl, rfl, rfl, rfl⟩

theorem c25_set_speed_witness :
    ∃ filter', accelerator_set_speed (create_pointer_accelerator_filter_touchpad 1000) (1 / 2) =
        some (true, filter') ∧
      v_us2ms filter'.threshold = max (2 / 10) (4 / 10 - 25 / 100 * (1 / 2)) ∧
      filter'.accel = 2 + 15 / 10 * (1 / 2) ∧
      filter'.incline = 11 / 10 + 75 / 100 * (1 / 2) ∧
      filter_get_speed filter' = 1 / 2 ∧
      filter'.profile = (create_pointer_accelerator_filter_touchpad 1000).profile ∧
      filter'.velocity = (create_pointer_accelerator_filter_touchpad 1000).velocity ∧
      filter'.last_velocity = (create_pointer_accelerator_filter_touchpad 1000).last_velocity ∧
      filter'.trackers = (create_pointer_accelerator_filter_touchpad 1000).trackers ∧
      filter'.cur_tracker = (create_pointer_accelerator_filter_touchpad 1000).cur_tracker ∧
      filter'.dpi_factor = (create_pointer_accelerator_filter_touchpad 1000).dpi_factor :=
  c25_set_speed (create_pointer_accelerator_filter_touchpad 1000) (1 / 2) (by norm_num)
    (by norm_num)

/-- C24, the failing input: after `accelerator_set_speed` with s = -1 the cap is
0.5, and at 0.05 units/ms, inside the deceleration region,
`pointer_accel_profile_linear` returns the cap 0.5 and not 10 * 0.05 + 0.3 = 0.8;
at 0.1 units/ms, inside the neutral region, it returns 0.5 and not 1. -/
theorem c24_slow_setting_caps_low_speeds :
    ∃ filter', accelerator_set_speed (create_pointer_accelerator_filter_linear 1000) (-1) =
        some (true, filter') ∧
      v_us2ms (5 / 100000) = 5 / 100 ∧
      pointer_accel_profile_linear filter' (5 / 100000) 0 = 1 / 2 ∧
      (10 : ℚ) * (5 / 100) + 3 / 10 = 8 / 10 ∧
      v_us2ms filter'.threshold = 65 / 100 ∧
      v_us2ms (1 / 10000) = 1 / 10 ∧
      pointer_accel_profile_linear filter' (1 / 10000) 0 = 1 / 2 := by
  have he : accelerator_set_speed (create_pointer_accelerator_filter_linear 1000) (-1) =
      some (true,
        { create_pointer_accelerator_filter_linear 1000 with
          threshold :=
            if DEFAULT_THRESHOLD - v_ms2us (25 / 100) * (-1) < MINIMUM_THRESHOLD then
              MINIMUM_THRESHOLD
            else DEFAULT_THRESHOLD - v_ms2us (25 / 100) * (-1),
          accel := DEFAULT_ACCELERATION + (-1) * (15 / 10),
          incline := DEFAULT_INCLINE + (-1) * (75 / 100),
          speed_adjustment := -1 }) := by
    unfold accelerator_set_speed
    rw [if_neg (by norm_num)]
  refine ⟨_, he, ?_, ?_, ?_, ?_, ?_, ?_⟩
  all_goals
    try simp only [pointer_accel_profile_linear, v_us2ms, DEFAULT_THRESHOLD, MINIMUM_THRESHOLD,
      v_ms2us, DEFAULT_ACCELERATION, DEFAULT_INCLINE]
    norm_num

/-- C24, amended: after `accelerator_set_speed` with s in [-1, 1], for a speed of v
units/ms (`speed_in` being v in units/us) `pointer_accel_profile_linear`
returns the minimum of the cap 2 + 1.5 s and the value of the region of v:
10 v + 0.3 when v < 0.07, 1 when 0.07 <= v and `speed_in` is below the
threshold, and incline * (v - threshold) + 1 from the threshold on. When
s >= -2/3 the cap is at least 1, and the result is 10 v + 0.3 in the
deceleration region and 1 in the neutral region. -/
theorem c24_profile_regions (filter filter' : pointer_accelerator) (s : ℚ) (b : Bool)
    (hs : accelerator_set_speed filter s = some (b, filter')) (speed_in : ℚ) (time : Nat) :
    -1 ≤ s ∧ s ≤ 1 ∧ filter'.accel = 2 + 15 / 10 * s ∧
    (v_us2ms speed_in < 7 / 100 →
      pointer_accel_profile_linear filter' speed_in time =
        min filter'.accel (10 * v_us2ms speed_in + 3 / 10)) ∧
    (7 / 100 ≤ v_us2ms speed_in → v_us2ms speed_in < v_us2ms filter'.threshold →
      pointer_accel_profile_linear filter' speed_in time = min filter'.accel 1) ∧
    (7 / 100 ≤ v_us2ms speed_in → v_us2ms filter'.threshold ≤ v_us2ms speed_in →
      pointer_accel_profile_linear filter' speed_in time =
        min filter'.accel
          (filter'.incline * (v_us2ms speed_in - v_us2ms filter'.threshold) + 1)) ∧
    (-2 / 3 ≤ s → v_us2ms speed_in < 7 / 100 →
      pointer_accel_profile_linear filter' speed_in time = 10 * v_us2ms speed_in + 3 / 10) ∧
    (-2 / 3 ≤ s → 7 / 100 ≤ v_us2ms speed_in → v_us2ms speed_in < v_us2ms filter'.threshold →
      pointer_accel_profile_linear filter' speed_in time = 1) := by
  unfold accelerator_set_speed at hs
  by_cases hr : s ≥ -1 ∧ s ≤ 1
  swap
  · rw [if_pos hr] at hs; exact absurd hs (by simp)
  rw [if_neg (not_not.mpr hr)] at hs
  have hf := (Prod.mk.inj (Option.some.inj hs)).2
  have ha : filter'.accel = 2 + 15 / 10 * s := by
    rw [← hf]; simp only [DEFAULT_ACCELERATION]; ring
  have hlt : ∀ a c : ℚ, a * 1000 < c * 1000 ↔ a < c := fun a c => by
    constructor <;> intro h <;> linarith
  refine ⟨hr.1, hr.2, ha, ?_, ?_, ?_, ?_, ?_⟩
  · intro h1
    simp only [pointer_accel_profile_linear, if_pos h1]
  · intro h1 h2
    simp only [pointer_accel_profile_linear, if_neg (not_lt.mpr h1)]
    rw [if_pos ((hlt _ _).mp (by simpa [v_us2ms] using h2))]
  · intro h1 h2
    simp only [pointer_accel_profile_linear, if_neg (not_lt.mpr h1)]
    rw [if_neg (by rw [← hlt]; simpa [v_us2ms] using h2)]
    simp only [v_us2ms]; congr 1; ring
  · intro h0 h1
    simp only [pointer_accel_profile_linear, if_pos h1]
    rw [ha]; exact min_eq_right (by linarith)
  · intro h0 h1 h2
    simp only [pointer_accel_profile_linear, if_neg (not_lt.mpr h1)]
    rw [if_pos ((hlt _ _).mp (by simpa [v_us2ms] using h2)), ha]
    exact min_eq_right (by linarith)

theorem c24_profile_regions_witness :
    -1 ≤ (-1 : ℚ) ∧ (-1 : ℚ) ≤ 1 ∧
    ({ create_pointer_accelerator_filter_linear 1000 with
        threshold := 65 / 100000, accel := 1 / 2, incline := 35 / 100,
        speed_adjustment := -1 } : pointer_accelerator).accel = 2 + 15 / 10 * (-1) ∧
    pointer_accel_profile_linear
      { create_pointer_accelerator_filter_linear 1000 with
        threshold := 65 / 100000, accel := 1 / 2, incline := 35 / 100,
        speed_adjustment := -1 } (5 / 100000) 0 = 1 / 2 := by
  have h := c24_profile_regions (create_pointer_accelerator_filter_linear 1000)
    { create_pointer_accelerator_filter_linear 1000 with
      threshold := 65 / 100000, accel := 1 / 2, incline := 35 / 100,
      speed_adjustment := -1 } (-1) true
    (by
      unfold accelerator_set_speed
      rw [if_neg (by norm_num)]
      simp only [DEFAULT_THRESHOLD, MINIMUM_THRESHOLD, v_ms2us, DEFAULT_ACCELERATION,
        DEFAULT_INCLINE]
      norm_num) (5 / 100000) 0
  refine ⟨h.1, h.2.1, h.2.2.1, ?_⟩
  rw [h.2.2.2.1 (by simp only [v_us2ms]; norm_num)]
  simp only [v_us2ms]
  norm_num

theorem calculate_tracker_velocity_nonneg (p : tp_peers) (hp : ∀ x y, 0 ≤ p.hypot x y)
    (tracker : pointer_tracker) (time : Nat) :
    0 ≤ calculate_tracker_velocity p tracker time := by
  unfold calculate_tracker_velocity
  exact div_nonneg (hp _ _) (Nat.cast_nonneg _)

theorem calculate_velocity_loop_nonneg (p : tp_peers) (hp : ∀ x y, 0 ≤ p.hypot x y)
    (accel : pointer_accelerator) (time : Nat) (offsets : List Nat) :
    ∀ (result initial_velocity : ℚ) (dir : Nat), 0 ≤ result →
      0 ≤ calculate_velocity_loop p accel time offsets result initial_velocity dir := by
  induction offsets with
  | nil => intro result _ _ h; exact h
  | cons offset rest ih =>
    intro result initial_velocity dir h
    unfold calculate_velocity_loop
    simp only []
    split_ifs
    all_goals first
      | exact h
      | exact calculate_tracker_velocity_nonneg p hp _ _
      | exact ih _ _ _ (calculate_tracker_velocity_nonneg p hp _ _)

theorem calculate_velocity_nonneg (p : tp_peers) (hp : ∀ x y, 0 ≤ p.hypot x y)
    (accel : pointer_accelerator) (time : Nat) : 0 ≤ calculate_velocity p accel time :=
  calculate_velocity_loop_nonneg p hp accel time _ _ _ _ le_rfl

theorem pointer_accel_profile_linear_pos (filter : pointer_accelerator)
    (h1 : 1 / 2 ≤ filter.accel) (h2 : 0 ≤ filter.incline) (speed_in : ℚ) (h : 0 ≤ speed_in)
    (time : Nat) : 3 / 10 ≤ pointer_accel_profile_linear filter speed_in time := by
  unfold pointer_accel_profile_linear
  simp only [v_us2ms]
  refine le_min (by linarith) ?_
  split_ifs with c1 c2
  · linarith
  · norm_num
  · have : 0 ≤ filter.incline * ((speed_in - filter.threshold) * 1000) :=
      mul_nonneg h2 (by push_neg at c2; linarith)
    linarith

theorem acceleration_profile_pos (filter : pointer_accelerator)
    (h1 : 1 / 2 ≤ filter.accel) (h2 : 0 ≤ filter.incline)
    (h3 : filter.profile ≠ .linear_low_dpi) (velocity : ℚ) (h : 0 ≤ velocity)
    (time : Nat) : 0 < acceleration_profile filter velocity time := by
  unfold acceleration_profile
  split
  · have := pointer_accel_profile_linear_pos filter h1 h2 velocity h time
    linarith
  · unfold touchpad_accel_profile_linear
    have := pointer_accel_profile_linear_pos filter h1 h2 (velocity * (4 / 10))
      (by positivity) time
    simp only []
    linarith
  · rename_i e
    exact absurd e h3

theorem calculate_acceleration_pos (filter : pointer_accelerator)
    (h1 : 1 / 2 ≤ filter.accel) (h2 : 0 ≤ filter.incline)
    (h3 : filter.profile ≠ .linear_low_dpi) (velocity last_velocity : ℚ)
    (hv : 0 ≤ velocity) (hl : 0 ≤ last_velocity) (time : Nat) :
    0 < calculate_acceleration filter velocity last_velocity time := by
  unfold calculate_acceleration
  have a := acceleration_profile_pos filter h1 h2 h3 velocity hv time
  have b := acceleration_profile_pos filter h1 h2 h3 last_velocity hl time
  have c := acceleration_profile_pos filter h1 h2 h3 ((last_velocity + velocity) / 2)
    (by linarith) time
  simp only []
  linarith

theorem calculate_acceleration_factor_pos (p : tp_peers) (hp : ∀ x y, 0 ≤ p.hypot x y)
    (filter : pointer_accelerator) (h : filter_inv filter) (u : normalized_coords)
    (time : Nat) :
    0 < (calculate_acceleration_factor p filter u time).1 ∧
    filter_inv (calculate_acceleration_factor p filter u time).2 := by
  unfold calculate_acceleration_factor
  have hv := calculate_velocity_nonneg p hp (feed_trackers p filter u time) time
  exact ⟨calculate_acceleration_pos _ h.2.1 h.2.2.1 h.2.2.2 _ _ hv h.1 time, hv, h.2.1,
    h.2.2.1, h.2.2.2⟩

theorem filter_step_inv (p : tp_peers) (hp : ∀ x y, 0 ≤ p.hypot x y)
    (filter filter' : pointer_accelerator) (input : filter_input) (h : filter_inv filter)
    (hs : filter_step p filter input = some filter') : filter_inv filter' := by
  cases input with
  | set_speed s =>
    simp only [filter_step, accelerator_set_speed] at hs
    by_cases hr : s ≥ -1 ∧ s ≤ 1
    · rw [if_neg (not_not.mpr hr)] at hs
      simp only [Option.map_some', Option.some.injEq] at hs
      rw [← hs]
      refine ⟨h.1, ?_, ?_, h.2.2.2⟩
      · simp only [DEFAULT_ACCELERATION]; linarith [hr.1]
      · simp only [DEFAULT_INCLINE]; linarith [hr.1]
    · rw [if_pos hr] at hs; exact absurd hs (by simp)
  | filter u time =>
    simp only [filter_step, Option.some.injEq] at hs
    rw [← hs]
    exact (calculate_acceleration_factor_pos p hp filter h u time).2
  | restart time =>
    simp only [filter_step, Option.some.injEq] at hs
    rw [← hs]
    exact h

theorem filter_reachable_inv (p : tp_peers) (hp : ∀ x y, 0 ≤ p.hypot x y)
    (filter : pointer_accelerator) (h : filter_reachable p filter) : filter_inv filter := by
  induction h with
  | linear dpi =>
    refine ⟨le_rfl, ?_, ?_, fun e => accel_profile.noConfusion e⟩ <;>
      simp only [create_pointer_accelerator_filter_linear, create_default_filter,
        DEFAULT_ACCELERATION, DEFAULT_INCLINE] <;> norm_num
  | touchpad dpi =>
    refine ⟨le_rfl, ?_, ?_, fun e => accel_profile.noConfusion e⟩ <;>
      simp only [create_pointer_accelerator_filter_touchpad, create_default_filter,
        DEFAULT_ACCELERATION, DEFAULT_INCLINE] <;> norm_num
  | step filter filter' input _ hs ih => exact filter_step_inv p hp filter filter' input ih hs

theorem scaled_sign (k x : ℚ) (hk : 0 < k) :
    (0 < k * x ↔ 0 < x) ∧ (k * x < 0 ↔ x < 0) ∧ (k * x = 0 ↔ x = 0) := by
  refine ⟨?_, ?_, ?_⟩
  · exact mul_pos_iff_of_pos_left hk
  · constructor
    · intro h; by_contra c; push_neg at c
      have := mul_nonneg hk.le c; linarith
    · intro h; exact mul_neg_of_pos_of_neg hk h
  · simp [hk.ne']

/-- C26: with a C library whose `hypot` is never negative, for every filter
reachable from the linear or the touchpad constructor by `accelerator_set_speed`
with s in [-1, 1], `accelerator_filter` and `accelerator_restart`, the factor
that `accelerator_filter` applies is strictly positive; the accelerated delta is
the factor times the unaccelerated delta, so on each axis it is positive,
negative or zero exactly when the input is; and `tp_filter_motion` returns a
zero delta unchanged and leaves the filter as it was, and calls the filter for
any other delta. -/
theorem c26_accel_factor_positive (p : tp_peers) (hp : ∀ x y, 0 ≤ p.hypot x y)
    (filter : pointer_accelerator) (hr : filter_reachable p filter) (u : normalized_coords)
    (time : Nat) :
    0 < (calculate_acceleration_factor p filter u time).1 ∧
    (accelerator_filter p filter u time).1 =
      ⟨(calculate_acceleration_factor p filter u time).1 * u.x,
        (calculate_acceleration_factor p filter u time).1 * u.y⟩ ∧
    ((0 < (accelerator_filter p filter u time).1.x ↔ 0 < u.x) ∧
      ((accelerator_filter p filter u time).1.x < 0 ↔ u.x < 0) ∧
      ((accelerator_filter p filter u time).1.x = 0 ↔ u.x = 0)) ∧
    ((0 < (accelerator_filter p filter u time).1.y ↔ 0 < u.y) ∧
      ((accelerator_filter p filter u time).1.y < 0 ↔ u.y < 0) ∧
      ((accelerator_filter p filter u time).1.y = 0 ↔ u.y = 0)) ∧
    (normalized_is_zero u = true →
      tp_filter_motion_accelerator p filter u time = (u, filter) ∧
      tp_filter_motion p u time = u) ∧
    (normalized_is_zero u = false →
      tp_filter_motion_accelerator p filter u time = accelerator_filter p filter u time) := by
  have hk := (calculate_acceleration_factor_pos p hp filter
    (filter_reachable_inv p hp filter hr) u time).1
  refine ⟨hk, rfl, scaled_sign _ _ hk, scaled_sign _ _ hk, ?_, ?_⟩
  · intro hz
    exact ⟨by simp only [tp_filter_motion_accelerator, hz, if_true],
      by simp only [tp_filter_motion, hz, if_true]⟩
  · intro hz
    simp [tp_filter_motion_accelerator, hz]

theorem c26_accel_factor_positive_witness :
    (∀ x y, 0 ≤ tp_example_peers.hypot x y) ∧
    filter_reachable tp_example_peers (create_pointer_accelerator_filter_touchpad 1000) ∧
    0 < (calculate_acceleration_factor tp_example_peers
      (create_pointer_accelerator_filter_touchpad 1000) ⟨3, -4⟩ 1000).1 ∧
    0 < (accelerator_filter tp_example_peers
      (create_pointer_accelerator_filter_touchpad 1000) ⟨3, -4⟩ 1000).1.x ∧
    (accelerator_filter tp_example_peers
      (create_pointer_accelerator_filter_touchpad 1000) ⟨3, -4⟩ 1000).1.y < 0 :=
  have hp : ∀ x y, 0 ≤ tp_example_peers.hypot x y := fun x y =>
    add_nonneg (abs_nonneg x) (abs_nonneg y)
  have h := c26_accel_factor_positive tp_example_peers hp
    (create_pointer_accelerator_filter_touchpad 1000) (filter_reachable.touchpad 1000)
    ⟨3, -4⟩ 1000
  ⟨hp, filter_reachable.touchpad 1000, h.1, h.2.2.1.1.mpr (by norm_num),
    h.2.2.2.1.2.1.mpr (by norm_num)⟩

theorem tp_get_touch_touches_eq (tp' tp : tp_dispatch) (h : tp'.touches = tp.touches) (j : Nat) :
    tp_get_touch tp' j = tp_get_touch tp j := by
  unfold tp_get_touch; rw [h]

theorem tp_get_touch_modify_ne (tp : tp_dispatch) (i j : Nat) (f : tp_touch → tp_touch)
    (h : j ≠ i) : tp_get_touch (tp.modify i f) j = tp_get_touch tp j := by
  rw [tp_get_touch_eq, tp_get_touch_eq]
  simp [tp_dispatch.modify, tp_modify_touch_get, h]

theorem tp_get_touch_modify_none (tp : tp_dispatch) (i j : Nat) (f : tp_touch → tp_touch)
    (h : tp.touches[i]? = none) : tp_get_touch (tp.modify i f) j = tp_get_touch tp j := by
  apply tp_get_touch_touches_eq
  exact tp_modify_touch_of_none f i tp.touches h

/-- The touch at index `j` after a write through the touch pointer `i`. -/
theorem tp_get_touch_modify (tp : tp_dispatch) (i j : Nat) (f : tp_touch → tp_touch) :
    tp_get_touch (tp.modify i f) j =
      if j = i ∧ i < tp.touches.length then f (tp_get_touch tp j) else tp_get_touch tp j := by
  by_cases hj : j = i
  · subst hj
    cases ht : tp.touches[j]? with
    | none =>
      have : ¬ j < tp.touches.length := by
        rw [List.getElem?_eq_none_iff] at ht; omega
      rw [tp_get_touch_modify_none tp j j f ht]; simp [this]
    | some t =>
      have : j < tp.touches.length := by
        by_contra c
        rw [List.getElem?_eq_none_iff.2 (by omega)] at ht; cases ht
      rw [tp_get_touch_modify_self tp j f t ht, tp_get_touch_of_some tp j t ht]; simp [this]
  · rw [tp_get_touch_modify_ne tp i j f hj]; simp [hj]

theorem tp_modify_touch_getD (l : List tp_touch) (i j : Nat) (f : tp_touch → tp_touch) :
    (tp_modify_touch f i l).getD j default =
      if j = i ∧ i < l.length then f (l.getD j default) else l.getD j default := by
  simp only [List.getD_eq_getElem?_getD, tp_modify_touch_get]
  by_cases hj : j = i
  · subst hj
    by_cases hl : j < l.length
    · simp [hl]
    · have : l[j]? = none := List.getElem?_eq_none_iff.2 (by omega)
      simp [hl, this]
  · simp [hj]

/-- The touch at index `j` after `tp_begin_touch` on the touch `i`. -/
theorem tp_begin_touch_get (tp : tp_dispatch) (i time j : Nat) :
    tp_get_touch (tp_begin_touch tp i time) j =
      if j = i ∧ i < tp.touches.length then
        { tp_get_touch tp j with
          dirty := true, state := .TOUCH_BEGIN, millis := time,
          palm.time := time, thumb.state := .THUMB_STATE_MAYBE,
          thumb.first_touch_time := time, tap_is_thumb := false }
      else tp_get_touch tp j := by
  show (tp_modify_touch _ i tp.touches).getD j default = _
  rw [tp_modify_touch_getD]
  rfl

theorem tp_begin_touch_get_ne (tp : tp_dispatch) (i time j : Nat) (h : j ≠ i) :
    tp_get_touch (tp_begin_touch tp i time) j = tp_get_touch tp j := by
  rw [tp_begin_touch_get]; simp [h]

theorem tp_begin_touch_distance (tp : tp_dispatch) (i time j : Nat) :
    (tp_get_touch (tp_begin_touch tp i time) j).distance = (tp_get_touch tp j).distance := by
  rw [tp_begin_touch_get]; split_ifs <;> rfl

theorem tp_end_touch_get_ne (tp : tp_dispatch) (i time j : Nat) (h : j ≠ i) :
    tp_get_touch (tp_end_touch tp i time) j = tp_get_touch tp j := by
  unfold tp_end_touch
  split
  · exact tp_get_touch_modify_ne tp i j _ h
  · rfl
  · rfl
  · show (tp_modify_touch _ i tp.touches).getD j default = tp.touches.getD j default
    rw [tp_modify_touch_getD]; simp [h]

theorem tp_end_touch_distance (tp : tp_dispatch) (i time j : Nat) :
    (tp_get_touch (tp_end_touch tp i time) j).distance = (tp_get_touch tp j).distance := by
  unfold tp_end_touch
  split
  · rw [tp_get_touch_modify]; split_ifs <;> rfl
  · rfl
  · rfl
  · show ((tp_modify_touch _ i tp.touches).getD j default).distance =
      (tp.touches.getD j default).distance
    rw [tp_modify_touch_getD]
    split_ifs <;> rfl

/-- After `tp_end_touch` the touch is not down. -/
theorem tp_end_touch_not_down (tp : tp_dispatch) (i time : Nat) :
    tp_touch_down (tp_get_touch (tp_end_touch tp i time) i) = false := by
  unfold tp_end_touch
  split
  · rename_i hs
    rw [tp_get_touch_modify]; split_ifs
    · simp [tp_touch_down]
    · simp [tp_touch_down, hs]
  · rename_i hs; simp [tp_touch_down, hs]
  · rename_i hs; simp [tp_touch_down, hs]
  · rename_i h1 h2 h3
    have hsome := tp_get_touch_some tp i h2
    have : i < tp.touches.length := by
      by_contra c
      rw [List.getElem?_eq_none_iff.2 (by omega)] at hsome; cases hsome
    show tp_touch_down ((tp_modify_touch _ i tp.touches).getD i default) = false
    rw [tp_modify_touch_getD]
    simp [this, tp_touch_down]

/-- A touch that is not down stays so under `tp_end_touch` on any touch. -/
theorem tp_end_touch_keeps_not_down (tp : tp_dispatch) (i time j : Nat)
    (h : tp_touch_down (tp_get_touch tp j) = false) :
    tp_touch_down (tp_get_touch (tp_end_touch tp i time) j) = false := by
  by_cases hj : j = i
  · subst hj; exact tp_end_touch_not_down tp j time
  · rw [tp_end_touch_get_ne tp i time j hj]; exact h

theorem tp_end_touch_touches_length (tp : tp_dispatch) (i time : Nat) :
    (tp_end_touch tp i time).touches.length = tp.touches.length := by
  unfold tp_end_touch
  split
  · exact tp_modify_touch_length _ _ _
  · rfl
  · rfl
  · exact tp_modify_touch_length _ _ _

/-- A loop whose body never leaves early under the invariant `I`: a property
`Q j` that the body establishes for its own index and keeps for every index
holds after the loop for every index of the list, and `I` holds too. -/
theorem tp_loop_list_post (I : tp_dispatch → Prop) (Q : Nat → tp_dispatch → Prop)
    (body : Nat → tp_dispatch → tp_dispatch × Bool)
    (hI : ∀ i s, I s → I (body i s).1)
    (hnb : ∀ i s, I s → (body i s).2 = false)
    (hQ : ∀ i s, I s → Q i (body i s).1)
    (hpres : ∀ i j s, I s → Q j s → Q j (body i s).1) :
    ∀ (l : List Nat) (tp : tp_dispatch), I tp →
      I (tp_loop_list body l tp) ∧ ∀ j ∈ l, Q j (tp_loop_list body l tp)
  | [], tp, h => ⟨h, fun j hj => absurd hj (List.not_mem_nil j)⟩
  | i :: rest, tp, h => by
    have ih := tp_loop_list_post I Q body hI hnb hQ hpres rest (body i tp).1 (hI i tp h)
    have e : tp_loop_list body (i :: rest) tp = tp_loop_list body rest (body i tp).1 := by
      rw [tp_loop_list, hnb i tp h]; simp
    rw [e]
    refine ⟨ih.1, ?_⟩
    intro j hj
    rcases List.mem_cons.1 hj with hj | hj
    · subst hj
      exact (tp_loop_list_inv (fun s => I s ∧ Q j s) body
        (fun k s hs => ⟨hI k s hs.1, hpres k j s hs.1 hs.2⟩) rest _
        ⟨hI j tp h, hQ j tp h⟩).2
    · exact ih.2 j hj

theorem ffs_le (n : Nat) : ffs n ≤ 32 := by
  unfold ffs
  split
  · rename_i i h
    have := List.mem_of_find?_eq_some h
    rw [List.mem_range] at this
    omega
  · omega

theorem tp_fake_finger_count_ne_overflow (tp : tp_dispatch)
    (h : tp.fake_touches &&& FAKE_FINGER_OVERFLOW = 0) :
    tp_fake_finger_count tp ≠ FAKE_FINGER_OVERFLOW := by
  unfold tp_fake_finger_count
  rw [if_neg (by simp [h])]
  have := ffs_le (tp.fake_touches >>> 1)
  have e : FAKE_FINGER_OVERFLOW = 128 := by decide
  omega

/-- After `tp_unhover_abs_distance` no touch among the first `ntouches` with a
distance above 0 is down. -/
theorem tp_unhover_abs_distance_post (tp : tp_dispatch) (time : Nat) (j : Nat)
    (hj : j < tp.ntouches) :
    (tp_get_touch (tp_unhover_abs_distance tp time) j).distance > 0 →
      tp_touch_down (tp_get_touch (tp_unhover_abs_distance tp time) j) = false := by
  unfold tp_unhover_abs_distance tp_loop
  refine (tp_loop_list_post (fun _ => True)
    (fun j s => (tp_get_touch s j).distance > 0 → tp_touch_down (tp_get_touch s j) = false)
    _ (fun _ _ _ => trivial) (fun _ _ _ => rfl) ?_ ?_ _ tp trivial).2 j ?_
  · intro i s _
    simp only []
    split_ifs with h1 h2 h3
    · intro hd
      rw [tp_begin_touch_distance, tp_get_touch_modify] at hd
      have : ((if i = i ∧ i < s.touches.length then
          tp_motion_history_reset (tp_get_touch s i) else tp_get_touch s i)).distance =
          (tp_get_touch s i).distance := by split_ifs <;> rfl
      rw [this, h2] at hd
      exact absurd hd (by decide)
    · intro _; simp [tp_touch_down, h1]
    · intro _; exact tp_end_touch_not_down s i time
    · intro hd; exact absurd hd h3
  · intro i k s _ hq
    by_cases hk : k = i
    · subst hk
      simp only []
      split_ifs with h1 h2 h3
      · intro hd
        rw [tp_begin_touch_distance, tp_get_touch_modify] at hd
        have : ((if k = k ∧ k < s.touches.length then
            tp_motion_history_reset (tp_get_touch s k) else tp_get_touch s k)).distance =
            (tp_get_touch s k).distance := by split_ifs <;> rfl
        rw [this, h2] at hd
        exact absurd hd (by decide)
      · exact hq
      · intro _; exact tp_end_touch_not_down s k time
      · exact hq
    · simp only []
      split_ifs with h1 h2 h3
      · rw [tp_begin_touch_get_ne _ _ _ _ hk, tp_get_touch_modify_ne _ _ _ _ hk]; exact hq
      · exact hq
      · rw [tp_end_touch_get_ne _ _ _ _ hk]; exact hq
      · exact hq
  · simp only [Nat.sub_zero, List.mem_range'_1]
    omega

theorem tp_touch_down_eq_false (t : tp_touch) :
    tp_touch_down t = false ↔ t.state ≠ .TOUCH_BEGIN ∧ t.state ≠ .TOUCH_UPDATE := by
  simp [tp_touch_down]

theorem tp_inv_all_not_down (tp : tp_dispatch) (h : tp_inv tp) :
    tp.nfingers_down = 0 ↔ ∀ t ∈ tp.touches, tp_touch_down t = false := by
  rw [h.2.2.1, List.countP_eq_zero]
  simp

/-- Every member of the touch table is the touch at an index below the length. -/
theorem tp_touches_mem_get (tp : tp_dispatch) (t : tp_touch) (h : t ∈ tp.touches) :
    ∃ j, j < tp.touches.length ∧ tp_get_touch tp j = t := by
  obtain ⟨j, hj⟩ := List.getElem?_of_mem h
  refine ⟨j, ?_, tp_get_touch_of_some tp j t hj⟩
  by_contra c
  rw [List.getElem?_eq_none_iff.2 (by omega)] at hj; cases hj

theorem tp_unhover_abs_distance_length (tp : tp_dispatch) (time : Nat) :
    (tp_unhover_abs_distance tp time).touches.length = tp.touches.length := by
  unfold tp_unhover_abs_distance
  apply tp_loop_inv (fun s => s.touches.length = tp.touches.length) _ _ _ _ _ rfl
  intro i s hs
  simp only []
  split_ifs
  · show (tp_modify_touch _ i (tp_modify_touch _ i s.touches)).length = _
    rw [tp_modify_touch_length, tp_modify_touch_length]; exact hs
  · exact hs
  · rw [tp_end_touch_touches_length]; exact hs
  · exact hs

/-- The second loop of `tp_unhover_fake_touches` with BTN_TOUCH clear: it never
leaves early, keeps the length of the table, and leaves no visited touch
down. -/
theorem tp_unhover_end_loop_post (nf time : Nat) (l : List Nat) (s : tp_dispatch)
    (ht : tp_fake_finger_is_touching s = false) :
    (tp_loop_list (fun i tp =>
        if (tp_get_touch tp i).state = .TOUCH_HOVERING ∨
            (tp_get_touch tp i).state = .TOUCH_NONE then (tp, false)
        else
          (tp_end_touch tp i time,
            tp_fake_finger_is_touching (tp_end_touch tp i time) &&
              decide ((tp_end_touch tp i time).nfingers_down = nf))) l s).touches.length =
      s.touches.length ∧
    ∀ j ∈ l, tp_touch_down (tp_get_touch (tp_loop_list (fun i tp =>
        if (tp_get_touch tp i).state = .TOUCH_HOVERING ∨
            (tp_get_touch tp i).state = .TOUCH_NONE then (tp, false)
        else
          (tp_end_touch tp i time,
            tp_fake_finger_is_touching (tp_end_touch tp i time) &&
              decide ((tp_end_touch tp i time).nfingers_down = nf))) l s) j) = false := by
  have key := tp_loop_list_post
    (fun x => tp_fake_finger_is_touching x = false ∧ x.touches.length = s.touches.length)
    (fun j x => tp_touch_down (tp_get_touch x j) = false)
    (fun i tp =>
        if (tp_get_touch tp i).state = .TOUCH_HOVERING ∨
            (tp_get_touch tp i).state = .TOUCH_NONE then (tp, false)
        else
          (tp_end_touch tp i time,
            tp_fake_finger_is_touching (tp_end_touch tp i time) &&
              decide ((tp_end_touch tp i time).nfingers_down = nf)))
    ?_ ?_ ?_ ?_ l s ⟨ht, rfl⟩
  · exact ⟨key.1.2, key.2⟩
  · intro i x hx
    simp only []
    split_ifs
    · exact hx
    · refine ⟨?_, ?_⟩
      · unfold tp_fake_finger_is_touching
        rw [tp_end_touch_fake_touches]; exact hx.1
      · rw [tp_end_touch_touches_length]; exact hx.2
  · intro i x hx
    simp only []
    split_ifs
    · rfl
    · have : tp_fake_finger_is_touching (tp_end_touch x i time) = false := by
        unfold tp_fake_finger_is_touching
        rw [tp_end_touch_fake_touches]; exact hx.1
      simp [this]
  · intro i x _
    simp only []
    split_ifs with c
    · rcases c with c | c <;> simp [tp_touch_down, c]
    · exact tp_end_touch_not_down x i time
  · intro i j x _ hq
    simp only []
    split_ifs
    · exact hq
    · exact tp_end_touch_keeps_not_down x i time j hq

/-- The second loop of `tp_unhover_fake_touches` leaves a hovering touch
hovering. -/
theorem tp_unhover_end_loop_hovering (nf time : Nat) (l : List Nat) (s : tp_dispatch) (j : Nat)
    (h : (tp_get_touch s j).state = .TOUCH_HOVERING) :
    (tp_get_touch (tp_loop_list (fun i tp =>
        if (tp_get_touch tp i).state = .TOUCH_HOVERING ∨
            (tp_get_touch tp i).state = .TOUCH_NONE then (tp, false)
        else
          (tp_end_touch tp i time,
            tp_fake_finger_is_touching (tp_end_touch tp i time) &&
              decide ((tp_end_touch tp i time).nfingers_down = nf))) l s) j).state =
      .TOUCH_HOVERING := by
  apply tp_loop_list_inv (fun x => (tp_get_touch x j).state = .TOUCH_HOVERING) _ _ _ _ h
  intro i x hx
  split_ifs with c
  · exact hx
  · have hj : j ≠ i := by
      intro e; subst e; exact c (Or.inl hx)
    show (tp_get_touch (tp_end_touch x i time) j).state = _
    rw [tp_end_touch_get_ne x i time j hj]; exact hx

/-- With BTN_TOUCH and the overflow bit clear, `tp_unhover_fake_touches` leaves
no touch down. -/
theorem tp_unhover_fake_touches_post (tp : tp_dispatch) (time : Nat) (h : tp_inv tp)
    (hov : tp.fake_touches &&& FAKE_FINGER_OVERFLOW = 0)
    (ht : tp_fake_finger_is_touching tp = false) :
    ∀ t ∈ (tp_unhover_fake_touches tp time).touches, tp_touch_down t = false := by
  have hne := tp_fake_finger_count_ne_overflow tp hov
  unfold tp_unhover_fake_touches
  simp only []
  split_ifs with c1 c3 c4 c5 c6
  · exact (tp_inv_all_not_down tp h).1 c1.2
  · refine (tp_inv_all_not_down tp h).1 ?_
    rcases c3.2 with c | c
    · exact c.1
    · rw [ht] at c; exact absurd c.2 (by decide)
  · rw [ht] at c4; exact absurd c4.1 (by decide)
  · rw [ht] at c4; exact absurd c4.1 (by decide)
  · intro t hmem
    have post := tp_unhover_end_loop_post (tp_fake_finger_count tp) time
      (List.range tp.ntouches).reverse tp ht
    obtain ⟨j, hj, hget⟩ := tp_touches_mem_get _ t hmem
    rw [← hget]
    apply post.2
    rw [List.mem_reverse, List.mem_range]
    rw [post.1, h.1] at hj
    exact hj
  · rw [ht] at c6; simp at c6

/-- The state of a touch that `tp_unhover_abs_distance` found hovering: it still
hovers, or its distance is 0. -/
theorem tp_unhover_abs_distance_promote (tp : tp_dispatch) (time : Nat) (j : Nat)
    (h : (tp_get_touch tp j).state = .TOUCH_HOVERING) :
    (tp_get_touch (tp_unhover_abs_distance tp time) j).state = .TOUCH_HOVERING ∨
      (tp_get_touch tp j).distance = 0 := by
  unfold tp_unhover_abs_distance
  refine (tp_loop_inv (fun s => (tp_get_touch s j).distance = (tp_get_touch tp j).distance ∧
      ((tp_get_touch s j).state = .TOUCH_HOVERING ∨ (tp_get_touch tp j).distance = 0))
    _ ?_ _ _ tp ⟨rfl, Or.inl h⟩).2
  intro i s hs
  simp only []
  by_cases hj : j = i
  · subst hj
    split_ifs with h1 h2 h3
    · refine ⟨?_, Or.inr ?_⟩
      · rw [tp_begin_touch_distance, tp_get_touch_modify, ← hs.1]
        split_ifs <;> rfl
      · rw [← hs.1]; exact h2
    · exact hs
    · refine ⟨by rw [tp_end_touch_distance]; exact hs.1, Or.inr ?_⟩
      rcases hs.2 with c | c
      · exact absurd c h1
      · exact c
    · exact hs
  · split_ifs with h1 h2 h3
    · rw [tp_begin_touch_get_ne _ _ _ _ hj, tp_get_touch_modify_ne _ _ _ _ hj]; exact hs
    · exact hs
    · rw [tp_end_touch_get_ne _ _ _ _ hj]; exact hs
    · exact hs

/-- A touch that `tp_unhover_fake_touches` promotes from HOVERING to BEGIN:
BTN_TOUCH is set and fewer fingers are down than the fake finger count. -/
theorem tp_unhover_fake_touches_promote (tp : tp_dispatch) (time : Nat) (j : Nat)
    (h : (tp_get_touch tp j).state = .TOUCH_HOVERING)
    (hb : (tp_get_touch (tp_unhover_fake_touches tp time) j).state = .TOUCH_BEGIN) :
    tp_fake_finger_is_touching tp = true ∧ tp.nfingers_down < tp_fake_finger_count tp := by
  unfold tp_unhover_fake_touches at hb
  simp only [] at hb
  split_ifs at hb with c1 c2 c3 c4 c5 c6
  · rw [h] at hb; cases hb
  · rw [h] at hb; cases hb
  · rw [h] at hb; cases hb
  · exact c4
  · exact c4
  · rw [tp_unhover_end_loop_hovering _ _ _ _ _ h] at hb; cases hb
  · rw [h] at hb; cases hb

/-- C27: for a touch table that satisfies its invariant, after
`tp_unhover_touches` on a distance-reporting device no touch with distance
above 0 is in BEGIN or UPDATE; on a device that does not report distance, with
the overflow bit and the BTN_TOUCH bit of `fake_touches` clear, no touch is in
BEGIN or UPDATE and `nfingers_down` is 0; and a touch that went from HOVERING
to BEGIN has distance 0 on a distance-reporting device, and otherwise
BTN_TOUCH was set and fewer fingers were down than the fake finger count. -/
theorem c27_unhover_touches (tp : tp_dispatch) (time : Nat) (h : tp_inv tp) :
    (tp.reports_distance = true →
      ∀ t ∈ (tp_unhover_touches tp time).touches, t.distance > 0 →
        t.state ≠ .TOUCH_BEGIN ∧ t.state ≠ .TOUCH_UPDATE) ∧
    (tp.reports_distance = false → tp.fake_touches &&& FAKE_FINGER_OVERFLOW = 0 →
      tp.fake_touches &&& 0x1 = 0 →
      (∀ t ∈ (tp_unhover_touches tp time).touches,
        t.state ≠ .TOUCH_BEGIN ∧ t.state ≠ .TOUCH_UPDATE) ∧
      (tp_unhover_touches tp time).nfingers_down = 0) ∧
    (∀ j, (tp_get_touch tp j).state = .TOUCH_HOVERING →
      (tp_get_touch (tp_unhover_touches tp time) j).state = .TOUCH_BEGIN →
      if tp.reports_distance then (tp_get_touch tp j).distance = 0
      else tp.fake_touches &&& 0x1 ≠ 0 ∧ tp.nfingers_down < tp_fake_finger_count tp) := by
  refine ⟨?_, ?_, ?_⟩
  · intro hr t hmem hd
    rw [← tp_touch_down_eq_false]
    unfold tp_unhover_touches at hmem
    rw [if_pos hr] at hmem
    obtain ⟨j, hj, hget⟩ := tp_touches_mem_get _ t hmem
    rw [tp_unhover_abs_distance_length, h.1] at hj
    rw [← hget] at hd ⊢
    exact tp_unhover_abs_distance_post tp time j hj hd
  · intro hr hov hbt
    have ht : tp_fake_finger_is_touching tp = false := by
      simp [tp_fake_finger_is_touching, hbt]
    have e : tp_unhover_touches tp time = tp_unhover_fake_touches tp time := by
      unfold tp_unhover_touches; rw [if_neg (by simp [hr])]
    rw [e]
    have post := tp_unhover_fake_touches_post tp time h hov ht
    refine ⟨fun t hmem => (tp_touch_down_eq_false t).1 (post t hmem), ?_⟩
    exact (tp_inv_all_not_down _ (tp_unhover_fake_touches_inv tp time h)).2 post
  · intro j hs hb
    unfold tp_unhover_touches at hb
    split_ifs with hr
    · rw [if_pos hr] at hb
      rcases tp_unhover_abs_distance_promote tp time j hs with c | c
      · rw [c] at hb; cases hb
      · exact c
    · rw [if_neg hr] at hb
      have := tp_unhover_fake_touches_promote tp time j hs hb
      refine ⟨?_, this.2⟩
      simpa [tp_fake_finger_is_touching] using this.1

theorem c27_unhover_touches_witness :
    tp_inv tp_example_hovering ∧
    (∀ t ∈ (tp_unhover_touches tp_example_hovering 5).touches, t.distance > 0 →
      t.state ≠ .TOUCH_BEGIN ∧ t.state ≠ .TOUCH_UPDATE) ∧
    (tp_get_touch (tp_unhover_touches tp_example_hovering 5) 0).state = .TOUCH_BEGIN ∧
    (tp_get_touch tp_example_hovering 0).distance = 0 :=
  have hinv : tp_inv tp_example_hovering :=
    ⟨rfl, by decide, by decide, by
      intro t ht
      simp only [tp_example_hovering, List.mem_cons, List.mem_singleton, List.mem_nil_iff,
        or_false] at ht
      rcases ht with e | e | e <;> subst e <;> simp [tp_touch_dirty_ok, tp_init_touch]⟩
  ⟨hinv, (c27_unhover_touches tp_example_hovering 5 hinv).1 rfl, by decide,
    (c27_unhover_touches tp_example_hovering 5 hinv).2.2 0 (by decide) (by decide)⟩

theorem tp_begins_ok_call (tp : tp_dispatch) (c : tp_call) (hc : tp_call_begin_ok c = true) :
    tp_begins_ok (tp.call c) = tp_begins_ok tp := by
  unfold tp_begins_ok tp_dispatch.call
  simp [List.all_append, hc]

theorem tp_begins_ok_of_eq (tp' tp : tp_dispatch) (h : tp'.sink = tp.sink) :
    tp_begins_ok tp' = tp_begins_ok tp := by
  unfold tp_begins_ok
  rw [h]

theorem tp_begins_ok_modify (tp : tp_dispatch) (i : Nat) (f : tp_touch → tp_touch) :
    tp_begins_ok (tp.modify i f) = tp_begins_ok tp := rfl

theorem tp_new_touch_begins (tp : tp_dispatch) (i time : Nat) :
    tp_begins_ok (tp_new_touch tp i time) = tp_begins_ok tp := by
  unfold tp_new_touch
  simp only []
  split_ifs <;> exact tp_begins_ok_of_eq _ _ rfl

theorem tp_begin_touch_begins (tp : tp_dispatch) (i time : Nat) :
    tp_begins_ok (tp_begin_touch tp i time) = tp_begins_ok tp := by
  exact tp_begins_ok_of_eq _ _ rfl

theorem tp_end_touch_begins (tp : tp_dispatch) (i time : Nat) :
    tp_begins_ok (tp_end_touch tp i time) = tp_begins_ok tp := by
  unfold tp_end_touch
  split <;> exact tp_begins_ok_of_eq _ _ rfl

theorem tp_end_sequence_begins (tp : tp_dispatch) (i time : Nat) :
    tp_begins_ok (tp_end_sequence tp i time) = tp_begins_ok tp := by
  unfold tp_end_sequence
  exact (tp_end_touch_begins _ _ _).trans rfl

theorem tp_process_absolute_begins (tp : tp_dispatch) (code : Nat) (value : Int) (time : Nat) :
    tp_begins_ok (tp_process_absolute tp code value time) = tp_begins_ok tp := by
  unfold tp_process_absolute
  simp only []
  split_ifs <;> first
    | exact tp_new_touch_begins _ _ _
    | exact tp_end_sequence_begins _ _ _
    | exact tp_begins_ok_of_eq _ _ rfl

theorem tp_process_absolute_st_begins (tp : tp_dispatch) (code : Nat) (value : Int)
    (time : Nat) : tp_begins_ok (tp_process_absolute_st tp code value time) = tp_begins_ok tp := by
  unfold tp_process_absolute_st
  simp only []
  split_ifs <;> exact tp_begins_ok_of_eq _ _ rfl

theorem tp_fake_finger_set_begins (tp : tp_dispatch) (code : Nat) (is_press : Bool) :
    tp_begins_ok (tp_fake_finger_set tp code is_press) = tp_begins_ok tp := by
  unfold tp_fake_finger_set
  simp only []
  split_ifs <;> exact tp_begins_ok_of_eq _ _ rfl

theorem tp_process_key_begins (p : tp_peers) (tp : tp_dispatch) (code : Nat) (value : Int)
    (time : Nat) : tp_begins_ok (tp_process_key p tp code value time) = tp_begins_ok tp := by
  unfold tp_process_key tp_process_trackpoint_button
  simp only []
  split_ifs <;> first
    | exact tp_fake_finger_set_begins _ _ _
    | exact tp_begins_ok_call _ _ (by rfl)
    | exact tp_begins_ok_of_eq _ _ rfl

theorem tp_loop_begins (body : Nat → tp_dispatch → tp_dispatch)
    (hb : ∀ i s, tp_begins_ok (body i s) = tp_begins_ok s) (lo hi : Nat) (tp : tp_dispatch) :
    tp_begins_ok (tp_loop lo hi body tp) = tp_begins_ok tp :=
  tp_loop_inv (fun s => tp_begins_ok s = tp_begins_ok tp) body (fun i s hs => (hb i s).trans hs)
    lo hi tp rfl

theorem tp_loop_list_begins (body : Nat → tp_dispatch → tp_dispatch × Bool)
    (hb : ∀ i s, tp_begins_ok (body i s).1 = tp_begins_ok s) (l : List Nat) (tp : tp_dispatch) :
    tp_begins_ok (tp_loop_list body l tp) = tp_begins_ok tp :=
  tp_loop_list_inv (fun s => tp_begins_ok s = tp_begins_ok tp) body (fun i s hs => (hb i s).trans hs)
    l tp rfl

theorem tp_restore_synaptics_touches_begins (tp : tp_dispatch) (time : Nat) :
    tp_begins_ok (tp_restore_synaptics_touches tp time) = tp_begins_ok tp := by
  unfold tp_restore_synaptics_touches
  simp only []
  split_ifs <;> first
    | exact tp_begins_ok_of_eq _ _ rfl
    | (apply tp_loop_begins
       intro i s
       split_ifs
       · exact tp_begins_ok_of_eq _ _ rfl
       · exact (tp_begins_ok_modify _ _ _).trans
           ((tp_begin_touch_begins _ _ _).trans (tp_new_touch_begins _ _ _)))

theorem tp_process_fake_touches_begins (tp : tp_dispatch) (time : Nat) :
    tp_begins_ok (tp_process_fake_touches tp time) = tp_begins_ok tp := by
  have hbody : ∀ (nf i : Nat) (s : tp_dispatch),
      tp_begins_ok (if i < nf then tp_new_touch s i time else tp_end_sequence s i time) =
        tp_begins_ok s := by
    intro nf i s
    split_ifs
    · exact tp_new_touch_begins _ _ _
    · exact tp_end_sequence_begins _ _ _
  unfold tp_process_fake_touches
  simp only []
  split_ifs <;> first
    | exact tp_begins_ok_of_eq _ _ rfl
    | exact (tp_loop_begins _ (hbody _) _ _ _).trans (tp_restore_synaptics_touches_begins _ _)
    | exact tp_loop_begins _ (hbody _) _ _ _

theorem tp_unhover_abs_distance_begins (tp : tp_dispatch) (time : Nat) :
    tp_begins_ok (tp_unhover_abs_distance tp time) = tp_begins_ok tp := by
  unfold tp_unhover_abs_distance
  apply tp_loop_begins
  intro i s
  simp only []
  split_ifs
  · exact (tp_begin_touch_begins _ _ _).trans (tp_begins_ok_modify _ _ _)
  · exact tp_begins_ok_of_eq _ _ rfl
  · exact tp_end_touch_begins _ _ _
  · exact tp_begins_ok_of_eq _ _ rfl

theorem tp_unhover_fake_touches_begins (tp : tp_dispatch) (time : Nat) :
    tp_begins_ok (tp_unhover_fake_touches tp time) = tp_begins_ok tp := by
  have hloop1 : ∀ (nf : Nat) (l : List Nat) (s : tp_dispatch),
      tp_begins_ok (tp_loop_list (fun i tp =>
            if (tp_get_touch tp i).state = .TOUCH_HOVERING then
              (tp_begin_touch tp i time,
                decide ((tp_begin_touch tp i time).nfingers_down ≥ nf))
            else (tp, false)) l s) = tp_begins_ok s := by
    intro nf l s
    apply tp_loop_list_begins
    intro i s
    split_ifs
    · exact tp_begin_touch_begins _ _ _
    · exact tp_begins_ok_of_eq _ _ rfl
  have hloop2 : ∀ (nf : Nat) (l : List Nat) (s : tp_dispatch),
      tp_begins_ok (tp_loop_list (fun i tp =>
          if (tp_get_touch tp i).state = .TOUCH_HOVERING ∨
              (tp_get_touch tp i).state = .TOUCH_NONE then (tp, false)
          else
            (tp_end_touch tp i time,
              tp_fake_finger_is_touching (tp_end_touch tp i time) &&
                decide ((tp_end_touch tp i time).nfingers_down = nf))) l s) = tp_begins_ok s := by
    intro nf l s
    apply tp_loop_list_begins
    intro i s
    split_ifs
    · exact tp_begins_ok_of_eq _ _ rfl
    · exact tp_end_touch_begins _ _ _
  unfold tp_unhover_fake_touches
  simp only []
  split_ifs <;> first
    | exact tp_begins_ok_of_eq _ _ rfl
    | exact (hloop2 _ _ _).trans (hloop1 _ _ _)
    | exact hloop1 _ _ _
    | exact hloop2 _ _ _

theorem tp_unhover_touches_begins (tp : tp_dispatch) (time : Nat) :
    tp_begins_ok (tp_unhover_touches tp time) = tp_begins_ok tp := by
  unfold tp_unhover_touches
  split_ifs
  · exact tp_unhover_abs_distance_begins _ _
  · exact tp_unhover_fake_touches_begins _ _

theorem tp_position_fake_touches_begins (tp : tp_dispatch) :
    tp_begins_ok (tp_position_fake_touches tp) = tp_begins_ok tp := by
  unfold tp_position_fake_touches
  split_ifs <;> first
    | exact tp_begins_ok_of_eq _ _ rfl
    | (split
       · exact tp_begins_ok_call _ _ (by rfl)
       · apply tp_loop_begins
         intro i s
         split_ifs <;> exact tp_begins_ok_of_eq _ _ rfl)

theorem tp_process_touches_begins (p : tp_peers) (tp : tp_dispatch) (time : Nat) :
    tp_begins_ok (tp_process_touches p tp time) = tp_begins_ok tp := by
  have hloop : ∀ (w : Bool) (n : Nat) (s : tp_dispatch),
      tp_begins_ok (tp_loop 0 n (fun i tp =>
        tp.modify i (fun t => (tp_process_touch p tp w t time).1)) s) = tp_begins_ok s := by
    intro w n s
    apply tp_loop_begins
    intro i s
    exact tp_begins_ok_of_eq _ _ rfl
  unfold tp_process_touches
  simp only []
  split_ifs
  · exact (tp_begins_ok_call _ _ (by rfl)).trans (hloop _ _ _)
  · exact hloop _ _ _

theorem tp_pin_fingers_begins (tp : tp_dispatch) : tp_begins_ok (tp_pin_fingers tp) = tp_begins_ok tp := by
  unfold tp_pin_fingers tp_for_each_touch
  apply tp_loop_begins
  intro i s
  exact tp_begins_ok_of_eq _ _ rfl

theorem tp_process_state_pre_begins (p : tp_peers) (tp : tp_dispatch) (time : Nat) :
    tp_begins_ok (tp_process_state_pre p tp time) = tp_begins_ok tp := by
  have h1 : tp_begins_ok (((tp_process_touches p (tp_position_fake_touches
      (tp_unhover_touches (tp_process_fake_touches tp time) time)) time).call
        (.tp_button_handle_state time)).call (.tp_edge_scroll_handle_state time)) =
      tp_begins_ok tp := by
    rw [tp_begins_ok_call _ _ (by rfl), tp_begins_ok_call _ _ (by rfl),
      tp_process_touches_begins, tp_position_fake_touches_begins, tp_unhover_touches_begins,
      tp_process_fake_touches_begins]
  unfold tp_process_state_pre
  simp only []
  split_ifs
  · exact (tp_pin_fingers_begins _).trans h1
  · exact h1

theorem tp_post_process_state_begins (tp : tp_dispatch) (time : Nat) :
    tp_begins_ok (tp_post_process_state tp time) = tp_begins_ok tp := by
  unfold tp_post_process_state
  simp only []
  show tp_begins_ok (tp_for_each_touch tp _) = _
  unfold tp_for_each_touch
  apply tp_loop_begins
  intro i s
  exact tp_begins_ok_of_eq _ _ rfl

theorem tp_gesture_stop_twofinger_scroll_begins (tp : tp_dispatch) (time : Nat) :
    tp_begins_ok (tp_gesture_stop_twofinger_scroll tp time) = tp_begins_ok tp := by
  unfold tp_gesture_stop_twofinger_scroll
  split_ifs
  · rfl
  · exact tp_begins_ok_call _ _ (by rfl)

theorem tp_gesture_post_pointer_motion_begins (p : tp_peers) (tp : tp_dispatch) (time : Nat) :
    tp_begins_ok (tp_gesture_post_pointer_motion p tp time) = tp_begins_ok tp := by
  unfold tp_gesture_post_pointer_motion
  simp only []
  split_ifs <;> first
    | exact tp_begins_ok_call _ _ (by rfl)
    | rfl

theorem tp_gesture_start_begins (tp : tp_dispatch) (time : Nat) :
    tp_begins_ok (tp_gesture_start tp time) = tp_begins_ok tp := by
  unfold tp_gesture_start
  split_ifs
  · rfl
  · refine (tp_begins_ok_of_eq _ _ rfl).trans ?_
    split
    · exact tp_begins_ok_call _ _ (by rfl)
    · exact tp_begins_ok_call _ _ (by rfl)
    · rfl
    · exact tp_begins_ok_call _ _ (by simp [tp_call_begin_ok])
    · exact tp_begins_ok_call _ _ (by simp [tp_call_begin_ok])

theorem tp_gesture_end_begins (tp : tp_dispatch) (time : Nat) (cancelled : Bool) :
    tp_begins_ok (tp_gesture_end tp time cancelled) = tp_begins_ok tp := by
  unfold tp_gesture_end
  simp only []
  split_ifs
  · exact tp_begins_ok_of_eq _ _ rfl
  · refine (tp_begins_ok_of_eq _ _ rfl).trans ?_
    split
    · exact (tp_begins_ok_call _ _ (by rfl)).trans (tp_begins_ok_of_eq _ _ rfl)
    · exact (tp_begins_ok_call _ _ (by rfl)).trans (tp_begins_ok_of_eq _ _ rfl)
    · exact (tp_gesture_stop_twofinger_scroll_begins _ _).trans (tp_begins_ok_of_eq _ _ rfl)
    · exact (tp_begins_ok_call _ _ (by rfl)).trans (tp_begins_ok_of_eq _ _ rfl)
    · exact (tp_begins_ok_call _ _ (by rfl)).trans (tp_begins_ok_of_eq _ _ rfl)

theorem tp_gesture_handle_state_none_begins (p : tp_peers) (tp : tp_dispatch) (time : Nat) :
    tp_begins_ok (tp_gesture_handle_state_none p tp time).1 = tp_begins_ok tp := by
  unfold tp_gesture_handle_state_none
  simp only []
  split_ifs <;> exact tp_begins_ok_of_eq _ _ rfl

theorem tp_gesture_handle_state_unknown_begins (p : tp_peers) (tp : tp_dispatch) (time : Nat) :
    tp_begins_ok (tp_gesture_handle_state_unknown p tp time).1 = tp_begins_ok tp := by
  unfold tp_gesture_handle_state_unknown
  simp only []
  split_ifs <;> exact tp_begins_ok_of_eq _ _ rfl

theorem tp_gesture_handle_state_scroll_begins (p : tp_peers) (tp : tp_dispatch) (time : Nat) :
    tp_begins_ok (tp_gesture_handle_state_scroll p tp time).1 = tp_begins_ok tp := by
  unfold tp_gesture_handle_state_scroll
  simp only []
  split_ifs <;> first
    | exact tp_begins_ok_of_eq _ _ rfl
    | exact (tp_begins_ok_call _ _ (by rfl)).trans (tp_gesture_start_begins _ _)

theorem tp_gesture_handle_state_swipe_begins (p : tp_peers) (tp : tp_dispatch) (time : Nat) :
    tp_begins_ok (tp_gesture_handle_state_swipe p tp time).1 = tp_begins_ok tp := by
  unfold tp_gesture_handle_state_swipe
  simp only []
  split_ifs <;> first
    | exact tp_begins_ok_of_eq _ _ rfl
    | exact (tp_begins_ok_call _ _ (by rfl)).trans (tp_gesture_start_begins _ _)

theorem tp_gesture_handle_state_pinch_begins (p : tp_peers) (tp : tp_dispatch) (time : Nat) :
    tp_begins_ok (tp_gesture_handle_state_pinch p tp time).1 = tp_begins_ok tp := by
  unfold tp_gesture_handle_state_pinch
  simp only []
  split_ifs
  · exact tp_begins_ok_of_eq _ _ rfl
  · exact (tp_begins_ok_of_eq _ ((tp_gesture_start _ time).call _) rfl).trans
      ((tp_begins_ok_call _ _ (by rfl)).trans
        ((tp_gesture_start_begins _ _).trans (tp_begins_ok_of_eq _ _ rfl)))

theorem tp_gesture_post_gesture_step_begins (p : tp_peers) (time : Nat) (c : tp_gesture_state)
    (handler : tp_peers → tp_dispatch → Nat → tp_dispatch × tp_gesture_state)
    (hh : ∀ s, tp_begins_ok (handler p s time).1 = tp_begins_ok s) (tp : tp_dispatch) :
    tp_begins_ok (tp_gesture_post_gesture_step p time c handler tp) = tp_begins_ok tp := by
  unfold tp_gesture_post_gesture_step
  split_ifs
  · exact (tp_begins_ok_of_eq _ _ rfl).trans (hh tp)
  · rfl

theorem tp_gesture_post_gesture_begins (p : tp_peers) (tp : tp_dispatch) (time : Nat) :
    tp_begins_ok (tp_gesture_post_gesture p tp time) = tp_begins_ok tp := by
  unfold tp_gesture_post_gesture
  simp only []
  rw [tp_gesture_post_gesture_step_begins p time _ _
      (tp_gesture_handle_state_pinch_begins p · time),
    tp_gesture_post_gesture_step_begins p time _ _
      (tp_gesture_handle_state_swipe_begins p · time),
    tp_gesture_post_gesture_step_begins p time _ _
      (tp_gesture_handle_state_scroll_begins p · time),
    tp_gesture_post_gesture_step_begins p time _ _
      (tp_gesture_handle_state_unknown_begins p · time),
    tp_gesture_post_gesture_step_begins p time _ _
      (tp_gesture_handle_state_none_begins p · time)]

theorem tp_gesture_post_events_begins (p : tp_peers) (tp : tp_dispatch) (time : Nat) :
    tp_begins_ok (tp_gesture_post_events p tp time) = tp_begins_ok tp := by
  have key : ∀ s : tp_dispatch,
      tp_begins_ok (if s.gesture.finger_count_pending ≠ 0 then s
        else if s.gesture.finger_count = 1 then tp_gesture_post_pointer_motion p s time
        else if s.gesture.finger_count = 2 ∨ s.gesture.finger_count = 3 ∨
            s.gesture.finger_count = 4 then
          tp_gesture_post_gesture p s time
        else s) = tp_begins_ok s := by
    intro s
    split_ifs
    · rfl
    · exact tp_gesture_post_pointer_motion_begins _ _ _
    · exact tp_gesture_post_gesture_begins _ _ _
    · rfl
  have hc : tp_begins_ok ({ tp_gesture_cancel tp time with
      gesture.finger_count := 1, gesture.finger_count_pending := 0 } : tp_dispatch) =
      tp_begins_ok tp :=
    (tp_begins_ok_of_eq _ (tp_gesture_cancel tp time) rfl).trans (tp_gesture_end_begins _ _ _)
  unfold tp_gesture_post_events
  by_cases h0 : tp.gesture.finger_count = 0
  · rw [if_pos h0]
  · rw [if_neg h0]
    by_cases hd : p.tp_tap_dragging = true ∨
        (tp.buttons.is_clickpad = true ∧ tp.buttons.state ≠ 0)
    · rw [if_pos hd]
      exact (key { tp_gesture_cancel tp time with
        gesture.finger_count := 1, gesture.finger_count_pending := 0 }).trans hc
    · rw [if_neg hd]
      exact key tp

theorem tp_gesture_finger_count_switch_timeout_begins (tp : tp_dispatch) (now : Nat) :
    tp_begins_ok (tp_gesture_finger_count_switch_timeout tp now) = tp_begins_ok tp := by
  unfold tp_gesture_finger_count_switch_timeout
  simp only []
  split_ifs
  · rfl
  · exact (tp_begins_ok_of_eq _ (tp_gesture_cancel tp now) rfl).trans
      (tp_gesture_end_begins _ _ _)

theorem tp_gesture_handle_state_begins (p : tp_peers) (tp : tp_dispatch) (time : Nat) :
    tp_begins_ok (tp_gesture_handle_state p tp time) = tp_begins_ok tp := by
  unfold tp_gesture_handle_state
  simp only []
  split_ifs
  · exact (tp_begins_ok_of_eq _ (tp_gesture_stop tp time) rfl).trans
      (tp_gesture_end_begins _ _ _)
  · exact tp_begins_ok_of_eq _ _ rfl
  · exact (tp_begins_ok_call _ _ (by rfl)).trans (tp_begins_ok_of_eq _ _ rfl)
  · rfl
  · exact tp_begins_ok_of_eq _ _ rfl

theorem tp_post_events_begins (p : tp_peers) (tp : tp_dispatch) (time : Nat) :
    tp_begins_ok (tp_post_events p tp time) = tp_begins_ok tp := by
  unfold tp_post_events
  simp only []
  split_ifs
  · exact tp_begins_ok_call _ _ (by rfl)
  · exact (tp_gesture_end_begins _ _ _).trans ((tp_begins_ok_call _ _ (by rfl)).trans
      ((tp_begins_ok_call _ _ (by rfl)).trans (tp_begins_ok_call _ _ (by rfl))))
  · exact (tp_begins_ok_call _ _ (by rfl)).trans
      ((tp_begins_ok_call _ _ (by rfl)).trans (tp_begins_ok_call _ _ (by rfl)))
  · exact (tp_gesture_post_events_begins _ _ _).trans ((tp_begins_ok_call _ _ (by rfl)).trans
      ((tp_begins_ok_call _ _ (by rfl)).trans (tp_begins_ok_call _ _ (by rfl))))

theorem tp_handle_state_begins (p : tp_peers) (tp : tp_dispatch) (time : Nat) :
    tp_begins_ok (tp_handle_state p tp time) = tp_begins_ok tp := by
  unfold tp_handle_state tp_process_state
  exact (tp_post_process_state_begins _ _).trans ((tp_post_events_begins _ _ _).trans
    ((tp_gesture_handle_state_begins _ _ _).trans (tp_process_state_pre_begins _ _ _)))

theorem tp_clear_state_begins (p : tp_peers) (tp : tp_dispatch) (now : Nat) :
    tp_begins_ok (tp_clear_state p tp now) = tp_begins_ok tp := by
  unfold tp_clear_state
  refine (tp_handle_state_begins _ _ _).trans ?_
  refine (tp_begins_ok_of_eq _ (tp_for_each_touch _ _) rfl).trans ?_
  unfold tp_for_each_touch
  refine (tp_loop_begins _ (fun i s => tp_end_sequence_begins s i now) _ _ _).trans ?_
  exact (tp_begins_ok_call _ _ (by rfl)).trans
    ((tp_begins_ok_call _ _ (by rfl)).trans (tp_begins_ok_of_eq _ tp rfl))

theorem tp_keyboard_event_begins (tp : tp_dispatch) (time : Nat) (is_key pressed : Bool)
    (keycode : Nat) :
    tp_begins_ok (tp_keyboard_event tp time is_key pressed keycode) = tp_begins_ok tp := by
  unfold tp_keyboard_event
  simp only []
  split_ifs
  · rfl
  · rfl
  · rfl
  · rfl
  · refine (tp_begins_ok_call _ _ (by rfl)).trans ?_
    refine (tp_begins_ok_of_eq _ ((tp_gesture_cancel _ time).call _) rfl).trans ?_
    exact (tp_begins_ok_call _ _ (by rfl)).trans
      ((tp_gesture_end_begins _ _ _).trans (tp_begins_ok_call _ _ (by rfl)))
  · exact (tp_begins_ok_call _ _ (by rfl)).trans (tp_begins_ok_of_eq _ tp rfl)

theorem tp_trackpoint_event_begins (tp : tp_dispatch) (time : Nat) (is_button : Bool) :
    tp_begins_ok (tp_trackpoint_event tp time is_button) = tp_begins_ok tp := by
  unfold tp_trackpoint_event
  simp only []
  split_ifs
  · rfl
  · refine (tp_begins_ok_call _ _ (by rfl)).trans ?_
    refine (tp_begins_ok_of_eq _ ((tp_gesture_cancel _ time).call _) rfl).trans ?_
    exact (tp_begins_ok_call _ _ (by rfl)).trans
      ((tp_gesture_end_begins _ _ _).trans (tp_begins_ok_call _ _ (by rfl)))
  · exact (tp_begins_ok_call _ _ (by rfl)).trans (tp_begins_ok_of_eq _ tp rfl)

theorem tp_scroll_config_scroll_method_set_method_begins (tp : tp_dispatch)
    (method : scroll_method) (time : Nat) :
    tp_begins_ok (tp_scroll_config_scroll_method_set_method tp method time) =
      tp_begins_ok tp := by
  unfold tp_scroll_config_scroll_method_set_method
  simp only []
  split_ifs
  · rfl
  · exact (tp_begins_ok_of_eq _ (tp_gesture_stop_twofinger_scroll _ time) rfl).trans
      ((tp_gesture_stop_twofinger_scroll_begins _ _).trans (tp_begins_ok_call _ _ (by rfl)))

theorem tp_step_begins (p : tp_peers) (tp : tp_dispatch) (input : tp_input) :
    tp_begins_ok (tp_step p tp input) = tp_begins_ok tp := by
  cases input with
  | process type code value time =>
    show tp_begins_ok (tp_interface_process p tp type code value time) = _
    unfold tp_interface_process
    split_ifs
    · exact tp_process_absolute_begins _ _ _ _
    · exact tp_process_absolute_st_begins _ _ _ _
    · exact tp_process_key_begins _ _ _ _ _
    · exact tp_handle_state_begins _ _ _
    · rfl
  | keyboard_event time is_key pressed keycode => exact tp_keyboard_event_begins _ _ _ _ _
  | trackpoint_event time is_button => exact tp_trackpoint_event_begins _ _ _
  | finger_count_switch_timeout now =>
    exact tp_gesture_finger_count_switch_timeout_begins _ _
  | trackpoint_timeout now =>
    exact (tp_begins_ok_of_eq _ (tp.call (.tp_tap_resume now)) rfl).trans
      (tp_begins_ok_call _ _ (by rfl))
  | keyboard_timeout now =>
    exact (tp_begins_ok_of_eq _ (tp.call (.tp_tap_resume now)) rfl).trans
      (tp_begins_ok_call _ _ (by rfl))
  | clear_state now => exact tp_clear_state_begins _ _ _
  | set_suspended b => exact tp_begins_ok_of_eq _ tp rfl
  | set_trackpoint b => exact tp_begins_ok_of_eq _ tp rfl
  | keyboard_added => exact tp_begins_ok_of_eq _ tp rfl
  | set_scroll_method method time =>
    exact tp_scroll_config_scroll_method_set_method_begins _ _ _
  | dwt_config_set enable => exact tp_begins_ok_of_eq _ tp rfl

/-- Every BEGIN event that a reachable dispatch has posted carries the payload
of `tp_call_begin_ok`. -/
theorem reachable_begins (tp : tp_dispatch) (h : Reachable tp) : tp_begins_ok tp = true := by
  induction h with
  | init tp h0 =>
    obtain ⟨_, _, _, _, _, _, _, _, _, _, _, _, _, _, _, _, g5⟩ := h0
    unfold tp_begins_ok
    rw [g5]; rfl
  | step p tp input _ ih => rw [tp_step_begins]; exact ih

/-- When `tp_gesture_handle_state_unknown` returns PINCH it has run
`tp_gesture_init_pinch`. -/
theorem tp_gesture_handle_state_unknown_pinch (p : tp_peers) (tp : tp_dispatch) (time : Nat)
    (hc : (tp_gesture_handle_state_unknown p tp time).2 = .GESTURE_STATE_PINCH) :
    (tp_gesture_handle_state_unknown p tp time).1 = tp_gesture_init_pinch p tp := by
  unfold tp_gesture_handle_state_unknown at hc ⊢
  simp only [] at hc ⊢
  split_ifs at hc ⊢ <;> rfl

/-- Right after `tp_gesture_init_pinch`, with a distance other than 0 between
the two touches, `tp_gesture_handle_state_pinch` finds nothing changed: it
posts nothing and does not start the gesture. -/
theorem tp_gesture_handle_state_pinch_after_init (p : tp_peers) (tp : tp_dispatch)
    (time : Nat) (hd : (tp_gesture_get_pinch_info p tp).1 ≠ 0) :
    (tp_gesture_handle_state_pinch p
      { tp_gesture_init_pinch p tp with gesture.state := .GESTURE_STATE_PINCH } time).2 =
        .GESTURE_STATE_PINCH ∧
    (tp_gesture_handle_state_pinch p
      { tp_gesture_init_pinch p tp with gesture.state := .GESTURE_STATE_PINCH } time).1.sink =
        tp.sink ∧
    (tp_gesture_handle_state_pinch p
      { tp_gesture_init_pinch p tp with gesture.state := .GESTURE_STATE_PINCH }
        time).1.gesture.started = tp.gesture.started := by
  have hi : tp_gesture_get_pinch_info p
      { tp_gesture_init_pinch p tp with gesture.state := .GESTURE_STATE_PINCH } =
      tp_gesture_get_pinch_info p tp := rfl
  unfold tp_gesture_handle_state_pinch
  simp only [hi]
  rw [if_pos]
  · exact ⟨rfl, rfl, rfl⟩
  · simp [tp_gesture_init_pinch, device_float_delta, tp_normalize_delta, tp_filter_motion,
      normalized_is_zero, tp_gesture_wrap_angle, c_double_eq, c_double_div, hd]
    all_goals norm_num

/-- In the call of `tp_gesture_post_gesture` that commits from UNKNOWN to PINCH
with a distance other than 0 between the two touches, nothing is posted and
the gesture is not started. -/
theorem tp_gesture_post_gesture_pinch_commit (p : tp_peers) (tp : tp_dispatch) (time : Nat)
    (hs : tp.gesture.state = .GESTURE_STATE_UNKNOWN)
    (hc : (tp_gesture_handle_state_unknown p tp time).2 = .GESTURE_STATE_PINCH)
    (hd : (tp_gesture_get_pinch_info p tp).1 ≠ 0) :
    (tp_gesture_post_gesture p tp time).gesture.state = .GESTURE_STATE_PINCH ∧
    (tp_gesture_post_gesture p tp time).sink = tp.sink ∧
    (tp_gesture_post_gesture p tp time).gesture.started = tp.gesture.started := by
  have h := tp_gesture_handle_state_pinch_after_init p tp time hd
  have e1 : tp_gesture_post_gesture_step p time .GESTURE_STATE_NONE
      tp_gesture_handle_state_none tp = tp := by
    unfold tp_gesture_post_gesture_step
    rw [if_neg (by rw [hs]; decide)]
  have e2 : tp_gesture_post_gesture_step p time .GESTURE_STATE_UNKNOWN
      tp_gesture_handle_state_unknown tp =
      { tp_gesture_init_pinch p tp with gesture.state := .GESTURE_STATE_PINCH } := by
    unfold tp_gesture_post_gesture_step
    rw [if_pos hs, hc, tp_gesture_handle_state_unknown_pinch p tp time hc]
  have e3 : ∀ (c : tp_gesture_state) handler, c ≠ .GESTURE_STATE_PINCH →
      tp_gesture_post_gesture_step p time c handler
        { tp_gesture_init_pinch p tp with gesture.state := .GESTURE_STATE_PINCH } =
      { tp_gesture_init_pinch p tp with gesture.state := .GESTURE_STATE_PINCH } := by
    intro c handler hne
    unfold tp_gesture_post_gesture_step
    rw [if_neg (fun e => hne e.symm)]
  unfold tp_gesture_post_gesture
  simp only []
  rw [e1, e2, e3 _ _ (by decide), e3 _ _ (by decide)]
  unfold tp_gesture_post_gesture_step
  rw [if_pos rfl]
  exact ⟨h.1, h.2.1, h.2.2⟩

/-- What `tp_gesture_handle_state_pinch` posts for a pinch that has not started:
nothing, or a BEGIN with scale 1, zero deltas and zero angle followed by an
UPDATE. -/
theorem tp_gesture_handle_state_pinch_posts (p : tp_peers) (s : tp_dispatch) (time : Nat)
    (hs : s.gesture.state = .GESTURE_STATE_PINCH) (hst : s.gesture.started = false) :
    (tp_gesture_handle_state_pinch p s time).1.sink = s.sink ∨
    ∃ delta unaccel scale angle_delta,
      (tp_gesture_handle_state_pinch p s time).1.sink = s.sink ++
        [.gesture_notify_pinch time .BEGIN s.gesture.finger_count ⟨0, 0⟩ ⟨0, 0⟩ (.fin 1) 0,
          .gesture_notify_pinch time .UPDATE s.gesture.finger_count delta unaccel scale
            angle_delta] := by
  unfold tp_gesture_handle_state_pinch
  simp only []
  split_ifs
  · exact Or.inl rfl
  · refine Or.inr ?_
    simp only [tp_gesture_start, hs, hst, tp_dispatch.call, Bool.false_eq_true, if_false,
      List.append_assoc, List.singleton_append]
    exact ⟨_, _, _, _, rfl⟩

/-- The payload of the BEGIN events among the calls that pass
`tp_call_begin_ok`. -/
theorem tp_begins_ok_payload (tp : tp_dispatch) (h : tp_begins_ok tp = true) :
    (∀ time n delta unaccel scale angle,
      tp_call.gesture_notify_pinch time .BEGIN n delta unaccel scale angle ∈ tp.sink →
        delta = ⟨0, 0⟩ ∧ unaccel = ⟨0, 0⟩ ∧ scale = .fin 1 ∧ angle = 0) ∧
    (∀ time n delta unaccel,
      tp_call.gesture_notify_swipe time .BEGIN n delta unaccel ∈ tp.sink →
        delta = ⟨0, 0⟩ ∧ unaccel = ⟨0, 0⟩) := by
  unfold tp_begins_ok at h
  rw [List.all_eq_true] at h
  constructor
  · intro time n delta unaccel scale angle hm
    simpa [tp_call_begin_ok] using h _ hm
  · intro time n delta unaccel hm
    simpa [tp_call_begin_ok] using h _ hm

theorem tracker_index_by_offset_eq (accel : pointer_accelerator) (offset : Nat)
    (hc : accel.cur_tracker < NUM_POINTER_TRACKERS) (ho : offset ≤ NUM_POINTER_TRACKERS) :
    tracker_index_by_offset accel offset =
      (accel.cur_tracker + NUM_POINTER_TRACKERS - offset) % NUM_POINTER_TRACKERS := by
  unfold tracker_index_by_offset
  simp only [NUM_POINTER_TRACKERS] at hc ho ⊢
  have h1 : offset % 2 ^ 32 = offset := Nat.mod_eq_of_lt (by norm_num; omega)
  have h2 : (accel.cur_tracker + 16 + 2 ^ 32 - offset) % 2 ^ 32 =
      accel.cur_tracker + 16 - offset := by
    have : accel.cur_tracker + 16 + 2 ^ 32 - offset =
        (accel.cur_tracker + 16 - offset) + 2 ^ 32 := by omega
    rw [this, Nat.add_mod_right]
    exact Nat.mod_eq_of_lt (by norm_num; omega)
  rw [h1, h2]

theorem tracker_by_offset_eq (accel : pointer_accelerator) (offset : Nat)
    (hc : accel.cur_tracker < NUM_POINTER_TRACKERS) (ho : offset ≤ NUM_POINTER_TRACKERS) :
    tracker_by_offset accel offset =
      (accel.trackers[(accel.cur_tracker + NUM_POINTER_TRACKERS - offset) %
        NUM_POINTER_TRACKERS]?).getD default := by
  unfold tracker_by_offset
  rw [tracker_index_by_offset_eq accel offset hc ho, List.getD_eq_getElem?_getD]

theorem feed_trackers_length (p : tp_peers) (accel : pointer_accelerator)
    (delta : normalized_coords) (time : Nat) :
    (feed_trackers p accel delta time).trackers.length = accel.trackers.length := by
  simp [feed_trackers]

theorem feed_trackers_cur (p : tp_peers) (accel : pointer_accelerator)
    (delta : normalized_coords) (time : Nat) :
    (feed_trackers p accel delta time).cur_tracker =
      (accel.cur_tracker + 1) % NUM_POINTER_TRACKERS := rfl

/-- The tracker at an index after `feed_trackers`. -/
theorem feed_trackers_get (p : tp_peers) (accel : pointer_accelerator)
    (delta : normalized_coords) (time : Nat) (i : Nat) (hi : i < accel.trackers.length) :
    (feed_trackers p accel delta time).trackers[i]? =
      if i = (accel.cur_tracker + 1) % NUM_POINTER_TRACKERS then
        some { delta := ⟨0, 0⟩, time := time, dir := normalized_get_direction p delta }
      else (accel.trackers[i]?).map (fun t =>
        { t with delta := ⟨t.delta.x + delta.x, t.delta.y + delta.y⟩ }) := by
  unfold feed_trackers
  simp only []
  rw [List.getElem?_set]
  by_cases h : (accel.cur_tracker + 1) % NUM_POINTER_TRACKERS = i
  · subst h
    simp [hi]
  · rw [if_neg h, if_neg (fun e => h e.symm)]
    simp

/-- The trackers by offset after one `feed_trackers`. -/
theorem feed_trackers_by_offset (p : tp_peers) (accel : pointer_accelerator)
    (delta : normalized_coords) (time : Nat)
    (hl : accel.trackers.length = NUM_POINTER_TRACKERS)
    (hc : accel.cur_tracker < NUM_POINTER_TRACKERS) :
    tracker_by_offset (feed_trackers p accel delta time) 0 =
      { delta := ⟨0, 0⟩, time := time, dir := normalized_get_direction p delta } ∧
    ∀ j, 1 ≤ j → j < NUM_POINTER_TRACKERS →
      tracker_by_offset (feed_trackers p accel delta time) j =
        { tracker_by_offset accel (j - 1) with
          delta := ⟨(tracker_by_offset accel (j - 1)).delta.x + delta.x,
            (tracker_by_offset accel (j - 1)).delta.y + delta.y⟩ } := by
  have hc' : (feed_trackers p accel delta time).cur_tracker < NUM_POINTER_TRACKERS := by
    rw [feed_trackers_cur]; exact Nat.mod_lt _ (by decide)
  simp only [NUM_POINTER_TRACKERS] at hl hc hc' ⊢
  constructor
  · rw [tracker_by_offset_eq _ 0 hc' (by decide), feed_trackers_cur]
    simp only [NUM_POINTER_TRACKERS]
    rw [feed_trackers_get p accel delta time _ (by rw [hl]; omega)]
    simp only [NUM_POINTER_TRACKERS]
    rw [if_pos (by omega)]
    rfl
  · intro j h1 h2
    rw [tracker_by_offset_eq _ j hc' (by simp only [NUM_POINTER_TRACKERS]; omega),
      tracker_by_offset_eq _ (j - 1) hc (by simp only [NUM_POINTER_TRACKERS]; omega),
      feed_trackers_cur]
    simp only [NUM_POINTER_TRACKERS]
    rw [feed_trackers_get p accel delta time _ (by rw [hl]; omega)]
    simp only [NUM_POINTER_TRACKERS]
    rw [if_neg (by omega)]
    have e : ((accel.cur_tracker + 1) % 16 + 16 - j) % 16 =
        (accel.cur_tracker + 16 - (j - 1)) % 16 := by omega
    rw [e]
    have hlt : (accel.cur_tracker + 16 - (j - 1)) % 16 < accel.trackers.length := by
      rw [hl]; omega
    rw [List.getElem?_eq_getElem hlt]
    rfl

/-- The element at an index after a run of writes of one value `z` at the
indices `idx o`, for `o` in `l`. -/
theorem list_foldl_set_get {α : Type} (idx : Nat → Nat) (z : α) :
    ∀ (l : List Nat) (ts : List α) (i : Nat),
      (l.foldl (fun ts o => ts.set (idx o) z) ts)[i]? =
        if ∃ o ∈ l, idx o = i then (ts[i]?).map (fun _ => z) else ts[i]?
  | [], ts, i => by simp
  | o :: l, ts, i => by
    rw [List.foldl_cons, list_foldl_set_get idx z l (ts.set (idx o) z) i]
    rw [List.getElem?_set]
    by_cases h1 : ∃ o' ∈ l, idx o' = i
    · have h2 : ∃ o' ∈ o :: l, idx o' = i := by
        obtain ⟨o', ho', e⟩ := h1
        exact ⟨o', List.mem_cons_of_mem _ ho', e⟩
      rw [if_pos h1, if_pos h2]
      by_cases h3 : idx o = i
      · by_cases h4 : idx o < ts.length
        · rw [if_pos h3, if_pos h4]
          rw [← h3, List.getElem?_eq_getElem h4]; rfl
        · rw [if_pos h3, if_neg h4]
          rw [← h3, List.getElem?_eq_none (by omega)]
      · rw [if_neg h3]
    · rw [if_neg h1]
      by_cases h3 : idx o = i
      · have h2 : ∃ o' ∈ o :: l, idx o' = i := ⟨o, List.mem_cons_self _ _, h3⟩
        rw [if_pos h3, if_pos h2]
        by_cases h4 : idx o < ts.length
        · rw [if_pos h4, ← h3, List.getElem?_eq_getElem h4]; rfl
        · rw [if_neg h4, ← h3, List.getElem?_eq_none (by omega)]; rfl
      · have h2 : ¬ ∃ o' ∈ o :: l, idx o' = i := by
          rintro ⟨o', ho', e⟩
          rcases List.mem_cons.1 ho' with e' | e'
          · subst e'; exact h3 e
          · exact h1 ⟨o', e', e⟩
        rw [if_neg h3, if_neg h2]

theorem list_foldl_set_length {α : Type} (idx : Nat → Nat) (z : α) :
    ∀ (l : List Nat) (ts : List α),
      (l.foldl (fun ts o => ts.set (idx o) z) ts).length = ts.length
  | [], _ => rfl
  | o :: l, ts => by
    rw [List.foldl_cons, list_foldl_set_length idx z l, List.length_set]

/-- The tracker at an index after `accelerator_restart`. -/
theorem accelerator_restart_get (filter : pointer_accelerator) (time : Nat)
    (hl : filter.trackers.length = NUM_POINTER_TRACKERS)
    (hc : filter.cur_tracker < NUM_POINTER_TRACKERS) (i : Nat)
    (hi : i < NUM_POINTER_TRACKERS) :
    (accelerator_restart filter time).trackers[i]? =
      if i = filter.cur_tracker then
        some { tracker_by_offset filter 0 with time := time, dir := UNDEFINED_DIRECTION }
      else some { delta := ⟨0, 0⟩, time := 0, dir := 0 } := by
  have h0 : tracker_index_by_offset filter 0 = filter.cur_tracker := by
    rw [tracker_index_by_offset_eq filter 0 hc (by decide)]
    simp only [NUM_POINTER_TRACKERS] at hc ⊢
    omega
  have hex : ∀ k, k < NUM_POINTER_TRACKERS →
      ((∃ o ∈ List.range' 1 (NUM_POINTER_TRACKERS - 1), tracker_index_by_offset filter o = k) ↔
        k ≠ filter.cur_tracker) := by
    intro k hk
    simp only [NUM_POINTER_TRACKERS] at hc hk ⊢
    constructor
    · rintro ⟨o, ho, e⟩
      rw [List.mem_range'_1] at ho
      rw [tracker_index_by_offset_eq filter o hc
        (by simp only [NUM_POINTER_TRACKERS]; omega)] at e
      simp only [NUM_POINTER_TRACKERS] at e
      omega
    · intro hne
      refine ⟨(filter.cur_tracker + 16 - k) % 16, ?_, ?_⟩
      · rw [List.mem_range'_1]; omega
      · rw [tracker_index_by_offset_eq filter _ hc
          (by simp only [NUM_POINTER_TRACKERS]; omega)]
        simp only [NUM_POINTER_TRACKERS]
        omega
  unfold accelerator_restart
  simp only []
  rw [h0, List.getElem?_set, list_foldl_set_length, List.getD_eq_getElem?_getD,
    list_foldl_set_get]
  have hcl : filter.cur_tracker < filter.trackers.length := by rw [hl]; exact hc
  have hil : i < filter.trackers.length := by rw [hl]; exact hi
  by_cases h : filter.cur_tracker = i
  · subst h
    rw [if_pos rfl, if_pos hcl, if_pos rfl, if_neg (by rw [hex _ hc]; simp)]
    rw [tracker_by_offset_eq filter 0 hc (by decide)]
    have e : (filter.cur_tracker + NUM_POINTER_TRACKERS - 0) % NUM_POINTER_TRACKERS =
        filter.cur_tracker := by
      simp only [NUM_POINTER_TRACKERS] at hc ⊢; omega
    rw [e]
  · rw [if_neg h, if_neg (fun e => h e.symm), list_foldl_set_get,
      if_pos ((hex i hi).2 (fun e => h e.symm)), List.getElem?_eq_getElem hil]
    rfl

theorem accelerator_restart_fields (filter : pointer_accelerator) (time : Nat) :
    (accelerator_restart filter time).cur_tracker = filter.cur_tracker ∧
    (accelerator_restart filter time).velocity = filter.velocity ∧
    (accelerator_restart filter time).last_velocity = filter.last_velocity ∧
    (accelerator_restart filter time).profile = filter.profile ∧
    (accelerator_restart filter time).threshold = filter.threshold ∧
    (accelerator_restart filter time).accel = filter.accel ∧
    (accelerator_restart filter time).incline = filter.incline ∧
    (accelerator_restart filter time).dpi_factor = filter.dpi_factor ∧
    (accelerator_restart filter time).speed_adjustment = filter.speed_adjustment := by
  unfold accelerator_restart
  exact ⟨rfl, rfl, rfl, rfl, rfl, rfl, rfl, rfl, rfl⟩

theorem accelerator_restart_length (filter : pointer_accelerator) (time : Nat)
    (hl : filter.trackers.length = NUM_POINTER_TRACKERS) :
    (accelerator_restart filter time).trackers.length = NUM_POINTER_TRACKERS := by
  unfold accelerator_restart
  simp only []
  rw [List.length_set, list_foldl_set_length, hl]

/-- The trackers by offset after `accelerator_restart`. -/
theorem accelerator_restart_by_offset (filter : pointer_accelerator) (time : Nat)
    (hl : filter.trackers.length = NUM_POINTER_TRACKERS)
    (hc : filter.cur_tracker < NUM_POINTER_TRACKERS) :
    tracker_by_offset (accelerator_restart filter time) 0 =
      { tracker_by_offset filter 0 with time := time, dir := UNDEFINED_DIRECTION } ∧
    (∀ j, 1 ≤ j → j < NUM_POINTER_TRACKERS →
      tracker_by_offset (accelerator_restart filter time) j =
        { delta := ⟨0, 0⟩, time := 0, dir := 0 }) := by
  have hf := accelerator_restart_fields filter time
  have hcur : (accelerator_restart filter time).cur_tracker = filter.cur_tracker := hf.1
  have hc' : (accelerator_restart filter time).cur_tracker < NUM_POINTER_TRACKERS := by
    rw [hcur]; exact hc
  refine ⟨?_, ?_⟩
  · rw [tracker_by_offset_eq _ 0 hc' (by decide), hcur,
      accelerator_restart_get filter time hl hc _ (Nat.mod_lt _ (by decide))]
    rw [if_pos (by simp only [NUM_POINTER_TRACKERS] at hc ⊢; omega)]
    rfl
  · intro j h1 h2
    rw [tracker_by_offset_eq _ j hc' (Nat.le_of_lt h2), hcur,
      accelerator_restart_get filter time hl hc _ (Nat.mod_lt _ (by decide))]
    rw [if_neg (by simp only [NUM_POINTER_TRACKERS] at hc h2 ⊢; omega)]
    rfl

/-- C36: for a filter with its 16 trackers and `cur_tracker` below 16, after
`accelerator_restart` at time `t` every tracker other than the one at offset 0
from `cur_tracker` is zeroed (zero delta, time 0, direction 0), the tracker at
offset 0 keeps its delta and is stamped with time `t` and
`UNDEFINED_DIRECTION`, and `cur_tracker`, the velocities, the profile and its
parameters, `dpi_factor` and the speed adjustment are unchanged. -/
theorem c36_accelerator_restart (filter : pointer_accelerator) (time : Nat)
    (hl : filter.trackers.length = NUM_POINTER_TRACKERS)
    (hc : filter.cur_tracker < NUM_POINTER_TRACKERS) :
    tracker_by_offset (accelerator_restart filter time) 0 =
      { tracker_by_offset filter 0 with time := time, dir := UNDEFINED_DIRECTION } ∧
    (∀ j, 1 ≤ j → j < NUM_POINTER_TRACKERS →
      tracker_by_offset (accelerator_restart filter time) j =
        { delta := ⟨0, 0⟩, time := 0, dir := 0 }) ∧
    (∀ i, i < NUM_POINTER_TRACKERS → i ≠ filter.cur_tracker →
      (accelerator_restart filter time).trackers[i]? =
        some { delta := ⟨0, 0⟩, time := 0, dir := 0 }) ∧
    tracker_index_by_offset filter 0 = filter.cur_tracker ∧
    (accelerator_restart filter time).trackers.length = NUM_POINTER_TRACKERS ∧
    (accelerator_restart filter time).cur_tracker = filter.cur_tracker ∧
    (accelerator_restart filter time).velocity = filter.velocity ∧
    (accelerator_restart filter time).last_velocity = filter.last_velocity ∧
    (accelerator_restart filter time).profile = filter.profile ∧
    (accelerator_restart filter time).threshold = filter.threshold ∧
    (accelerator_restart filter time).accel = filter.accel ∧
    (accelerator_restart filter time).incline = filter.incline ∧
    (accelerator_restart filter time).dpi_factor = filter.dpi_factor ∧
    (accelerator_restart filter time).speed_adjustment = filter.speed_adjustment := by
  have hb := accelerator_restart_by_offset filter time hl hc
  refine ⟨hb.1, hb.2, ?_, ?_, accelerator_restart_length filter time hl,
    accelerator_restart_fields filter time⟩
  · intro i hi hne
    rw [accelerator_restart_get filter time hl hc i hi, if_neg hne]
  · rw [tracker_index_by_offset_eq filter 0 hc (by decide)]
    simp only [NUM_POINTER_TRACKERS] at hc ⊢
    omega

theorem c36_accelerator_restart_witness :
    (create_pointer_accelerator_filter_touchpad 1000).trackers.length = NUM_POINTER_TRACKERS ∧
    (create_pointer_accelerator_filter_touchpad 1000).cur_tracker < NUM_POINTER_TRACKERS ∧
    tracker_by_offset (accelerator_restart (create_pointer_accelerator_filter_touchpad 1000) 7)
      0 = { delta := ⟨0, 0⟩, time := 7, dir := UNDEFINED_DIRECTION } :=
  ⟨rfl, by decide,
    (c36_accelerator_restart (create_pointer_accelerator_filter_touchpad 1000) 7 rfl
      (by decide)).1⟩

theorem tracker_by_offset_congr (a b : pointer_accelerator) (h1 : a.trackers = b.trackers)
    (h2 : a.cur_tracker = b.cur_tracker) (j : Nat) :
    tracker_by_offset a j = tracker_by_offset b j := by
  unfold tracker_by_offset tracker_index_by_offset
  rw [h1, h2]

theorem filter_ring_inv_congr (a b : pointer_accelerator) (h1 : a.trackers = b.trackers)
    (h2 : a.cur_tracker = b.cur_tracker) (h : filter_ring_inv b) : filter_ring_inv a := by
  unfold filter_ring_inv at h ⊢
  rw [tracker_by_offset_congr a b h1 h2, h1, h2]
  exact h

theorem feed_trackers_ring_inv (p : tp_peers) (accel : pointer_accelerator)
    (delta : normalized_coords) (time : Nat)
    (hl : accel.trackers.length = NUM_POINTER_TRACKERS)
    (hc : accel.cur_tracker < NUM_POINTER_TRACKERS) :
    filter_ring_inv (feed_trackers p accel delta time) := by
  refine ⟨?_, ?_, ?_⟩
  · rw [feed_trackers_length]; exact hl
  · rw [feed_trackers_cur]; exact Nat.mod_lt _ (by decide)
  · rw [(feed_trackers_by_offset p accel delta time hl hc).1]

theorem accelerator_restart_ring_inv (filter : pointer_accelerator) (time : Nat)
    (h : filter_ring_inv filter) : filter_ring_inv (accelerator_restart filter time) := by
  refine ⟨accelerator_restart_length filter time h.1, ?_, ?_⟩
  · rw [(accelerator_restart_fields filter time).1]; exact h.2.1
  · rw [(accelerator_restart_by_offset filter time h.1 h.2.1).1]
    exact h.2.2

theorem filter_step_ring_inv (p : tp_peers) (filter filter' : pointer_accelerator)
    (input : filter_input) (h : filter_ring_inv filter)
    (hs : filter_step p filter input = some filter') : filter_ring_inv filter' := by
  cases input with
  | set_speed s =>
    simp only [filter_step, accelerator_set_speed] at hs
    by_cases hr : s ≥ -1 ∧ s ≤ 1
    · rw [if_neg (not_not.mpr hr)] at hs
      simp only [Option.map_some', Option.some.injEq] at hs
      rw [← hs]
      exact filter_ring_inv_congr _ filter rfl rfl h
    · rw [if_pos hr] at hs; exact absurd hs (by simp)
  | filter u time =>
    simp only [filter_step, Option.some.injEq] at hs
    rw [← hs]
    exact filter_ring_inv_congr _ (feed_trackers p filter u time) rfl rfl
      (feed_trackers_ring_inv p filter u time h.1 h.2.1)
  | restart time =>
    simp only [filter_step, Option.some.injEq] at hs
    rw [← hs]
    exact accelerator_restart_ring_inv filter time h

theorem create_default_filter_ring_inv (dpi : Int) (profile : accel_profile) :
    filter_ring_inv (create_default_filter dpi profile) := by
  have hc : (create_default_filter dpi profile).cur_tracker < NUM_POINTER_TRACKERS :=
    show 0 < NUM_POINTER_TRACKERS by decide
  refine ⟨by simp [create_default_filter], hc, ?_⟩
  rw [tracker_by_offset_eq _ 0 hc (by decide)]
  simp [create_default_filter, NUM_POINTER_TRACKERS]

/-- Every reachable filter has its ring in shape. -/
theorem filter_reachable_ring_inv (p : tp_peers) (filter : pointer_accelerator)
    (h : filter_reachable p filter) : filter_ring_inv filter := by
  induction h with
  | linear dpi => exact create_default_filter_ring_inv dpi .linear
  | touchpad dpi => exact create_default_filter_ring_inv dpi .touchpad
  | step filter filter' input _ hs ih => exact filter_step_ring_inv p filter filter' input ih hs

theorem feed_trackers_list_snoc (p : tp_peers) (accel : pointer_accelerator)
    (feeds : List (normalized_coords × Nat)) (d : normalized_coords × Nat) :
    feed_trackers_list p accel (feeds ++ [d]) =
      feed_trackers p (feed_trackers_list p accel feeds) d.1 d.2 := by
  simp [feed_trackers_list, List.foldl_append]

theorem normalized_sum_snoc (l : List normalized_coords) (d : normalized_coords) :
    normalized_sum (l ++ [d]) = ⟨(normalized_sum l).x + d.x, (normalized_sum l).y + d.y⟩ := by
  simp [normalized_sum, List.foldl_append]

/-- After a run of at most 15 feeds on a ring in shape, the tracker at offset
`j`, up to the number of feeds, holds the sum of the last `j` deltas. -/
theorem feed_trackers_list_by_offset (p : tp_peers) (accel : pointer_accelerator)
    (h : filter_ring_inv accel) (feeds : List (normalized_coords × Nat)) :
    feeds.length < NUM_POINTER_TRACKERS →
    filter_ring_inv (feed_trackers_list p accel feeds) ∧
    ∀ j, j ≤ feeds.length →
      (tracker_by_offset (feed_trackers_list p accel feeds) j).delta =
        normalized_sum ((feeds.drop (feeds.length - j)).map Prod.fst) := by
  induction feeds using List.reverseRecOn with
  | nil =>
    intro _
    refine ⟨h, ?_⟩
    intro j hj
    have : j = 0 := by simpa using hj
    subst this
    exact h.2.2
  | append_singleton l d ih =>
    intro hlen
    rw [List.length_append, List.length_singleton] at hlen
    obtain ⟨hinv, hsum⟩ := ih (by omega)
    rw [feed_trackers_list_snoc]
    have hb := feed_trackers_by_offset p (feed_trackers_list p accel l) d.1 d.2 hinv.1 hinv.2.1
    refine ⟨feed_trackers_ring_inv p _ d.1 d.2 hinv.1 hinv.2.1, ?_⟩
    intro j hj
    rw [List.length_append, List.length_singleton] at hj ⊢
    rcases Nat.eq_zero_or_pos j with h0 | hpos
    · subst h0
      rw [hb.1]
      simp [normalized_sum]
    · rw [hb.2 j hpos (by omega)]
      have hd : List.drop (l.length + 1 - j) (l ++ [d]) =
          List.drop (l.length - (j - 1)) l ++ [d] := by
        have e : l.length + 1 - j = l.length - (j - 1) := by omega
        rw [e, List.drop_append_of_le_length (by omega)]
      rw [hd, List.map_append, List.map_singleton, normalized_sum_snoc,
        ← hsum (j - 1) (by omega)]

/-- C35: on a reachable filter, `feed_trackers` advances `cur_tracker` to
`(cur_tracker + 1) mod 16`, leaves in the new current tracker a zero delta with
the time of the event and the direction mask of the delta, and adds the delta
to the accumulated delta of each of the 15 other trackers, whose time and
direction stay. After a restart and `k <= 15` consecutive feeds, the tracker
at offset 0 holds a zero delta and the tracker at offset `j`, for
`1 <= j <= k`, holds the sum of the last `j` deltas. -/
theorem c35_feed_trackers (p : tp_peers) (accel : pointer_accelerator)
    (hr : filter_reachable p accel) :
    (∀ delta time,
      (feed_trackers p accel delta time).cur_tracker =
        (accel.cur_tracker + 1) % NUM_POINTER_TRACKERS ∧
      tracker_by_offset (feed_trackers p accel delta time) 0 =
        { delta := ⟨0, 0⟩, time := time, dir := normalized_get_direction p delta } ∧
      ∀ j, 1 ≤ j → j < NUM_POINTER_TRACKERS →
        tracker_by_offset (feed_trackers p accel delta time) j =
          { tracker_by_offset accel (j - 1) with
            delta := ⟨(tracker_by_offset accel (j - 1)).delta.x + delta.x,
              (tracker_by_offset accel (j - 1)).delta.y + delta.y⟩ }) ∧
    (∀ (t0 : Nat) (feeds : List (normalized_coords × Nat)),
      feeds.length < NUM_POINTER_TRACKERS →
      (tracker_by_offset (feed_trackers_list p (accelerator_restart accel t0) feeds) 0).delta =
        ⟨0, 0⟩ ∧
      ∀ j, 1 ≤ j → j ≤ feeds.length →
        (tracker_by_offset (feed_trackers_list p (accelerator_restart accel t0) feeds)
          j).delta = normalized_sum ((feeds.drop (feeds.length - j)).map Prod.fst)) := by
  have hi := filter_reachable_ring_inv p accel hr
  refine ⟨?_, ?_⟩
  · intro delta time
    have hb := feed_trackers_by_offset p accel delta time hi.1 hi.2.1
    exact ⟨rfl, hb.1, hb.2⟩
  · intro t0 feeds hlen
    have hl := feed_trackers_list_by_offset p (accelerator_restart accel t0)
      (accelerator_restart_ring_inv accel t0 hi) feeds hlen
    exact ⟨hl.1.2.2, fun j _ hj => hl.2 j hj⟩

theorem c35_feed_trackers_witness :
    filter_reachable tp_example_peers (create_pointer_accelerator_filter_touchpad 1000) ∧
    (tracker_by_offset (feed_trackers_list tp_example_peers
      (accelerator_restart (create_pointer_accelerator_filter_touchpad 1000) 5)
      [(⟨1, 2⟩, 10), (⟨3, 4⟩, 20), (⟨5, 6⟩, 30)]) 2).delta = ⟨8, 10⟩ := by
  have h := (c35_feed_trackers tp_example_peers
    (create_pointer_accelerator_filter_touchpad 1000) (filter_reachable.touchpad 1000)).2 5
    [(⟨1, 2⟩, 10), (⟨3, 4⟩, 20), (⟨5, 6⟩, 30)] (by decide)
  refine ⟨filter_reachable.touchpad 1000, ?_⟩
  rw [h.2 2 (by decide) (by decide)]
  simp [normalized_sum]
  norm_num

/-- C32, as the source has it: `tp_gesture_finger_count_switch_timeout` returns
the dispatch unchanged when `finger_count_pending` is 0. Otherwise the result is
the cancelled gesture (`tp_gesture_end` with the cancelled flag) with
`finger_count` set to the pending value and `finger_count_pending` cleared:
`gesture.state` is NONE, `started` is false, nothing is posted when no gesture
had started, a started swipe or pinch posts exactly its END with the cancelled
flag, and a started two-finger scroll posts the scroll stop (nothing when the
scroll method is not two-finger scrolling). -/
theorem c32_finger_count_switch_timeout (tp : tp_dispatch) (now : Nat) :
    (tp.gesture.finger_count_pending = 0 →
      tp_gesture_finger_count_switch_timeout tp now = tp) ∧
    (tp.gesture.finger_count_pending ≠ 0 →
      tp_gesture_finger_count_switch_timeout tp now =
        { tp_gesture_end tp now true with
          gesture.finger_count := tp.gesture.finger_count_pending,
          gesture.finger_count_pending := 0 } ∧
      (tp_gesture_finger_count_switch_timeout tp now).gesture.state = .GESTURE_STATE_NONE ∧
      (tp_gesture_finger_count_switch_timeout tp now).gesture.started = false ∧
      (tp_gesture_finger_count_switch_timeout tp now).gesture.finger_count =
        tp.gesture.finger_count_pending ∧
      (tp_gesture_finger_count_switch_timeout tp now).gesture.finger_count_pending = 0 ∧
      (tp.gesture.started = false →
        (tp_gesture_finger_count_switch_timeout tp now).sink = tp.sink) ∧
      (tp.gesture.started = true →
        (tp.gesture.state = .GESTURE_STATE_SWIPE →
          (tp_gesture_finger_count_switch_timeout tp now).sink =
            tp.sink ++ [.gesture_notify_swipe_end now tp.gesture.finger_count true]) ∧
        (tp.gesture.state = .GESTURE_STATE_PINCH →
          (tp_gesture_finger_count_switch_timeout tp now).sink =
            tp.sink ++ [.gesture_notify_pinch_end now tp.gesture.finger_count
              tp.gesture.prev_scale true]) ∧
        (tp.gesture.state = .GESTURE_STATE_SCROLL →
          (tp.scroll_method = .LIBINPUT_CONFIG_SCROLL_2FG →
            (tp_gesture_finger_count_switch_timeout tp now).sink =
              tp.sink ++ [.evdev_stop_scroll now]) ∧
          (tp.scroll_method ≠ .LIBINPUT_CONFIG_SCROLL_2FG →
            (tp_gesture_finger_count_switch_timeout tp now).sink = tp.sink)))) := by
  refine ⟨fun h => by simp [tp_gesture_finger_count_switch_timeout, h], fun h => ?_⟩
  have he : tp_gesture_finger_count_switch_timeout tp now =
      { tp_gesture_end tp now true with
        gesture.finger_count := (tp_gesture_end tp now true).gesture.finger_count_pending,
        gesture.finger_count_pending := 0 } := by
    simp only [tp_gesture_finger_count_switch_timeout, if_neg h, tp_gesture_cancel]
  have hp : (tp_gesture_end tp now true).gesture.finger_count_pending =
      tp.gesture.finger_count_pending := by
    unfold tp_gesture_end tp_gesture_stop_twofinger_scroll
    cases hst : tp.gesture.started <;> cases hs : tp.gesture.state <;>
      by_cases hm : tp.scroll_method = .LIBINPUT_CONFIG_SCROLL_2FG <;>
      simp [hst, hs, hm, tp_dispatch.call]
  have hsink : (tp_gesture_finger_count_switch_timeout tp now).sink =
      (tp_gesture_end tp now true).sink := by rw [he]
  have hc := tp_gesture_end_calls tp now true
  refine ⟨?_, ?_, ?_, ?_, ?_, ?_, ?_⟩
  · rw [he, hp]
  · rw [he]; exact hc.1
  · rw [he]; exact hc.2.1
  · rw [he]; exact hp
  · rw [he]
  · intro hst
    rw [hsink]
    simp [tp_gesture_end, hst]
  · intro hst
    have hpe := tp_gesture_end_posts_end tp now true hst
    refine ⟨fun hs => ?_, fun hs => ?_, fun hs => ⟨fun hm => ?_, fun hm => ?_⟩⟩
    · rw [hsink]; exact hpe.1 hs
    · rw [hsink]; exact hpe.2.1 hs
    · rw [hsink]; exact hpe.2.2 hs hm
    · rw [hsink]
      simp [tp_gesture_end, tp_gesture_stop_twofinger_scroll, hst, hs, hm]

/-- Witness for C32: the pending switch to three fingers on
`tp_example_scroll_pending`. -/
theorem c32_finger_count_switch_timeout_witness :
    (tp_gesture_finger_count_switch_timeout tp_example_scroll_pending 5000).gesture.state =
      .GESTURE_STATE_NONE ∧
    (tp_gesture_finger_count_switch_timeout tp_example_scroll_pending 5000).gesture.finger_count
      = 3 :=
  ⟨((c32_finger_count_switch_timeout tp_example_scroll_pending 5000).2 (by decide)).2.1,
   ((c32_finger_count_switch_timeout tp_example_scroll_pending 5000).2 (by decide)).2.2.2.1⟩

/-- C32 counterexample: on `tp_example_scroll_pending` a gesture had started
(a two-finger scroll) and a switch to three fingers is pending; the timeout
cancels it by posting the scroll stop only, so no END event carrying the
cancelled flag is posted. -/
theorem c32_started_scroll_posts_no_end :
    tp_example_scroll_pending.gesture.started = true ∧
    tp_example_scroll_pending.gesture.finger_count_pending = 3 ∧
    (tp_gesture_finger_count_switch_timeout tp_example_scroll_pending 5000).sink =
      tp_example_scroll_pending.sink ++ [.evdev_stop_scroll 5000] ∧
    (tp_gesture_finger_count_switch_timeout tp_example_scroll_pending 5000).gesture.state =
      .GESTURE_STATE_NONE ∧
    (tp_gesture_finger_count_switch_timeout tp_example_scroll_pending 5000).gesture.finger_count
      = 3 := by
  refine ⟨rfl, rfl, ?_, rfl, rfl⟩
  rfl

theorem tp_thumb_detect_history (p : tp_peers) (tp : tp_dispatch) (t : tp_touch) (time : Nat) :
    (tp_thumb_detect p tp t time).history = t.history := by
  unfold tp_thumb_detect
  simp only []
  split_ifs <;> rfl

theorem tp_palm_detect_dwt_history (tp : tp_dispatch) (t : tp_touch) (time : Nat) :
    (tp_palm_detect_dwt tp t time).1.history = t.history := by
  unfold tp_palm_detect_dwt
  split_ifs <;> rfl

theorem tp_palm_detect_trackpoint_history (tp : tp_dispatch) (t : tp_touch) (time : Nat) :
    (tp_palm_detect_trackpoint tp t time).1.history = t.history := by
  unfold tp_palm_detect_trackpoint
  split_ifs <;> rfl

theorem tp_palm_detect_history (p : tp_peers) (tp : tp_dispatch) (t : tp_touch) (time : Nat) :
    (tp_palm_detect p tp t time).history = t.history := by
  have h1 := tp_palm_detect_dwt_history tp t time
  have h2 := tp_palm_detect_trackpoint_history tp (tp_palm_detect_dwt tp t time).1 time
  have h3 := h2.trans h1
  unfold tp_palm_detect
  simp only []
  split_ifs <;> first
    | exact h1
    | exact h3

theorem tp_motion_hysteresis_history (tp : tp_dispatch) (t : tp_touch) :
    (tp_motion_hysteresis tp t).history = t.history := by
  unfold tp_motion_hysteresis
  split_ifs <;> rfl

theorem tp_unpin_finger_history (p : tp_peers) (tp : tp_dispatch) (t : tp_touch) :
    (tp_unpin_finger p tp t).history = t.history := by
  unfold tp_unpin_finger
  simp only []
  split_ifs <;> rfl

/-- The history of a touch after the per-touch part of the frame: that of the
touch after the reset decision when the touch is not dirty, and one more
sample pushed on it when it is. -/
theorem tp_process_touch_history (p : tp_peers) (tp : tp_dispatch) (w : Bool) (t : tp_touch)
    (time : Nat) :
    ∃ t0 : tp_touch,
      t0.history = (if w = true ∨ t.quirks_reset_motion_history = true
        then (tp_motion_history_reset t).history else t.history) ∧
      ((tp_process_touch p tp w t time).1.history = t0.history ∨
        ∃ t1 : tp_touch, t1.history = t0.history ∧
          (tp_process_touch p tp w t time).1.history = (tp_motion_history_push t1).history) := by
  have key : ∀ t0 : tp_touch,
      ((if !t0.dirty then (t0, false)
          else
            (tp_unpin_finger p tp (tp_motion_history_push (tp_motion_hysteresis tp
                (tp_palm_detect p tp (tp_thumb_detect p tp t0 time) time))),
              decide ((tp_unpin_finger p tp (tp_motion_history_push (tp_motion_hysteresis tp
                (tp_palm_detect p tp (tp_thumb_detect p tp t0 time) time)))).state =
                  .TOUCH_BEGIN))).1.history = t0.history ∨
        ∃ t1 : tp_touch, t1.history = t0.history ∧
          (if !t0.dirty then (t0, false)
          else
            (tp_unpin_finger p tp (tp_motion_history_push (tp_motion_hysteresis tp
                (tp_palm_detect p tp (tp_thumb_detect p tp t0 time) time))),
              decide ((tp_unpin_finger p tp (tp_motion_history_push (tp_motion_hysteresis tp
                (tp_palm_detect p tp (tp_thumb_detect p tp t0 time) time)))).state =
                  .TOUCH_BEGIN))).1.history = (tp_motion_history_push t1).history) := by
    intro t0
    split_ifs
    · exact Or.inl rfl
    · refine Or.inr ⟨tp_motion_hysteresis tp
        (tp_palm_detect p tp (tp_thumb_detect p tp t0 time) time), ?_, ?_⟩
      · rw [tp_motion_hysteresis_history, tp_palm_detect_history, tp_thumb_detect_history]
      · exact tp_unpin_finger_history _ _ _
  unfold tp_process_touch
  refine ⟨_, ?_, key _⟩
  cases w <;> cases hq : t.quirks_reset_motion_history <;> simp [tp_motion_history_reset]

theorem tp_process_touch_reset_count (p : tp_peers) (tp : tp_dispatch) (t : tp_touch)
    (time : Nat) : (tp_process_touch p tp true t time).1.history.count ≤ 1 := by
  obtain ⟨t0, h0, h⟩ := tp_process_touch_history p tp true t time
  have hc : t0.history.count = 0 := by
    rw [h0]; simp [tp_motion_history_reset]
  rcases h with h | ⟨t1, h1, h⟩
  · rw [h, hc]; exact Nat.zero_le _
  · rw [h]
    have : t1.history.count = 0 := by rw [h1]; exact hc
    simp [tp_motion_history_push, this, TOUCHPAD_HISTORY_LENGTH]

theorem tp_process_touches_reset_count (p : tp_peers) (tp : tp_dispatch) (time : Nat)
    (h : tp_need_motion_history_reset tp = true) (i : Nat) (hi : i < tp.ntouches)
    (hl : i < tp.touches.length) :
    (tp_get_touch (tp_process_touches p tp time) i).history.count ≤ 1 := by
  have hstep : ∀ (k j : Nat) (s : tp_dispatch),
      (tp_get_touch (s.modify k (fun t => (tp_process_touch p s true t time).1))
        j).history.count ≤ 1 ∨
      (tp_get_touch (s.modify k (fun t => (tp_process_touch p s true t time).1)) j =
        tp_get_touch s j ∧ (j = k → s.touches.length ≤ j)) := by
    intro k j s
    have e : tp_get_touch (s.modify k (fun t => (tp_process_touch p s true t time).1)) j =
        if j = k ∧ k < s.touches.length
          then (tp_process_touch p s true (s.touches.getD j default) time).1
          else s.touches.getD j default :=
      tp_modify_touch_getD s.touches k j _
    rw [e]
    split_ifs with hc
    · exact Or.inl (tp_process_touch_reset_count p s _ time)
    · refine Or.inr ⟨rfl, fun hjk => ?_⟩
      subst hjk
      by_contra hn
      exact hc ⟨rfl, by omega⟩
  have hlen : ∀ (k : Nat) (s : tp_dispatch),
      (s.modify k (fun t => (tp_process_touch p s true t time).1)).touches.length =
        s.touches.length := by
    intro k s
    exact tp_modify_touch_length _ _ _
  have hloop := tp_loop_list_post (fun s => s.touches.length = tp.touches.length)
    (fun j s => (tp_get_touch s j).history.count ≤ 1 ∨ tp.touches.length ≤ j)
    (fun i s => (s.modify i (fun t => (tp_process_touch p s true t time).1), false))
    (fun k s hs => (hlen k s).trans hs) (fun _ _ _ => rfl)
    (fun k s hs => by
      rcases hstep k k s with h1 | h1
      · exact Or.inl h1
      · exact Or.inr (hs ▸ h1.2 rfl))
    (fun k j s hs hq => by
      rcases hq with hq | hq
      · rcases hstep k j s with h1 | h1
        · exact Or.inl h1
        · exact Or.inl (by rw [h1.1]; exact hq)
      · exact Or.inr hq)
    (List.range' 0 (tp.ntouches - 0)) tp rfl
  have hq := hloop.2 i (by simp [List.mem_range']; omega)
  have hres : (tp_get_touch (tp_loop 0 tp.ntouches (fun i tp =>
      tp.modify i (fun t => (tp_process_touch p tp true t time).1)) tp) i).history.count
        ≤ 1 := by
    rcases hq with hq | hq
    · exact hq
    · omega
  unfold tp_process_touches
  simp only [h]
  split_ifs
  · exact hres
  · exact hres

theorem tp_pin_fingers_history (tp : tp_dispatch) (j : Nat) :
    (tp_get_touch (tp_pin_fingers tp) j).history = (tp_get_touch tp j).history := by
  unfold tp_pin_fingers
  apply tp_for_each_touch_inv
    (fun s => (tp_get_touch s j).history = (tp_get_touch tp j).history) _ _ _ rfl
  intro i s hs
  have e : tp_get_touch (s.modify i
      (fun t => { t with pinned.is_pinned := true, pinned.center := t.point })) j =
      if j = i ∧ i < s.touches.length
        then (fun t : tp_touch => { t with pinned.is_pinned := true,
                                           pinned.center := t.point })
          (s.touches.getD j default)
        else s.touches.getD j default :=
    tp_modify_touch_getD s.touches i j _
  show (tp_get_touch (s.modify i _) j).history = _
  rw [e]
  split_ifs
  · exact hs
  · exact hs

theorem tp_gesture_handle_state_touches (p : tp_peers) (tp : tp_dispatch) (time : Nat) :
    (tp_gesture_handle_state p tp time).touches = tp.touches := by
  unfold tp_gesture_handle_state tp_gesture_stop tp_gesture_end tp_gesture_stop_twofinger_scroll
  simp only []
  split_ifs <;> first
    | rfl
    | (cases tp.gesture.state <;> rfl)

theorem tp_call_touches (tp : tp_dispatch) (c : tp_call) :
    (tp.call c).touches = tp.touches := rfl

theorem tp_get_touch_call (tp : tp_dispatch) (c : tp_call) (j : Nat) :
    tp_get_touch (tp.call c) j = tp_get_touch tp j := rfl

/-- The touches after `tp_process_state` carry the histories left by the
per-touch loop. -/
theorem tp_process_state_history (p : tp_peers) (tp : tp_dispatch) (time : Nat) (j : Nat) :
    (tp_get_touch (tp_process_state p tp time) j).history =
      (tp_get_touch (tp_process_touches p (tp_process_state_unhovered tp time) time)
        j).history := by
  have h0 : tp_get_touch (tp_process_state p tp time) j =
      tp_get_touch (tp_process_state_pre p tp time) j := by
    unfold tp_process_state tp_get_touch
    rw [tp_gesture_handle_state_touches]
  rw [h0]
  unfold tp_process_state_pre tp_process_state_unhovered
  simp only []
  split_ifs
  · rw [tp_pin_fingers_history, tp_get_touch_call, tp_get_touch_call]
  · rw [tp_get_touch_call, tp_get_touch_call]

theorem tp_process_touches_length (p : tp_peers) (tp : tp_dispatch) (time : Nat) :
    (tp_process_touches p tp time).touches.length = tp.touches.length := by
  have hloop : ∀ (w : Bool) (n : Nat) (s : tp_dispatch),
      (tp_loop 0 n (fun i tp =>
        tp.modify i (fun t => (tp_process_touch p tp w t time).1)) s).touches.length =
        s.touches.length := by
    intro w n s
    apply tp_loop_inv (fun s' => s'.touches.length = s.touches.length) _ _ _ _ _ rfl
    intro i s' hs
    exact (tp_modify_touch_length _ _ _).trans hs
  unfold tp_process_touches
  simp only []
  split_ifs
  · exact hloop _ _ _
  · exact hloop _ _ _

theorem tp_pin_fingers_length (tp : tp_dispatch) :
    (tp_pin_fingers tp).touches.length = tp.touches.length := by
  unfold tp_pin_fingers
  apply tp_for_each_touch_inv (fun s => s.touches.length = tp.touches.length) _ _ _ rfl
  intro i s hs
  exact (tp_modify_touch_length _ _ _).trans hs

theorem tp_process_state_length (p : tp_peers) (tp : tp_dispatch) (time : Nat) :
    (tp_process_state p tp time).touches.length =
      (tp_process_state_unhovered tp time).touches.length := by
  unfold tp_process_state
  rw [tp_gesture_handle_state_touches]
  unfold tp_process_state_pre tp_process_state_unhovered
  simp only []
  split_ifs
  · rw [tp_pin_fingers_length, tp_call_touches, tp_call_touches, tp_process_touches_length]
  · rw [tp_call_touches, tp_call_touches, tp_process_touches_length]

theorem tp_process_state_unhovered_inv (tp : tp_dispatch) (time : Nat) (h : tp_inv tp) :
    tp_inv (tp_process_state_unhovered tp time) :=
  tp_position_fake_touches_inv _
    (tp_unhover_touches_inv _ time (tp_process_fake_touches_inv tp time h))

/-- C34, as the source has it: `tp_need_motion_history_reset` is true exactly
when `nfingers_down` differs from `old_nfingers_down` and the device is semi-mt
or at least one of the two counts lies above `num_slots`. When it is true on
the dispatch on which the per-touch loop of `tp_process_state` runs, every touch
has at most one sample in its history after `tp_process_state`, so
`tp_get_delta` is zero for every touch in that frame. -/
theorem c34_need_motion_history_reset (p : tp_peers) (tp : tp_dispatch) (time : Nat)
    (h : tp_inv tp) :
    (tp_need_motion_history_reset tp = true ↔
      tp.nfingers_down ≠ tp.old_nfingers_down ∧
        (tp.semi_mt = true ∨ tp.nfingers_down > tp.num_slots ∨
          tp.old_nfingers_down > tp.num_slots)) ∧
    (tp_need_motion_history_reset (tp_process_state_unhovered tp time) = true →
      ∀ t ∈ (tp_process_state p tp time).touches,
        t.history.count ≤ 1 ∧ tp_get_delta (tp_process_state p tp time) t = ⟨0, 0⟩) := by
  refine ⟨?_, ?_⟩
  · unfold tp_need_motion_history_reset
    by_cases h1 : tp.semi_mt = true <;>
      by_cases h2 : tp.nfingers_down = tp.old_nfingers_down <;>
      by_cases h3 : tp.nfingers_down > tp.num_slots <;>
      by_cases h4 : tp.old_nfingers_down > tp.num_slots <;>
      simp [h1, h2, h3, h4]
  · intro hn t ht
    have hu := tp_process_state_unhovered_inv tp time h
    obtain ⟨j, hj, rfl⟩ := List.getElem_of_mem ht
    have hlen := tp_process_state_length p tp time
    have hc : (tp_get_touch (tp_process_state p tp time) j).history.count ≤ 1 := by
      rw [tp_process_state_history]
      exact tp_process_touches_reset_count p _ time hn j (by rw [← hu.1, ← hlen]; exact hj)
        (by rw [← hlen]; exact hj)
    have e : (tp_process_state p tp time).touches[j] =
        tp_get_touch (tp_process_state p tp time) j := by
      unfold tp_get_touch
      rw [List.getD_eq_getElem _ _ hj]
    rw [e]
    refine ⟨hc, ?_⟩
    unfold tp_get_delta
    rw [if_pos (by simp only [TOUCHPAD_MIN_SAMPLES]; omega)]

/-- Witness for C34: on `tp_example_four_fingers` the reset is wanted, and
after the frame every touch has at most one sample. -/
theorem c34_need_motion_history_reset_witness :
    tp_inv tp_example_four_fingers ∧
    tp_need_motion_history_reset (tp_process_state_unhovered tp_example_four_fingers 10) =
      true ∧
    ∀ t ∈ (tp_process_state tp_example_peers tp_example_four_fingers 10).touches,
      t.history.count ≤ 1 ∧
        tp_get_delta (tp_process_state tp_example_peers tp_example_four_fingers 10) t =
          ⟨0, 0⟩ :=
  have hinv : tp_inv tp_example_four_fingers :=
    ⟨rfl, by decide, by decide, by
      intro t ht
      simp only [tp_example_four_fingers, List.mem_cons, List.mem_singleton,
        List.mem_nil_iff, or_false] at ht
      rcases ht with e | e | e | e | e <;> subst e <;>
        simp [tp_touch_dirty_ok, tp_init_touch]⟩
  ⟨hinv, by decide,
    (c34_need_motion_history_reset tp_example_peers tp_example_four_fingers 10 hinv).2
      (by decide)⟩

/-- C34 counterexample: on `tp_example_four_fingers` (not semi-mt, 2 slots)
the finger count goes from 3 to 4, so both counts lie above `num_slots` and the
change does not cross the boundary, yet `tp_need_motion_history_reset` is
true. -/
theorem c34_reset_without_crossing :
    tp_example_four_fingers.semi_mt = false ∧
    tp_example_four_fingers.num_slots = 2 ∧
    tp_example_four_fingers.old_nfingers_down = 3 ∧
    tp_example_four_fingers.nfingers_down = 4 ∧
    tp_need_motion_history_reset tp_example_four_fingers = true := by
  decide

/-- C37, as the source has it: `accelerator_filter_low_dpi` multiplies the
unaccelerated input delta by `min(1, dpi_factor)` and runs the filter on the
product: the result is that of `accelerator_filter` on the scaled delta, the
accelerated delta is the acceleration factor times the scaled delta, and the
scaled delta is what is added to the trackers. For a device with
`dpi_factor` f < 1 the delta that is accelerated is input * f. -/
theorem c37_accelerator_filter_low_dpi (p : tp_peers) (filter : pointer_accelerator)
    (unaccelerated : normalized_coords) (time : Nat)
    (hl : filter.trackers.length = NUM_POINTER_TRACKERS)
    (hc : filter.cur_tracker < NUM_POINTER_TRACKERS) :
    accelerator_filter_low_dpi p filter unaccelerated time =
      accelerator_filter p filter
        ⟨unaccelerated.x * min 1 filter.dpi_factor,
          unaccelerated.y * min 1 filter.dpi_factor⟩ time ∧
    (accelerator_filter_low_dpi p filter unaccelerated time).1 =
      ⟨(calculate_acceleration_factor p filter
          ⟨unaccelerated.x * min 1 filter.dpi_factor,
            unaccelerated.y * min 1 filter.dpi_factor⟩ time).1 *
          (unaccelerated.x * min 1 filter.dpi_factor),
        (calculate_acceleration_factor p filter
          ⟨unaccelerated.x * min 1 filter.dpi_factor,
            unaccelerated.y * min 1 filter.dpi_factor⟩ time).1 *
          (unaccelerated.y * min 1 filter.dpi_factor)⟩ ∧
    (∀ j, 1 ≤ j → j < NUM_POINTER_TRACKERS →
      (tracker_by_offset (accelerator_filter_low_dpi p filter unaccelerated time).2 j).delta =
        ⟨(tracker_by_offset filter (j - 1)).delta.x +
            unaccelerated.x * min 1 filter.dpi_factor,
          (tracker_by_offset filter (j - 1)).delta.y +
            unaccelerated.y * min 1 filter.dpi_factor⟩) ∧
    (filter.dpi_factor < 1 →
      min 1 filter.dpi_factor = filter.dpi_factor ∧
      (accelerator_filter_low_dpi p filter unaccelerated time).1 =
        ⟨(calculate_acceleration_factor p filter
            ⟨unaccelerated.x * filter.dpi_factor, unaccelerated.y * filter.dpi_factor⟩
            time).1 * (unaccelerated.x * filter.dpi_factor),
          (calculate_acceleration_factor p filter
            ⟨unaccelerated.x * filter.dpi_factor, unaccelerated.y * filter.dpi_factor⟩
            time).1 * (unaccelerated.y * filter.dpi_factor)⟩) := by
  refine ⟨rfl, rfl, ?_, ?_⟩
  · intro j h1 h2
    have hb := (feed_trackers_by_offset p filter
      ⟨unaccelerated.x * min 1 filter.dpi_factor,
        unaccelerated.y * min 1 filter.dpi_factor⟩ time hl hc).2 j h1 h2
    have e : tracker_by_offset (accelerator_filter_low_dpi p filter unaccelerated time).2 j =
        tracker_by_offset (feed_trackers p filter
          ⟨unaccelerated.x * min 1 filter.dpi_factor,
            unaccelerated.y * min 1 filter.dpi_factor⟩ time) j :=
      tracker_by_offset_congr _ _ rfl rfl j
    rw [e, hb]
  · intro hf
    have hm : min 1 filter.dpi_factor = filter.dpi_factor := min_eq_right (le_of_lt hf)
    refine ⟨hm, ?_⟩
    show (⟨(calculate_acceleration_factor p filter
          ⟨unaccelerated.x * min 1 filter.dpi_factor,
            unaccelerated.y * min 1 filter.dpi_factor⟩ time).1 *
          (unaccelerated.x * min 1 filter.dpi_factor),
        (calculate_acceleration_factor p filter
          ⟨unaccelerated.x * min 1 filter.dpi_factor,
            unaccelerated.y * min 1 filter.dpi_factor⟩ time).1 *
          (unaccelerated.y * min 1 filter.dpi_factor)⟩ : normalized_coords) = _
    rw [hm]

/-- Witness for C37: a 500 dpi mouse, whose `dpi_factor` is 1/2, moved by
(2, 0): the delta added to the trackers is (1, 0). -/
theorem c37_accelerator_filter_low_dpi_witness :
    (tracker_by_offset (accelerator_filter_low_dpi tp_example_peers
      (create_pointer_accelerator_filter_linear_low_dpi 500) ⟨2, 0⟩ 10000).2 1).delta =
      ⟨(tracker_by_offset (create_pointer_accelerator_filter_linear_low_dpi 500) 0).delta.x +
          2 * min 1 (create_pointer_accelerator_filter_linear_low_dpi 500).dpi_factor,
        (tracker_by_offset (create_pointer_accelerator_filter_linear_low_dpi 500) 0).delta.y +
          0 * min 1 (create_pointer_accelerator_filter_linear_low_dpi 500).dpi_factor⟩ :=
  (c37_accelerator_filter_low_dpi tp_example_peers
    (create_pointer_accelerator_filter_linear_low_dpi 500) ⟨2, 0⟩ 10000 (by decide)
    (by decide)).2.2.1 1 (by decide) (by decide)

/-- C37 counterexample: a 500 dpi mouse has `dpi_factor` 1/2; on the input
(2, 0) the delta added to the trackers is (1, 0), the input times 1/2, and the
accelerated delta is the acceleration factor of (1, 0) times (1, 0). The input
divided by 1/2 would be (4, 0). -/
theorem c37_low_dpi_multiplies :
    (create_pointer_accelerator_filter_linear_low_dpi 500).dpi_factor = 1 / 2 ∧
    (tracker_by_offset (accelerator_filter_low_dpi tp_example_peers
      (create_pointer_accelerator_filter_linear_low_dpi 500) ⟨2, 0⟩ 10000).2 1).delta =
      ⟨1, 0⟩ ∧
    (calculate_acceleration_factor tp_example_peers
      (create_pointer_accelerator_filter_linear_low_dpi 500) ⟨1, 0⟩ 10000).1 =
      90005 / 120012 ∧
    (accelerator_filter_low_dpi tp_example_peers
      (create_pointer_accelerator_filter_linear_low_dpi 500) ⟨2, 0⟩ 10000).1 =
      ⟨90005 / 120012, 0⟩ := by
  refine ⟨by decide!, by decide!, by decide!, by decide!⟩

theorem tp_thumb_detect_idem (p : tp_peers) (tp : tp_dispatch) (t : tp_touch) (time : Nat) :
    tp_thumb_detect p tp (tp_thumb_detect p tp t time) time = tp_thumb_detect p tp t time := by
  by_cases h1 : (!tp.thumb.detect_thumbs) = true ∨ t.thumb.state ≠ .THUMB_STATE_MAYBE
  · have e : tp_thumb_detect p tp t time = t := by
      unfold tp_thumb_detect; rw [if_pos h1]
    rw [e, e]
  · have h1a : tp.thumb.detect_thumbs = true := by
      by_contra hn; exact h1 (Or.inl (by simpa using hn))
    have h1b : t.thumb.state = .THUMB_STATE_MAYBE := by
      by_contra hn; exact h1 (Or.inr hn)
    by_cases h2 : t.point.y < tp.thumb.upper_thumb_line
    · have e : tp_thumb_detect p tp t time = { t with thumb.state := .THUMB_STATE_NO } := by
        unfold tp_thumb_detect; rw [if_neg h1, if_pos h2]
      rw [e]
      unfold tp_thumb_detect
      rw [if_pos (Or.inr (by simp))]
    · cases hs : t.state <;>
        by_cases h3 : t.pressure > tp.thumb.threshold <;>
        by_cases h4 : (t.point.y > tp.thumb.lower_thumb_line ∧
          tp.scroll_method ≠ .LIBINPUT_CONFIG_SCROLL_EDGE ∧
          t.thumb.first_touch_time + THUMB_MOVE_TIMEOUT < time) <;>
        by_cases h5 : normalized_length p (tp_normalize_delta tp
          (device_delta t.point t.thumb.initial)) > TP_MM_TO_DPI_NORMALIZED 7 <;>
        simp [tp_thumb_detect, h1a, h1b, h2, hs, h3, h4, h5]

theorem tp_palm_detect_cases (p : tp_peers) (tp : tp_dispatch) (t : tp_touch) (time : Nat)
    (H : ¬ (tp.palm.monitor_trackpoint = true ∧ tp.palm.trackpoint_active = true ∧
      t.state = .TOUCH_BEGIN)) :
    tp_palm_detect p tp t time = t ∨
    ((tp.dwt.dwt_enabled = true ∧ tp.dwt.keyboard_active = true ∧ t.state = .TOUCH_BEGIN) ∧
      tp_palm_detect p tp t time =
        { t with palm.state := .PALM_TYPING, palm.first := t.point }) ∨
    (tp_palm_detect p tp t time = { t with palm.state := .PALM_NONE } ∧
      (t.state ≠ .TOUCH_BEGIN ∨
        (¬ (tp.dwt.dwt_enabled = true ∧ tp.dwt.keyboard_active = true) ∧
          (t.point.x > tp.palm.left_edge ∧ t.point.x < tp.palm.right_edge)))) ∨
    (tp_palm_detect p tp t time =
        { t with palm.state := .PALM_EDGE, palm.time := time, palm.first := t.point } ∧
      t.state = .TOUCH_BEGIN ∧
      ¬ (tp.dwt.dwt_enabled = true ∧ tp.dwt.keyboard_active = true) ∧
      ¬ (t.point.x > tp.palm.left_edge ∧ t.point.x < tp.palm.right_edge)) := by
  by_cases hb : t.state = .TOUCH_BEGIN
  · by_cases hd1 : tp.dwt.dwt_enabled = true ∧ tp.dwt.keyboard_active = true
    · refine Or.inr (Or.inl ⟨⟨hd1.1, hd1.2, hb⟩, ?_⟩)
      simp [tp_palm_detect, tp_palm_detect_dwt, hd1.1, hd1.2, hb]
    · have H2 : ¬ (tp.palm.monitor_trackpoint = true ∧ tp.palm.trackpoint_active = true) :=
        fun h => H ⟨h.1, h.2, hb⟩
      have hD : tp_palm_detect_dwt tp t time = (t, false) := by
        unfold tp_palm_detect_dwt
        rw [if_neg (fun h => hd1 ⟨h.1, h.2.1⟩), if_neg (fun h => by simp [hb] at h)]
      have hT : tp_palm_detect_trackpoint tp t time = (t, false) := by
        unfold tp_palm_detect_trackpoint
        split_ifs with h1 h2 h3 h4
        · rfl
        · exact absurd ⟨by simpa using h1, h2.2.2⟩ H2
        · simp [hb] at h3
        · rfl
        · rfl
      unfold tp_palm_detect
      simp only [hD, hT]
      simp only [Bool.false_eq_true, if_false]
      split_ifs with h1 h2 h3 h4
      · exact Or.inr (Or.inr (Or.inl ⟨rfl, Or.inr ⟨hd1, h2.2⟩⟩))
      · exact Or.inl rfl
      · exact Or.inl rfl
      · exact Or.inl rfl
      · exact Or.inl rfl
      · exact Or.inl rfl
      · refine Or.inr (Or.inr (Or.inr ⟨rfl, hb, hd1, ?_⟩))
        intro hin
        exact h4 (Or.inr hin)
  · have hD : (tp_palm_detect_dwt tp t time).2 = false ∧
        ((tp_palm_detect_dwt tp t time).1 = t ∨
          (tp_palm_detect_dwt tp t time).1 = { t with palm.state := .PALM_NONE }) := by
      unfold tp_palm_detect_dwt
      rw [if_neg (fun h => hb h.2.2)]
      split_ifs
      · exact ⟨rfl, Or.inr rfl⟩
      · exact ⟨rfl, Or.inl rfl⟩
      · exact ⟨rfl, Or.inl rfl⟩
    have hT : ∀ t1 : tp_touch, t1.state = t.state →
        (tp_palm_detect_trackpoint tp t1 time).2 = false ∧
        ((tp_palm_detect_trackpoint tp t1 time).1 = t1 ∨
          (tp_palm_detect_trackpoint tp t1 time).1 = { t1 with palm.state := .PALM_NONE }) := by
      intro t1 h1
      unfold tp_palm_detect_trackpoint
      split_ifs with c1 c2 c3 c4
      · exact ⟨rfl, Or.inl rfl⟩
      · exact absurd (h1 ▸ c2.2.1) hb
      · exact ⟨rfl, Or.inr rfl⟩
      · exact ⟨rfl, Or.inl rfl⟩
      · exact ⟨rfl, Or.inl rfl⟩
    have hE : ∀ t2 : tp_touch, t2.state = t.state → ∀ r : tp_touch, r =
        (if t2.palm.state = .PALM_EDGE then
          if time < t2.palm.time + ms2us 200 ∧
              (t2.point.x > tp.palm.left_edge ∧ t2.point.x < tp.palm.right_edge) then
            if normalized_get_direction p (tp_normalize_delta tp
                  (device_delta t2.point t2.palm.first)) &&& (NE ||| E ||| SE ||| SW ||| W ||| NW)
                  ≠ 0 ∧
                ¬ (normalized_get_direction p (tp_normalize_delta tp
                  (device_delta t2.point t2.palm.first)) &&&
                    c_not32 (NE ||| E ||| SE ||| SW ||| W ||| NW) ≠ 0) then
              { t2 with palm.state := .PALM_NONE }
            else t2
          else t2
        else if t2.state ≠ .TOUCH_BEGIN ∨
            (t2.point.x > tp.palm.left_edge ∧ t2.point.x < tp.palm.right_edge) then t2
        else if tp.buttons.is_clickpad ∧ p.tp_button_is_inside_softbutton_area t2.point then t2
        else if p.tp_touch_get_edge_right t2.point then t2
        else { t2 with palm.state := .PALM_EDGE, palm.time := time, palm.first := t2.point })
          → (r = t2 ∨ r = { t2 with palm.state := .PALM_NONE }) := by
      intro t2 h2 r hr
      subst hr
      have hb2 : t2.state ≠ .TOUCH_BEGIN := h2 ▸ hb
      split_ifs with c1 c2 c3 c4
      · exact Or.inr rfl
      · exact Or.inl rfl
      · exact Or.inl rfl
      · exact Or.inl rfl
      · exact absurd (Or.inl hb2) c4
      · exact absurd (Or.inl hb2) c4
      · exact absurd (Or.inl hb2) c4
    have hg : tp_palm_detect p tp t time = t ∨
        tp_palm_detect p tp t time = { t with palm.state := .PALM_NONE } := by
      have hs1 : (tp_palm_detect_dwt tp t time).1.state = t.state :=
        (tp_palm_detect_dwt_skel tp t time).1
      have hT1 := hT (tp_palm_detect_dwt tp t time).1 hs1
      have hs2 : (tp_palm_detect_trackpoint tp (tp_palm_detect_dwt tp t time).1 time).1.state =
          t.state :=
        ((tp_palm_detect_trackpoint_skel tp _ time).1).trans hs1
      have hE2 := hE (tp_palm_detect_trackpoint tp (tp_palm_detect_dwt tp t time).1 time).1 hs2
        (tp_palm_detect p tp t time) (by
          unfold tp_palm_detect
          simp only [hD.1, hT1.1, Bool.false_eq_true, if_false])
      rcases hD.2 with d | d <;> rcases hT1.2 with c | c <;> rcases hE2 with e | e
      · left; rw [e, c, d]
      · right; rw [e, c, d]
      · right; rw [e, c, d]
      · right; rw [e, c, d]
      · right; rw [e, c, d]
      · right; rw [e, c, d]
      · right; rw [e, c, d]
      · right; rw [e, c, d]
    rcases hg with hg | hg
    · exact Or.inl hg
    · exact Or.inr (Or.inr (Or.inl ⟨hg, Or.inl hb⟩))

/-- C31, as the source has it: `tp_thumb_detect` applied twice gives the touch
that one application gives, for every touch, device state and time.
`tp_palm_detect` applied twice gives the touch that one application gives
unless the touch is in BEGIN while the trackpoint is monitored and active. -/
theorem c31_classifiers_idempotent (p : tp_peers) (tp : tp_dispatch) (t : tp_touch)
    (time : Nat) :
    tp_thumb_detect p tp (tp_thumb_detect p tp t time) time = tp_thumb_detect p tp t time ∧
    (¬ (tp.palm.monitor_trackpoint = true ∧ tp.palm.trackpoint_active = true ∧
        t.state = .TOUCH_BEGIN) →
      tp_palm_detect p tp (tp_palm_detect p tp t time) time = tp_palm_detect p tp t time) := by
  refine ⟨tp_thumb_detect_idem p tp t time, fun H => ?_⟩
  rcases tp_palm_detect_cases p tp t time H with h | ⟨hd, h⟩ | ⟨h, hc⟩ | ⟨h, hb, hd, hi⟩
  · rw [h, h]
  · rw [h]
    simp [tp_palm_detect, tp_palm_detect_dwt, hd.1, hd.2.1, hd.2.2]
  · rw [h]
    rcases tp_palm_detect_cases p tp { t with palm.state := .PALM_NONE } time H with
      h2 | ⟨hd2, _⟩ | ⟨h2, _⟩ | ⟨_, hb2, _, hi2⟩
    · exact h2
    · rcases hc with hc | hc
      · exact absurd hd2.2.2 hc
      · exact absurd ⟨hd2.1, hd2.2.1⟩ hc.1
    · exact h2
    · rcases hc with hc | hc
      · exact absurd hb2 hc
      · exact absurd hc.2 hi2
  · rw [h]
    rcases tp_palm_detect_cases p tp
        { t with palm.state := .PALM_EDGE, palm.time := time, palm.first := t.point } time H with
      h2 | ⟨hd2, _⟩ | ⟨_, hc2⟩ | ⟨h2, _⟩
    · exact h2
    · exact absurd ⟨hd2.1, hd2.2.1⟩ hd
    · rcases hc2 with hc2 | hc2
      · exact absurd hb hc2
      · exact absurd hc2.2 hi
    · exact h2

/-- Witness for C31: a touch that begins on the left palm edge of `tp_example`,
whose trackpoint is not active. -/
theorem c31_classifiers_idempotent_witness :
    tp_palm_detect tp_example_peers tp_example
        (tp_palm_detect tp_example_peers tp_example tp_touch_at_left_edge 10) 10 =
      tp_palm_detect tp_example_peers tp_example tp_touch_at_left_edge 10 :=
  (c31_classifiers_idempotent tp_example_peers tp_example tp_touch_at_left_edge 10).2
    (by decide)

/-- C31 counterexample: on `tp_example_trackpoint_active` a touch that begins on
the left palm edge is tagged PALM_TRACKPOINT by one application of
`tp_palm_detect`, which returns before the edge test; a second application tags
it PALM_EDGE. -/
theorem c31_palm_detect_not_idempotent :
    (tp_palm_detect tp_example_peers tp_example_trackpoint_active tp_touch_at_left_edge
      10).palm.state = .PALM_TRACKPOINT ∧
    (tp_palm_detect tp_example_peers tp_example_trackpoint_active
      (tp_palm_detect tp_example_peers tp_example_trackpoint_active tp_touch_at_left_edge 10)
      10).palm.state = .PALM_EDGE := by
  decide

/-- The search loop of `tp_position_fake_touches` over the first `n` slots:
it finds no touch exactly when every slot is in END or NONE, and a touch it
finds is a slot below `n`, not in END or NONE, whose y is minimal among such
slots. -/
theorem tp_find_topmost_fold (tp : tp_dispatch) (n : Nat) :
    ((List.range n).foldl
        (fun (topmost : Option Nat) i =>
          let t := tp_get_touch tp i
          if t.state = .TOUCH_END ∨ t.state = .TOUCH_NONE then topmost
          else
            match topmost with
            | none => some i
            | some j => if t.point.y < (tp_get_touch tp j).point.y then some i else some j)
        none = none ↔
      ∀ k, k < n → (tp_get_touch tp k).state = .TOUCH_END ∨
        (tp_get_touch tp k).state = .TOUCH_NONE) ∧
    ∀ j, (List.range n).foldl
        (fun (topmost : Option Nat) i =>
          let t := tp_get_touch tp i
          if t.state = .TOUCH_END ∨ t.state = .TOUCH_NONE then topmost
          else
            match topmost with
            | none => some i
            | some j => if t.point.y < (tp_get_touch tp j).point.y then some i else some j)
        none = some j →
      j < n ∧ ¬ ((tp_get_touch tp j).state = .TOUCH_END ∨
        (tp_get_touch tp j).state = .TOUCH_NONE) ∧
      ∀ k, k < n → ¬ ((tp_get_touch tp k).state = .TOUCH_END ∨
          (tp_get_touch tp k).state = .TOUCH_NONE) →
        (tp_get_touch tp j).point.y ≤ (tp_get_touch tp k).point.y := by
  induction n with
  | zero =>
    refine ⟨⟨fun _ k hk => absurd hk (Nat.not_lt_zero k), fun _ => rfl⟩, ?_⟩
    intro j hj
    simp at hj
  | succ n ih =>
    rw [List.range_succ, List.foldl_append]
    simp only [List.foldl_cons, List.foldl_nil]
    generalize hr : (List.range n).foldl
        (fun (topmost : Option Nat) i =>
          let t := tp_get_touch tp i
          if t.state = .TOUCH_END ∨ t.state = .TOUCH_NONE then topmost
          else
            match topmost with
            | none => some i
            | some j => if t.point.y < (tp_get_touch tp j).point.y then some i else some j)
        none = r at ih ⊢
    by_cases hx : (tp_get_touch tp n).state = .TOUCH_END ∨
        (tp_get_touch tp n).state = .TOUCH_NONE
    · rw [if_pos hx]
      refine ⟨⟨fun h k hk => ?_, fun h => ih.1.2 (fun k hk => h k (Nat.lt_succ_of_lt hk))⟩, ?_⟩
      · rcases Nat.lt_succ_iff_lt_or_eq.1 hk with hk | hk
        · exact ih.1.1 h k hk
        · rw [hk]; exact hx
      · intro j hj
        obtain ⟨h1, h2, h3⟩ := ih.2 j hj
        refine ⟨Nat.lt_succ_of_lt h1, h2, fun k hk hnk => ?_⟩
        rcases Nat.lt_succ_iff_lt_or_eq.1 hk with hk | hk
        · exact h3 k hk hnk
        · rw [hk] at hnk; exact absurd hx hnk
    · rw [if_neg hx]
      cases r with
      | none =>
        have hall := ih.1.1 rfl
        refine ⟨⟨fun h => by simp at h, fun h => absurd (h n (Nat.lt_succ_self n)) hx⟩, ?_⟩
        intro j hj
        simp only [Option.some.injEq] at hj
        subst hj
        refine ⟨Nat.lt_succ_self _, hx, fun k hk hnk => ?_⟩
        rcases Nat.lt_succ_iff_lt_or_eq.1 hk with hk | hk
        · exact absurd (hall k hk) hnk
        · rw [hk]
      | some j0 =>
        obtain ⟨h1, h2, h3⟩ := ih.2 j0 rfl
        refine ⟨⟨fun h => ?_, fun h => absurd (h n (Nat.lt_succ_self n)) hx⟩, ?_⟩
        · simp only [] at h
          split_ifs at h
        · intro j hj
          simp only [] at hj
          split_ifs at hj with hlt
          · simp only [Option.some.injEq] at hj
            subst hj
            refine ⟨Nat.lt_succ_self _, hx, fun k hk hnk => ?_⟩
            rcases Nat.lt_succ_iff_lt_or_eq.1 hk with hk | hk
            · exact le_trans (le_of_lt hlt) (h3 k hk hnk)
            · rw [hk]
          · simp only [Option.some.injEq] at hj
            subst hj
            refine ⟨Nat.lt_succ_of_lt h1, h2, fun k hk hnk => ?_⟩
            rcases Nat.lt_succ_iff_lt_or_eq.1 hk with hk | hk
            · exact h3 k hk hnk
            · rw [hk]; exact not_lt.1 hlt

/-- The copy loop of `tp_position_fake_touches`, from index `start`: a touch
at an index in the range that is not in NONE gets the point of the touch
`topmost`, and every other touch keeps its point; no touch changes state. -/
theorem tp_position_fake_touches_loop (tp : tp_dispatch) (topmost start : Nat) :
    (∀ i, start ≤ i → i < tp.ntouches → (tp_get_touch tp i).state ≠ .TOUCH_NONE →
      (tp_get_touch (tp_loop start tp.ntouches (fun i tp =>
        if (tp_get_touch tp i).state = .TOUCH_NONE then tp
        else
          tp.modify i (fun t =>
            { t with
              point := (tp_get_touch tp topmost).point,
              dirty := if !t.dirty then (tp_get_touch tp topmost).dirty else t.dirty })) tp)
        i).point = (tp_get_touch tp topmost).point) ∧
    (∀ i, (i < start ∨ tp.ntouches ≤ i ∨ (tp_get_touch tp i).state = .TOUCH_NONE) →
      tp_get_touch (tp_loop start tp.ntouches (fun i tp =>
        if (tp_get_touch tp i).state = .TOUCH_NONE then tp
        else
          tp.modify i (fun t =>
            { t with
              point := (tp_get_touch tp topmost).point,
              dirty := if !t.dirty then (tp_get_touch tp topmost).dirty else t.dirty })) tp)
        i = tp_get_touch tp i) := by
  have hget : ∀ (s : tp_dispatch) (k j : Nat),
      tp_get_touch (s.modify k (fun t =>
          { t with
            point := (tp_get_touch s topmost).point,
            dirty := if !t.dirty then (tp_get_touch s topmost).dirty else t.dirty })) j =
        if j = k ∧ k < s.touches.length then
          { tp_get_touch s j with
            point := (tp_get_touch s topmost).point,
            dirty := if !(tp_get_touch s j).dirty then (tp_get_touch s topmost).dirty
              else (tp_get_touch s j).dirty }
        else tp_get_touch s j := by
    intro s k j
    exact tp_modify_touch_getD s.touches k j _
  have hgetp : ∀ (s : tp_dispatch) (k j : Nat),
      (tp_get_touch (s.modify k (fun t =>
          { t with
            point := (tp_get_touch s topmost).point,
            dirty := if !t.dirty then (tp_get_touch s topmost).dirty else t.dirty })) j).point =
        if j = k ∧ k < s.touches.length then (tp_get_touch s topmost).point
        else (tp_get_touch s j).point := by
    intro s k j
    rw [hget]
    split_ifs <;> rfl
  have hstate : ∀ (s : tp_dispatch) (k j : Nat),
      (tp_get_touch (if (tp_get_touch s k).state = .TOUCH_NONE then s
        else s.modify k (fun t =>
          { t with
            point := (tp_get_touch s topmost).point,
            dirty := if !t.dirty then (tp_get_touch s topmost).dirty else t.dirty })) j).state =
        (tp_get_touch s j).state := by
    intro s k j
    split_ifs
    · rfl
    · rw [hget]; split_ifs <;> rfl
  have hpoint : ∀ (s : tp_dispatch) (k j : Nat),
      (tp_get_touch (if (tp_get_touch s k).state = .TOUCH_NONE then s
        else s.modify k (fun t =>
          { t with
            point := (tp_get_touch s topmost).point,
            dirty := if !t.dirty then (tp_get_touch s topmost).dirty else t.dirty })) j).point =
        if j = k ∧ (tp_get_touch s k).state ≠ .TOUCH_NONE then (tp_get_touch s topmost).point
        else (tp_get_touch s j).point := by
    intro s k j
    by_cases hn : (tp_get_touch s k).state = .TOUCH_NONE
    · rw [if_pos hn, if_neg (fun h => h.2 hn)]
    · rw [if_neg hn, hgetp]
      by_cases hjk : j = k
      · subst hjk
        by_cases hl : j < s.touches.length
        · rw [if_pos (And.intro rfl hl), if_pos (And.intro rfl hn)]
        · exfalso
          apply hn
          unfold tp_get_touch
          rw [List.getD_eq_default _ _ (by omega)]
          rfl
      · rw [if_neg (fun h => hjk h.1), if_neg (fun h => hjk h.1)]
  have hloop := tp_loop_list_post
    (fun s => (∀ i, (tp_get_touch s i).state = (tp_get_touch tp i).state) ∧
      (tp_get_touch s topmost).point = (tp_get_touch tp topmost).point)
    (fun j s => (tp_get_touch tp j).state ≠ .TOUCH_NONE →
      (tp_get_touch s j).point = (tp_get_touch tp topmost).point)
    (fun i s => (if (tp_get_touch s i).state = .TOUCH_NONE then s
        else s.modify i (fun t =>
          { t with
            point := (tp_get_touch s topmost).point,
            dirty := if !t.dirty then (tp_get_touch s topmost).dirty else t.dirty }), false))
    (fun k s hs => by
      refine ⟨fun i => (hstate s k i).trans (hs.1 i), ?_⟩
      show (tp_get_touch (if (tp_get_touch s k).state = .TOUCH_NONE then s
        else s.modify k _) topmost).point = _
      rw [hpoint]
      split_ifs
      · exact hs.2
      · exact hs.2)
    (fun _ _ _ => rfl)
    (fun k s hs hk => by
      show (tp_get_touch (if (tp_get_touch s k).state = .TOUCH_NONE then s
        else s.modify k _) k).point = _
      rw [hpoint, if_pos ⟨rfl, by rw [hs.1 k]; exact hk⟩]
      exact hs.2)
    (fun k j s hs hq hj => by
      show (tp_get_touch (if (tp_get_touch s k).state = .TOUCH_NONE then s
        else s.modify k _) j).point = _
      rw [hpoint]
      split_ifs
      · exact hs.2
      · exact hq hj)
    (List.range' start (tp.ntouches - start)) tp ⟨fun _ => rfl, rfl⟩
  have hkeep : ∀ (i : Nat) (l : List Nat) (s : tp_dispatch),
      (i ∉ l ∨ (tp_get_touch s i).state = .TOUCH_NONE) →
      tp_get_touch (tp_loop_list (fun i s =>
        (if (tp_get_touch s i).state = .TOUCH_NONE then s
        else s.modify i (fun t =>
          { t with
            point := (tp_get_touch s topmost).point,
            dirty := if !t.dirty then (tp_get_touch s topmost).dirty else t.dirty }), false))
        l s) i = tp_get_touch s i := by
    intro i l
    induction l with
    | nil => intro s _; rfl
    | cons k rest ih =>
      intro s h
      unfold tp_loop_list
      simp only [Bool.false_eq_true, if_false]
      have hk : tp_get_touch (if (tp_get_touch s k).state = .TOUCH_NONE then s
          else s.modify k (fun t =>
            { t with
              point := (tp_get_touch s topmost).point,
              dirty := if !t.dirty then (tp_get_touch s topmost).dirty else t.dirty })) i =
          tp_get_touch s i := by
        split_ifs with hn
        · rfl
        · rw [hget, if_neg]
          intro hc
          rcases h with h | h
          · exact h (by rw [hc.1]; exact List.mem_cons_self _ _)
          · rw [hc.1] at h; exact hn h
      rw [ih _ (by
        rcases h with h | h
        · exact Or.inl (fun hm => h (List.mem_cons_of_mem _ hm))
        · exact Or.inr (by rw [hk]; exact h)), hk]
  refine ⟨fun i h1 h2 h3 => ?_, fun i h => ?_⟩
  · exact hloop.2 i (List.mem_range'_1.2 ⟨h1, by omega⟩) h3
  · apply hkeep
    rcases h with h | h | h
    · exact Or.inl (fun hm => by have := (List.mem_range'_1.1 hm).1; omega)
    · exact Or.inl (fun hm => by have := List.mem_range'_1.1 hm; omega)
    · exact Or.inr h

/-- C33: when the fake finger count exceeds `num_slots` and `nfingers_down` is
positive, `tp_position_fake_touches` finds the top-most real touch, a slot
below `num_slots` that is not in END or NONE and whose y is minimal among such
slots, and copies its point into every touch from index `num_slots` (from 1
on a device without multitouch) up to `ntouches` that is not in NONE; the
other touches keep their values. If every real slot is in END or NONE, the
touches are not modified. -/
theorem c33_position_fake_touches (tp : tp_dispatch)
    (hf : tp_fake_finger_count tp > tp.num_slots) (hn : tp.nfingers_down > 0) :
    ((∃ k, k < tp.num_slots ∧ ¬ ((tp_get_touch tp k).state = .TOUCH_END ∨
        (tp_get_touch tp k).state = .TOUCH_NONE)) →
      ∃ j, tp_find_topmost tp = some j ∧ j < tp.num_slots ∧
        ¬ ((tp_get_touch tp j).state = .TOUCH_END ∨
          (tp_get_touch tp j).state = .TOUCH_NONE) ∧
        (∀ k, k < tp.num_slots → ¬ ((tp_get_touch tp k).state = .TOUCH_END ∨
            (tp_get_touch tp k).state = .TOUCH_NONE) →
          (tp_get_touch tp j).point.y ≤ (tp_get_touch tp k).point.y) ∧
        (∀ i, (if tp.has_mt then tp.num_slots else 1) ≤ i → i < tp.ntouches →
          (tp_get_touch tp i).state ≠ .TOUCH_NONE →
          (tp_get_touch (tp_position_fake_touches tp) i).point =
            (tp_get_touch tp j).point) ∧
        (∀ i, (i < (if tp.has_mt then tp.num_slots else 1) ∨ tp.ntouches ≤ i ∨
            (tp_get_touch tp i).state = .TOUCH_NONE) →
          tp_get_touch (tp_position_fake_touches tp) i = tp_get_touch tp i)) ∧
    ((∀ k, k < tp.num_slots → (tp_get_touch tp k).state = .TOUCH_END ∨
        (tp_get_touch tp k).state = .TOUCH_NONE) →
      tp_find_topmost tp = none ∧ (tp_position_fake_touches tp).touches = tp.touches) := by
  have hspec := tp_find_topmost_fold tp tp.num_slots
  have hc : ¬ (tp_fake_finger_count tp ≤ tp.num_slots ∨ tp.nfingers_down = 0) := by
    intro h
    rcases h with h | h <;> omega
  refine ⟨?_, ?_⟩
  · rintro ⟨k, hk, hnk⟩
    cases ht : tp_find_topmost tp with
    | none =>
      exact absurd (hspec.1.1 ht k hk) hnk
    | some j =>
      obtain ⟨h1, h2, h3⟩ := hspec.2 j ht
      have e : tp_position_fake_touches tp =
          tp_loop (if tp.has_mt then tp.num_slots else 1) tp.ntouches (fun i tp =>
            if (tp_get_touch tp i).state = .TOUCH_NONE then tp
            else
              tp.modify i (fun t =>
                { t with
                  point := (tp_get_touch tp j).point,
                  dirty := if !t.dirty then (tp_get_touch tp j).dirty else t.dirty })) tp := by
        unfold tp_position_fake_touches
        rw [if_neg hc, ht]
      have hl := tp_position_fake_touches_loop tp j (if tp.has_mt then tp.num_slots else 1)
      refine ⟨j, rfl, h1, h2, h3, ?_, ?_⟩
      · intro i hi1 hi2 hi3
        rw [e]
        exact hl.1 i hi1 hi2 hi3
      · intro i hi
        rw [e]
        exact hl.2 i hi
  · intro hall
    have ht := hspec.1.2 hall
    refine ⟨ht, ?_⟩
    unfold tp_position_fake_touches
    rw [if_neg hc]
    have ht2 : tp_find_topmost tp = none := ht
    rw [ht2]
    rfl

/-- Witness for C33: on `tp_example_fake_third_finger` the top-most real touch is
slot 1, and the synthetic touch gets its point. -/
theorem c33_position_fake_touches_witness :
    tp_find_topmost tp_example_fake_third_finger = some 1 ∧
    (tp_get_touch (tp_position_fake_touches tp_example_fake_third_finger) 2).point =
      ⟨700, 400⟩ := by
  obtain ⟨j, hj, _, _, _, hcopy, _⟩ :=
    (c33_position_fake_touches tp_example_fake_third_finger (by decide) (by decide)).1
      ⟨0, by decide, by decide⟩
  have h1 : tp_find_topmost tp_example_fake_third_finger = some 1 := by decide
  have e : j = 1 := Option.some.inj (hj.symm.trans h1)
  subst e
  exact ⟨h1, hcopy 2 (by decide) (by decide) (by decide)⟩

/-! ## The motion history ring -/

/-- A history with the points pushed since the last reset: the index is in
the ring, the count is the number of those points capped at the ring length,
and the sample at each offset below the count is the point pushed that many
pushes ago. -/
theorem tp_history_trace_spec (h : tp_history) (l : List device_coords)
    (ht : tp_history_trace h l) :
    h.index < TOUCHPAD_HISTORY_LENGTH ∧ h.count = min l.length TOUCHPAD_HISTORY_LENGTH ∧
    ∀ j, j < h.count →
      some (h.samples.get (((h.index : Int) - (j : Int) + (TOUCHPAD_HISTORY_LENGTH : Int)) %
        (TOUCHPAD_HISTORY_LENGTH : Int)).toNat) = l[j]? := by
  induction ht with
  | init =>
    refine ⟨by decide, rfl, ?_⟩
    intro j hj
    exact absurd hj (Nat.not_lt_zero j)
  | push t l _ ih =>
    obtain ⟨h1, h2, h3⟩ := ih
    simp only [TOUCHPAD_HISTORY_LENGTH] at h1 h2 h3
    have hm : (t.history.index + 1) % 4 < 4 := Nat.mod_lt _ (by decide)
    have hc : t.history.count ≤ 4 := by rw [h2]; exact min_le_right _ _
    refine ⟨hm, ?_, ?_⟩
    · simp only [tp_motion_history_push, TOUCHPAD_HISTORY_LENGTH, List.length_cons]
      split_ifs <;> omega
    · intro j hj
      simp only [tp_motion_history_push, TOUCHPAD_HISTORY_LENGTH] at hj ⊢
      have hj4 : j < 4 := by split_ifs at hj <;> omega
      rcases Nat.eq_zero_or_pos j with h0 | hpos
      · subst h0
        generalize t.history.index = i at h1 h3 hm ⊢
        interval_cases i <;> simp [tp_samples.get, tp_samples.set]
      · have hj1 : j - 1 < t.history.count := by split_ifs at hj <;> omega
        have := h3 (j - 1) hj1
        have hl : (t.point :: l)[j]? = l[j - 1]? := by
          obtain ⟨k, rfl⟩ : ∃ k, j = k + 1 := ⟨j - 1, by omega⟩
          simp
        rw [hl, ← this]
        generalize t.history.index = i at h1 h3 hm this ⊢
        interval_cases i <;> interval_cases j <;> simp [tp_samples.get, tp_samples.set]
  | reset t l _ ih =>
    refine ⟨ih.1, rfl, ?_⟩
    intro j hj
    exact absurd hj (Nat.not_lt_zero j)

theorem tp_touch_history_ok_congr (t t' : tp_touch) (h : t'.history = t.history)
    (ht : tp_touch_history_ok t) : tp_touch_history_ok t' := by
  unfold tp_touch_history_ok at ht ⊢
  rw [h]; exact ht

theorem tp_touch_history_ok_reset (t : tp_touch) (ht : tp_touch_history_ok t) :
    tp_touch_history_ok (tp_motion_history_reset t) := by
  obtain ⟨l, hl⟩ := ht
  exact ⟨[], tp_history_trace.reset t l hl⟩

theorem tp_touch_history_ok_push (t : tp_touch) (ht : tp_touch_history_ok t) :
    tp_touch_history_ok (tp_motion_history_push t) := by
  obtain ⟨l, hl⟩ := ht
  exact ⟨t.point :: l, tp_history_trace.push t l hl⟩

theorem tp_hinv_modify (tp : tp_dispatch) (i : Nat) (f : tp_touch → tp_touch)
    (hf : ∀ t, tp_touch_history_ok t → tp_touch_history_ok (f t)) (h : tp_hinv tp) :
    tp_hinv (tp.modify i f) := by
  show ∀ t ∈ tp_modify_touch _ i tp.touches, tp_touch_history_ok t
  exact tp_modify_touch_all _ _ hf i tp.touches h

theorem tp_hinv_modify_same (tp : tp_dispatch) (i : Nat) (f : tp_touch → tp_touch)
    (hf : ∀ t, (f t).history = t.history) (h : tp_hinv tp) :
    tp_hinv (tp.modify i f) :=
  tp_hinv_modify tp i f (fun t ht => tp_touch_history_ok_congr t (f t) (hf t) ht) h

theorem tp_hinv_of_touches (tp tp' : tp_dispatch) (he : tp'.touches = tp.touches)
    (h : tp_hinv tp) : tp_hinv tp' := by
  unfold tp_hinv
  rw [he]; exact h

theorem tp_hinv_call (tp : tp_dispatch) (c : tp_call) (h : tp_hinv tp) :
    tp_hinv (tp.call c) := h

theorem tp_hinv_of_core (tp tp' : tp_dispatch) (hc : tp_core tp' = tp_core tp)
    (h : tp_hinv tp) : tp_hinv tp' := by
  apply tp_touches_of_core _ _ hc _ _ h
  intro t t' he ht
  have e : t'.history = t.history := by
    have := congrArg tp_touch.history he; exact this
  exact tp_touch_history_ok_congr t t' e ht

theorem tp_new_touch_hinv (tp : tp_dispatch) (i time : Nat) (h : tp_hinv tp) :
    tp_hinv (tp_new_touch tp i time) := by
  unfold tp_new_touch
  simp only []
  split_ifs
  · exact h
  · show ∀ t ∈ tp_modify_touch _ i tp.touches, tp_touch_history_ok t
    refine tp_modify_touch_all _ _ ?_ i tp.touches h
    intro t ht
    exact tp_touch_history_ok_congr (tp_motion_history_reset t) _ rfl
      (tp_touch_history_ok_reset t ht)

theorem tp_begin_touch_hinv (tp : tp_dispatch) (i time : Nat) (h : tp_hinv tp) :
    tp_hinv (tp_begin_touch tp i time) := by
  unfold tp_begin_touch
  show ∀ t ∈ tp_modify_touch _ i tp.touches, tp_touch_history_ok t
  refine tp_modify_touch_all _ _ ?_ i tp.touches h
  intro t ht
  exact tp_touch_history_ok_congr t _ rfl ht

theorem tp_end_touch_hinv (tp : tp_dispatch) (i time : Nat) (h : tp_hinv tp) :
    tp_hinv (tp_end_touch tp i time) := by
  unfold tp_end_touch
  split
  · exact tp_hinv_modify_same _ _ _ (fun _ => rfl) h
  · exact h
  · exact h
  · show ∀ t ∈ tp_modify_touch _ i tp.touches, tp_touch_history_ok t
    refine tp_modify_touch_all _ _ ?_ i tp.touches h
    intro t ht
    exact tp_touch_history_ok_congr t _ rfl ht

theorem tp_end_sequence_hinv (tp : tp_dispatch) (i time : Nat) (h : tp_hinv tp) :
    tp_hinv (tp_end_sequence tp i time) := by
  unfold tp_end_sequence
  apply tp_end_touch_hinv
  exact tp_hinv_modify_same _ _ _ (fun _ => rfl) h

theorem tp_hinv_modify_queued (tp : tp_dispatch) (i : Nat) (f : tp_touch → tp_touch) (q : Nat)
    (hf : ∀ t, (f t).history = t.history) (h : tp_hinv tp) :
    tp_hinv { tp.modify i f with queued := q } :=
  tp_hinv_of_touches (tp.modify i f) _ rfl (tp_hinv_modify_same tp i f hf h)

theorem tp_process_absolute_hinv (tp : tp_dispatch) (code : Nat) (value : Int) (time : Nat)
    (h : tp_hinv tp) : tp_hinv (tp_process_absolute tp code value time) := by
  unfold tp_process_absolute
  simp only []
  split_ifs
  · exact tp_hinv_modify_queued _ _ _ _ (fun _ => rfl) h
  · exact tp_hinv_modify_queued _ _ _ _ (fun _ => rfl) h
  · exact h
  · exact tp_hinv_modify_same _ _ _ (fun _ => rfl) h
  · exact tp_new_touch_hinv _ _ _ h
  · exact tp_end_sequence_hinv _ _ _ h
  · exact tp_hinv_modify_queued _ _ _ _ (fun _ => rfl) h
  · exact h

theorem tp_process_absolute_st_hinv (tp : tp_dispatch) (code : Nat) (value : Int) (time : Nat)
    (h : tp_hinv tp) : tp_hinv (tp_process_absolute_st tp code value time) := by
  unfold tp_process_absolute_st
  simp only []
  split_ifs
  · exact tp_hinv_modify_queued _ _ _ _ (fun _ => rfl) h
  · exact tp_hinv_modify_queued _ _ _ _ (fun _ => rfl) h
  · exact h

theorem tp_process_key_hinv (p : tp_peers) (tp : tp_dispatch) (code : Nat) (value : Int)
    (time : Nat) (h : tp_hinv tp) : tp_hinv (tp_process_key p tp code value time) :=
  tp_hinv_of_touches tp _ (tp_process_key_touches p tp code value time).1 h

theorem tp_restore_synaptics_touches_hinv (tp : tp_dispatch) (time : Nat) (h : tp_hinv tp) :
    tp_hinv (tp_restore_synaptics_touches tp time) := by
  unfold tp_restore_synaptics_touches
  simp only []
  split_ifs
  · exact h
  · exact h
  · apply tp_loop_inv tp_hinv _ _ _ _ _ h
    intro i s hs
    by_cases he : (tp_get_touch s i).state = .TOUCH_END
    · simp only [he, ne_eq, not_true_eq_false, if_false]
      exact tp_hinv_modify_same _ _ _ (fun _ => rfl)
        (tp_begin_touch_hinv _ i time (tp_new_touch_hinv s i time hs))
    · simp only [ne_eq, he, not_false_eq_true, if_true]
      exact hs

theorem tp_process_fake_touches_hinv (tp : tp_dispatch) (time : Nat) (h : tp_hinv tp) :
    tp_hinv (tp_process_fake_touches tp time) := by
  have hbody : ∀ (nf i : Nat) (s : tp_dispatch), tp_hinv s →
      tp_hinv (if i < nf then tp_new_touch s i time else tp_end_sequence s i time) := by
    intro nf i s hs
    split_ifs
    · exact tp_new_touch_hinv _ _ _ hs
    · exact tp_end_sequence_hinv _ _ _ hs
  unfold tp_process_fake_touches
  simp only []
  split_ifs <;> first
    | exact h
    | exact tp_loop_inv tp_hinv _ (hbody _) _ _ _ h
    | exact tp_loop_inv tp_hinv _ (hbody _) _ _ _ (tp_restore_synaptics_touches_hinv tp time h)

theorem tp_unhover_abs_distance_hinv (tp : tp_dispatch) (time : Nat) (h : tp_hinv tp) :
    tp_hinv (tp_unhover_abs_distance tp time) := by
  unfold tp_unhover_abs_distance
  apply tp_loop_inv tp_hinv _ _ _ _ _ h
  intro i s hs
  simp only []
  split_ifs
  · exact tp_begin_touch_hinv _ _ _
      (tp_hinv_modify _ _ _ (fun t ht => tp_touch_history_ok_reset t ht) hs)
  · exact hs
  · exact tp_end_touch_hinv _ _ _ hs
  · exact hs

theorem tp_unhover_fake_touches_hinv (tp : tp_dispatch) (time : Nat) (h : tp_hinv tp) :
    tp_hinv (tp_unhover_fake_touches tp time) := by
  unfold tp_unhover_fake_touches
  simp only []
  have hloop1 : ∀ (nf : Nat) (l : List Nat) (s : tp_dispatch), tp_hinv s →
      tp_hinv (tp_loop_list (fun i tp =>
            if (tp_get_touch tp i).state = .TOUCH_HOVERING then
              (tp_begin_touch tp i time,
                decide ((tp_begin_touch tp i time).nfingers_down ≥ nf))
            else (tp, false)) l s) := by
    intro nf l s hs
    apply tp_loop_list_inv tp_hinv _ _ _ _ hs
    intro i s hs
    split_ifs with h1
    · exact tp_begin_touch_hinv _ _ _ hs
    · exact hs
  have hloop2 : ∀ (nf : Nat) (l : List Nat) (s : tp_dispatch), tp_hinv s →
      tp_hinv (tp_loop_list (fun i tp =>
          if (tp_get_touch tp i).state = .TOUCH_HOVERING ∨
              (tp_get_touch tp i).state = .TOUCH_NONE then (tp, false)
          else
            (tp_end_touch tp i time,
              tp_fake_finger_is_touching (tp_end_touch tp i time) &&
                decide ((tp_end_touch tp i time).nfingers_down = nf))) l s) := by
    intro nf l s hs
    apply tp_loop_list_inv tp_hinv _ _ _ _ hs
    intro i s hs
    split_ifs with h1
    · exact hs
    · exact tp_end_touch_hinv _ _ _ hs
  split_ifs
  · exact h
  · exact h
  · exact h
  · exact hloop2 _ _ _ (hloop1 _ _ _ h)
  · exact hloop1 _ _ _ h
  · exact hloop2 _ _ _ h
  · exact h

theorem tp_unhover_touches_hinv (tp : tp_dispatch) (time : Nat) (h : tp_hinv tp) :
    tp_hinv (tp_unhover_touches tp time) := by
  unfold tp_unhover_touches
  split_ifs
  · exact tp_unhover_abs_distance_hinv _ _ h
  · exact tp_unhover_fake_touches_hinv _ _ h

theorem tp_position_fake_touches_hinv (tp : tp_dispatch) (h : tp_hinv tp) :
    tp_hinv (tp_position_fake_touches tp) := by
  have hbody : ∀ (top i : Nat) (s : tp_dispatch), tp_hinv s →
      tp_hinv (if (tp_get_touch s i).state = .TOUCH_NONE then s
        else s.modify i (fun t =>
          { t with
            point := (tp_get_touch s top).point,
            dirty := if !t.dirty then (tp_get_touch s top).dirty else t.dirty })) := by
    intro top i s hs
    split_ifs
    · exact hs
    · exact tp_hinv_modify_same _ _ _ (fun _ => rfl) hs
  unfold tp_position_fake_touches
  split_ifs <;> first
    | exact h
    | (split
       · exact h
       · exact tp_loop_inv tp_hinv _ (hbody _) _ _ _ h)

theorem tp_process_touch_hinv (p : tp_peers) (tp : tp_dispatch) (w : Bool) (t : tp_touch)
    (time : Nat) (ht : tp_touch_history_ok t) :
    tp_touch_history_ok (tp_process_touch p tp w t time).1 := by
  obtain ⟨t0, h0, h⟩ := tp_process_touch_history p tp w t time
  have ok0 : tp_touch_history_ok t0 := by
    split_ifs at h0
    · exact tp_touch_history_ok_congr _ _ h0 (tp_touch_history_ok_reset t ht)
    · exact tp_touch_history_ok_congr _ _ h0 ht
  rcases h with h | ⟨t1, h1, h⟩
  · exact tp_touch_history_ok_congr _ _ h ok0
  · exact tp_touch_history_ok_congr _ _ h
      (tp_touch_history_ok_push t1 (tp_touch_history_ok_congr _ _ h1 ok0))

theorem tp_process_touches_hinv (p : tp_peers) (tp : tp_dispatch) (time : Nat)
    (h : tp_hinv tp) : tp_hinv (tp_process_touches p tp time) := by
  have hloop : ∀ (w : Bool) (n : Nat) (s : tp_dispatch), tp_hinv s →
      tp_hinv (tp_loop 0 n (fun i tp =>
        tp.modify i (fun t => (tp_process_touch p tp w t time).1)) s) := by
    intro w n s hs
    apply tp_loop_inv tp_hinv _ _ _ _ _ hs
    intro i s hs
    exact tp_hinv_modify _ _ _ (fun t ht => tp_process_touch_hinv p s w t time ht) hs
  unfold tp_process_touches
  simp only []
  split_ifs
  · exact tp_hinv_call _ _ (hloop _ _ _ h)
  · exact hloop _ _ _ h

theorem tp_pin_fingers_hinv (tp : tp_dispatch) (h : tp_hinv tp) :
    tp_hinv (tp_pin_fingers tp) := by
  unfold tp_pin_fingers
  apply tp_for_each_touch_inv tp_hinv _ _ _ h
  intro i s hs
  exact tp_hinv_modify_same _ _ _ (fun _ => rfl) hs

theorem tp_process_state_hinv (p : tp_peers) (tp : tp_dispatch) (time : Nat)
    (h : tp_hinv tp) : tp_hinv (tp_process_state p tp time) := by
  have h1 : tp_hinv (((tp_process_touches p (tp_position_fake_touches
      (tp_unhover_touches (tp_process_fake_touches tp time) time)) time).call
        (.tp_button_handle_state time)).call (.tp_edge_scroll_handle_state time)) :=
    tp_hinv_call _ _ (tp_hinv_call _ _
      (tp_process_touches_hinv p _ time (tp_position_fake_touches_hinv _
        (tp_unhover_touches_hinv _ time (tp_process_fake_touches_hinv tp time h)))))
  have h2 : tp_hinv (tp_process_state_pre p tp time) := by
    unfold tp_process_state_pre
    simp only []
    split_ifs
    · exact tp_pin_fingers_hinv _ h1
    · exact h1
  unfold tp_process_state
  exact tp_hinv_of_touches _ _ (tp_gesture_handle_state_touches p _ time) h2

theorem tp_post_process_state_hinv (tp : tp_dispatch) (time : Nat) (h : tp_hinv tp) :
    tp_hinv (tp_post_process_state tp time) := by
  unfold tp_post_process_state
  simp only []
  refine tp_hinv_of_touches _ _ rfl (tp_for_each_touch_inv tp_hinv _ ?_ _ h)
  intro i s hs
  refine tp_hinv_modify _ _ _ ?_ hs
  intro t ht
  refine tp_touch_history_ok_congr t _ ?_ ht
  split_ifs <;> rfl

theorem tp_handle_state_hinv (p : tp_peers) (tp : tp_dispatch) (time : Nat)
    (h : tp_hinv tp) : tp_hinv (tp_handle_state p tp time) := by
  unfold tp_handle_state
  apply tp_post_process_state_hinv
  apply tp_hinv_of_core _ _ (tp_post_events_core _ _ _)
  exact tp_process_state_hinv p tp time h

theorem tp_clear_state_hinv (p : tp_peers) (tp : tp_dispatch) (now : Nat)
    (h : tp_hinv tp) : tp_hinv (tp_clear_state p tp now) := by
  unfold tp_clear_state
  have hp0 : tp_hinv ((({ tp with
          buttons.state := (p.tp_release_all_buttons tp.buttons.state tp.queued).1,
          queued := (p.tp_release_all_buttons tp.buttons.state tp.queued).2 } :
          tp_dispatch).call (.tp_release_all_buttons now)).call (.tp_release_all_taps now)) := h
  have hp1 := tp_for_each_touch_inv tp_hinv (fun i tp => tp_end_sequence tp i now)
    (fun i s hs => tp_end_sequence_hinv _ _ _ hs) _ hp0
  exact tp_handle_state_hinv p _ now (tp_hinv_of_touches _ _ rfl hp1)

theorem tp_step_hinv (p : tp_peers) (tp : tp_dispatch) (input : tp_input)
    (h : tp_hinv tp) : tp_hinv (tp_step p tp input) := by
  cases input with
  | process type code value time =>
    show tp_hinv (tp_interface_process p tp type code value time)
    unfold tp_interface_process
    split_ifs
    · exact tp_process_absolute_hinv _ _ _ _ h
    · exact tp_process_absolute_st_hinv _ _ _ _ h
    · exact tp_process_key_hinv _ _ _ _ _ h
    · exact tp_handle_state_hinv _ _ _ h
    · exact h
  | keyboard_event time is_key pressed keycode =>
    exact tp_hinv_of_core _ _ (tp_keyboard_event_core _ _ _ _ _) h
  | trackpoint_event time is_button =>
    exact tp_hinv_of_core _ _ (tp_trackpoint_event_core _ _ _) h
  | finger_count_switch_timeout now =>
    exact tp_hinv_of_core _ _ (tp_gesture_finger_count_switch_timeout_core _ _) h
  | trackpoint_timeout now => exact h
  | keyboard_timeout now => exact h
  | clear_state now => exact tp_clear_state_hinv _ _ _ h
  | set_suspended b => exact h
  | set_trackpoint b => exact h
  | keyboard_added => exact h
  | set_scroll_method method time =>
    exact tp_hinv_of_core _ _ (tp_scroll_config_scroll_method_set_method_core _ _ _) h
  | dwt_config_set enable => exact h

theorem tp_initial_hinv (tp : tp_dispatch) (h : tp_initial tp) : tp_hinv tp := by
  obtain ⟨_, _, _, _, h5, _⟩ := h
  intro t ht
  rw [h5 t ht]
  exact ⟨[], tp_history_trace.init⟩

theorem reachable_hinv (tp : tp_dispatch) (h : Reachable tp) : tp_hinv tp := by
  induction h with
  | init tp h0 => exact tp_initial_hinv tp h0
  | step p tp input hr ih => exact tp_step_hinv p tp input ih

theorem tp_gesture_start_fc (tp : tp_dispatch) (time : Nat) :
    (tp_gesture_start tp time).gesture.finger_count = tp.gesture.finger_count := by
  unfold tp_gesture_start
  split_ifs
  · rfl
  · cases tp.gesture.state <;> rfl

theorem tp_gesture_end_fc (tp : tp_dispatch) (time : Nat) (cancelled : Bool) :
    (tp_gesture_end tp time cancelled).gesture.finger_count = tp.gesture.finger_count ∧
    (tp_gesture_end tp time cancelled).gesture.finger_count_pending =
      tp.gesture.finger_count_pending := by
  unfold tp_gesture_end tp_gesture_stop_twofinger_scroll
  cases hst : tp.gesture.started <;> cases hs : tp.gesture.state <;>
    by_cases hm : tp.scroll_method = .LIBINPUT_CONFIG_SCROLL_2FG <;>
    simp [hst, hs, hm, tp_dispatch.call]

theorem tp_gesture_handle_state_none_fc (p : tp_peers) (tp : tp_dispatch) (time : Nat) :
    (tp_gesture_handle_state_none p tp time).1.gesture.finger_count =
      tp.gesture.finger_count := by
  unfold tp_gesture_handle_state_none
  simp only []
  split_ifs <;> rfl

theorem tp_gesture_handle_state_unknown_fc (p : tp_peers) (tp : tp_dispatch) (time : Nat) :
    (tp_gesture_handle_state_unknown p tp time).1.gesture.finger_count =
      tp.gesture.finger_count := by
  unfold tp_gesture_handle_state_unknown
  simp only []
  split_ifs <;> rfl

theorem tp_gesture_handle_state_scroll_fc (p : tp_peers) (tp : tp_dispatch) (time : Nat) :
    (tp_gesture_handle_state_scroll p tp time).1.gesture.finger_count =
      tp.gesture.finger_count := by
  unfold tp_gesture_handle_state_scroll
  simp only []
  split_ifs <;> first
    | rfl
    | exact tp_gesture_start_fc tp time

theorem tp_gesture_handle_state_swipe_fc (p : tp_peers) (tp : tp_dispatch) (time : Nat) :
    (tp_gesture_handle_state_swipe p tp time).1.gesture.finger_count =
      tp.gesture.finger_count := by
  unfold tp_gesture_handle_state_swipe
  simp only []
  split_ifs <;> first
    | rfl
    | exact tp_gesture_start_fc tp time

theorem tp_gesture_handle_state_pinch_fc (p : tp_peers) (tp : tp_dispatch) (time : Nat) :
    (tp_gesture_handle_state_pinch p tp time).1.gesture.finger_count =
      tp.gesture.finger_count := by
  unfold tp_gesture_handle_state_pinch
  simp only []
  split_ifs <;> first
    | rfl
    | exact tp_gesture_start_fc _ time

theorem tp_gesture_post_gesture_step_fc (p : tp_peers) (time : Nat) (c : tp_gesture_state)
    (handler : tp_peers → tp_dispatch → Nat → tp_dispatch × tp_gesture_state)
    (hh : ∀ s, (handler p s time).1.gesture.finger_count = s.gesture.finger_count)
    (tp : tp_dispatch) :
    (tp_gesture_post_gesture_step p time c handler tp).gesture.finger_count =
      tp.gesture.finger_count := by
  unfold tp_gesture_post_gesture_step
  split_ifs
  · exact hh tp
  · rfl

theorem tp_gesture_post_gesture_fc (p : tp_peers) (tp : tp_dispatch) (time : Nat) :
    (tp_gesture_post_gesture p tp time).gesture.finger_count = tp.gesture.finger_count := by
  unfold tp_gesture_post_gesture
  simp only []
  rw [tp_gesture_post_gesture_step_fc _ _ _ _ (tp_gesture_handle_state_pinch_fc p · time),
    tp_gesture_post_gesture_step_fc _ _ _ _ (tp_gesture_handle_state_swipe_fc p · time),
    tp_gesture_post_gesture_step_fc _ _ _ _ (tp_gesture_handle_state_scroll_fc p · time),
    tp_gesture_post_gesture_step_fc _ _ _ _ (tp_gesture_handle_state_unknown_fc p · time),
    tp_gesture_post_gesture_step_fc _ _ _ _ (tp_gesture_handle_state_none_fc p · time)]

theorem tp_gesture_post_pointer_motion_gesture (p : tp_peers) (tp : tp_dispatch) (time : Nat) :
    (tp_gesture_post_pointer_motion p tp time).gesture = tp.gesture :=
  congrArg Prod.fst (tp_gesture_post_pointer_motion_gview p tp time)

/-- The finger count after `tp_gesture_post_events` is the one before, unless
the gesture was cancelled. -/
theorem tp_gesture_post_events_fc (p : tp_peers) (tp : tp_dispatch) (time : Nat) :
    (tp_gesture_post_events p tp time).gesture.finger_count = tp.gesture.finger_count ∨
    ((tp_gesture_post_events p tp time).gesture.state = .GESTURE_STATE_NONE ∧
      (tp_gesture_post_events p tp time).gesture.started = false) := by
  unfold tp_gesture_post_events
  simp only []
  have hc := tp_gesture_end_calls tp time true
  split_ifs with h0 h1 h2 h3 h4 h5 h6 h7
  · exact Or.inl rfl
  · exact Or.inr ⟨hc.1, hc.2.1⟩
  · right
    rw [tp_gesture_post_pointer_motion_gesture]
    exact ⟨hc.1, hc.2.1⟩
  · exact absurd rfl h3
  · exact absurd rfl h3
  · exact Or.inl rfl
  · left; rw [tp_gesture_post_pointer_motion_gesture]
  · left; exact tp_gesture_post_gesture_fc p tp time
  · exact Or.inl rfl

theorem tp_post_events_fc (p : tp_peers) (tp : tp_dispatch) (time : Nat) :
    (tp_post_events p tp time).gesture.finger_count = tp.gesture.finger_count ∨
    ((tp_post_events p tp time).gesture.state = .GESTURE_STATE_NONE ∧
      (tp_post_events p tp time).gesture.started = false) := by
  unfold tp_post_events
  simp only []
  split_ifs
  · exact Or.inl rfl
  · left
    exact (tp_gesture_end_fc _ time true).1
  · exact Or.inl rfl
  · exact tp_gesture_post_events_fc p _ time

/-- With a started gesture, `tp_gesture_handle_state` keeps the finger count
and the gesture, or ends the gesture and sets the finger count to 0. -/
theorem tp_gesture_handle_state_fc (p : tp_peers) (tp : tp_dispatch) (time : Nat)
    (hs : tp.gesture.started = true) :
    (tp_gesture_handle_state p tp time).gesture.finger_count = tp.gesture.finger_count ∨
    (tp_gesture_handle_state p tp time).gesture.finger_count = 0 := by
  unfold tp_gesture_handle_state
  simp only []
  split_ifs with h1 h2 h3 h4
  · exact Or.inr rfl
  · simp [hs] at h3
  · exact Or.inl rfl
  · exact Or.inl rfl
  · exact Or.inl rfl

theorem tp_handle_state_fc (p : tp_peers) (tp : tp_dispatch) (time : Nat)
    (hs : tp.gesture.started = true) :
    (tp_handle_state p tp time).gesture.finger_count = tp.gesture.finger_count ∨
    (tp_handle_state p tp time).gesture.finger_count = 0 ∨
    ((tp_handle_state p tp time).gesture.state = .GESTURE_STATE_NONE ∧
      (tp_handle_state p tp time).gesture.started = false) := by
  have hg : (tp_process_state_pre p tp time).gesture = tp.gesture :=
    congrArg Prod.fst (tp_process_state_pre_gview p tp time)
  have h1 := tp_gesture_handle_state_fc p (tp_process_state_pre p tp time) time
    (by rw [hg]; exact hs)
  rw [hg] at h1
  have h2 := tp_post_events_fc p (tp_process_state p tp time) time
  have h3 : (tp_handle_state p tp time).gesture =
      (tp_post_events p (tp_process_state p tp time) time).gesture :=
    congrArg Prod.fst (tp_post_process_state_gview _ time)
  rw [h3]
  have h1' : (tp_process_state p tp time).gesture.finger_count = tp.gesture.finger_count ∨
      (tp_process_state p tp time).gesture.finger_count = 0 := h1
  rcases h2 with h2 | h2
  · rcases h1' with h1' | h1'
    · exact Or.inl (h2.trans h1')
    · exact Or.inr (Or.inl (h2.trans h1'))
  · exact Or.inr (Or.inr h2)

theorem tp_end_sequence_gesture (tp : tp_dispatch) (i time : Nat) :
    (tp_end_sequence tp i time).gesture = tp.gesture :=
  congrArg Prod.fst (tp_end_sequence_gview tp i time)

theorem tp_interface_process_fc (p : tp_peers) (tp : tp_dispatch) (type code : Nat)
    (value : Int) (time : Nat) (hs : tp.gesture.started = true) :
    (tp_interface_process p tp type code value time).gesture.finger_count =
      tp.gesture.finger_count ∨
    (tp_interface_process p tp type code value time).gesture.finger_count = 0 ∨
    ((tp_interface_process p tp type code value time).gesture.state = .GESTURE_STATE_NONE ∧
      (tp_interface_process p tp type code value time).gesture.started = false) := by
  unfold tp_interface_process
  split_ifs
  · left
    exact congrArg (fun g => g.1.finger_count) (tp_process_absolute_gview tp code value time)
  · left
    exact congrArg (fun g => g.1.finger_count)
      (tp_process_absolute_st_gview tp code value time)
  · left
    exact congrArg (fun g => g.1.finger_count) (tp_process_key_gview p tp code value time)
  · exact tp_handle_state_fc p tp time hs
  · exact Or.inl rfl

theorem tp_gesture_finger_count_switch_timeout_fc (tp : tp_dispatch) (now : Nat) :
    (tp_gesture_finger_count_switch_timeout tp now).gesture.finger_count =
      tp.gesture.finger_count ∨
    (tp_gesture_finger_count_switch_timeout tp now).gesture.finger_count = 0 ∨
    ((tp_gesture_finger_count_switch_timeout tp now).gesture.state = .GESTURE_STATE_NONE ∧
      (tp_gesture_finger_count_switch_timeout tp now).gesture.started = false) := by
  unfold tp_gesture_finger_count_switch_timeout
  split_ifs
  · exact Or.inl rfl
  · have hc := tp_gesture_end_calls tp now true
    exact Or.inr (Or.inr ⟨hc.1, hc.2.1⟩)

theorem tp_clear_state_fc (p : tp_peers) (tp : tp_dispatch) (now : Nat)
    (hs : tp.gesture.started = true) :
    (tp_clear_state p tp now).gesture.finger_count = tp.gesture.finger_count ∨
    (tp_clear_state p tp now).gesture.finger_count = 0 ∨
    ((tp_clear_state p tp now).gesture.state = .GESTURE_STATE_NONE ∧
      (tp_clear_state p tp now).gesture.started = false) := by
  unfold tp_clear_state
  have h1 := tp_for_each_touch_inv (fun s => s.gesture = tp.gesture)
    (fun i tp => tp_end_sequence tp i now)
    (fun i s hs => (tp_end_sequence_gesture s i now).trans hs)
    ((({ tp with
        buttons.state := (p.tp_release_all_buttons tp.buttons.state tp.queued).1,
        queued := (p.tp_release_all_buttons tp.buttons.state tp.queued).2 } :
        tp_dispatch).call (.tp_release_all_buttons now)).call (.tp_release_all_taps now))
    rfl
  have h2 := tp_handle_state_fc p (tp_release_fake_touches (tp_for_each_touch
    ((({ tp with
        buttons.state := (p.tp_release_all_buttons tp.buttons.state tp.queued).1,
        queued := (p.tp_release_all_buttons tp.buttons.state tp.queued).2 } :
        tp_dispatch).call (.tp_release_all_buttons now)).call (.tp_release_all_taps now))
    (fun i tp => tp_end_sequence tp i now))) now
    (by
      show (tp_for_each_touch _ _).gesture.started = true
      rw [h1]; exact hs)
  have h3 : (tp_release_fake_touches (tp_for_each_touch
    ((({ tp with
        buttons.state := (p.tp_release_all_buttons tp.buttons.state tp.queued).1,
        queued := (p.tp_release_all_buttons tp.buttons.state tp.queued).2 } :
        tp_dispatch).call (.tp_release_all_buttons now)).call (.tp_release_all_taps now))
    (fun i tp => tp_end_sequence tp i now))).gesture.finger_count =
      tp.gesture.finger_count := by
    show (tp_for_each_touch _ _).gesture.finger_count = _
    rw [h1]
  rw [h3] at h2
  exact h2

theorem tp_step_fc (p : tp_peers) (tp : tp_dispatch) (input : tp_input)
    (hs : tp.gesture.started = true) :
    (tp_step p tp input).gesture.finger_count = tp.gesture.finger_count ∨
    (tp_step p tp input).gesture.finger_count = 0 ∨
    ((tp_step p tp input).gesture.state = .GESTURE_STATE_NONE ∧
      (tp_step p tp input).gesture.started = false) := by
  cases input with
  | process type code value time => exact tp_interface_process_fc p tp type code value time hs
  | keyboard_event time is_key pressed keycode =>
    left
    show (tp_keyboard_event tp time is_key pressed keycode).gesture.finger_count = _
    unfold tp_keyboard_event
    simp only []
    split_ifs <;> first
      | rfl
      | exact (tp_gesture_end_fc _ time true).1
  | trackpoint_event time is_button =>
    left
    show (tp_trackpoint_event tp time is_button).gesture.finger_count = _
    unfold tp_trackpoint_event
    simp only []
    split_ifs <;> first
      | rfl
      | exact (tp_gesture_end_fc _ time true).1
  | finger_count_switch_timeout now => exact tp_gesture_finger_count_switch_timeout_fc tp now
  | trackpoint_timeout now => exact Or.inl rfl
  | keyboard_timeout now => exact Or.inl rfl
  | clear_state now => exact tp_clear_state_fc p tp now hs
  | set_suspended b => exact Or.inl rfl
  | set_trackpoint b => exact Or.inl rfl
  | keyboard_added => exact Or.inl rfl
  | set_scroll_method method time =>
    left
    show (tp_scroll_config_scroll_method_set_method tp method time).gesture.finger_count = _
    unfold tp_scroll_config_scroll_method_set_method tp_gesture_stop_twofinger_scroll
    simp only []
    split_ifs <;> rfl
  | dwt_config_set enable => exact Or.inl rfl

/-- C39, as the source has it: `tp_gesture_handle_state_unknown` selects
SCROLL only when `gesture.finger_count` is 2, and in a reachable state with a
started gesture every input that changes `gesture.finger_count` leaves the
gesture ended (`gesture.state` NONE, `started` false): a started gesture is
never carried over to another finger count. -/
theorem c39_gesture_finger_count (p : tp_peers) (tp : tp_dispatch) (hr : Reachable tp) :
    (∀ time, (tp_gesture_handle_state_unknown p tp time).2 = .GESTURE_STATE_SCROLL →
      tp.gesture.finger_count = 2) ∧
    (∀ input, tp.gesture.started = true →
      (tp_step p tp input).gesture.finger_count ≠ tp.gesture.finger_count →
      (tp_step p tp input).gesture.state = .GESTURE_STATE_NONE ∧
      (tp_step p tp input).gesture.started = false) := by
  refine ⟨?_, ?_⟩
  · intro time h
    unfold tp_gesture_handle_state_unknown at h
    simp only [] at h
    split_ifs at h with h1 h2 h3 h4 h5 h6 h7
    · exact h1.1
    · exact h5
  · intro input hs hne
    have hg := reachable_ginv _ (Reachable.step p tp input hr)
    rcases tp_step_fc p tp input hs with h | h | h
    · exact absurd h hne
    · have hn := hg.1 h
      refine ⟨hn, ?_⟩
      cases hst : (tp_step p tp input).gesture.started with
      | false => rfl
      | true =>
        rcases hg.2.1 hst with e | e | e <;> rw [hn] at e <;> cases e
    · exact h

/-- Witness for C39: a started two-finger scroll on `tp_example` during which
a third finger is put down; when the switch timer expires the finger count
becomes 3 and the gesture is ended. -/
theorem c39_gesture_finger_count_witness :
    Reachable (tp_run tp_example_peers tp_example tp_example_scroll_then_third_finger) ∧
    (tp_run tp_example_peers tp_example
      tp_example_scroll_then_third_finger).gesture.started = true ∧
    (tp_step tp_example_peers
      (tp_run tp_example_peers tp_example tp_example_scroll_then_third_finger)
      (.finger_count_switch_timeout 160000)).gesture.finger_count ≠
      (tp_run tp_example_peers tp_example
        tp_example_scroll_then_third_finger).gesture.finger_count ∧
    (tp_step tp_example_peers
      (tp_run tp_example_peers tp_example tp_example_scroll_then_third_finger)
      (.finger_count_switch_timeout 160000)).gesture.state = .GESTURE_STATE_NONE ∧
    (tp_step tp_example_peers
      (tp_run tp_example_peers tp_example tp_example_scroll_then_third_finger)
      (.finger_count_switch_timeout 160000)).gesture.started = false :=
  ⟨reachable_run _ _ _ (Reachable.init _ (by decide)), by decide!, by decide!,
    (c39_gesture_finger_count tp_example_peers _
      (reachable_run tp_example_peers tp_example_scroll_then_third_finger _
        (Reachable.init tp_example (by decide)))).2
      (.finger_count_switch_timeout 160000) (by decide!) (by decide!)⟩

/-- C39 counterexample: two fingers rest on `tp_example` for more than the
two-finger scroll timeout, which selects SCROLL without starting the gesture;
a third finger then switches `finger_count` to 3 at once, and the gesture state
SCROLL is kept and processed: the run ends in SCROLL with `finger_count` 3, and
when the fingers move a scroll event is posted with `finger_count` 3. -/
theorem c39_scroll_with_three_fingers :
    Reachable (tp_run tp_example_peers tp_example
      (tp_example_rest_then_third_finger ++ [.process EV_SYN 0 0 700000])) ∧
    (tp_run tp_example_peers tp_example
      tp_example_rest_then_third_finger).gesture.finger_count = 2 ∧
    (tp_run tp_example_peers tp_example
      (tp_example_rest_then_third_finger ++ [.process EV_SYN 0 0 700000])).gesture.state =
      .GESTURE_STATE_SCROLL ∧
    (tp_run tp_example_peers tp_example
      (tp_example_rest_then_third_finger ++
        [.process EV_SYN 0 0 700000])).gesture.finger_count = 3 ∧
    (tp_run tp_example_peers tp_example tp_example_three_finger_scroll).sink.getLast? =
      some (.evdev_post_scroll 740000 ⟨0, 39 / 2⟩) ∧
    (tp_run tp_example_peers tp_example
      tp_example_three_finger_scroll).gesture.finger_count = 3 :=
  ⟨reachable_run _ _ _ (Reachable.init _ (by decide)), by decide!, by decide!, by decide!,
    by decide!, by decide!⟩

theorem tp_gesture_handle_state_unknown_pinch_init (p : tp_peers) (tp : tp_dispatch)
    (time : Nat)
    (hc : (tp_gesture_handle_state_unknown p tp time).2 = .GESTURE_STATE_PINCH) :
    (tp_gesture_handle_state_unknown p tp time).1 = tp_gesture_init_pinch p tp := by
  unfold tp_gesture_handle_state_unknown at hc ⊢
  simp only [] at hc ⊢
  split_ifs at hc ⊢ <;> rfl

theorem tp_gesture_handle_state_pinch_initial_distance (p : tp_peers) (tp : tp_dispatch)
    (time : Nat) :
    (tp_gesture_handle_state_pinch p tp time).1.gesture.initial_distance =
      tp.gesture.initial_distance := by
  unfold tp_gesture_handle_state_pinch
  simp only []
  split_ifs
  · rfl
  · show (tp_gesture_start _ time).gesture.initial_distance = _
    unfold tp_gesture_start
    split_ifs
    · rfl
    · cases tp.gesture.state <;> rfl

/-- The distance that `tp_gesture_init_pinch` stores is zero exactly when the
two representative touches are at the same point. -/
theorem tp_gesture_init_pinch_distance (p : tp_peers) (tp : tp_dispatch)
    (hh0 : ∀ x y, 0 ≤ p.hypot x y) (hh1 : ∀ x y, p.hypot x y = 0 ↔ x = 0 ∧ y = 0)
    (hx : tp.accel.x_scale_coeff ≠ 0) (hy : tp.accel.y_scale_coeff ≠ 0) :
    0 ≤ (tp_gesture_init_pinch p tp).gesture.initial_distance ∧
    (0 < (tp_gesture_init_pinch p tp).gesture.initial_distance ↔
      (tp_get_touch tp tp.gesture.touches0).point ≠
        (tp_get_touch tp tp.gesture.touches1).point) := by
  have e : (tp_gesture_init_pinch p tp).gesture.initial_distance =
      p.hypot
        ((((tp_get_touch tp tp.gesture.touches0).point.x -
            (tp_get_touch tp tp.gesture.touches1).point.x : Int) : ℚ) *
          tp.accel.x_scale_coeff)
        ((((tp_get_touch tp tp.gesture.touches0).point.y -
            (tp_get_touch tp tp.gesture.touches1).point.y : Int) : ℚ) *
          tp.accel.y_scale_coeff) := rfl
  rw [e]
  refine ⟨hh0 _ _, ?_⟩
  rw [lt_iff_le_and_ne]
  constructor
  · rintro ⟨_, hne⟩ heq
    apply hne
    symm
    rw [hh1, heq]
    simp
  · intro hne
    refine ⟨hh0 _ _, fun h0 => hne ?_⟩
    have h := (hh1 _ _).1 h0.symm
    have h1 : (tp_get_touch tp tp.gesture.touches0).point.x =
        (tp_get_touch tp tp.gesture.touches1).point.x := by
      have := (mul_eq_zero.1 h.1).resolve_right hx
      have := Int.cast_eq_zero.1 this
      omega
    have h2 : (tp_get_touch tp tp.gesture.touches0).point.y =
        (tp_get_touch tp tp.gesture.touches1).point.y := by
      have := (mul_eq_zero.1 h.2).resolve_right hy
      have := Int.cast_eq_zero.1 this
      omega
    cases hp0 : (tp_get_touch tp tp.gesture.touches0).point with
    | mk x0 y0 =>
      cases hp1 : (tp_get_touch tp tp.gesture.touches1).point with
      | mk x1 y1 =>
        rw [hp0, hp1] at h1 h2
        simp only at h1 h2
        rw [h1, h2]

/-- The initial distance of a pinch at its commit: when
`tp_gesture_handle_state_unknown` commits to PINCH it runs `tp_gesture_init_pinch`, which stores in
`gesture.initial_distance` the distance between the two representative
touches; `tp_gesture_handle_state_pinch` does not change it. With a `hypot`
that is non-negative and zero only at the origin and non-zero scale
coefficients, the stored distance is non-negative, and it is strictly positive
exactly when the two touches are at different points, which is so when the
commit is the one for a vertical distance of more than 20 mm. -/
theorem tp_gesture_pinch_commit_initial_distance (p : tp_peers) (tp : tp_dispatch) (time : Nat)
    (hh0 : ∀ x y, 0 ≤ p.hypot x y) (hh1 : ∀ x y, p.hypot x y = 0 ↔ x = 0 ∧ y = 0)
    (hx : tp.accel.x_scale_coeff ≠ 0) (hy : tp.accel.y_scale_coeff ≠ 0)
    (hc : (tp_gesture_handle_state_unknown p tp time).2 = .GESTURE_STATE_PINCH) :
    (tp_gesture_handle_state_unknown p tp time).1 = tp_gesture_init_pinch p tp ∧
    (tp_gesture_handle_state_unknown p tp time).1.gesture.initial_distance =
      (tp_gesture_get_pinch_info p tp).1 ∧
    0 ≤ (tp_gesture_handle_state_unknown p tp time).1.gesture.initial_distance ∧
    (0 < (tp_gesture_handle_state_unknown p tp time).1.gesture.initial_distance ↔
      (tp_get_touch tp tp.gesture.touches0).point ≠
        (tp_get_touch tp tp.gesture.touches1).point) ∧
    (0 ≤ tp.device.absinfo_y_resolution →
      |(tp_get_touch tp tp.gesture.touches0).point.y -
          (tp_get_touch tp tp.gesture.touches1).point.y| >
        20 * tp.device.absinfo_y_resolution →
      0 < (tp_gesture_handle_state_unknown p tp time).1.gesture.initial_distance) ∧
    (∀ s : tp_dispatch,
      (tp_gesture_handle_state_pinch p s time).1.gesture.initial_distance =
        s.gesture.initial_distance) := by
  have he := tp_gesture_handle_state_unknown_pinch_init p tp time hc
  have hd := tp_gesture_init_pinch_distance p tp hh0 hh1 hx hy
  rw [he]
  refine ⟨rfl, rfl, hd.1, hd.2, ?_,
    fun s => tp_gesture_handle_state_pinch_initial_distance p s time⟩
  intro hres hv
  apply hd.2.2
  intro heq
  rw [heq] at hv
  simp only [sub_self, abs_zero] at hv
  omega

/-- The two touches of `tp_example_pinch_commit`, 850 units apart vertically,
commit to a pinch with a positive initial distance. -/
theorem tp_gesture_pinch_commit_initial_distance_example :
    (tp_gesture_handle_state_unknown tp_example_peers tp_example_pinch_commit 10).2 =
      .GESTURE_STATE_PINCH ∧
    0 < (tp_gesture_handle_state_unknown tp_example_peers tp_example_pinch_commit
      10).1.gesture.initial_distance := by
  have hh0 : ∀ x y, 0 ≤ tp_example_peers.hypot x y := fun x y =>
    add_nonneg (abs_nonneg x) (abs_nonneg y)
  have hh1 : ∀ x y, tp_example_peers.hypot x y = 0 ↔ x = 0 ∧ y = 0 := by
    intro x y
    show |x| + |y| = 0 ↔ x = 0 ∧ y = 0
    constructor
    · intro h
      have h1 : |x| = 0 := le_antisymm (by linarith [abs_nonneg y]) (abs_nonneg x)
      have h2 : |y| = 0 := le_antisymm (by linarith [abs_nonneg x]) (abs_nonneg y)
      exact ⟨abs_eq_zero.1 h1, abs_eq_zero.1 h2⟩
    · rintro ⟨rfl, rfl⟩
      simp
  have hc : (tp_gesture_handle_state_unknown tp_example_peers tp_example_pinch_commit 10).2 =
      .GESTURE_STATE_PINCH := by
    simp [tp_gesture_handle_state_unknown, tp_example_pinch_commit, tp_example, tp_get_touch,
      tp_init_touch, DEFAULT_GESTURE_2FG_SCROLL_TIMEOUT, ms2us]
  exact ⟨hc,
    (tp_gesture_pinch_commit_initial_distance tp_example_peers tp_example_pinch_commit 10 hh0 hh1
      (by decide!) (by decide!) hc).2.2.2.2.1 (by decide) (by decide)⟩

set_option maxRecDepth 100000 in
/-- C40, the failing input: two fingers on `tp_example` that move towards each
other are both at (500, 400) when their opposite directions commit the gesture
to PINCH, so in a reachable state the gesture is in PINCH with
`gesture.initial_distance` 0, stored by `tp_gesture_init_pinch`.
`tp_gesture_handle_state_pinch` divides the distance 0 by it in the same
frame: the scale is NaN, which compares unequal to the previous scale 1, so a
PINCH_BEGIN and a PINCH_UPDATE with the scale NaN are posted; and since NaN is
unequal to itself, the next frame, in which no touch moves, posts one more
PINCH_UPDATE with zero deltas and the scale NaN. -/
theorem c40_pinch_divides_by_zero :
    Reachable (tp_run tp_example_peers_vertical tp_example tp_example_fingers_meet) ∧
    (tp_run tp_example_peers_vertical tp_example tp_example_fingers_meet).gesture.state =
      .GESTURE_STATE_PINCH ∧
    (tp_run tp_example_peers_vertical tp_example
      tp_example_fingers_meet).gesture.initial_distance = 0 ∧
    (tp_get_touch (tp_run tp_example_peers_vertical tp_example tp_example_fingers_meet)
      0).point = ⟨500, 400⟩ ∧
    (tp_get_touch (tp_run tp_example_peers_vertical tp_example tp_example_fingers_meet)
      1).point = ⟨500, 400⟩ ∧
    (tp_run tp_example_peers_vertical tp_example tp_example_fingers_meet).sink.filter
      tp_call_is_pointer_or_gesture =
      [.gesture_notify_pinch 20000 .BEGIN 2 ⟨0, 0⟩ ⟨0, 0⟩ (.fin 1) 0,
        .gesture_notify_pinch 20000 .UPDATE 2 ⟨0, 0⟩ ⟨0, 0⟩ .nan 0] ∧
    (tp_run tp_example_peers_vertical tp_example
      tp_example_fingers_meet).gesture.prev_scale = .nan ∧
    (tp_get_touch (tp_run tp_example_peers_vertical tp_example
      tp_example_fingers_meet_then_rest) 0).point = ⟨500, 400⟩ ∧
    (tp_get_touch (tp_run tp_example_peers_vertical tp_example
      tp_example_fingers_meet_then_rest) 1).point = ⟨500, 400⟩ ∧
    (tp_run tp_example_peers_vertical tp_example
      tp_example_fingers_meet_then_rest).sink.filter tp_call_is_pointer_or_gesture =
      [.gesture_notify_pinch 20000 .BEGIN 2 ⟨0, 0⟩ ⟨0, 0⟩ (.fin 1) 0,
        .gesture_notify_pinch 20000 .UPDATE 2 ⟨0, 0⟩ ⟨0, 0⟩ .nan 0,
        .gesture_notify_pinch 30000 .UPDATE 2 ⟨0, 0⟩ ⟨0, 0⟩ .nan 0] :=
  ⟨reachable_run _ _ _ (Reachable.init _ (by decide)), by decide!, by decide!, by decide!,
    by decide!, by decide!, by decide!, by decide!, by decide!, by decide!⟩

end Libinput
